import Mathlib

/-!
# VK9 shader converter: DXBC-style token stream to SPIR-V

A shallow embedding of `VK9-Library/ShaderConverter.cpp`.

* The converter object is the record `ShaderConverter`; every member function is a
  function on that record, with the field names of the C++ class.
* The token buffer is borrowed memory: it is the argument `shader : List Nat`, and
  `mNextToken` is the offset of the C++ pointer from the start of the buffer.  A read at
  or beyond the end of the buffer is the fault `Fault.readPastEnd`.
* The two sidecar arrays are fixed arrays: the list stored in the record has the length of
  the array, and a write at or beyond that length is the fault `Fault.arrayOverflow`.
* `uint32_t` values are natural numbers; the id counter wraps modulo `2 ^ 32`.
* Logging is not modelled.
-/

namespace VK9

/-! ## Constants of the Direct3D 9 shader byte code (SDK header `d3d9types.h`) -/

def D3DSI_OPCODE_MASK : Nat := 0x0000FFFF
def D3DSP_OPCODESPECIFICCONTROL_MASK : Nat := 0x00FF0000
def D3DSP_OPCODESPECIFICCONTROL_SHIFT : Nat := 16
def D3DSP_TEXTURETYPE_MASK : Nat := 0x78000000
def D3DSP_REGTYPE_SHIFT : Nat := 28
def D3DSP_REGTYPE_SHIFT2 : Nat := 8
def D3DSP_REGTYPE_MASK : Nat := 0x70000000
def D3DSP_REGTYPE_MASK2 : Nat := 0x00001800
def D3DSP_REGNUM_MASK : Nat := 0x000007FF
def D3DSP_DCL_USAGE_MASK : Nat := 0x0000000F
def D3DSP_DCL_USAGEINDEX_SHIFT : Nat := 16
def D3DSP_DCL_USAGEINDEX_MASK : Nat := 0x000F0000
def D3DSP_WRITEMASK_ALL : Nat := 0x000F0000
def D3DVS_SWIZZLE_SHIFT : Nat := 16
def D3DVS_SWIZZLE_MASK : Nat := 0x00FF0000
def D3DVS_X_X : Nat := 0 <<< 16
def D3DVS_X_Y : Nat := 1 <<< 16
def D3DVS_X_Z : Nat := 2 <<< 16
def D3DVS_X_W : Nat := 3 <<< 16
def D3DVS_Y_X : Nat := 0 <<< 18
def D3DVS_Y_Y : Nat := 1 <<< 18
def D3DVS_Y_Z : Nat := 2 <<< 18
def D3DVS_Y_W : Nat := 3 <<< 18
def D3DVS_Z_X : Nat := 0 <<< 20
def D3DVS_Z_Y : Nat := 1 <<< 20
def D3DVS_Z_Z : Nat := 2 <<< 20
def D3DVS_Z_W : Nat := 3 <<< 20
def D3DVS_W_X : Nat := 0 <<< 22
def D3DVS_W_Y : Nat := 1 <<< 22
def D3DVS_W_Z : Nat := 2 <<< 22
def D3DVS_W_W : Nat := 3 <<< 22
def D3DVS_NOSWIZZLE : Nat := D3DVS_X_X ||| D3DVS_Y_Y ||| D3DVS_Z_Z ||| D3DVS_W_W
def D3DDECLUSAGE_POSITION : Nat := 0
def UINT_MAX : Nat := 0xFFFFFFFF

/-- The end token `D3DPS_END()`; the source keeps the same value in `mEndToken`. -/
def D3DPS_END : Nat := 0x0000FFFF

def D3DSHADER_VERSION_MAJOR (version : Nat) : Nat := (version >>> 8) &&& 0xFF
def D3DSHADER_VERSION_MINOR (version : Nat) : Nat := (version >>> 0) &&& 0xFF

/-! Instruction opcodes (`D3DSHADER_INSTRUCTION_OPCODE_TYPE`) that have a handler. -/

def D3DSIO_NOP : Nat := 0
def D3DSIO_MOV : Nat := 1
def D3DSIO_ADD : Nat := 2
def D3DSIO_SUB : Nat := 3
def D3DSIO_MAD : Nat := 4
def D3DSIO_MUL : Nat := 5
def D3DSIO_RCP : Nat := 6
def D3DSIO_DP3 : Nat := 8
def D3DSIO_DP4 : Nat := 9
def D3DSIO_MIN : Nat := 10
def D3DSIO_MAX : Nat := 11
def D3DSIO_DCL : Nat := 31
def D3DSIO_DEFB : Nat := 47
def D3DSIO_DEFI : Nat := 48
def D3DSIO_TEX : Nat := 66
def D3DSIO_DEF : Nat := 81
def D3DSIO_PHASE : Nat := 0xFFFD
def D3DSIO_COMMENT : Nat := 0xFFFE
def D3DSIO_END : Nat := 0xFFFF

/-! Register types (`D3DSHADER_PARAM_REGISTER_TYPE`). -/

def D3DSPR_TEMP : Nat := 0
def D3DSPR_INPUT : Nat := 1
def D3DSPR_CONST : Nat := 2
def D3DSPR_TEXTURE : Nat := 3
def D3DSPR_OUTPUT : Nat := 6
def D3DSPR_SAMPLER : Nat := 10
def D3DSPR_CONST2 : Nat := 11
def D3DSPR_CONST3 : Nat := 12
def D3DSPR_CONST4 : Nat := 13

/-! ## Constants of SPIR-V (header `spirv.hpp`) and of Vulkan (`vulkan.h`) -/

def spv.MagicNumber : Nat := 0x07230203
def spv.OpExtInstImport : Nat := 11
def spv.OpMemoryModel : Nat := 14
def spv.OpEntryPoint : Nat := 15
def spv.OpExecutionMode : Nat := 16
def spv.OpCapability : Nat := 17
def spv.OpTypeVoid : Nat := 19
def spv.OpTypeBool : Nat := 20
def spv.OpTypeInt : Nat := 21
def spv.OpTypeFloat : Nat := 22
def spv.OpTypeVector : Nat := 23
def spv.OpTypeMatrix : Nat := 24
def spv.OpTypeImage : Nat := 25
def spv.OpTypeSampler : Nat := 26
def spv.OpTypePointer : Nat := 32
def spv.OpTypeFunction : Nat := 33
def spv.OpConstant : Nat := 43
def spv.OpConstantComposite : Nat := 44
def spv.OpFunction : Nat := 54
def spv.OpFunctionEnd : Nat := 56
def spv.OpVariable : Nat := 59
def spv.OpLoad : Nat := 61
def spv.OpVectorShuffle : Nat := 79
def spv.OpCompositeExtract : Nat := 81
def spv.OpCopyObject : Nat := 83
def spv.OpImageFetch : Nat := 95
def spv.OpIAdd : Nat := 128
def spv.OpFAdd : Nat := 129
def spv.OpISub : Nat := 130
def spv.OpFSub : Nat := 131
def spv.OpIMul : Nat := 132
def spv.OpFMul : Nat := 133
def spv.OpDot : Nat := 148
def spv.OpLabel : Nat := 248
def spv.OpReturn : Nat := 253
def spv.StorageClassInput : Nat := 1
def spv.StorageClassUniform : Nat := 2
def spv.StorageClassOutput : Nat := 3
def spv.StorageClassPushConstant : Nat := 9
def spv.StorageClassImage : Nat := 11
def spv.CapabilityShader : Nat := 1
def spv.AddressingModelLogical : Nat := 0
def spv.MemoryModelGLSL450 : Nat := 1
def spv.ExecutionModelVertex : Nat := 0
def spv.ExecutionModelFragment : Nat := 4
def spv.ExecutionModeOriginLowerLeft : Nat := 8
def spv.FunctionControlMaskNone : Nat := 0

def VK_FORMAT_R32_SFLOAT : Nat := 100
def VK_FORMAT_R32G32_SFLOAT : Nat := 103
def VK_FORMAT_R32G32B32_SFLOAT : Nat := 106
def VK_FORMAT_R32G32B32A32_SFLOAT : Nat := 109
def VK_DESCRIPTOR_TYPE_COMBINED_IMAGE_SAMPLER : Nat := 1
def VK_SHADER_STAGE_FRAGMENT_BIT : Nat := 0x10

/-! ## Helpers of `ShaderConverter.h` -/

/-- The macro `PACK` of `ShaderConverter.cpp`: four bytes, the first one highest. -/
def PACK (c0 c1 c2 c3 : Nat) : Nat :=
  ((c0 % 256) <<< 24) ||| ((c1 % 256) <<< 16) ||| ((c2 % 256) <<< 8) ||| (c3 % 256)

/-- Modelled from the spec: `Pack` of `ShaderConverter.h`.  "Each SPIR-V instruction's
leading word packs (word-count << 16) | opcode"; the result is a 32-bit word. -/
def Pack (wordCount opcode : Nat) : Nat :=
  ((wordCount <<< 16) ||| opcode) % 4294967296

/-- Modelled from the spec: `PutStringInVector` of `ShaderConverter.h`, as the words it
appends.  "A literal string is packed into consecutive 32-bit words, 4 bytes per word in
little-endian character order, nul-terminated, padded with zero bytes to a 4-byte
boundary"; a string whose length is a multiple of four gets a word of zeros. -/
def PutStringInVector : List Nat → List Nat
  | c0 :: c1 :: c2 :: c3 :: rest => PACK c3 c2 c1 c0 :: PutStringInVector rest
  | [c0, c1, c2] => [PACK 0 c2 c1 c0]
  | [c0, c1] => [PACK 0 0 c1 c0]
  | [c0] => [PACK 0 0 0 c0]
  | [] => [0]

/-- The bytes of a `std::string`. -/
def stringBytes (text : String) : List Nat := text.toList.map Char.toNat

/-- Modelled from the spec: the struct `TypeDescription` of `ShaderConverter.h`, "a
(PrimaryType, SecondaryType, TernaryType, ComponentCount, ArgumentIds) tuple"; a member
that is not set is `OpTypeVoid`, `0` or empty ("secondary type will be void by default"). -/
structure TypeDescription where
  PrimaryType : Nat := spv.OpTypeVoid
  SecondaryType : Nat := spv.OpTypeVoid
  TernaryType : Nat := spv.OpTypeVoid
  ComponentCount : Nat := 0
  Arguments : List Nat := []
deriving DecidableEq

/-- Modelled from the spec: the comparison of two `TypeDescription` keys in the type table.
Equality is structural on the four scalar members; by the comment in `GetSpirVTypeId`
"there is no comparison on arguments". -/
def TypeDescription.same (a b : TypeDescription) : Bool :=
  a.PrimaryType == b.PrimaryType && a.SecondaryType == b.SecondaryType &&
    a.TernaryType == b.TernaryType && a.ComponentCount == b.ComponentCount

/-- The method `find` of `boost::container::flat_map`, on the list of its entries. -/
def flat_map.find {κ ν : Type} (same : κ → κ → Bool) (key : κ) : List (κ × ν) → Option ν
  | [] => none
  | (k, v) :: rest => if same k key then some v else flat_map.find same key rest

/-- The assignment `map[key] = value` of `boost::container::flat_map`: the entry of an
equal key gets the value, a key that is not there is added. -/
def flat_map.set {κ ν : Type} (same : κ → κ → Bool) (key : κ) (value : ν) :
    List (κ × ν) → List (κ × ν)
  | [] => [(key, value)]
  | (k, v) :: rest =>
    if same k key then (k, value) :: rest else (k, v) :: flat_map.set same key value rest

/-- Equality of `uint32_t` keys. -/
def sameKey (a b : Nat) : Bool := a == b

/-- The assignment `map[outer][inner] = value` on a map of maps. -/
def flat_map.set2 (outer inner value : Nat) (m : List (Nat × List (Nat × Nat))) :
    List (Nat × List (Nat × Nat)) :=
  flat_map.set sameKey outer
    (flat_map.set sameKey inner value ((flat_map.find sameKey outer m).getD [])) m

/-- The Vulkan struct `VkVertexInputAttributeDescription`. -/
structure VkVertexInputAttributeDescription where
  location : Nat := 0
  binding : Nat := 0
  format : Nat := 0
  offset : Nat := 0
deriving DecidableEq

/-- The Vulkan struct `VkDescriptorSetLayoutBinding`. -/
structure VkDescriptorSetLayoutBinding where
  binding : Nat := 0
  descriptorType : Nat := 0
  descriptorCount : Nat := 0
  stageFlags : Nat := 0
  pImmutableSamplers : Nat := 0
deriving DecidableEq

/-- Modelled from the spec: the struct `ConvertedShader` of `ShaderConverter.h`, the
sidecar: the two fixed arrays with their running counts and the shader-module handle
(`0` is the null handle).  The length of a list is the size of the array. -/
structure ConvertedShader where
  mVertexInputAttributeDescription : List VkVertexInputAttributeDescription := []
  mVertexInputAttributeDescriptionCount : Nat := 0
  mDescriptorSetLayoutBinding : List VkDescriptorSetLayoutBinding := []
  mDescriptorSetLayoutBindingCount : Nat := 0
  ShaderModule : Nat := 0
deriving DecidableEq

/-- The value `{}` of a `ConvertedShader` whose arrays have the sizes of those of `c`. -/
def ConvertedShader.cleared (c : ConvertedShader) : ConvertedShader :=
  { mVertexInputAttributeDescription :=
      List.replicate c.mVertexInputAttributeDescription.length {}
    mVertexInputAttributeDescriptionCount := 0
    mDescriptorSetLayoutBinding := List.replicate c.mDescriptorSetLayoutBinding.length {}
    mDescriptorSetLayoutBindingCount := 0
    ShaderModule := 0 }

/-- The members of the class `ShaderConverter`.  `mNextToken` and `mTokenOffset` count
tokens from the start of the buffer (`mBaseToken`). -/
structure ShaderConverter where
  mNextToken : Nat := 0
  mTokenOffset : Nat := 0
  mNextId : Nat := 1
  mMajorVersion : Nat := 0
  mMinorVersion : Nat := 0
  mIsVertexShader : Bool := false
  mEntryPointTypeId : Nat := 0
  mEntryPointId : Nat := 0
  mPositionRegister : Nat := 0
  mTypeIdPairs : List (TypeDescription × Nat) := []
  mIdTypePairs : List (Nat × TypeDescription) := []
  mIdsByRegister : List (Nat × List (Nat × Nat)) := []
  mRegistersById : List (Nat × List (Nat × Nat)) := []
  mInterfaceIds : List Nat := []
  mInstructions : List Nat := []
  mCapabilityInstructions : List Nat := []
  mExtensionInstructions : List Nat := []
  mImportExtendedInstructions : List Nat := []
  mMemoryModelInstructions : List Nat := []
  mEntryPointInstructions : List Nat := []
  mExecutionModeInstructions : List Nat := []
  mStringInstructions : List Nat := []
  mSourceExtensionInstructions : List Nat := []
  mSourceInstructions : List Nat := []
  mSourceContinuedInstructions : List Nat := []
  mNameInstructions : List Nat := []
  mMemberNameInstructions : List Nat := []
  mDecorateInstructions : List Nat := []
  mMemberDecorateInstructions : List Nat := []
  mGroupDecorateInstructions : List Nat := []
  mGroupMemberDecorateInstructions : List Nat := []
  mDecorationGroupInstructions : List Nat := []
  mTypeInstructions : List Nat := []
  mFunctionDeclarationInstructions : List Nat := []
  mFunctionDefinitionInstructions : List Nat := []
  mConvertedShader : ConvertedShader := {}
deriving DecidableEq

/-- What the host supplies: the constant `spv::Version` of its SPIR-V header and the
driver call `vkCreateShaderModule` (`none` when it does not return `VK_SUCCESS`, the
handle otherwise). -/
structure Host where
  Version : Nat
  vkCreateShaderModule : List Nat → Option Nat

/-- The ways a run leaves the model: a read outside the token buffer, a write outside a
sidecar array, and the dispatch loop running out of the iterations it was given. -/
inductive Fault where
  | readPastEnd
  | arrayOverflow
  | outOfFuel
deriving DecidableEq

/-- A converter right after construction: empty containers, the id counter at `firstId`,
sidecar arrays of the given sizes. -/
def ShaderConverter.fresh (firstId attributes bindings : Nat) : ShaderConverter :=
  { mNextId := firstId
    mConvertedShader :=
      { mVertexInputAttributeDescription := List.replicate attributes {}
        mDescriptorSetLayoutBinding := List.replicate bindings {} } }

/-- Some `push_back`s on `mTypeInstructions`, in order. -/
def ShaderConverter.pushType (s : ShaderConverter) (words : List Nat) : ShaderConverter :=
  { s with mTypeInstructions := s.mTypeInstructions ++ words }

/-- Some `push_back`s on `mFunctionDefinitionInstructions`, in order. -/
def ShaderConverter.pushFunctionDefinition (s : ShaderConverter) (words : List Nat) :
    ShaderConverter :=
  { s with mFunctionDefinitionInstructions := s.mFunctionDefinitionInstructions ++ words }

/-- The assignment `mTypeIdPairs[registerType] = id`. -/
def ShaderConverter.setTypeId (s : ShaderConverter) (registerType : TypeDescription)
    (id : Nat) : ShaderConverter :=
  { s with mTypeIdPairs := flat_map.set TypeDescription.same registerType id s.mTypeIdPairs }

/-- The assignment `mIdTypePairs[id] = typeDescription`. -/
def ShaderConverter.setIdType (s : ShaderConverter) (id : Nat)
    (typeDescription : TypeDescription) : ShaderConverter :=
  { s with mIdTypePairs := flat_map.set sameKey id typeDescription s.mIdTypePairs }

/-- The assignment of a sidecar to `mConvertedShader`. -/
def ShaderConverter.setConvertedShader (s : ShaderConverter) (c : ConvertedShader) :
    ShaderConverter :=
  { s with mConvertedShader := c }

/-- The call `mInterfaceIds.push_back(id)`. -/
def ShaderConverter.pushInterfaceId (s : ShaderConverter) (id : Nat) : ShaderConverter :=
  { s with mInterfaceIds := s.mInterfaceIds ++ [id] }

/-- The assignment `mPositionRegister = usageIndex`. -/
def ShaderConverter.setPositionRegister (s : ShaderConverter) (usageIndex : Nat) :
    ShaderConverter :=
  { s with mPositionRegister := usageIndex }

/-- The call `mInstructions.clear()`. -/
def ShaderConverter.clearInstructions (s : ShaderConverter) : ShaderConverter :=
  { s with mInstructions := [] }

/-- Some `push_back`s on `mInstructions`, in order. -/
def ShaderConverter.pushInstructions (s : ShaderConverter) (words : List Nat) :
    ShaderConverter :=
  { s with mInstructions := s.mInstructions ++ words }

/-- Some `push_back`s on `mCapabilityInstructions`, in order. -/
def ShaderConverter.pushCapability (s : ShaderConverter) (words : List Nat) :
    ShaderConverter :=
  { s with mCapabilityInstructions := s.mCapabilityInstructions ++ words }

/-- Some `push_back`s on `mExtensionInstructions`, in order. -/
def ShaderConverter.pushExtension (s : ShaderConverter) (words : List Nat) :
    ShaderConverter :=
  { s with mExtensionInstructions := s.mExtensionInstructions ++ words }

/-- Some `push_back`s on `mMemoryModelInstructions`, in order. -/
def ShaderConverter.pushMemoryModel (s : ShaderConverter) (words : List Nat) :
    ShaderConverter :=
  { s with mMemoryModelInstructions := s.mMemoryModelInstructions ++ words }

/-- Some `push_back`s on `mEntryPointInstructions`, in order. -/
def ShaderConverter.pushEntryPoint (s : ShaderConverter) (words : List Nat) :
    ShaderConverter :=
  { s with mEntryPointInstructions := s.mEntryPointInstructions ++ words }

/-- Some `push_back`s on `mExecutionModeInstructions`, in order. -/
def ShaderConverter.pushExecutionMode (s : ShaderConverter) (words : List Nat) :
    ShaderConverter :=
  { s with mExecutionModeInstructions := s.mExecutionModeInstructions ++ words }

/-- The assignment `mBaseToken = mNextToken = shader`. -/
def ShaderConverter.rewind (s : ShaderConverter) : ShaderConverter :=
  { s with mNextToken := 0 }

/-- The assignment `mTokenOffset = mNextToken - shader`. -/
def ShaderConverter.markTokenOffset (s : ShaderConverter) : ShaderConverter :=
  { s with mTokenOffset := s.mNextToken }

/-- The assignments to `mMajorVersion` and `mMinorVersion`. -/
def ShaderConverter.setVersion (s : ShaderConverter) (major minor : Nat) : ShaderConverter :=
  { s with mMajorVersion := major, mMinorVersion := minor }

/-- The assignment to `mIsVertexShader`. -/
def ShaderConverter.setIsVertexShader (s : ShaderConverter) (isVertexShader : Bool) :
    ShaderConverter :=
  { s with mIsVertexShader := isVertexShader }

/-- The assignment to `mEntryPointTypeId`. -/
def ShaderConverter.setEntryPointTypeId (s : ShaderConverter) (id : Nat) : ShaderConverter :=
  { s with mEntryPointTypeId := id }

/-- The assignment to `mEntryPointId`. -/
def ShaderConverter.setEntryPointId (s : ShaderConverter) (id : Nat) : ShaderConverter :=
  { s with mEntryPointId := id }

/-! ## Token reader and decoders -/

def GetNextToken (shader : List Nat) (s : ShaderConverter) :
    Except Fault (Nat × ShaderConverter) :=
  match shader[s.mNextToken]? with
  | some token => .ok (token, { s with mNextToken := s.mNextToken + 1 })
  | none => .error .readPastEnd

def SkipTokens (numberToSkip : Nat) (s : ShaderConverter) : ShaderConverter :=
  { s with mNextToken := s.mNextToken + numberToSkip }

def GetNextId (s : ShaderConverter) : Nat × ShaderConverter :=
  (s.mNextId, { s with mNextId := (s.mNextId + 1) % 4294967296 })

def GetOpcode (token : Nat) : Nat := token &&& D3DSI_OPCODE_MASK

def GetOpcodeData (token : Nat) : Nat :=
  (token &&& D3DSP_OPCODESPECIFICCONTROL_MASK) >>> D3DSP_OPCODESPECIFICCONTROL_SHIFT

def GetTextureType (token : Nat) : Nat := token &&& D3DSP_TEXTURETYPE_MASK

def GetRegisterType (token : Nat) : Nat :=
  ((token &&& D3DSP_REGTYPE_MASK2) >>> D3DSP_REGTYPE_SHIFT2) |||
    ((token &&& D3DSP_REGTYPE_MASK) >>> D3DSP_REGTYPE_SHIFT)

def GetRegisterNumber (token : Nat) : Nat := token &&& D3DSP_REGNUM_MASK

def GetUsage (token : Nat) : Nat := token &&& D3DSP_DCL_USAGE_MASK

def GetUsageIndex (token : Nat) : Nat :=
  (token &&& D3DSP_DCL_USAGEINDEX_MASK) >>> D3DSP_DCL_USAGEINDEX_SHIFT

/-! ## Type table -/

/-- The body of `GetSpirVTypeId(TypeDescription&)`.  The first argument bounds the depth
of the recursion; the component, pointee and return descriptions lose one level at each
call, so four levels are all a description can ask for (`GetSpirVTypeId` below). -/
def GetSpirVTypeIdFuel : Nat → TypeDescription → ShaderConverter → Nat × ShaderConverter
  | 0, _, s => (0, s)
  | fuel + 1, registerType, s =>
    match flat_map.find TypeDescription.same registerType s.mTypeIdPairs with
    | some id => (id, s)
    | none =>
      let r := GetNextId s
      let id := r.1
      let s1 := (r.2.setTypeId registerType id).setIdType id registerType
      if registerType.PrimaryType = spv.OpTypeBool then
        (id, s1.pushType [Pack 2 registerType.PrimaryType, id])
      else if registerType.PrimaryType = spv.OpTypeInt then
        (id, s1.pushType [Pack 4 registerType.PrimaryType, id, 32, 0])
      else if registerType.PrimaryType = spv.OpTypeFloat then
        (id, s1.pushType [Pack 3 registerType.PrimaryType, id, 32])
      else if registerType.PrimaryType = spv.OpTypeVector ∨
          registerType.PrimaryType = spv.OpTypeMatrix then
        let c := GetSpirVTypeIdFuel fuel { PrimaryType := registerType.SecondaryType } s1
        (id, c.2.pushType
          [Pack 4 registerType.PrimaryType, id, c.1, registerType.ComponentCount])
      else if registerType.PrimaryType = spv.OpTypePointer then
        let p := GetSpirVTypeIdFuel fuel
          { PrimaryType := registerType.SecondaryType
            SecondaryType := registerType.TernaryType
            ComponentCount := registerType.ComponentCount } s1
        (id, p.2.pushType
          [Pack 4 registerType.PrimaryType, id, spv.StorageClassInput, p.1])
      else if registerType.PrimaryType = spv.OpTypeSampler then
        (id, s1.pushType [Pack 2 registerType.PrimaryType, id])
      else if registerType.PrimaryType = spv.OpTypeFunction then
        let f := GetSpirVTypeIdFuel fuel { PrimaryType := registerType.SecondaryType } s1
        (id, f.2.pushType
          ([Pack (3 + registerType.Arguments.length) registerType.PrimaryType, id, f.1] ++
            registerType.Arguments))
      else if registerType.PrimaryType = spv.OpTypeVoid then
        (id, s1.pushType [Pack 2 registerType.PrimaryType, id])
      else
        (id, s1)

/-- The method `GetSpirVTypeId(TypeDescription&)`. -/
def GetSpirVTypeId (registerType : TypeDescription) (s : ShaderConverter) :
    Nat × ShaderConverter :=
  GetSpirVTypeIdFuel 4 registerType s

/-- The overload `GetSpirVTypeId(spv::Op)`. -/
def GetSpirVTypeId_Op (registerType : Nat) (s : ShaderConverter) : Nat × ShaderConverter :=
  GetSpirVTypeId { PrimaryType := registerType } s

/-- The overload `GetSpirVTypeId(spv::Op, spv::Op)`. -/
def GetSpirVTypeId_Op2 (registerType1 registerType2 : Nat) (s : ShaderConverter) :
    Nat × ShaderConverter :=
  GetSpirVTypeId { PrimaryType := registerType1, SecondaryType := registerType2 } s

/-- The overload `GetSpirVTypeId(spv::Op, spv::Op, uint32_t)`. -/
def GetSpirVTypeId_Op3 (registerType1 registerType2 componentCount : Nat)
    (s : ShaderConverter) : Nat × ShaderConverter :=
  GetSpirVTypeId
    { PrimaryType := registerType1, SecondaryType := registerType2
      ComponentCount := componentCount } s

/-! ## Register mapping -/

/-- The key of a register in the inner maps: the register number, moved by the offset of
its constant bank (the first `switch` of `GetIdByRegister` and of `SetIdByRegister`). -/
def registerKey (token : Nat) : Nat :=
  if GetRegisterType token = D3DSPR_CONST2 then GetRegisterNumber token + 2048
  else if GetRegisterType token = D3DSPR_CONST3 then GetRegisterNumber token + 4096
  else if GetRegisterType token = D3DSPR_CONST4 then GetRegisterNumber token + 6144
  else GetRegisterNumber token

def SetIdByRegister (token id : Nat) (s : ShaderConverter) : ShaderConverter :=
  { s with
    mIdsByRegister := flat_map.set2 (GetRegisterType token) (registerKey token) id
      s.mIdsByRegister
    mRegistersById := flat_map.set2 (GetRegisterType token) id (registerKey token)
      s.mRegistersById }

def GetNextVersionId (token : Nat) (s : ShaderConverter) : Nat × ShaderConverter :=
  let r := GetNextId s
  (r.1, SetIdByRegister token r.1 r.2)

/-- The lookup at the head of `GetIdByRegister`: the two nested `find`s. -/
def findIdByRegister (token : Nat) (s : ShaderConverter) : Option Nat :=
  match flat_map.find sameKey (GetRegisterType token) s.mIdsByRegister with
  | some inner => flat_map.find sameKey (registerKey token) inner
  | none => none

def GetIdByRegister (token : Nat) (s : ShaderConverter) : Nat × ShaderConverter :=
  match findIdByRegister token s with
  | some id => (id, s)
  | none =>
    if GetRegisterType token = D3DSPR_CONST ∨ GetRegisterType token = D3DSPR_CONST2 ∨
        GetRegisterType token = D3DSPR_CONST3 ∨ GetRegisterType token = D3DSPR_CONST4 then
      let r := GetNextId s
      let id := r.1
      let description : TypeDescription :=
        { PrimaryType := spv.OpTypePointer, SecondaryType := spv.OpTypeVector
          TernaryType := spv.OpTypeFloat, ComponentCount := 4 }
      let t := GetSpirVTypeId description r.2
      let s1 := (SetIdByRegister token id t.2).setIdType id description
      (id, s1.pushType
        [Pack 4 spv.OpVariable, t.1, id, spv.StorageClassPushConstant])
    else
      (0, s)

def GetTypeByRegister (token : Nat) (s : ShaderConverter) :
    TypeDescription × ShaderConverter :=
  let r := GetIdByRegister token s
  match flat_map.find sameKey r.1 r.2.mIdTypePairs with
  | some dataType => (dataType, r.2)
  | none => ({ PrimaryType := spv.OpTypeFloat }, r.2)

/-! ## Swizzle lowering -/

/-- One of the `switch`es on a component source in `GetSwizzledId`: the literal pushed for
the selector that matches, nothing when none does. -/
def componentLiteral (source caseX caseY caseZ caseW : Nat) : List Nat :=
  if source = caseX then [0]
  else if source = caseY then [1]
  else if source = caseZ then [2]
  else if source = caseW then [3]
  else []

def GetSwizzledId (token inputId : Nat) (s : ShaderConverter) : Nat × ShaderConverter :=
  let swizzle := token &&& D3DVS_SWIZZLE_MASK
  let outputComponentCount := 4
  let r := if inputId = UINT_MAX then GetIdByRegister token s else (inputId, s)
  let inputId := r.1
  let s := r.2
  if swizzle = 0 ∨ swizzle = D3DVS_NOSWIZZLE ∨ outputComponentCount = 0 then
    (inputId, s)
  else
    let xSource := swizzle &&& D3DVS_X_W
    let ySource := swizzle &&& D3DVS_Y_W
    let zSource := swizzle &&& D3DVS_Z_W
    let wSource := swizzle &&& D3DVS_W_W
    let o := GetNextId s
    let outputId := o.1
    let s := o.2
    if (swizzle >>> D3DVS_SWIZZLE_SHIFT) = (swizzle >>> (D3DVS_SWIZZLE_SHIFT + 2)) ∧
        (swizzle >>> D3DVS_SWIZZLE_SHIFT) = (swizzle >>> (D3DVS_SWIZZLE_SHIFT + 4)) ∧
        (swizzle >>> D3DVS_SWIZZLE_SHIFT) = (swizzle >>> (D3DVS_SWIZZLE_SHIFT + 6)) then
      let t := GetSpirVTypeId_Op spv.OpTypeFloat s
      (outputId, t.2.pushFunctionDefinition
        ([Pack (4 + 1) spv.OpCompositeExtract, t.1, outputId, inputId] ++
          componentLiteral xSource D3DVS_X_X D3DVS_X_Y D3DVS_X_Z D3DVS_X_W))
    else
      let t := GetSpirVTypeId_Op3 spv.OpTypeVector spv.OpTypeFloat outputComponentCount s
      if outputComponentCount = 2 then
        (outputId, t.2.pushFunctionDefinition
          ([Pack (5 + outputComponentCount) spv.OpVectorShuffle, t.1, outputId, inputId,
              inputId] ++
            componentLiteral xSource D3DVS_X_X D3DVS_X_Y D3DVS_X_Z D3DVS_X_W ++
            componentLiteral ySource D3DVS_Y_X D3DVS_Y_Y D3DVS_Y_Z D3DVS_Y_W))
      else if outputComponentCount = 3 then
        (outputId, t.2.pushFunctionDefinition
          ([Pack (5 + outputComponentCount) spv.OpVectorShuffle, t.1, outputId, inputId,
              inputId] ++
            componentLiteral xSource D3DVS_X_X D3DVS_X_Y D3DVS_X_Z D3DVS_X_W ++
            componentLiteral ySource D3DVS_Y_X D3DVS_Y_Y D3DVS_Y_Z D3DVS_Y_W ++
            componentLiteral zSource D3DVS_Z_X D3DVS_Z_Y D3DVS_Z_Z D3DVS_Z_W))
      else if outputComponentCount = 4 then
        (outputId, t.2.pushFunctionDefinition
          ([Pack (5 + outputComponentCount) spv.OpVectorShuffle, t.1, outputId, inputId,
              inputId] ++
            componentLiteral xSource D3DVS_X_X D3DVS_X_Y D3DVS_X_Z D3DVS_X_W ++
            componentLiteral ySource D3DVS_Y_X D3DVS_Y_Y D3DVS_Y_Z D3DVS_Y_W ++
            componentLiteral zSource D3DVS_Z_X D3DVS_Z_Y D3DVS_Z_Z D3DVS_Z_W ++
            componentLiteral wSource D3DVS_W_X D3DVS_W_Y D3DVS_W_Z D3DVS_W_W))
      else
        (outputId, t.2)

/-! ## Section assembly -/

def CombineSpirVOpCodes (s : ShaderConverter) : ShaderConverter :=
  { s with
    mInstructions :=
      s.mInstructions ++ s.mCapabilityInstructions ++ s.mExtensionInstructions ++
        s.mImportExtendedInstructions ++ s.mMemoryModelInstructions ++
        s.mEntryPointInstructions ++ s.mExecutionModeInstructions ++
        s.mStringInstructions ++ s.mSourceExtensionInstructions ++ s.mSourceInstructions ++
        s.mSourceContinuedInstructions ++ s.mNameInstructions ++
        s.mMemberNameInstructions ++ s.mDecorateInstructions ++
        s.mMemberDecorateInstructions ++ s.mGroupDecorateInstructions ++
        s.mGroupMemberDecorateInstructions ++ s.mDecorationGroupInstructions ++
        s.mTypeInstructions ++ s.mFunctionDeclarationInstructions ++
        s.mFunctionDefinitionInstructions
    mCapabilityInstructions := []
    mExtensionInstructions := []
    mImportExtendedInstructions := []
    mMemoryModelInstructions := []
    mEntryPointInstructions := []
    mExecutionModeInstructions := []
    mStringInstructions := []
    mSourceExtensionInstructions := []
    mSourceInstructions := []
    mSourceContinuedInstructions := []
    mNameInstructions := []
    mMemberNameInstructions := []
    mDecorateInstructions := []
    mMemberDecorateInstructions := []
    mGroupDecorateInstructions := []
    mGroupMemberDecorateInstructions := []
    mDecorationGroupInstructions := []
    mTypeInstructions := []
    mFunctionDeclarationInstructions := []
    mFunctionDefinitionInstructions := [] }

/-- The method `CreateSpirVModule`: the words of `mInstructions` go to the driver; on
success the handle is stored and `mInstructions` is cleared (the debug dump to a file is
not modelled), on failure the method returns at once. -/
def CreateSpirVModule (host : Host) (s : ShaderConverter) : ShaderConverter :=
  match host.vkCreateShaderModule s.mInstructions with
  | some handle =>
    (s.setConvertedShader { s.mConvertedShader with ShaderModule := handle }).clearInstructions
  | none => s

/-! ## Declarations -/

/-- The `switch (registerComponents)` of `Process_DCL_Pixel` and `Process_DCL_Vertex`,
which have the same text: the description of the declared register from its write mask. -/
def declaredTypeDescription (registerComponents : Nat) : TypeDescription :=
  let typeDescription : TypeDescription :=
    { PrimaryType := spv.OpTypePointer, SecondaryType := spv.OpTypeVector
      TernaryType := spv.OpTypeFloat }
  if registerComponents = 1 then
    { typeDescription with
      SecondaryType := spv.OpTypeFloat, TernaryType := spv.OpTypeVoid, ComponentCount := 1 }
  else if registerComponents = 3 then { typeDescription with ComponentCount := 2 }
  else if registerComponents = 7 then { typeDescription with ComponentCount := 3 }
  else if registerComponents = 0xF then { typeDescription with ComponentCount := 4 }
  else typeDescription

/-- The writes of `Process_DCL_Pixel` into the entry `mDescriptorSetLayoutBindingCount` of
the array `mDescriptorSetLayoutBinding`, and the increment of the count; `none` when the
entry is outside the array. -/
def ConvertedShader.addBinding (c : ConvertedShader) : Option ConvertedShader :=
  if c.mDescriptorSetLayoutBindingCount < c.mDescriptorSetLayoutBinding.length then
    some { c with
      mDescriptorSetLayoutBinding :=
        c.mDescriptorSetLayoutBinding.set c.mDescriptorSetLayoutBindingCount
          { binding := c.mDescriptorSetLayoutBindingCount
            descriptorType := VK_DESCRIPTOR_TYPE_COMBINED_IMAGE_SAMPLER
            descriptorCount := 1
            stageFlags := VK_SHADER_STAGE_FRAGMENT_BIT
            pImmutableSamplers := 0 }
      mDescriptorSetLayoutBindingCount := c.mDescriptorSetLayoutBindingCount + 1 }
  else none

/-- What `Process_DCL_Pixel` does once it has read its two tokens. -/
def Process_DCL_Pixel_body (token registerToken : Nat) (s : ShaderConverter) :
    Except Fault ShaderConverter :=
  let registerType := GetRegisterType registerToken
  let v := GetNextVersionId registerToken s
  let tokenId := v.1
  let registerComponents := (registerToken &&& D3DSP_WRITEMASK_ALL) >>> 16
  let typeDescription := declaredTypeDescription registerComponents
  let s := v.2.setIdType tokenId typeDescription
  if registerType = D3DSPR_INPUT then
    let t := GetSpirVTypeId typeDescription s
    .ok (t.2.pushType [Pack 4 spv.OpVariable, t.1, tokenId, spv.StorageClassInput])
  else if registerType = D3DSPR_TEXTURE then
    let t := GetSpirVTypeId_Op2 spv.OpTypePointer spv.OpTypeImage s
    .ok (t.2.pushType [Pack 4 spv.OpVariable, t.1, tokenId, spv.StorageClassImage])
  else if registerType = D3DSPR_SAMPLER then
    let _textureType := GetTextureType token
    let t := GetSpirVTypeId_Op2 spv.OpTypePointer spv.OpTypeSampler s
    let s := t.2.pushType [Pack 4 spv.OpVariable, t.1, tokenId, spv.StorageClassUniform]
    match s.mConvertedShader.addBinding with
    | some c => .ok (s.setConvertedShader c)
    | none => .error .arrayOverflow
  else
    .ok s

def Process_DCL_Pixel (shader : List Nat) (s : ShaderConverter) :
    Except Fault ShaderConverter := do
  let token ← GetNextToken shader s
  let registerToken ← GetNextToken shader token.2
  Process_DCL_Pixel_body token.1 registerToken.1 registerToken.2

/-- The `switch (typeDescription.ComponentCount)` of `Process_DCL_Vertex`: the format
written into the attribute entry; in the other cases the entry keeps the format it has. -/
def attributeFormat (componentCount oldFormat : Nat) : Nat :=
  if componentCount = 1 then VK_FORMAT_R32_SFLOAT
  else if componentCount = 2 then VK_FORMAT_R32G32_SFLOAT
  else if componentCount = 3 then VK_FORMAT_R32G32B32_SFLOAT
  else if componentCount = 4 then VK_FORMAT_R32G32B32A32_SFLOAT
  else oldFormat

/-- The writes of `Process_DCL_Vertex` into the entry
`mVertexInputAttributeDescriptionCount` of the array `mVertexInputAttributeDescription`,
and the increment of the count; `none` when the entry is outside the array. -/
def ConvertedShader.addAttribute (c : ConvertedShader) (componentCount : Nat) :
    Option ConvertedShader :=
  match c.mVertexInputAttributeDescription[c.mVertexInputAttributeDescriptionCount]? with
  | some entry =>
    some { c with
      mVertexInputAttributeDescription :=
        c.mVertexInputAttributeDescription.set c.mVertexInputAttributeDescriptionCount
          { entry with
            binding := 0
            location := c.mVertexInputAttributeDescriptionCount
            offset := 0
            format := attributeFormat componentCount entry.format }
      mVertexInputAttributeDescriptionCount := c.mVertexInputAttributeDescriptionCount + 1 }
  | none => none

/-- What `Process_DCL_Vertex` does once it has read its two tokens. -/
def Process_DCL_Vertex_body (token registerToken : Nat) (s : ShaderConverter) :
    Except Fault ShaderConverter :=
  let usage := GetUsage token
  let usageIndex := GetUsageIndex token
  let registerType := GetRegisterType registerToken
  let v := GetNextVersionId registerToken s
  let tokenId := v.1
  let registerComponents := (registerToken &&& D3DSP_WRITEMASK_ALL) >>> 16
  let typeDescription := declaredTypeDescription registerComponents
  let s := v.2.setIdType tokenId typeDescription
  if registerType = D3DSPR_INPUT then
    let s := s.pushInterfaceId tokenId
    let t := GetSpirVTypeId typeDescription s
    let s := t.2.pushType [Pack 4 spv.OpVariable, t.1, tokenId, spv.StorageClassInput]
    match s.mConvertedShader.addAttribute typeDescription.ComponentCount with
    | some c => .ok (s.setConvertedShader c)
    | none => .error .arrayOverflow
  else if registerType = D3DSPR_OUTPUT then
    let t := GetSpirVTypeId typeDescription s
    let s := t.2.pushType [Pack 4 spv.OpVariable, t.1, tokenId, spv.StorageClassOutput]
    if usage = D3DDECLUSAGE_POSITION then .ok (s.setPositionRegister usageIndex)
    else .ok s
  else
    .ok s

def Process_DCL_Vertex (shader : List Nat) (s : ShaderConverter) :
    Except Fault ShaderConverter := do
  let token ← GetNextToken shader s
  let registerToken ← GetNextToken shader token.2
  Process_DCL_Vertex_body token.1 registerToken.1 registerToken.2

/-- The method `Process_DCL`: every branch on the major version calls the same handler. -/
def Process_DCL (shader : List Nat) (s : ShaderConverter) : Except Fault ShaderConverter :=
  if s.mIsVertexShader then
    if s.mMajorVersion ≥ 3 then Process_DCL_Vertex shader s
    else if s.mMajorVersion ≥ 2 then Process_DCL_Vertex shader s
    else Process_DCL_Vertex shader s
  else
    if s.mMajorVersion ≥ 3 then Process_DCL_Pixel shader s
    else if s.mMajorVersion ≥ 2 then Process_DCL_Pixel shader s
    else Process_DCL_Pixel shader s

/-! ## Constant definitions -/

/-- One turn of the first `for` loop of `Process_DEF` and `Process_DEFI`: a fresh id, and
an `OpConstant` whose literal is the next token.  Returns the id. -/
def defineLiteral (shader : List Nat) (componentTypeId : Nat) (s : ShaderConverter) :
    Except Fault (Nat × ShaderConverter) := do
  let r := GetNextId s
  let s := r.2.pushType [Pack 4 spv.OpConstant, componentTypeId, r.1]
  let literal ← GetNextToken shader s
  pure (r.1, literal.2.pushType [literal.1])

/-- The text that `Process_DEF` and `Process_DEFI` share; `componentType` is
`OpTypeFloat` in the first and `OpTypeInt` in the second. -/
def defineVector (componentType : Nat) (shader : List Nat) (s : ShaderConverter) :
    Except Fault ShaderConverter := do
  let token ← GetNextToken shader s
  let v := GetNextVersionId token.1 token.2
  let tokenId := v.1
  let typeDescription : TypeDescription :=
    { PrimaryType := spv.OpTypeVector, SecondaryType := componentType, ComponentCount := 4 }
  let resultType := GetSpirVTypeId typeDescription v.2
  let component := GetSpirVTypeId_Op typeDescription.SecondaryType resultType.2
  let s := component.2.setIdType tokenId typeDescription
  let l0 ← defineLiteral shader component.1 s
  let l1 ← defineLiteral shader component.1 l0.2
  let l2 ← defineLiteral shader component.1 l1.2
  let l3 ← defineLiteral shader component.1 l2.2
  pure (l3.2.pushType
    [Pack 7 spv.OpConstantComposite, resultType.1, tokenId, l0.1, l1.1, l2.1, l3.1])

def Process_DEF (shader : List Nat) (s : ShaderConverter) : Except Fault ShaderConverter :=
  defineVector spv.OpTypeFloat shader s

def Process_DEFI (shader : List Nat) (s : ShaderConverter) : Except Fault ShaderConverter :=
  defineVector spv.OpTypeInt shader s

def Process_DEFB (shader : List Nat) (s : ShaderConverter) :
    Except Fault ShaderConverter := do
  let token ← GetNextToken shader s
  let v := GetNextVersionId token.1 token.2
  let tokenId := v.1
  let typeDescription : TypeDescription := { PrimaryType := spv.OpTypeBool }
  let resultType := GetSpirVTypeId typeDescription v.2
  let component := GetSpirVTypeId_Op typeDescription.SecondaryType resultType.2
  let s := component.2.setIdType tokenId typeDescription
  let s := s.pushType [Pack 4 spv.OpConstant, component.1, tokenId]
  let literal ← GetNextToken shader s
  pure (literal.2.pushType [literal.1])

/-! ## Arithmetic -/

/-- The assignment `mIdTypePairs[mNextId] = typeDescription` ("snag next id before
increment") of the arithmetic handlers. -/
def snagNextId (typeDescription : TypeDescription) (s : ShaderConverter) : ShaderConverter :=
  s.setIdType s.mNextId typeDescription

/-- What `Process_MOV` does once it has read its two tokens. -/
def Process_MOV_body (resultToken argumentToken1 : Nat) (s : ShaderConverter) :
    ShaderConverter :=
  let typeDescription := GetTypeByRegister argumentToken1 s
  let dataTypeId := GetSpirVTypeId typeDescription.1 typeDescription.2
  let s := snagNextId typeDescription.1 dataTypeId.2
  let argumentId1 := GetSwizzledId argumentToken1 UINT_MAX s
  let s := argumentId1.2.pushFunctionDefinition [Pack 4 spv.OpCopyObject, dataTypeId.1]
  let v := GetNextVersionId resultToken s
  v.2.pushFunctionDefinition [v.1, argumentId1.1]

def Process_MOV (shader : List Nat) (s : ShaderConverter) : Except Fault ShaderConverter := do
  let resultToken ← GetNextToken shader s
  let argumentToken1 ← GetNextToken shader resultToken.2
  pure (Process_MOV_body resultToken.1 argumentToken1.1 argumentToken1.2)

/-- The pointer branch of the arithmetic handlers, for one operand: "deference pointer
into a register".  A fresh id, an `OpLoad` of the register's id into it, then the
swizzle of the loaded id. -/
def loadArgument (dataTypeId argumentToken : Nat) (s : ShaderConverter) :
    Nat × ShaderConverter :=
  let a := GetNextId s
  let s := a.2.pushFunctionDefinition [Pack 4 spv.OpLoad, dataTypeId, a.1]
  let p := GetIdByRegister argumentToken s
  let s := p.2.pushFunctionDefinition [p.1]
  GetSwizzledId argumentToken a.1 s

/-- The pointer branch of the arithmetic handlers: "shift the result type so we get a
register instead of a pointer as the output type". -/
def shiftTypeDescription (typeDescription : TypeDescription) : TypeDescription :=
  { typeDescription with
    PrimaryType := typeDescription.SecondaryType
    SecondaryType := typeDescription.TernaryType
    TernaryType := spv.OpTypeVoid }

/-- The leaf data type the arithmetic handlers switch on. -/
def leafDataType (typeDescription : TypeDescription) : Nat :=
  if typeDescription.PrimaryType = spv.OpTypeMatrix ∨
      typeDescription.PrimaryType = spv.OpTypeVector then
    typeDescription.SecondaryType
  else if typeDescription.PrimaryType = spv.OpTypePointer then
    if typeDescription.SecondaryType = spv.OpTypeMatrix ∨
        typeDescription.SecondaryType = spv.OpTypeVector then
      typeDescription.TernaryType
    else typeDescription.SecondaryType
  else typeDescription.PrimaryType

/-- The final `switch (dataType)` of `Process_MUL`, `Process_ADD` and `Process_SUB`: the
integer opcode for `OpTypeBool` and `OpTypeInt`, the float opcode for `OpTypeFloat`,
nothing otherwise. -/
def emitArithmetic (integerOp floatOp dataType dataTypeId resultToken argumentId1
    argumentId2 : Nat) (s : ShaderConverter) : ShaderConverter :=
  if dataType = spv.OpTypeBool ∨ dataType = spv.OpTypeInt then
    let s := s.pushFunctionDefinition [Pack 5 integerOp, dataTypeId]
    let v := GetNextVersionId resultToken s
    v.2.pushFunctionDefinition [v.1, argumentId1, argumentId2]
  else if dataType = spv.OpTypeFloat then
    let s := s.pushFunctionDefinition [Pack 5 floatOp, dataTypeId]
    let v := GetNextVersionId resultToken s
    v.2.pushFunctionDefinition [v.1, argumentId1, argumentId2]
  else s

/-- The text that `Process_MUL`, `Process_ADD` and `Process_SUB` share, once the three
tokens are read.  `again` is the second `dataTypeId = GetSpirVTypeId(typeDescription)`
that only `Process_MUL` has in its vector branch. -/
def Process_arithmetic_body (integerOp floatOp : Nat) (again : Bool)
    (resultToken argumentToken1 argumentToken2 : Nat) (s : ShaderConverter) :
    ShaderConverter :=
  let typeDescription := GetTypeByRegister argumentToken1 s
  let dataTypeId := GetSpirVTypeId typeDescription.1 typeDescription.2
  let s := snagNextId typeDescription.1 dataTypeId.2
  let dataType := leafDataType typeDescription.1
  if typeDescription.1.PrimaryType = spv.OpTypeMatrix ∨
      typeDescription.1.PrimaryType = spv.OpTypeVector then
    let dataTypeId := if again then GetSpirVTypeId typeDescription.1 s else (dataTypeId.1, s)
    let argumentId1 := GetSwizzledId argumentToken1 UINT_MAX dataTypeId.2
    let argumentId2 := GetSwizzledId argumentToken2 UINT_MAX argumentId1.2
    emitArithmetic integerOp floatOp dataType dataTypeId.1 resultToken argumentId1.1
      argumentId2.1 argumentId2.2
  else if typeDescription.1.PrimaryType = spv.OpTypePointer then
    let dataTypeId := GetSpirVTypeId (shiftTypeDescription typeDescription.1) s
    let argumentId1 := loadArgument dataTypeId.1 argumentToken1 dataTypeId.2
    let argumentId2 := loadArgument dataTypeId.1 argumentToken2 argumentId1.2
    emitArithmetic integerOp floatOp dataType dataTypeId.1 resultToken argumentId1.1
      argumentId2.1 argumentId2.2
  else
    let argumentId1 := GetSwizzledId argumentToken1 UINT_MAX s
    let argumentId2 := GetSwizzledId argumentToken2 UINT_MAX argumentId1.2
    emitArithmetic integerOp floatOp dataType dataTypeId.1 resultToken argumentId1.1
      argumentId2.1 argumentId2.2

/-- The three reads at the head of a handler with a destination and two sources. -/
def Process_arithmetic (body : Nat → Nat → Nat → ShaderConverter → ShaderConverter)
    (shader : List Nat) (s : ShaderConverter) : Except Fault ShaderConverter := do
  let resultToken ← GetNextToken shader s
  let argumentToken1 ← GetNextToken shader resultToken.2
  let argumentToken2 ← GetNextToken shader argumentToken1.2
  pure (body resultToken.1 argumentToken1.1 argumentToken2.1 argumentToken2.2)

def Process_MUL (shader : List Nat) (s : ShaderConverter) : Except Fault ShaderConverter :=
  Process_arithmetic (Process_arithmetic_body spv.OpIMul spv.OpFMul true) shader s

def Process_ADD (shader : List Nat) (s : ShaderConverter) : Except Fault ShaderConverter :=
  Process_arithmetic (Process_arithmetic_body spv.OpIAdd spv.OpFAdd false) shader s

def Process_SUB (shader : List Nat) (s : ShaderConverter) : Except Fault ShaderConverter :=
  Process_arithmetic (Process_arithmetic_body spv.OpISub spv.OpFSub false) shader s

/-- The methods `Process_MIN` and `Process_MAX` only log a warning. -/
def Process_MIN (s : ShaderConverter) : ShaderConverter := s

def Process_MAX (s : ShaderConverter) : ShaderConverter := s

/-- The text that `Process_DP3` and `Process_DP4` share, once the three tokens are read. -/
def Process_DP_body (resultToken argumentToken1 argumentToken2 : Nat)
    (s : ShaderConverter) : ShaderConverter :=
  let dataTypeId := GetSpirVTypeId_Op spv.OpTypeFloat s
  let resultId := GetNextVersionId resultToken dataTypeId.2
  let s := snagNextId { PrimaryType := spv.OpTypeFloat } resultId.2
  let argumentId1 := GetSwizzledId argumentToken1 UINT_MAX s
  let argumentId2 := GetSwizzledId argumentToken2 UINT_MAX argumentId1.2
  argumentId2.2.pushFunctionDefinition
    [Pack 5 spv.OpDot, dataTypeId.1, resultId.1, argumentId1.1, argumentId2.1]

def Process_DP3 (shader : List Nat) (s : ShaderConverter) : Except Fault ShaderConverter :=
  Process_arithmetic Process_DP_body shader s

def Process_DP4 (shader : List Nat) (s : ShaderConverter) : Except Fault ShaderConverter :=
  Process_arithmetic Process_DP_body shader s

/-- What `Process_TEX` does once it has read its three tokens. -/
def Process_TEX_body (resultToken argumentToken1 argumentToken2 : Nat)
    (s : ShaderConverter) : ShaderConverter :=
  let typeDescription : TypeDescription :=
    { PrimaryType := spv.OpTypeVector, SecondaryType := spv.OpTypeFloat, ComponentCount := 4 }
  let s := snagNextId typeDescription s
  let dataTypeId := GetSpirVTypeId typeDescription s
  let argumentId1 := GetSwizzledId argumentToken1 UINT_MAX dataTypeId.2
  let argumentId2 := GetSwizzledId argumentToken2 UINT_MAX argumentId1.2
  let s := argumentId2.2.pushFunctionDefinition [Pack 5 spv.OpImageFetch, dataTypeId.1]
  let v := GetNextVersionId resultToken s
  v.2.pushFunctionDefinition [v.1, argumentId1.1, argumentId2.1]

def Process_TEX (shader : List Nat) (s : ShaderConverter) : Except Fault ShaderConverter :=
  Process_arithmetic Process_TEX_body shader s

/-- The final `switch (dataType)` of `Process_MAD`: the multiply into `resultId`, then the
add of `resultId` and the third argument into a new version of the destination. -/
def emitMultiplyAdd (dataType dataTypeId resultToken resultId argumentId1 argumentId2
    argumentId3 : Nat) (s : ShaderConverter) : ShaderConverter :=
  if dataType = spv.OpTypeBool ∨ dataType = spv.OpTypeInt then
    let s := s.pushFunctionDefinition
      [Pack 5 spv.OpIMul, dataTypeId, resultId, argumentId1, argumentId2,
        Pack 5 spv.OpIAdd, dataTypeId]
    let v := GetNextVersionId resultToken s
    v.2.pushFunctionDefinition [v.1, resultId, argumentId3]
  else if dataType = spv.OpTypeFloat then
    let s := s.pushFunctionDefinition
      [Pack 5 spv.OpFMul, dataTypeId, resultId, argumentId1, argumentId2,
        Pack 5 spv.OpFAdd, dataTypeId]
    let v := GetNextVersionId resultToken s
    v.2.pushFunctionDefinition [v.1, resultId, argumentId3]
  else s

/-- What `Process_MAD` does once it has read its four tokens. -/
def Process_MAD_body (resultToken argumentToken1 argumentToken2 argumentToken3 : Nat)
    (s : ShaderConverter) : ShaderConverter :=
  let typeDescription := GetTypeByRegister argumentToken1 s
  let dataTypeId := GetSpirVTypeId typeDescription.1 typeDescription.2
  let s := snagNextId typeDescription.1 dataTypeId.2
  let dataType := leafDataType typeDescription.1
  if typeDescription.1.PrimaryType = spv.OpTypeMatrix ∨
      typeDescription.1.PrimaryType = spv.OpTypeVector then
    let argumentId1 := GetSwizzledId argumentToken1 UINT_MAX s
    let argumentId2 := GetSwizzledId argumentToken2 UINT_MAX argumentId1.2
    let argumentId3 := GetSwizzledId argumentToken3 UINT_MAX argumentId2.2
    let resultId := GetNextVersionId resultToken argumentId3.2
    emitMultiplyAdd dataType dataTypeId.1 resultToken resultId.1 argumentId1.1
      argumentId2.1 argumentId3.1 resultId.2
  else if typeDescription.1.PrimaryType = spv.OpTypePointer then
    let dataTypeId := GetSpirVTypeId (shiftTypeDescription typeDescription.1) s
    let argumentId1 := loadArgument dataTypeId.1 argumentToken1 dataTypeId.2
    let argumentId2 := loadArgument dataTypeId.1 argumentToken2 argumentId1.2
    let argumentId3 := loadArgument dataTypeId.1 argumentToken3 argumentId2.2
    let resultId := GetNextVersionId resultToken argumentId3.2
    emitMultiplyAdd dataType dataTypeId.1 resultToken resultId.1 argumentId1.1
      argumentId2.1 argumentId3.1 resultId.2
  else
    let argumentId1 := GetSwizzledId argumentToken1 UINT_MAX s
    let argumentId2 := GetSwizzledId argumentToken2 UINT_MAX argumentId1.2
    let argumentId3 := GetSwizzledId argumentToken3 UINT_MAX argumentId2.2
    let resultId := GetNextVersionId resultToken argumentId3.2
    emitMultiplyAdd dataType dataTypeId.1 resultToken resultId.1 argumentId1.1
      argumentId2.1 argumentId3.1 resultId.2

def Process_MAD (shader : List Nat) (s : ShaderConverter) : Except Fault ShaderConverter := do
  let resultToken ← GetNextToken shader s
  let argumentToken1 ← GetNextToken shader resultToken.2
  let argumentToken2 ← GetNextToken shader argumentToken1.2
  let argumentToken3 ← GetNextToken shader argumentToken2.2
  pure (Process_MAD_body resultToken.1 argumentToken1.1 argumentToken2.1 argumentToken3.1
    argumentToken3.2)

/-! ## The conversion -/

/-- The `switch (instruction)` of `Convert`.  The opcodes that are not named here, those
with a `case` of their own (`D3DSIO_RCP`, `D3DSIO_PHASE`, ...) as well as the `default`,
log a warning and do nothing else; `D3DSIO_NOP` and `D3DSIO_END` do nothing. -/
def dispatch (shader : List Nat) (token : Nat) (s : ShaderConverter) :
    Except Fault ShaderConverter :=
  let instruction := GetOpcode token
  if instruction = D3DSIO_MOV then Process_MOV shader s
  else if instruction = D3DSIO_ADD then Process_ADD shader s
  else if instruction = D3DSIO_SUB then Process_SUB shader s
  else if instruction = D3DSIO_MUL then Process_MUL shader s
  else if instruction = D3DSIO_DP3 then Process_DP3 shader s
  else if instruction = D3DSIO_DP4 then Process_DP4 shader s
  else if instruction = D3DSIO_MIN then .ok (Process_MIN s)
  else if instruction = D3DSIO_MAX then .ok (Process_MAX s)
  else if instruction = D3DSIO_MAD then Process_MAD shader s
  else if instruction = D3DSIO_TEX then Process_TEX shader s
  else if instruction = D3DSIO_DCL then Process_DCL shader s
  else if instruction = D3DSIO_DEFB then Process_DEFB shader s
  else if instruction = D3DSIO_DEFI then Process_DEFI shader s
  else if instruction = D3DSIO_DEF then Process_DEF shader s
  else if instruction = D3DSIO_COMMENT then
    .ok (SkipTokens ((token &&& 0x0FFF0000) >>> 16) s)
  else .ok s

/-- One turn of the `while` loop of `Convert`: the token read and the state after its
handler. -/
def Convert_step (shader : List Nat) (s : ShaderConverter) :
    Except Fault (Nat × ShaderConverter) := do
  let s := s.markTokenOffset
  let token ← GetNextToken shader s
  let s ← dispatch shader token.1 token.2
  pure (token.1, s)

/-- The loop `while (token != D3DPS_END())` of `Convert`; `token` is the local variable
of that name.  The first argument bounds the number of turns. -/
def Convert_loop (shader : List Nat) : Nat → Nat → ShaderConverter →
    Except Fault ShaderConverter
  | fuel, token, s =>
    if token = D3DPS_END then .ok s
    else
      match fuel with
      | 0 => .error .outOfFuel
      | fuel + 1 =>
        match Convert_step shader s with
        | .ok r => Convert_loop shader fuel r.1 r.2
        | .error e => .error e

/-- The head of `Convert` after the version token is read: the version, the kind of
shader, and the `OpFunction` and `OpLabel` of the entry point. -/
def Convert_begin_body (token : Nat) (s : ShaderConverter) : ShaderConverter :=
  let s := s.setVersion (D3DSHADER_VERSION_MAJOR token) (D3DSHADER_VERSION_MINOR token)
  let s :=
    if token &&& 0xFFFF0000 = 0xFFFF0000 then s.setIsVertexShader false
    else s.setIsVertexShader true
  let entryPointTypeId := GetSpirVTypeId_Op spv.OpTypeFunction s
  let s := entryPointTypeId.2.setEntryPointTypeId entryPointTypeId.1
  let entryPointId := GetNextId s
  let s := entryPointId.2.setEntryPointId entryPointId.1
  let s := s.pushFunctionDefinition [Pack 5 spv.OpFunction]
  let voidTypeId := GetSpirVTypeId_Op spv.OpTypeVoid s
  let s := voidTypeId.2.pushFunctionDefinition
    [voidTypeId.1, s.mEntryPointId, spv.FunctionControlMaskNone, s.mEntryPointTypeId]
  let s := s.pushFunctionDefinition [Pack 2 spv.OpLabel]
  let label := GetNextId s
  label.2.pushFunctionDefinition [label.1]

/-- The head of `Convert`, up to the loop: the reset of the sidecar and of the module, the
version token, and what `Convert_begin_body` does.  Returns the version token with the
state. -/
def Convert_begin (shader : List Nat) (s : ShaderConverter) :
    Except Fault (Nat × ShaderConverter) := do
  let s := (s.setConvertedShader s.mConvertedShader.cleared).clearInstructions
  let s := s.rewind
  let token ← GetNextToken shader s
  pure (token.1, Convert_begin_body token.1 token.2)

/-- The computation of `stringWordSize` in `Convert`: the words beside the string, a word
for each four characters, one more when the length is a multiple of four. -/
def stringWordSize (beside : Nat) (text : List Nat) : Nat :=
  let size := (beside + text.length / 4) % 4294967296
  if text.length % 4 = 0 then (size + 1) % 4294967296 else size

/-- The tail of `Convert`, from the end of the loop to the execution mode. -/
def Convert_end (s : ShaderConverter) : ShaderConverter :=
  let s := s.pushFunctionDefinition [Pack 1 spv.OpReturn, Pack 1 spv.OpFunctionEnd]
  let s := s.pushCapability [Pack 2 spv.OpCapability, spv.CapabilityShader]
  let importStatement := stringBytes "GLSL.std.450"
  let s := s.pushExtension [Pack (stringWordSize 2 importStatement) spv.OpExtInstImport]
  let importId := GetNextId s
  let s := importId.2.pushExtension ([importId.1] ++ PutStringInVector importStatement)
  let s := s.pushMemoryModel
    [Pack 3 spv.OpMemoryModel, spv.AddressingModelLogical, spv.MemoryModelGLSL450]
  let entryPointName := stringBytes "main"
  let s := s.pushEntryPoint
    ([Pack (stringWordSize (3 + s.mInterfaceIds.length) entryPointName) spv.OpEntryPoint,
        if s.mIsVertexShader then spv.ExecutionModelVertex else spv.ExecutionModelFragment,
        s.mEntryPointId] ++
      PutStringInVector entryPointName ++ s.mInterfaceIds)
  if ¬ s.mIsVertexShader then
    s.pushExecutionMode
      [Pack 3 spv.OpExecutionMode, s.mEntryPointId, spv.ExecutionModeOriginLowerLeft]
  else s

/-- The part of `Convert` that translates: head, loop and tail.  The loop gets as many
turns as the buffer has tokens, which is more than it can take. -/
def Convert_translate (shader : List Nat) (s : ShaderConverter) :
    Except Fault ShaderConverter := do
  let b ← Convert_begin shader s
  let s ← Convert_loop shader shader.length b.1 b.2
  pure (Convert_end s)

/-- The lines "Write SPIR-V header" of `Convert`. -/
def Convert_header (host : Host) (s : ShaderConverter) : ShaderConverter :=
  let s := s.pushInstructions [spv.MagicNumber, host.Version, 0]
  let bound := GetNextId s
  bound.2.pushInstructions [bound.1, 0]

/-- The method `Convert` up to and with `CombineSpirVOpCodes`: `mInstructions` of the
result is the module that `CreateSpirVModule` hands to the driver. -/
def Convert_assemble (host : Host) (shader : List Nat) (s : ShaderConverter) :
    Except Fault ShaderConverter := do
  let s ← Convert_translate shader s
  pure (CombineSpirVOpCodes (Convert_header host s))

/-- The method `Convert`: the sidecar it returns, with the converter after the call. -/
def Convert (host : Host) (shader : List Nat) (s : ShaderConverter) :
    Except Fault (ConvertedShader × ShaderConverter) := do
  let s ← Convert_assemble host shader s
  let s := CreateSpirVModule host s
  pure (s.mConvertedShader, s)

/-- The module `Convert` emits: the words handed to the driver. -/
def emittedModule (host : Host) (shader : List Nat) (s : ShaderConverter) :
    Except Fault (List Nat) := do
  let s ← Convert_assemble host shader s
  pure s.mInstructions

/-! ## Vocabulary of the statements -/

/-- Equality of results is decidable. -/
instance instDecidableEqExcept {ε α : Type} [DecidableEq ε] [DecidableEq α] :
    DecidableEq (Except ε α)
  | .ok a, .ok b => if h : a = b then isTrue (by rw [h]) else isFalse (by simpa using h)
  | .error a, .error b => if h : a = b then isTrue (by rw [h]) else isFalse (by simpa using h)
  | .ok _, .error _ => isFalse (by simp)
  | .error _, .ok _ => isFalse (by simp)

/-- The section buffers in the order the specification gives for the module (section 4.9):
capability, extension, ext-inst-import, memory-model, entry-point, execution-mode, string,
source-extension, source, source-continued, name, member-name, decorate, member-decorate,
group-decorate, group-member-decorate, decoration-group, types/constants/globals,
function-declarations, function-definitions. -/
def specSectionOrder (s : ShaderConverter) : List (List Nat) :=
  [s.mCapabilityInstructions, s.mExtensionInstructions, s.mImportExtendedInstructions,
    s.mMemoryModelInstructions, s.mEntryPointInstructions, s.mExecutionModeInstructions,
    s.mStringInstructions, s.mSourceExtensionInstructions, s.mSourceInstructions,
    s.mSourceContinuedInstructions, s.mNameInstructions, s.mMemberNameInstructions,
    s.mDecorateInstructions, s.mMemberDecorateInstructions, s.mGroupDecorateInstructions,
    s.mGroupMemberDecorateInstructions, s.mDecorationGroupInstructions,
    s.mTypeInstructions, s.mFunctionDeclarationInstructions,
    s.mFunctionDefinitionInstructions]

/-- The members no handler of the dispatch loop writes: the decoded version and shader
kind, the ids of the entry point, the module and the section buffers other than the
type section and the function definitions. -/
def ShaderConverter.fixedPart (s : ShaderConverter) :
    (Nat × Nat × Bool × Nat × Nat) × List (List Nat) :=
  ((s.mMajorVersion, s.mMinorVersion, s.mIsVertexShader, s.mEntryPointTypeId,
      s.mEntryPointId),
    [s.mInstructions, s.mCapabilityInstructions, s.mExtensionInstructions,
      s.mImportExtendedInstructions, s.mMemoryModelInstructions, s.mEntryPointInstructions,
      s.mExecutionModeInstructions, s.mStringInstructions, s.mSourceExtensionInstructions,
      s.mSourceInstructions, s.mSourceContinuedInstructions, s.mNameInstructions,
      s.mMemberNameInstructions, s.mDecorateInstructions, s.mMemberDecorateInstructions,
      s.mGroupDecorateInstructions, s.mGroupMemberDecorateInstructions,
      s.mDecorationGroupInstructions, s.mFunctionDeclarationInstructions])

/-- The state with the token reader put at another place. -/
def ShaderConverter.withReader (s : ShaderConverter) (next offset : Nat) : ShaderConverter :=
  { s with mNextToken := next, mTokenOffset := offset }

/-- The token `i` places after the place `cursor`, when it is one of the `k` tokens a
handler reads there. -/
def tokenAt (shader : List Nat) (cursor k i : Nat) : Nat :=
  if i < k then shader.getD (cursor + i) 0 else 0

/-- A handler that reads `k` tokens (at most five) and then works on them: it faults when
the buffer has fewer than `k` tokens left, and otherwise leaves the reader `k` tokens
further.  The handlers of the source are shown to have this form. -/
def readThen (k : Nat)
    (body : Nat → Nat → Nat → Nat → Nat → ShaderConverter → Except Fault ShaderConverter)
    (shader : List Nat) (s : ShaderConverter) : Except Fault ShaderConverter :=
  if s.mNextToken + k ≤ shader.length then
    (body (tokenAt shader s.mNextToken k 0) (tokenAt shader s.mNextToken k 1)
      (tokenAt shader s.mNextToken k 2) (tokenAt shader s.mNextToken k 3)
      (tokenAt shader s.mNextToken k 4) s).map
      (fun r => r.withReader (s.mNextToken + k) s.mTokenOffset)
  else .error .readPastEnd

/-- A body that does not look at the token reader. -/
def ReaderFree
    (body : Nat → Nat → Nat → Nat → Nat → ShaderConverter → Except Fault ShaderConverter) :
    Prop :=
  ∀ t0 t1 t2 t3 t4 s a b,
    body t0 t1 t2 t3 t4 (s.withReader a b) =
      (body t0 t1 t2 t3 t4 s).map (fun r => r.withReader a b)

/-- What `defineVector` does with the five tokens it reads, as one function of them. -/
def defineVector_body (componentType token literal0 literal1 literal2 literal3 : Nat)
    (s : ShaderConverter) : ShaderConverter :=
  let v := GetNextVersionId token s
  let typeDescription : TypeDescription :=
    { PrimaryType := spv.OpTypeVector, SecondaryType := componentType, ComponentCount := 4 }
  let resultType := GetSpirVTypeId typeDescription v.2
  let component := GetSpirVTypeId_Op typeDescription.SecondaryType resultType.2
  let s := component.2.setIdType v.1 typeDescription
  let l0 := GetNextId s
  let s := l0.2.pushType [Pack 4 spv.OpConstant, component.1, l0.1, literal0]
  let l1 := GetNextId s
  let s := l1.2.pushType [Pack 4 spv.OpConstant, component.1, l1.1, literal1]
  let l2 := GetNextId s
  let s := l2.2.pushType [Pack 4 spv.OpConstant, component.1, l2.1, literal2]
  let l3 := GetNextId s
  let s := l3.2.pushType [Pack 4 spv.OpConstant, component.1, l3.1, literal3]
  s.pushType [Pack 7 spv.OpConstantComposite, resultType.1, v.1, l0.1, l1.1, l2.1, l3.1]

/-- What `Process_DEFB` does with the two tokens it reads, as one function of them. -/
def Process_DEFB_body (token literal : Nat) (s : ShaderConverter) : ShaderConverter :=
  let v := GetNextVersionId token s
  let typeDescription : TypeDescription := { PrimaryType := spv.OpTypeBool }
  let resultType := GetSpirVTypeId typeDescription v.2
  let component := GetSpirVTypeId_Op typeDescription.SecondaryType resultType.2
  let s := component.2.setIdType v.1 typeDescription
  s.pushType [Pack 4 spv.OpConstant, component.1, v.1, literal]

/-- The number of tokens the handler of an instruction token reads after it; a comment is
not counted here, its handler moves the reader without reading. -/
def dispatchArity (token : Nat) : Nat :=
  let instruction := GetOpcode token
  if instruction = D3DSIO_MOV then 2
  else if instruction = D3DSIO_ADD then 3
  else if instruction = D3DSIO_SUB then 3
  else if instruction = D3DSIO_MUL then 3
  else if instruction = D3DSIO_DP3 then 3
  else if instruction = D3DSIO_DP4 then 3
  else if instruction = D3DSIO_MIN then 0
  else if instruction = D3DSIO_MAX then 0
  else if instruction = D3DSIO_MAD then 4
  else if instruction = D3DSIO_TEX then 3
  else if instruction = D3DSIO_DCL then 2
  else if instruction = D3DSIO_DEFB then 2
  else if instruction = D3DSIO_DEFI then 5
  else if instruction = D3DSIO_DEF then 5
  else 0

/-- What the handler of an instruction token does with the tokens it reads. -/
def dispatchBody (token : Nat) (t0 t1 t2 t3 t4 : Nat) (s : ShaderConverter) :
    Except Fault ShaderConverter :=
  let instruction := GetOpcode token
  if instruction = D3DSIO_MOV then .ok (Process_MOV_body t0 t1 s)
  else if instruction = D3DSIO_ADD then
    .ok (Process_arithmetic_body spv.OpIAdd spv.OpFAdd false t0 t1 t2 s)
  else if instruction = D3DSIO_SUB then
    .ok (Process_arithmetic_body spv.OpISub spv.OpFSub false t0 t1 t2 s)
  else if instruction = D3DSIO_MUL then
    .ok (Process_arithmetic_body spv.OpIMul spv.OpFMul true t0 t1 t2 s)
  else if instruction = D3DSIO_DP3 then .ok (Process_DP_body t0 t1 t2 s)
  else if instruction = D3DSIO_DP4 then .ok (Process_DP_body t0 t1 t2 s)
  else if instruction = D3DSIO_MIN then .ok s
  else if instruction = D3DSIO_MAX then .ok s
  else if instruction = D3DSIO_MAD then .ok (Process_MAD_body t0 t1 t2 t3 s)
  else if instruction = D3DSIO_TEX then .ok (Process_TEX_body t0 t1 t2 s)
  else if instruction = D3DSIO_DCL then
    if s.mIsVertexShader then Process_DCL_Vertex_body t0 t1 s
    else Process_DCL_Pixel_body t0 t1 s
  else if instruction = D3DSIO_DEFB then .ok (Process_DEFB_body t0 t1 s)
  else if instruction = D3DSIO_DEFI then .ok (defineVector_body spv.OpTypeInt t0 t1 t2 t3 t4 s)
  else if instruction = D3DSIO_DEF then
    .ok (defineVector_body spv.OpTypeFloat t0 t1 t2 t3 t4 s)
  else .ok s

instance : Inhabited ShaderConverter := ⟨{}⟩

instance : Inhabited ConvertedShader := ⟨{}⟩

/-- The result of a run that returned, and the default value for one that did not. -/
def returned {α : Type} [Inhabited α] (r : Except Fault α) : α :=
  match r with
  | .ok a => a
  | .error _ => default

/-- A host for the examples: SPIR-V 1.0 and a driver that returns the handle `1`. -/
def exampleHost : Host := { Version := 0x00010000, vkCreateShaderModule := fun _ => some 1 }

/-- The empty pixel shader `ps_2_0` of the specification, scenario 1. -/
def examplePixelShader : List Nat := [0xFFFF0200, 0x0000FFFF]

/-- The empty vertex shader `vs_3_0`. -/
def exampleVertexShader : List Nat := [0xFFFE0300, 0x0000FFFF]

/-- The opcodes for which the `switch` of `Convert` calls a handler or skips a comment;
for every other opcode it does nothing, with or without a warning in the log. -/
def handledOpcodes : List Nat :=
  [D3DSIO_MOV, D3DSIO_ADD, D3DSIO_SUB, D3DSIO_MUL, D3DSIO_DP3, D3DSIO_DP4, D3DSIO_MIN,
    D3DSIO_MAX, D3DSIO_MAD, D3DSIO_TEX, D3DSIO_DCL, D3DSIO_DEFB, D3DSIO_DEFI, D3DSIO_DEF,
    D3DSIO_COMMENT]

/-- A pixel shader `ps_2_0` with a declaration, a constant and a move:
`dcl t0; def c0, 1.0, 0.0, 2.0, 0.5; mov r1, c0`. -/
def exampleMovShader : List Nat :=
  [0xFFFF0200, 0x0200001F, 0x80000000, 0xB00F0000,
    0x05000051, 0xA00F0000, 0x3F800000, 0, 0x40000000, 0x3F000000,
    0x02000001, 0x800F0001, 0xA0E40000, 0x0000FFFF]

/-! ## Reading a module: the instruction stream of the SPIR-V specification

The words of a module after its header are instructions; the high half of the leading word
of an instruction is the number of its words and the low half its opcode.  Which operand
words are ids, and which of them is the id the instruction defines, is fixed by the opcode
(SPIR-V specification, section 3.32). -/

/-- The count in the leading word of an instruction. -/
def declaredWordCount (word : Nat) : Nat := word >>> 16

/-- The opcode in the leading word of an instruction. -/
def opcodeOf (word : Nat) : Nat := word &&& 0xFFFF

/-- The words cut into instructions by the counts of the leading words; `none` when a
count is zero or runs over the end.  The first argument bounds the number of
instructions. -/
def splitInstructionsFuel : Nat → List Nat → Option (List (List Nat))
  | _, [] => some []
  | 0, _ :: _ => none
  | fuel + 1, word :: rest =>
    if declaredWordCount word = 0 ∨ rest.length + 1 < declaredWordCount word then none
    else
      match splitInstructionsFuel fuel (rest.drop (declaredWordCount word - 1)) with
      | some instructions => some ((word :: rest.take (declaredWordCount word - 1)) :: instructions)
      | none => none

/-- The words cut into instructions; an instruction has a word at least, so there are no
more instructions than words. -/
def splitInstructions (words : List Nat) : Option (List (List Nat)) :=
  splitInstructionsFuel words.length words

/-- A word of a literal string that holds the terminating nul: one of its bytes is zero. -/
def hasNulByte (word : Nat) : Bool :=
  word &&& 0xFF == 0 || (word >>> 8) &&& 0xFF == 0 || (word >>> 16) &&& 0xFF == 0 ||
    (word >>> 24) &&& 0xFF == 0

/-- The operands after a literal string: the string ends with the first word that holds a
nul byte. -/
def afterString : List Nat → List Nat
  | [] => []
  | word :: rest => if hasNulByte word then rest else afterString rest

/-- The opcodes of the type declarations that have the declared id as their only id. -/
def scalarTypeOpcodes : List Nat :=
  [spv.OpTypeVoid, spv.OpTypeBool, spv.OpTypeInt, spv.OpTypeFloat, spv.OpTypeSampler]

/-- The opcodes with a result type, a result id and two id operands. -/
def binaryOpcodes : List Nat :=
  [spv.OpIAdd, spv.OpFAdd, spv.OpISub, spv.OpFSub, spv.OpIMul, spv.OpFMul, spv.OpDot,
    spv.OpImageFetch]

/-- The opcodes without any id operand. -/
def idFreeOpcodes : List Nat :=
  [spv.OpCapability, spv.OpMemoryModel, spv.OpReturn, spv.OpFunctionEnd]

/-- The operand words of an instruction that are ids.  An opcode that is not listed has
every operand counted as an id. -/
def idOperands : List Nat → List Nat
  | [] => []
  | word :: operands =>
    if opcodeOf word ∈ idFreeOpcodes then []
    else if opcodeOf word = spv.OpExtInstImport then operands.take 1
    else if opcodeOf word = spv.OpEntryPoint then
      (operands.drop 1).take 1 ++ afterString (operands.drop 2)
    else if opcodeOf word = spv.OpExecutionMode then operands.take 1
    else if opcodeOf word ∈ scalarTypeOpcodes then operands.take 1
    else if opcodeOf word = spv.OpTypeVector ∨ opcodeOf word = spv.OpTypeMatrix then
      operands.take 2
    else if opcodeOf word = spv.OpTypePointer then operands.take 1 ++ operands.drop 2
    else if opcodeOf word = spv.OpConstant then operands.take 2
    else if opcodeOf word = spv.OpVariable ∨ opcodeOf word = spv.OpFunction then
      operands.take 2 ++ operands.drop 3
    else if opcodeOf word = spv.OpLabel then operands.take 1
    else if opcodeOf word = spv.OpLoad ∨ opcodeOf word = spv.OpCopyObject ∨
        opcodeOf word = spv.OpCompositeExtract then operands.take 3
    else if opcodeOf word = spv.OpVectorShuffle ∨ opcodeOf word ∈ binaryOpcodes then
      operands.take 4
    else operands

/-- The id an instruction defines, for the opcodes that define one. -/
def resultId : List Nat → Option Nat
  | [] => none
  | word :: operands =>
    if opcodeOf word = spv.OpExtInstImport ∨ opcodeOf word = spv.OpLabel ∨
        opcodeOf word ∈ scalarTypeOpcodes ∨ opcodeOf word = spv.OpTypeVector ∨
        opcodeOf word = spv.OpTypeMatrix ∨ opcodeOf word = spv.OpTypeImage ∨
        opcodeOf word = spv.OpTypePointer ∨ opcodeOf word = spv.OpTypeFunction then
      operands[0]?
    else if opcodeOf word = spv.OpConstant ∨ opcodeOf word = spv.OpConstantComposite ∨
        opcodeOf word = spv.OpFunction ∨ opcodeOf word = spv.OpVariable ∨
        opcodeOf word = spv.OpLoad ∨ opcodeOf word = spv.OpCopyObject ∨
        opcodeOf word = spv.OpCompositeExtract ∨ opcodeOf word = spv.OpVectorShuffle ∨
        opcodeOf word ∈ binaryOpcodes then
      operands[1]?
    else none

/-- An instruction whose leading word declares the number of words it has. -/
def Framed : List Nat → Prop
  | [] => False
  | word :: operands => declaredWordCount word = operands.length + 1

/-! ## What the converter keeps true while it emits

The statements about the ids of a module and about its instructions are shown with the
relation `Emits` between a state of the converter and a later one. -/

/-- The ids the instructions of a list define. -/
def resultIds (instructions : List (List Nat)) : List Nat := instructions.filterMap resultId

/-- No description in the table of the ids has arguments. -/
def ArgumentsEmpty (s : ShaderConverter) : Prop := ∀ p ∈ s.mIdTypePairs, p.2.Arguments = []

/-- The interface ids, and the entries of the attribute array that are still free. -/
def interfaceRoom (s : ShaderConverter) : Nat :=
  s.mInterfaceIds.length +
    (s.mConvertedShader.mVertexInputAttributeDescription.length -
      s.mConvertedShader.mVertexInputAttributeDescriptionCount)

/-- Every id the converter has in its tables is below the id counter. -/
def IdsBelow (s : ShaderConverter) : Prop :=
  0 < s.mNextId ∧
  (∀ p ∈ s.mTypeIdPairs, p.2 < s.mNextId) ∧
  (∀ b ∈ s.mIdsByRegister, ∀ p ∈ b.2, p.2 < s.mNextId) ∧
  (∀ i ∈ s.mInterfaceIds, i < s.mNextId) ∧
  s.mEntryPointId < s.mNextId ∧ s.mEntryPointTypeId < s.mNextId

/-- The ids of a list are pairwise different and lie in the interval from `lo` up to, not
with, `hi`. -/
def FreshIds (lo hi : Nat) (ids : List Nat) : Prop :=
  ∀ x, ids.count x ≤ 1 ∧ (0 < ids.count x → lo ≤ x ∧ x < hi)

/-- From the state `s` to the state `next` the converter has appended whole instructions
to the type section and to the function section.  `NoWrap` stands for "the id counter
does not wrap around"; under it the counter has grown by `allocated` at most, the ids in
the tables and in the new instructions are below it, and the ids the new instructions
define, together with the ids `pending` (handed out but not yet defined), are pairwise
different ids handed out since `s`.  `interfaces` bounds the interface ids that have no
attribute entry yet. -/
structure Emits (NoWrap : Prop) (allocated interfaces : Nat) (pending : List Nat)
    (s next : ShaderConverter) : Prop where
  args : ArgumentsEmpty next
  room : interfaceRoom next ≤ interfaceRoom s + interfaces
  counter : NoWrap → s.mNextId ≤ next.mNextId ∧ next.mNextId ≤ s.mNextId + allocated
  below : NoWrap → IdsBelow next
  out : ∃ types functions : List (List Nat),
    next.mTypeInstructions = s.mTypeInstructions ++ types.flatten ∧
    next.mFunctionDefinitionInstructions =
      s.mFunctionDefinitionInstructions ++ functions.flatten ∧
    (∀ i ∈ types ++ functions, Framed i) ∧
    (NoWrap →
      (∀ i ∈ types ++ functions, ∀ id ∈ idOperands i, id < next.mNextId) ∧
      FreshIds s.mNextId next.mNextId
        (pending ++ (resultIds types ++ resultIds functions)))

/-- An instruction with the ids among its operands and the id it defines. -/
def Shape (instruction ids : List Nat) (result : Option Nat) : Prop :=
  Framed instruction ∧ idOperands instruction = ids ∧ resultId instruction = result


/-! ## The instructions of a module -/

/-- The instruction `OpExtInstImport "GLSL.std.450"` with its result id. -/
def importInstruction (id : Nat) : List Nat :=
  [Pack 6 spv.OpExtInstImport, id] ++ PutStringInVector (stringBytes "GLSL.std.450")

/-- The instruction `OpEntryPoint` for the function "main" with its interface ids. -/
def entryPointInstruction (model entryPoint : Nat) (interfaces : List Nat) : List Nat :=
  [Pack (5 + interfaces.length) spv.OpEntryPoint, model, entryPoint] ++
    PutStringInVector (stringBytes "main") ++ interfaces

/-- The instructions the tail of `Convert` puts before the type section, from the state at
the end of the loop. -/
def headInstructions (s : ShaderConverter) : List (List Nat) :=
  [[Pack 2 spv.OpCapability, spv.CapabilityShader],
    importInstruction s.mNextId,
    [Pack 3 spv.OpMemoryModel, spv.AddressingModelLogical, spv.MemoryModelGLSL450],
    entryPointInstruction
      (if s.mIsVertexShader then spv.ExecutionModelVertex else spv.ExecutionModelFragment)
      s.mEntryPointId s.mInterfaceIds] ++
  if s.mIsVertexShader then []
  else [[Pack 3 spv.OpExecutionMode, s.mEntryPointId, spv.ExecutionModeOriginLowerLeft]]

/-- The instructions the tail of `Convert` puts after the function section. -/
def endInstructions : List (List Nat) := [[Pack 1 spv.OpReturn], [Pack 1 spv.OpFunctionEnd]]

/-- The instructions of the module of a converter that had, at the end of the loop, the
state `s` with the given instructions in its type section and its function section. -/
def moduleInstructions (s : ShaderConverter) (types functions : List (List Nat)) :
    List (List Nat) :=
  headInstructions s ++ (types ++ (functions ++ endInstructions))

/-! ## The type table and the register map: vocabulary -/

/-- The opcodes of the type declarations that name another type: the component type of a
vector or a matrix, the pointee of a pointer, the return type of a function. -/
def compositeTypeOpcodes : List Nat :=
  [spv.OpTypeVector, spv.OpTypeMatrix, spv.OpTypePointer, spv.OpTypeFunction]

/-- The description `GetSpirVTypeId` asks an id for before it declares a vector, a matrix,
a pointer or a function: the one of the component type, the pointee or the return type. -/
def innerDescription (d : TypeDescription) : TypeDescription :=
  if d.PrimaryType = spv.OpTypePointer then
    { PrimaryType := d.SecondaryType, SecondaryType := d.TernaryType
      ComponentCount := d.ComponentCount }
  else { PrimaryType := d.SecondaryType }

/-- The lines of `GetSpirVTypeId` between the failed lookup and the `switch`: a new id is
taken and entered in both tables. -/
def reserveTypeId (d : TypeDescription) (s : ShaderConverter) : ShaderConverter :=
  ((GetNextId s).2.setTypeId d s.mNextId).setIdType s.mNextId d

/-- The layouts of the type declarations in the words of the specification, section 4.3:
"Bool: 2 words — (size=2, op), id.  Int: 4 words — op, id, width=32, signed=0.  Float: 3
words — op, id, width=32.  Vector / Matrix: 4 words — op, id, component-type-id,
component-count.  Pointer: 4 words — op, id, storage-class=Input, pointee-type-id.
Sampler: 2 words.  Function: 3 + |arguments| — op, id, return-type-id,
argument-type-ids.  Void: 2 words."  `inner` is the id of the component, pointee or return
type. -/
def typeDeclarationWords (d : TypeDescription) (id inner : Nat) : List Nat :=
  if d.PrimaryType = spv.OpTypeBool ∨ d.PrimaryType = spv.OpTypeSampler ∨
      d.PrimaryType = spv.OpTypeVoid then [Pack 2 d.PrimaryType, id]
  else if d.PrimaryType = spv.OpTypeInt then [Pack 4 d.PrimaryType, id, 32, 0]
  else if d.PrimaryType = spv.OpTypeFloat then [Pack 3 d.PrimaryType, id, 32]
  else if d.PrimaryType = spv.OpTypeVector ∨ d.PrimaryType = spv.OpTypeMatrix then
    [Pack 4 d.PrimaryType, id, inner, d.ComponentCount]
  else if d.PrimaryType = spv.OpTypePointer then
    [Pack 4 d.PrimaryType, id, spv.StorageClassInput, inner]
  else if d.PrimaryType = spv.OpTypeFunction then
    [Pack (3 + d.Arguments.length) d.PrimaryType, id, inner] ++ d.Arguments
  else []

/-- The register types of the four constant banks. -/
def constantBanks : List Nat := [D3DSPR_CONST, D3DSPR_CONST2, D3DSPR_CONST3, D3DSPR_CONST4]

/-- The description `GetIdByRegister` gives a constant register: a pointer to a vector of
four floats. -/
def constantDescription : TypeDescription :=
  { PrimaryType := spv.OpTypePointer, SecondaryType := spv.OpTypeVector
    TernaryType := spv.OpTypeFloat, ComponentCount := 4 }

/-- The selector of the component `i` in the swizzle of a source token: "each component
selector = (swizzle >> (swizzle-shift + 2*i)) & 0b11". -/
def swizzleSelector (token i : Nat) : Nat := (token >>> (16 + 2 * i)) &&& 3

/-- Lookups of registers one after the other: the ids `GetIdByRegister` returns for the
tokens of the list, and the state after the last lookup. -/
def lookupRegisters : List Nat → ShaderConverter → List Nat × ShaderConverter
  | [], s => ([], s)
  | token :: rest, s =>
    ((GetIdByRegister token s).1 :: (lookupRegisters rest (GetIdByRegister token s).2).1,
      (lookupRegisters rest (GetIdByRegister token s).2).2)

/-- The two type tables agree: every entry of the type table has an id below the id
counter, and the table of the ids maps the id back to the description of the entry. -/
def TypeTablesAgree (s : ShaderConverter) : Prop :=
  ∀ p ∈ s.mTypeIdPairs,
    p.2 < s.mNextId ∧ flat_map.find sameKey p.2 s.mIdTypePairs = some p.1

/-- The description of a vector of four floats, the result type `GetSwizzledId` gives a
shuffle. -/
def floatVectorDescription : TypeDescription :=
  { PrimaryType := spv.OpTypeVector, SecondaryType := spv.OpTypeFloat, ComponentCount := 4 }

/-- The write mask of a register token (bits 16 to 19), as the declaration handlers read
it. -/
def writeMask (registerToken : Nat) : Nat := (registerToken &&& D3DSP_WRITEMASK_ALL) >>> 16

/-- The state both declaration handlers reach before the `switch` on the register type:
the register has a new current id, and the description of its write mask is recorded as
the type of that id. -/
def declareRegister (registerToken : Nat) (s : ShaderConverter) : ShaderConverter :=
  (GetNextVersionId registerToken s).2.setIdType s.mNextId
    (declaredTypeDescription (writeMask registerToken))

/-- The declaration of a variable: the types of its description, declared when they are
not yet, then a four-word `OpVariable` of that type. -/
def declareVariable (d : TypeDescription) (id storage : Nat) (s : ShaderConverter) :
    ShaderConverter :=
  (GetSpirVTypeId d s).2.pushType [Pack 4 spv.OpVariable, (GetSpirVTypeId d s).1, id, storage]

/-- Whether the instruction at the reader is, for the dispatch loop, a declaration of an
input register in a vertex shader: the register token is the second token after the
instruction token. -/
def isVertexInputDeclaration (shader : List Nat) (s : ShaderConverter) : Bool :=
  decide (GetOpcode (shader.getD s.mNextToken 0) = D3DSIO_DCL) && s.mIsVertexShader &&
    decide (GetRegisterType (shader.getD (s.mNextToken + 2) 0) = D3DSPR_INPUT)

/-- The number of declarations of input registers of a vertex shader that the dispatch
loop processes: the loop of `Convert_loop`, counting. -/
def vertexInputDeclarations (shader : List Nat) : Nat → Nat → ShaderConverter → Nat
  | fuel, token, s =>
    if token = D3DPS_END then 0
    else
      match fuel with
      | 0 => 0
      | fuel + 1 =>
        match Convert_step shader s with
        | .ok r =>
          (if isVertexInputDeclaration shader s then 1 else 0) +
            vertexInputDeclarations shader fuel r.1 r.2
        | .error _ => 0

/-- The entries of the attribute array below the count are those of a run of
declarations: entry `k` has binding 0, offset 0 and location `k`. -/
def AttributesLocated (c : ConvertedShader) : Prop :=
  ∀ k, k < c.mVertexInputAttributeDescriptionCount →
    ∃ entry, c.mVertexInputAttributeDescription[k]? = some entry ∧
      entry.binding = 0 ∧ entry.offset = 0 ∧ entry.location = k

/-- A vertex shader `vs_3_0` with the one instruction `dcl_position v0`, write mask
`0xF`. -/
def exampleInputShader : List Nat := [0xFFFE0300, 0x0200001F, 0x80000000, 0x900F0000, 0x0000FFFF]

/-- A pixel shader `ps_2_0` with the one instruction `dcl_2d s0`. -/
def exampleSamplerShader : List Nat :=
  [0xFFFF0200, 0x0200001F, 0x90000000, 0xA00F0800, 0x0000FFFF]

/-- A vertex shader `vs_3_0` with the one instruction `dcl_2d s0`. -/
def exampleVertexSamplerShader : List Nat :=
  [0xFFFE0300, 0x0200001F, 0x90000000, 0xA00F0800, 0x0000FFFF]

/-- A vertex shader `vs_3_0` declaring `v0` with the write mask `5` (`.xz`). -/
def exampleMaskShader : List Nat := [0xFFFE0300, 0x0200001F, 0x80000000, 0x90050000, 0x0000FFFF]

/-- A pixel shader `ps_2_0` with the one instruction `def c0, 1.0, 0.0, 0.0, 1.0`. -/
def exampleDefShader : List Nat :=
  [0xFFFF0200, 0x05000051, 0xA00F0000, 0x3F800000, 0, 0, 0x3F800000, 0x0000FFFF]

/-- A pixel shader `ps_2_0` with the one instruction `defi i0, 1, 2, 3, 4`. -/
def exampleDefiShader : List Nat :=
  [0xFFFF0200, 0x05000030, 0xF00F0000, 1, 2, 3, 4, 0x0000FFFF]

/-- A vertex shader `vs_3_0` with the one instruction `defb b0, true`. -/
def exampleDefbShader : List Nat := [0xFFFE0300, 0x0200002F, 0xE00F0800, 1, 0x0000FFFF]

/-- A pixel shader `ps_2_0` with the one instruction `add r0, c0, c1`. -/
def exampleAddShader : List Nat :=
  [0xFFFF0200, 0x03000002, 0x800F0000, 0xA0E40000, 0xA0E40001, 0x0000FFFF]

/-- A pixel shader `ps_2_0` with the one instruction `mad r0, c0, c1, c2`. -/
def exampleMadShader : List Nat :=
  [0xFFFF0200, 0x04000004, 0x800F0000, 0xA0E40000, 0xA0E40001, 0xA0E40002, 0x0000FFFF]

/-- The opcode of the multiply for a leaf data type: "OpFMul; OpIMul for int/bool". -/
def multiplyOpcode (dataType : Nat) : Nat :=
  if dataType = spv.OpTypeFloat then spv.OpFMul else spv.OpIMul

/-- The opcode of the add for a leaf data type: "OpFAdd; OpIAdd for int/bool". -/
def addOpcode (dataType : Nat) : Nat :=
  if dataType = spv.OpTypeFloat then spv.OpFAdd else spv.OpIAdd

/-- The ids of the input variables of a vertex shader, in the order of the declarations
the dispatch loop processes: the loop of `Convert_loop`, collecting the value the id
counter has when the loop is at such a declaration, which is the id the handler gives the
variable. -/
def vertexInputIds (shader : List Nat) : Nat → Nat → ShaderConverter → List Nat
  | fuel, token, s =>
    if token = D3DPS_END then []
    else
      match fuel with
      | 0 => []
      | fuel + 1 =>
        match Convert_step shader s with
        | .ok r =>
          (if isVertexInputDeclaration shader s then [s.mNextId] else []) ++
            vertexInputIds shader fuel r.1 r.2
        | .error _ => []

/-- The number of operand tokens after an instruction token the translator handles:
"NOP 0; DCL 2; DEFB 2; DEF and DEFI 5; MOV 2; ADD, SUB, MUL, DP3, DP4, TEX 3; MAD 4;
COMMENT followed by the number of tokens in its bits 16-27"; `none` for every other
instruction token. -/
def operandCount (token : Nat) : Option Nat :=
  if GetOpcode token = D3DSIO_COMMENT then some ((token &&& 0x0FFF0000) >>> 16)
  else if GetOpcode token = D3DSIO_NOP then some 0
  else if GetOpcode token = D3DSIO_DCL then some 2
  else if GetOpcode token = D3DSIO_DEFB then some 2
  else if GetOpcode token = D3DSIO_DEF then some 5
  else if GetOpcode token = D3DSIO_DEFI then some 5
  else if GetOpcode token = D3DSIO_MOV then some 2
  else if GetOpcode token = D3DSIO_ADD then some 3
  else if GetOpcode token = D3DSIO_SUB then some 3
  else if GetOpcode token = D3DSIO_MUL then some 3
  else if GetOpcode token = D3DSIO_DP3 then some 3
  else if GetOpcode token = D3DSIO_DP4 then some 3
  else if GetOpcode token = D3DSIO_TEX then some 3
  else if GetOpcode token = D3DSIO_MAD then some 4
  else none

/-- From the place `position` on, the stream is instructions the translator handles, each
followed by exactly its operand tokens, then the end token `0x0000FFFF` as the last token
of the stream.  The first argument bounds the number of instructions. -/
def WellFormedFrom (shader : List Nat) : Nat → Nat → Bool
  | 0, _ => false
  | fuel + 1, position =>
    match shader[position]? with
    | none => false
    | some token =>
      if token = D3DPS_END then position + 1 == shader.length
      else
        match operandCount token with
        | some k => WellFormedFrom shader fuel (position + 1 + k)
        | none => false

/-- A version token: the high half is `0xFFFF` (pixel shader) or `0xFFFE` (vertex
shader). -/
def isVersionToken (token : Nat) : Bool :=
  token &&& 0xFFFF0000 == 0xFFFF0000 || token &&& 0xFFFF0000 == 0xFFFE0000

/-- A stream that consists of a version token, then instructions the translator handles
with their operand tokens, then the end token. -/
def WellFormed (shader : List Nat) : Bool :=
  match shader[0]? with
  | some version => isVersionToken version && WellFormedFrom shader shader.length 1
  | none => false

/-- A pixel shader `ps_2_0` with the one instruction `mov r0, c0`. -/
def exampleMovConstantShader : List Nat :=
  [0xFFFF0200, 0x02000001, 0x800F0000, 0xA0E40000, 0x0000FFFF]

/-- A pixel shader `ps_2_0` with the one instruction `dcl t0`. -/
def exampleTextureShader : List Nat :=
  [0xFFFF0200, 0x0200001F, 0x80000000, 0xB00F0000, 0x0000FFFF]

/-- A pixel shader `ps_2_0` with `def c0, 1.0, 0.0, 0.0, 1.0`, `mov r0, c0`, `mov r1, c0`
and `dp3 r0, r0, r1`. -/
def exampleDotShader : List Nat :=
  [0xFFFF0200, 0x05000051, 0xA00F0000, 0x3F800000, 0, 0, 0x3F800000,
    0x02000001, 0x800F0000, 0xA0E40000, 0x02000001, 0x800F0001, 0xA0E40000,
    0x03000008, 0x800F0000, 0x80E40000, 0x80E40001, 0x0000FFFF]

/-- The opcode of `OpExtension` in the SPIR-V specification; the converter emits none. -/
def spv.OpExtension : Nat := 10

/-- The number of tokens from an instruction token to the next token in instruction
position: the token itself, then the operand tokens its handler reads, or the tokens a
comment skips. -/
def instructionLength (token : Nat) : Nat :=
  1 + (if GetOpcode token = D3DSIO_COMMENT then (token &&& 0x0FFF0000) >>> 16
    else dispatchArity token)

/-- The place of the first token in instruction position, from the instruction position
`position` on, that is the end marker `0x0000FFFF` as a whole word; `none` when the tokens
run out before.  The first argument bounds the number of instructions. -/
def firstEndFrom (shader : List Nat) : Nat → Nat → Option Nat
  | 0, _ => none
  | fuel + 1, position =>
    match shader[position]? with
    | none => none
    | some token =>
      if token = D3DPS_END then some position
      else firstEndFrom shader fuel (position + instructionLength token)

/-- The place of the first token among those the loop of `Convert` tests, the version token
and then the tokens in instruction position, that is the end marker `0x0000FFFF` as a whole
word. -/
def firstEndMarker (shader : List Nat) : Option Nat :=
  match shader[0]? with
  | none => none
  | some version =>
    if version = D3DPS_END then some 0 else firstEndFrom shader shader.length 1

/-- The state in which `Process_MAD` starts to look its sources up: the type of the first
source has been looked up and declared, and recorded for the id the counter has. -/
def sourcesState (argumentToken1 : Nat) (s : ShaderConverter) : ShaderConverter :=
  snagNextId (GetTypeByRegister argumentToken1 s).1
    (GetSpirVTypeId (GetTypeByRegister argumentToken1 s).1
      (GetTypeByRegister argumentToken1 s).2).2

/-- Three sources looked up one after the other, in the order of the sources, each in the
state the lookup before it left: the three ids, and the state after the last lookup. -/
def lookupSources (lookup : Nat → ShaderConverter → Nat × ShaderConverter)
    (token1 token2 token3 : Nat) (q : ShaderConverter) : Nat × Nat × Nat × ShaderConverter :=
  ((lookup token1 q).1, (lookup token2 (lookup token1 q).2).1,
    (lookup token3 (lookup token2 (lookup token1 q).2).2).1,
    (lookup token3 (lookup token2 (lookup token1 q).2).2).2)

/-- A pixel shader `ps_2_0` with the one instruction `mad r3, r0, r1, r2`. -/
def exampleMadTemporariesShader : List Nat :=
  [0xFFFF0200, 0x04000004, 0x800F0003, 0x80E40000, 0x80E40001, 0x80E40002, 0x0000FFFF]

/-- A converter in which the temporaries `r0`, `r1`, `r2` have the current ids 7, 8, 9, the
id 7 has the type vector of four floats, and the next id is 10. -/
def exampleTemporariesState : ShaderConverter :=
  { ShaderConverter.fresh 1 4 4 with
    mNextId := 10,
    mIdsByRegister := [(0, [(0, 7), (1, 8), (2, 9)])],
    mIdTypePairs := [(7, ⟨spv.OpTypeVector, spv.OpTypeFloat, spv.OpTypeVoid, 4, []⟩)] }

/-! ## Section assembly -/

theorem CombineSpirVOpCodes_mInstructions (s : ShaderConverter) :
    (CombineSpirVOpCodes s).mInstructions = s.mInstructions ++ (specSectionOrder s).flatten := by
  simp [CombineSpirVOpCodes, specSectionOrder]

/-- C1: `CombineSpirVOpCodes` appends the section buffers to the module in the order of
the specification: for every state the module afterwards is the module before followed by
the concatenation of the twenty buffers in that order, its length grows by the sum of their
lengths, and every section buffer is empty afterwards. -/
theorem CombineSpirVOpCodes_appends_sections_in_order (s : ShaderConverter) :
    (CombineSpirVOpCodes s).mInstructions = s.mInstructions ++ (specSectionOrder s).flatten ∧
    (CombineSpirVOpCodes s).mInstructions.length =
      s.mInstructions.length + ((specSectionOrder s).map List.length).sum ∧
    ∀ buffer ∈ specSectionOrder (CombineSpirVOpCodes s), buffer = [] := by
  refine ⟨CombineSpirVOpCodes_mInstructions s, ?_, ?_⟩
  · simp only [CombineSpirVOpCodes, specSectionOrder, List.length_append, List.map_cons,
      List.map_nil, List.sum_cons, List.sum_nil]
    omega
  · simp [CombineSpirVOpCodes, specSectionOrder]

/-! ## The helpers do not look at the token reader -/

@[simp] theorem withReader_self (s : ShaderConverter) :
    s.withReader s.mNextToken s.mTokenOffset = s := rfl

@[simp] theorem withReader_withReader (s : ShaderConverter) (a b c d : Nat) :
    (s.withReader a b).withReader c d = s.withReader c d := rfl

@[simp] theorem withReader_mNextToken (s : ShaderConverter) (a b : Nat) :
    (s.withReader a b).mNextToken = a := rfl

@[simp] theorem withReader_mTokenOffset (s : ShaderConverter) (a b : Nat) :
    (s.withReader a b).mTokenOffset = b := rfl

@[simp] theorem withReader_fixedPart (s : ShaderConverter) (a b : Nat) :
    (s.withReader a b).fixedPart = s.fixedPart := rfl

theorem pushType_withReader (s : ShaderConverter) (ws : List Nat) (a b : Nat) :
    (s.withReader a b).pushType ws = (s.pushType ws).withReader a b := rfl

theorem pushFunctionDefinition_withReader (s : ShaderConverter) (ws : List Nat) (a b : Nat) :
    (s.withReader a b).pushFunctionDefinition ws =
      (s.pushFunctionDefinition ws).withReader a b := rfl

theorem setTypeId_withReader (s : ShaderConverter) (d : TypeDescription) (i a b : Nat) :
    (s.withReader a b).setTypeId d i = (s.setTypeId d i).withReader a b := rfl

theorem setIdType_withReader (s : ShaderConverter) (d : TypeDescription) (i a b : Nat) :
    (s.withReader a b).setIdType i d = (s.setIdType i d).withReader a b := rfl

theorem setConvertedShader_withReader (s : ShaderConverter) (c : ConvertedShader)
    (a b : Nat) :
    (s.withReader a b).setConvertedShader c = (s.setConvertedShader c).withReader a b := rfl

theorem pushInterfaceId_withReader (s : ShaderConverter) (i a b : Nat) :
    (s.withReader a b).pushInterfaceId i = (s.pushInterfaceId i).withReader a b := rfl

theorem setPositionRegister_withReader (s : ShaderConverter) (i a b : Nat) :
    (s.withReader a b).setPositionRegister i = (s.setPositionRegister i).withReader a b := rfl

theorem GetNextId_withReader (s : ShaderConverter) (a b : Nat) :
    GetNextId (s.withReader a b) = ((GetNextId s).1, (GetNextId s).2.withReader a b) := rfl

theorem SetIdByRegister_withReader (token id : Nat) (s : ShaderConverter) (a b : Nat) :
    SetIdByRegister token id (s.withReader a b) =
      (SetIdByRegister token id s).withReader a b := rfl

theorem GetNextVersionId_withReader (token : Nat) (s : ShaderConverter) (a b : Nat) :
    GetNextVersionId token (s.withReader a b) =
      ((GetNextVersionId token s).1, (GetNextVersionId token s).2.withReader a b) := rfl

theorem snagNextId_withReader (d : TypeDescription) (s : ShaderConverter) (a b : Nat) :
    snagNextId d (s.withReader a b) = (snagNextId d s).withReader a b := rfl

theorem GetSpirVTypeIdFuel_withReader (fuel : Nat) (d : TypeDescription)
    (s : ShaderConverter) (a b : Nat) :
    GetSpirVTypeIdFuel fuel d (s.withReader a b) =
      ((GetSpirVTypeIdFuel fuel d s).1, (GetSpirVTypeIdFuel fuel d s).2.withReader a b) := by
  induction fuel generalizing d s with
  | zero => rfl
  | succ n ih =>
    unfold GetSpirVTypeIdFuel
    show (match flat_map.find TypeDescription.same d s.mTypeIdPairs with
      | some id => _ | none => _) = _
    cases h : flat_map.find TypeDescription.same d s.mTypeIdPairs with
    | some id => rfl
    | none =>
      dsimp only
      split_ifs
      all_goals first
        | rfl
        | simp only [GetNextId_withReader, setTypeId_withReader, setIdType_withReader, ih,
            pushType_withReader]

theorem GetSpirVTypeId_withReader (d : TypeDescription) (s : ShaderConverter) (a b : Nat) :
    GetSpirVTypeId d (s.withReader a b) =
      ((GetSpirVTypeId d s).1, (GetSpirVTypeId d s).2.withReader a b) :=
  GetSpirVTypeIdFuel_withReader 4 d s a b

theorem GetSpirVTypeId_Op_withReader (op : Nat) (s : ShaderConverter) (a b : Nat) :
    GetSpirVTypeId_Op op (s.withReader a b) =
      ((GetSpirVTypeId_Op op s).1, (GetSpirVTypeId_Op op s).2.withReader a b) :=
  GetSpirVTypeId_withReader _ s a b

theorem GetSpirVTypeId_Op2_withReader (op1 op2 : Nat) (s : ShaderConverter) (a b : Nat) :
    GetSpirVTypeId_Op2 op1 op2 (s.withReader a b) =
      ((GetSpirVTypeId_Op2 op1 op2 s).1, (GetSpirVTypeId_Op2 op1 op2 s).2.withReader a b) :=
  GetSpirVTypeId_withReader _ s a b

theorem GetSpirVTypeId_Op3_withReader (op1 op2 n : Nat) (s : ShaderConverter) (a b : Nat) :
    GetSpirVTypeId_Op3 op1 op2 n (s.withReader a b) =
      ((GetSpirVTypeId_Op3 op1 op2 n s).1,
        (GetSpirVTypeId_Op3 op1 op2 n s).2.withReader a b) :=
  GetSpirVTypeId_withReader _ s a b

theorem GetIdByRegister_withReader (token : Nat) (s : ShaderConverter) (a b : Nat) :
    GetIdByRegister token (s.withReader a b) =
      ((GetIdByRegister token s).1, (GetIdByRegister token s).2.withReader a b) := by
  unfold GetIdByRegister
  show (match findIdByRegister token s with | some id => _ | none => _) = _
  cases h : findIdByRegister token s with
  | some id => rfl
  | none =>
    dsimp only
    split_ifs
    · simp only [GetNextId_withReader, GetSpirVTypeId_withReader, SetIdByRegister_withReader,
        setIdType_withReader, pushType_withReader]
    · rfl

theorem GetTypeByRegister_withReader (token : Nat) (s : ShaderConverter) (a b : Nat) :
    GetTypeByRegister token (s.withReader a b) =
      ((GetTypeByRegister token s).1, (GetTypeByRegister token s).2.withReader a b) := by
  unfold GetTypeByRegister
  simp only [GetIdByRegister_withReader]
  show (match flat_map.find sameKey (GetIdByRegister token s).1
      (GetIdByRegister token s).2.mIdTypePairs with | some d => _ | none => _) = _
  cases flat_map.find sameKey (GetIdByRegister token s).1
      (GetIdByRegister token s).2.mIdTypePairs <;> rfl

theorem GetSwizzledId_withReader (token inputId : Nat) (s : ShaderConverter) (a b : Nat) :
    GetSwizzledId token inputId (s.withReader a b) =
      ((GetSwizzledId token inputId s).1, (GetSwizzledId token inputId s).2.withReader a b) := by
  unfold GetSwizzledId
  dsimp only
  split_ifs <;>
    simp only [GetIdByRegister_withReader, GetNextId_withReader, GetSpirVTypeId_Op_withReader,
      GetSpirVTypeId_Op3_withReader, pushFunctionDefinition_withReader]
theorem loadArgument_withReader (dataTypeId token : Nat) (s : ShaderConverter) (a b : Nat) :
    loadArgument dataTypeId token (s.withReader a b) =
      ((loadArgument dataTypeId token s).1, (loadArgument dataTypeId token s).2.withReader a b) := by
  unfold loadArgument
  simp only [GetNextId_withReader, pushFunctionDefinition_withReader,
    GetIdByRegister_withReader, GetSwizzledId_withReader]

theorem emitArithmetic_withReader (iop fop dt dti rt a1 a2 : Nat) (s : ShaderConverter)
    (a b : Nat) :
    emitArithmetic iop fop dt dti rt a1 a2 (s.withReader a b) =
      (emitArithmetic iop fop dt dti rt a1 a2 s).withReader a b := by
  unfold emitArithmetic
  split_ifs <;> rfl

theorem emitMultiplyAdd_withReader (dt dti rt ri a1 a2 a3 : Nat) (s : ShaderConverter)
    (a b : Nat) :
    emitMultiplyAdd dt dti rt ri a1 a2 a3 (s.withReader a b) =
      (emitMultiplyAdd dt dti rt ri a1 a2 a3 s).withReader a b := by
  unfold emitMultiplyAdd
  split_ifs <;> rfl

theorem Process_MOV_body_withReader (t0 t1 : Nat) (s : ShaderConverter) (a b : Nat) :
    Process_MOV_body t0 t1 (s.withReader a b) = (Process_MOV_body t0 t1 s).withReader a b := by
  unfold Process_MOV_body
  simp only [GetTypeByRegister_withReader, GetSpirVTypeId_withReader, snagNextId_withReader,
    GetSwizzledId_withReader, pushFunctionDefinition_withReader, GetNextVersionId_withReader]

theorem Process_arithmetic_body_withReader (iop fop : Nat) (again : Bool) (t0 t1 t2 : Nat)
    (s : ShaderConverter) (a b : Nat) :
    Process_arithmetic_body iop fop again t0 t1 t2 (s.withReader a b) =
      (Process_arithmetic_body iop fop again t0 t1 t2 s).withReader a b := by
  unfold Process_arithmetic_body
  simp only [GetTypeByRegister_withReader, GetSpirVTypeId_withReader, snagNextId_withReader]
  cases again <;>
  split_ifs <;>
    simp only [GetSwizzledId_withReader, emitArithmetic_withReader, loadArgument_withReader,
      GetSpirVTypeId_withReader, Bool.false_eq_true, if_false, if_true]

theorem Process_DP_body_withReader (t0 t1 t2 : Nat) (s : ShaderConverter) (a b : Nat) :
    Process_DP_body t0 t1 t2 (s.withReader a b) = (Process_DP_body t0 t1 t2 s).withReader a b := by
  unfold Process_DP_body
  simp only [GetSpirVTypeId_Op_withReader, GetNextVersionId_withReader, snagNextId_withReader,
    GetSwizzledId_withReader, pushFunctionDefinition_withReader]

theorem Process_TEX_body_withReader (t0 t1 t2 : Nat) (s : ShaderConverter) (a b : Nat) :
    Process_TEX_body t0 t1 t2 (s.withReader a b) =
      (Process_TEX_body t0 t1 t2 s).withReader a b := by
  unfold Process_TEX_body
  simp only [GetSpirVTypeId_withReader, GetNextVersionId_withReader, snagNextId_withReader,
    GetSwizzledId_withReader, pushFunctionDefinition_withReader]

theorem Process_MAD_body_withReader (t0 t1 t2 t3 : Nat) (s : ShaderConverter) (a b : Nat) :
    Process_MAD_body t0 t1 t2 t3 (s.withReader a b) =
      (Process_MAD_body t0 t1 t2 t3 s).withReader a b := by
  unfold Process_MAD_body
  simp only [GetTypeByRegister_withReader, GetSpirVTypeId_withReader, snagNextId_withReader]
  split_ifs <;>
    simp only [GetSwizzledId_withReader, emitMultiplyAdd_withReader, loadArgument_withReader,
      GetSpirVTypeId_withReader, GetNextVersionId_withReader]

theorem withReader_mConvertedShader (s : ShaderConverter) (a b : Nat) :
    (s.withReader a b).mConvertedShader = s.mConvertedShader := rfl

theorem Process_DCL_Pixel_body_withReader (t0 t1 : Nat) (s : ShaderConverter) (a b : Nat) :
    Process_DCL_Pixel_body t0 t1 (s.withReader a b) =
      (Process_DCL_Pixel_body t0 t1 s).map (fun r => r.withReader a b) := by
  unfold Process_DCL_Pixel_body
  simp only [GetNextVersionId_withReader, setIdType_withReader, GetSpirVTypeId_withReader,
    GetSpirVTypeId_Op2_withReader, pushType_withReader, withReader_mConvertedShader]
  split_ifs
  · rfl
  · rfl
  · split <;> rfl
  · rfl

theorem Process_DCL_Vertex_body_withReader (t0 t1 : Nat) (s : ShaderConverter) (a b : Nat) :
    Process_DCL_Vertex_body t0 t1 (s.withReader a b) =
      (Process_DCL_Vertex_body t0 t1 s).map (fun r => r.withReader a b) := by
  unfold Process_DCL_Vertex_body
  simp only [GetNextVersionId_withReader, setIdType_withReader, GetSpirVTypeId_withReader,
    pushInterfaceId_withReader, pushType_withReader, withReader_mConvertedShader]
  split_ifs
  · split <;> rfl
  · rfl
  · rfl
  · rfl
/-! ## The setters of the head and of the tail of `Convert` -/

theorem clearInstructions_withReader (s : ShaderConverter) (a b : Nat) :
    (s.withReader a b).clearInstructions = (s.clearInstructions).withReader a b := rfl

theorem pushInstructions_withReader (s : ShaderConverter) (ws : List Nat) (a b : Nat) :
    (s.withReader a b).pushInstructions ws = (s.pushInstructions ws).withReader a b := rfl

theorem pushCapability_withReader (s : ShaderConverter) (ws : List Nat) (a b : Nat) :
    (s.withReader a b).pushCapability ws = (s.pushCapability ws).withReader a b := rfl

theorem pushExtension_withReader (s : ShaderConverter) (ws : List Nat) (a b : Nat) :
    (s.withReader a b).pushExtension ws = (s.pushExtension ws).withReader a b := rfl

theorem pushMemoryModel_withReader (s : ShaderConverter) (ws : List Nat) (a b : Nat) :
    (s.withReader a b).pushMemoryModel ws = (s.pushMemoryModel ws).withReader a b := rfl

theorem pushEntryPoint_withReader (s : ShaderConverter) (ws : List Nat) (a b : Nat) :
    (s.withReader a b).pushEntryPoint ws = (s.pushEntryPoint ws).withReader a b := rfl

theorem pushExecutionMode_withReader (s : ShaderConverter) (ws : List Nat) (a b : Nat) :
    (s.withReader a b).pushExecutionMode ws = (s.pushExecutionMode ws).withReader a b := rfl

theorem setVersion_withReader (s : ShaderConverter) (x : Nat) (y : Nat) (a b : Nat) :
    (s.withReader a b).setVersion x y = (s.setVersion x y).withReader a b := rfl

theorem setIsVertexShader_withReader (s : ShaderConverter) (x : Bool) (a b : Nat) :
    (s.withReader a b).setIsVertexShader x = (s.setIsVertexShader x).withReader a b := rfl

theorem setEntryPointTypeId_withReader (s : ShaderConverter) (x : Nat) (a b : Nat) :
    (s.withReader a b).setEntryPointTypeId x = (s.setEntryPointTypeId x).withReader a b := rfl

theorem setEntryPointId_withReader (s : ShaderConverter) (x : Nat) (a b : Nat) :
    (s.withReader a b).setEntryPointId x = (s.setEntryPointId x).withReader a b := rfl

/-! ## Field by field: what the setters of the tail of `Convert` leave alone -/

@[simp] theorem pushFunctionDefinition_mNextToken (s : ShaderConverter) (ws : List Nat) :
    (s.pushFunctionDefinition ws).mNextToken = s.mNextToken := rfl
@[simp] theorem pushFunctionDefinition_mTokenOffset (s : ShaderConverter) (ws : List Nat) :
    (s.pushFunctionDefinition ws).mTokenOffset = s.mTokenOffset := rfl
@[simp] theorem pushFunctionDefinition_mNextId (s : ShaderConverter) (ws : List Nat) :
    (s.pushFunctionDefinition ws).mNextId = s.mNextId := rfl
@[simp] theorem pushFunctionDefinition_mMajorVersion (s : ShaderConverter) (ws : List Nat) :
    (s.pushFunctionDefinition ws).mMajorVersion = s.mMajorVersion := rfl
@[simp] theorem pushFunctionDefinition_mMinorVersion (s : ShaderConverter) (ws : List Nat) :
    (s.pushFunctionDefinition ws).mMinorVersion = s.mMinorVersion := rfl
@[simp] theorem pushFunctionDefinition_mIsVertexShader (s : ShaderConverter) (ws : List Nat) :
    (s.pushFunctionDefinition ws).mIsVertexShader = s.mIsVertexShader := rfl
@[simp] theorem pushFunctionDefinition_mEntryPointTypeId (s : ShaderConverter) (ws : List Nat) :
    (s.pushFunctionDefinition ws).mEntryPointTypeId = s.mEntryPointTypeId := rfl
@[simp] theorem pushFunctionDefinition_mEntryPointId (s : ShaderConverter) (ws : List Nat) :
    (s.pushFunctionDefinition ws).mEntryPointId = s.mEntryPointId := rfl
@[simp] theorem pushFunctionDefinition_mPositionRegister (s : ShaderConverter) (ws : List Nat) :
    (s.pushFunctionDefinition ws).mPositionRegister = s.mPositionRegister := rfl
@[simp] theorem pushFunctionDefinition_mTypeIdPairs (s : ShaderConverter) (ws : List Nat) :
    (s.pushFunctionDefinition ws).mTypeIdPairs = s.mTypeIdPairs := rfl
@[simp] theorem pushFunctionDefinition_mIdTypePairs (s : ShaderConverter) (ws : List Nat) :
    (s.pushFunctionDefinition ws).mIdTypePairs = s.mIdTypePairs := rfl
@[simp] theorem pushFunctionDefinition_mIdsByRegister (s : ShaderConverter) (ws : List Nat) :
    (s.pushFunctionDefinition ws).mIdsByRegister = s.mIdsByRegister := rfl
@[simp] theorem pushFunctionDefinition_mRegistersById (s : ShaderConverter) (ws : List Nat) :
    (s.pushFunctionDefinition ws).mRegistersById = s.mRegistersById := rfl
@[simp] theorem pushFunctionDefinition_mInterfaceIds (s : ShaderConverter) (ws : List Nat) :
    (s.pushFunctionDefinition ws).mInterfaceIds = s.mInterfaceIds := rfl
@[simp] theorem pushFunctionDefinition_mInstructions (s : ShaderConverter) (ws : List Nat) :
    (s.pushFunctionDefinition ws).mInstructions = s.mInstructions := rfl
@[simp] theorem pushFunctionDefinition_mCapabilityInstructions (s : ShaderConverter) (ws : List Nat) :
    (s.pushFunctionDefinition ws).mCapabilityInstructions = s.mCapabilityInstructions := rfl
@[simp] theorem pushFunctionDefinition_mExtensionInstructions (s : ShaderConverter) (ws : List Nat) :
    (s.pushFunctionDefinition ws).mExtensionInstructions = s.mExtensionInstructions := rfl
@[simp] theorem pushFunctionDefinition_mImportExtendedInstructions (s : ShaderConverter) (ws : List Nat) :
    (s.pushFunctionDefinition ws).mImportExtendedInstructions = s.mImportExtendedInstructions := rfl
@[simp] theorem pushFunctionDefinition_mMemoryModelInstructions (s : ShaderConverter) (ws : List Nat) :
    (s.pushFunctionDefinition ws).mMemoryModelInstructions = s.mMemoryModelInstructions := rfl
@[simp] theorem pushFunctionDefinition_mEntryPointInstructions (s : ShaderConverter) (ws : List Nat) :
    (s.pushFunctionDefinition ws).mEntryPointInstructions = s.mEntryPointInstructions := rfl
@[simp] theorem pushFunctionDefinition_mExecutionModeInstructions (s : ShaderConverter) (ws : List Nat) :
    (s.pushFunctionDefinition ws).mExecutionModeInstructions = s.mExecutionModeInstructions := rfl
@[simp] theorem pushFunctionDefinition_mStringInstructions (s : ShaderConverter) (ws : List Nat) :
    (s.pushFunctionDefinition ws).mStringInstructions = s.mStringInstructions := rfl
@[simp] theorem pushFunctionDefinition_mSourceExtensionInstructions (s : ShaderConverter) (ws : List Nat) :
    (s.pushFunctionDefinition ws).mSourceExtensionInstructions = s.mSourceExtensionInstructions := rfl
@[simp] theorem pushFunctionDefinition_mSourceInstructions (s : ShaderConverter) (ws : List Nat) :
    (s.pushFunctionDefinition ws).mSourceInstructions = s.mSourceInstructions := rfl
@[simp] theorem pushFunctionDefinition_mSourceContinuedInstructions (s : ShaderConverter) (ws : List Nat) :
    (s.pushFunctionDefinition ws).mSourceContinuedInstructions = s.mSourceContinuedInstructions := rfl
@[simp] theorem pushFunctionDefinition_mNameInstructions (s : ShaderConverter) (ws : List Nat) :
    (s.pushFunctionDefinition ws).mNameInstructions = s.mNameInstructions := rfl
@[simp] theorem pushFunctionDefinition_mMemberNameInstructions (s : ShaderConverter) (ws : List Nat) :
    (s.pushFunctionDefinition ws).mMemberNameInstructions = s.mMemberNameInstructions := rfl
@[simp] theorem pushFunctionDefinition_mDecorateInstructions (s : ShaderConverter) (ws : List Nat) :
    (s.pushFunctionDefinition ws).mDecorateInstructions = s.mDecorateInstructions := rfl
@[simp] theorem pushFunctionDefinition_mMemberDecorateInstructions (s : ShaderConverter) (ws : List Nat) :
    (s.pushFunctionDefinition ws).mMemberDecorateInstructions = s.mMemberDecorateInstructions := rfl
@[simp] theorem pushFunctionDefinition_mGroupDecorateInstructions (s : ShaderConverter) (ws : List Nat) :
    (s.pushFunctionDefinition ws).mGroupDecorateInstructions = s.mGroupDecorateInstructions := rfl
@[simp] theorem pushFunctionDefinition_mGroupMemberDecorateInstructions (s : ShaderConverter) (ws : List Nat) :
    (s.pushFunctionDefinition ws).mGroupMemberDecorateInstructions = s.mGroupMemberDecorateInstructions := rfl
@[simp] theorem pushFunctionDefinition_mDecorationGroupInstructions (s : ShaderConverter) (ws : List Nat) :
    (s.pushFunctionDefinition ws).mDecorationGroupInstructions = s.mDecorationGroupInstructions := rfl
@[simp] theorem pushFunctionDefinition_mTypeInstructions (s : ShaderConverter) (ws : List Nat) :
    (s.pushFunctionDefinition ws).mTypeInstructions = s.mTypeInstructions := rfl
@[simp] theorem pushFunctionDefinition_mFunctionDeclarationInstructions (s : ShaderConverter) (ws : List Nat) :
    (s.pushFunctionDefinition ws).mFunctionDeclarationInstructions = s.mFunctionDeclarationInstructions := rfl
@[simp] theorem pushFunctionDefinition_mFunctionDefinitionInstructions (s : ShaderConverter) (ws : List Nat) :
    (s.pushFunctionDefinition ws).mFunctionDefinitionInstructions = s.mFunctionDefinitionInstructions ++ ws := rfl
@[simp] theorem pushFunctionDefinition_mConvertedShader (s : ShaderConverter) (ws : List Nat) :
    (s.pushFunctionDefinition ws).mConvertedShader = s.mConvertedShader := rfl

@[simp] theorem pushCapability_mNextToken (s : ShaderConverter) (ws : List Nat) :
    (s.pushCapability ws).mNextToken = s.mNextToken := rfl
@[simp] theorem pushCapability_mTokenOffset (s : ShaderConverter) (ws : List Nat) :
    (s.pushCapability ws).mTokenOffset = s.mTokenOffset := rfl
@[simp] theorem pushCapability_mNextId (s : ShaderConverter) (ws : List Nat) :
    (s.pushCapability ws).mNextId = s.mNextId := rfl
@[simp] theorem pushCapability_mMajorVersion (s : ShaderConverter) (ws : List Nat) :
    (s.pushCapability ws).mMajorVersion = s.mMajorVersion := rfl
@[simp] theorem pushCapability_mMinorVersion (s : ShaderConverter) (ws : List Nat) :
    (s.pushCapability ws).mMinorVersion = s.mMinorVersion := rfl
@[simp] theorem pushCapability_mIsVertexShader (s : ShaderConverter) (ws : List Nat) :
    (s.pushCapability ws).mIsVertexShader = s.mIsVertexShader := rfl
@[simp] theorem pushCapability_mEntryPointTypeId (s : ShaderConverter) (ws : List Nat) :
    (s.pushCapability ws).mEntryPointTypeId = s.mEntryPointTypeId := rfl
@[simp] theorem pushCapability_mEntryPointId (s : ShaderConverter) (ws : List Nat) :
    (s.pushCapability ws).mEntryPointId = s.mEntryPointId := rfl
@[simp] theorem pushCapability_mPositionRegister (s : ShaderConverter) (ws : List Nat) :
    (s.pushCapability ws).mPositionRegister = s.mPositionRegister := rfl
@[simp] theorem pushCapability_mTypeIdPairs (s : ShaderConverter) (ws : List Nat) :
    (s.pushCapability ws).mTypeIdPairs = s.mTypeIdPairs := rfl
@[simp] theorem pushCapability_mIdTypePairs (s : ShaderConverter) (ws : List Nat) :
    (s.pushCapability ws).mIdTypePairs = s.mIdTypePairs := rfl
@[simp] theorem pushCapability_mIdsByRegister (s : ShaderConverter) (ws : List Nat) :
    (s.pushCapability ws).mIdsByRegister = s.mIdsByRegister := rfl
@[simp] theorem pushCapability_mRegistersById (s : ShaderConverter) (ws : List Nat) :
    (s.pushCapability ws).mRegistersById = s.mRegistersById := rfl
@[simp] theorem pushCapability_mInterfaceIds (s : ShaderConverter) (ws : List Nat) :
    (s.pushCapability ws).mInterfaceIds = s.mInterfaceIds := rfl
@[simp] theorem pushCapability_mInstructions (s : ShaderConverter) (ws : List Nat) :
    (s.pushCapability ws).mInstructions = s.mInstructions := rfl
@[simp] theorem pushCapability_mCapabilityInstructions (s : ShaderConverter) (ws : List Nat) :
    (s.pushCapability ws).mCapabilityInstructions = s.mCapabilityInstructions ++ ws := rfl
@[simp] theorem pushCapability_mExtensionInstructions (s : ShaderConverter) (ws : List Nat) :
    (s.pushCapability ws).mExtensionInstructions = s.mExtensionInstructions := rfl
@[simp] theorem pushCapability_mImportExtendedInstructions (s : ShaderConverter) (ws : List Nat) :
    (s.pushCapability ws).mImportExtendedInstructions = s.mImportExtendedInstructions := rfl
@[simp] theorem pushCapability_mMemoryModelInstructions (s : ShaderConverter) (ws : List Nat) :
    (s.pushCapability ws).mMemoryModelInstructions = s.mMemoryModelInstructions := rfl
@[simp] theorem pushCapability_mEntryPointInstructions (s : ShaderConverter) (ws : List Nat) :
    (s.pushCapability ws).mEntryPointInstructions = s.mEntryPointInstructions := rfl
@[simp] theorem pushCapability_mExecutionModeInstructions (s : ShaderConverter) (ws : List Nat) :
    (s.pushCapability ws).mExecutionModeInstructions = s.mExecutionModeInstructions := rfl
@[simp] theorem pushCapability_mStringInstructions (s : ShaderConverter) (ws : List Nat) :
    (s.pushCapability ws).mStringInstructions = s.mStringInstructions := rfl
@[simp] theorem pushCapability_mSourceExtensionInstructions (s : ShaderConverter) (ws : List Nat) :
    (s.pushCapability ws).mSourceExtensionInstructions = s.mSourceExtensionInstructions := rfl
@[simp] theorem pushCapability_mSourceInstructions (s : ShaderConverter) (ws : List Nat) :
    (s.pushCapability ws).mSourceInstructions = s.mSourceInstructions := rfl
@[simp] theorem pushCapability_mSourceContinuedInstructions (s : ShaderConverter) (ws : List Nat) :
    (s.pushCapability ws).mSourceContinuedInstructions = s.mSourceContinuedInstructions := rfl
@[simp] theorem pushCapability_mNameInstructions (s : ShaderConverter) (ws : List Nat) :
    (s.pushCapability ws).mNameInstructions = s.mNameInstructions := rfl
@[simp] theorem pushCapability_mMemberNameInstructions (s : ShaderConverter) (ws : List Nat) :
    (s.pushCapability ws).mMemberNameInstructions = s.mMemberNameInstructions := rfl
@[simp] theorem pushCapability_mDecorateInstructions (s : ShaderConverter) (ws : List Nat) :
    (s.pushCapability ws).mDecorateInstructions = s.mDecorateInstructions := rfl
@[simp] theorem pushCapability_mMemberDecorateInstructions (s : ShaderConverter) (ws : List Nat) :
    (s.pushCapability ws).mMemberDecorateInstructions = s.mMemberDecorateInstructions := rfl
@[simp] theorem pushCapability_mGroupDecorateInstructions (s : ShaderConverter) (ws : List Nat) :
    (s.pushCapability ws).mGroupDecorateInstructions = s.mGroupDecorateInstructions := rfl
@[simp] theorem pushCapability_mGroupMemberDecorateInstructions (s : ShaderConverter) (ws : List Nat) :
    (s.pushCapability ws).mGroupMemberDecorateInstructions = s.mGroupMemberDecorateInstructions := rfl
@[simp] theorem pushCapability_mDecorationGroupInstructions (s : ShaderConverter) (ws : List Nat) :
    (s.pushCapability ws).mDecorationGroupInstructions = s.mDecorationGroupInstructions := rfl
@[simp] theorem pushCapability_mTypeInstructions (s : ShaderConverter) (ws : List Nat) :
    (s.pushCapability ws).mTypeInstructions = s.mTypeInstructions := rfl
@[simp] theorem pushCapability_mFunctionDeclarationInstructions (s : ShaderConverter) (ws : List Nat) :
    (s.pushCapability ws).mFunctionDeclarationInstructions = s.mFunctionDeclarationInstructions := rfl
@[simp] theorem pushCapability_mFunctionDefinitionInstructions (s : ShaderConverter) (ws : List Nat) :
    (s.pushCapability ws).mFunctionDefinitionInstructions = s.mFunctionDefinitionInstructions := rfl
@[simp] theorem pushCapability_mConvertedShader (s : ShaderConverter) (ws : List Nat) :
    (s.pushCapability ws).mConvertedShader = s.mConvertedShader := rfl

@[simp] theorem pushExtension_mNextToken (s : ShaderConverter) (ws : List Nat) :
    (s.pushExtension ws).mNextToken = s.mNextToken := rfl
@[simp] theorem pushExtension_mTokenOffset (s : ShaderConverter) (ws : List Nat) :
    (s.pushExtension ws).mTokenOffset = s.mTokenOffset := rfl
@[simp] theorem pushExtension_mNextId (s : ShaderConverter) (ws : List Nat) :
    (s.pushExtension ws).mNextId = s.mNextId := rfl
@[simp] theorem pushExtension_mMajorVersion (s : ShaderConverter) (ws : List Nat) :
    (s.pushExtension ws).mMajorVersion = s.mMajorVersion := rfl
@[simp] theorem pushExtension_mMinorVersion (s : ShaderConverter) (ws : List Nat) :
    (s.pushExtension ws).mMinorVersion = s.mMinorVersion := rfl
@[simp] theorem pushExtension_mIsVertexShader (s : ShaderConverter) (ws : List Nat) :
    (s.pushExtension ws).mIsVertexShader = s.mIsVertexShader := rfl
@[simp] theorem pushExtension_mEntryPointTypeId (s : ShaderConverter) (ws : List Nat) :
    (s.pushExtension ws).mEntryPointTypeId = s.mEntryPointTypeId := rfl
@[simp] theorem pushExtension_mEntryPointId (s : ShaderConverter) (ws : List Nat) :
    (s.pushExtension ws).mEntryPointId = s.mEntryPointId := rfl
@[simp] theorem pushExtension_mPositionRegister (s : ShaderConverter) (ws : List Nat) :
    (s.pushExtension ws).mPositionRegister = s.mPositionRegister := rfl
@[simp] theorem pushExtension_mTypeIdPairs (s : ShaderConverter) (ws : List Nat) :
    (s.pushExtension ws).mTypeIdPairs = s.mTypeIdPairs := rfl
@[simp] theorem pushExtension_mIdTypePairs (s : ShaderConverter) (ws : List Nat) :
    (s.pushExtension ws).mIdTypePairs = s.mIdTypePairs := rfl
@[simp] theorem pushExtension_mIdsByRegister (s : ShaderConverter) (ws : List Nat) :
    (s.pushExtension ws).mIdsByRegister = s.mIdsByRegister := rfl
@[simp] theorem pushExtension_mRegistersById (s : ShaderConverter) (ws : List Nat) :
    (s.pushExtension ws).mRegistersById = s.mRegistersById := rfl
@[simp] theorem pushExtension_mInterfaceIds (s : ShaderConverter) (ws : List Nat) :
    (s.pushExtension ws).mInterfaceIds = s.mInterfaceIds := rfl
@[simp] theorem pushExtension_mInstructions (s : ShaderConverter) (ws : List Nat) :
    (s.pushExtension ws).mInstructions = s.mInstructions := rfl
@[simp] theorem pushExtension_mCapabilityInstructions (s : ShaderConverter) (ws : List Nat) :
    (s.pushExtension ws).mCapabilityInstructions = s.mCapabilityInstructions := rfl
@[simp] theorem pushExtension_mExtensionInstructions (s : ShaderConverter) (ws : List Nat) :
    (s.pushExtension ws).mExtensionInstructions = s.mExtensionInstructions ++ ws := rfl
@[simp] theorem pushExtension_mImportExtendedInstructions (s : ShaderConverter) (ws : List Nat) :
    (s.pushExtension ws).mImportExtendedInstructions = s.mImportExtendedInstructions := rfl
@[simp] theorem pushExtension_mMemoryModelInstructions (s : ShaderConverter) (ws : List Nat) :
    (s.pushExtension ws).mMemoryModelInstructions = s.mMemoryModelInstructions := rfl
@[simp] theorem pushExtension_mEntryPointInstructions (s : ShaderConverter) (ws : List Nat) :
    (s.pushExtension ws).mEntryPointInstructions = s.mEntryPointInstructions := rfl
@[simp] theorem pushExtension_mExecutionModeInstructions (s : ShaderConverter) (ws : List Nat) :
    (s.pushExtension ws).mExecutionModeInstructions = s.mExecutionModeInstructions := rfl
@[simp] theorem pushExtension_mStringInstructions (s : ShaderConverter) (ws : List Nat) :
    (s.pushExtension ws).mStringInstructions = s.mStringInstructions := rfl
@[simp] theorem pushExtension_mSourceExtensionInstructions (s : ShaderConverter) (ws : List Nat) :
    (s.pushExtension ws).mSourceExtensionInstructions = s.mSourceExtensionInstructions := rfl
@[simp] theorem pushExtension_mSourceInstructions (s : ShaderConverter) (ws : List Nat) :
    (s.pushExtension ws).mSourceInstructions = s.mSourceInstructions := rfl
@[simp] theorem pushExtension_mSourceContinuedInstructions (s : ShaderConverter) (ws : List Nat) :
    (s.pushExtension ws).mSourceContinuedInstructions = s.mSourceContinuedInstructions := rfl
@[simp] theorem pushExtension_mNameInstructions (s : ShaderConverter) (ws : List Nat) :
    (s.pushExtension ws).mNameInstructions = s.mNameInstructions := rfl
@[simp] theorem pushExtension_mMemberNameInstructions (s : ShaderConverter) (ws : List Nat) :
    (s.pushExtension ws).mMemberNameInstructions = s.mMemberNameInstructions := rfl
@[simp] theorem pushExtension_mDecorateInstructions (s : ShaderConverter) (ws : List Nat) :
    (s.pushExtension ws).mDecorateInstructions = s.mDecorateInstructions := rfl
@[simp] theorem pushExtension_mMemberDecorateInstructions (s : ShaderConverter) (ws : List Nat) :
    (s.pushExtension ws).mMemberDecorateInstructions = s.mMemberDecorateInstructions := rfl
@[simp] theorem pushExtension_mGroupDecorateInstructions (s : ShaderConverter) (ws : List Nat) :
    (s.pushExtension ws).mGroupDecorateInstructions = s.mGroupDecorateInstructions := rfl
@[simp] theorem pushExtension_mGroupMemberDecorateInstructions (s : ShaderConverter) (ws : List Nat) :
    (s.pushExtension ws).mGroupMemberDecorateInstructions = s.mGroupMemberDecorateInstructions := rfl
@[simp] theorem pushExtension_mDecorationGroupInstructions (s : ShaderConverter) (ws : List Nat) :
    (s.pushExtension ws).mDecorationGroupInstructions = s.mDecorationGroupInstructions := rfl
@[simp] theorem pushExtension_mTypeInstructions (s : ShaderConverter) (ws : List Nat) :
    (s.pushExtension ws).mTypeInstructions = s.mTypeInstructions := rfl
@[simp] theorem pushExtension_mFunctionDeclarationInstructions (s : ShaderConverter) (ws : List Nat) :
    (s.pushExtension ws).mFunctionDeclarationInstructions = s.mFunctionDeclarationInstructions := rfl
@[simp] theorem pushExtension_mFunctionDefinitionInstructions (s : ShaderConverter) (ws : List Nat) :
    (s.pushExtension ws).mFunctionDefinitionInstructions = s.mFunctionDefinitionInstructions := rfl
@[simp] theorem pushExtension_mConvertedShader (s : ShaderConverter) (ws : List Nat) :
    (s.pushExtension ws).mConvertedShader = s.mConvertedShader := rfl

@[simp] theorem pushMemoryModel_mNextToken (s : ShaderConverter) (ws : List Nat) :
    (s.pushMemoryModel ws).mNextToken = s.mNextToken := rfl
@[simp] theorem pushMemoryModel_mTokenOffset (s : ShaderConverter) (ws : List Nat) :
    (s.pushMemoryModel ws).mTokenOffset = s.mTokenOffset := rfl
@[simp] theorem pushMemoryModel_mNextId (s : ShaderConverter) (ws : List Nat) :
    (s.pushMemoryModel ws).mNextId = s.mNextId := rfl
@[simp] theorem pushMemoryModel_mMajorVersion (s : ShaderConverter) (ws : List Nat) :
    (s.pushMemoryModel ws).mMajorVersion = s.mMajorVersion := rfl
@[simp] theorem pushMemoryModel_mMinorVersion (s : ShaderConverter) (ws : List Nat) :
    (s.pushMemoryModel ws).mMinorVersion = s.mMinorVersion := rfl
@[simp] theorem pushMemoryModel_mIsVertexShader (s : ShaderConverter) (ws : List Nat) :
    (s.pushMemoryModel ws).mIsVertexShader = s.mIsVertexShader := rfl
@[simp] theorem pushMemoryModel_mEntryPointTypeId (s : ShaderConverter) (ws : List Nat) :
    (s.pushMemoryModel ws).mEntryPointTypeId = s.mEntryPointTypeId := rfl
@[simp] theorem pushMemoryModel_mEntryPointId (s : ShaderConverter) (ws : List Nat) :
    (s.pushMemoryModel ws).mEntryPointId = s.mEntryPointId := rfl
@[simp] theorem pushMemoryModel_mPositionRegister (s : ShaderConverter) (ws : List Nat) :
    (s.pushMemoryModel ws).mPositionRegister = s.mPositionRegister := rfl
@[simp] theorem pushMemoryModel_mTypeIdPairs (s : ShaderConverter) (ws : List Nat) :
    (s.pushMemoryModel ws).mTypeIdPairs = s.mTypeIdPairs := rfl
@[simp] theorem pushMemoryModel_mIdTypePairs (s : ShaderConverter) (ws : List Nat) :
    (s.pushMemoryModel ws).mIdTypePairs = s.mIdTypePairs := rfl
@[simp] theorem pushMemoryModel_mIdsByRegister (s : ShaderConverter) (ws : List Nat) :
    (s.pushMemoryModel ws).mIdsByRegister = s.mIdsByRegister := rfl
@[simp] theorem pushMemoryModel_mRegistersById (s : ShaderConverter) (ws : List Nat) :
    (s.pushMemoryModel ws).mRegistersById = s.mRegistersById := rfl
@[simp] theorem pushMemoryModel_mInterfaceIds (s : ShaderConverter) (ws : List Nat) :
    (s.pushMemoryModel ws).mInterfaceIds = s.mInterfaceIds := rfl
@[simp] theorem pushMemoryModel_mInstructions (s : ShaderConverter) (ws : List Nat) :
    (s.pushMemoryModel ws).mInstructions = s.mInstructions := rfl
@[simp] theorem pushMemoryModel_mCapabilityInstructions (s : ShaderConverter) (ws : List Nat) :
    (s.pushMemoryModel ws).mCapabilityInstructions = s.mCapabilityInstructions := rfl
@[simp] theorem pushMemoryModel_mExtensionInstructions (s : ShaderConverter) (ws : List Nat) :
    (s.pushMemoryModel ws).mExtensionInstructions = s.mExtensionInstructions := rfl
@[simp] theorem pushMemoryModel_mImportExtendedInstructions (s : ShaderConverter) (ws : List Nat) :
    (s.pushMemoryModel ws).mImportExtendedInstructions = s.mImportExtendedInstructions := rfl
@[simp] theorem pushMemoryModel_mMemoryModelInstructions (s : ShaderConverter) (ws : List Nat) :
    (s.pushMemoryModel ws).mMemoryModelInstructions = s.mMemoryModelInstructions ++ ws := rfl
@[simp] theorem pushMemoryModel_mEntryPointInstructions (s : ShaderConverter) (ws : List Nat) :
    (s.pushMemoryModel ws).mEntryPointInstructions = s.mEntryPointInstructions := rfl
@[simp] theorem pushMemoryModel_mExecutionModeInstructions (s : ShaderConverter) (ws : List Nat) :
    (s.pushMemoryModel ws).mExecutionModeInstructions = s.mExecutionModeInstructions := rfl
@[simp] theorem pushMemoryModel_mStringInstructions (s : ShaderConverter) (ws : List Nat) :
    (s.pushMemoryModel ws).mStringInstructions = s.mStringInstructions := rfl
@[simp] theorem pushMemoryModel_mSourceExtensionInstructions (s : ShaderConverter) (ws : List Nat) :
    (s.pushMemoryModel ws).mSourceExtensionInstructions = s.mSourceExtensionInstructions := rfl
@[simp] theorem pushMemoryModel_mSourceInstructions (s : ShaderConverter) (ws : List Nat) :
    (s.pushMemoryModel ws).mSourceInstructions = s.mSourceInstructions := rfl
@[simp] theorem pushMemoryModel_mSourceContinuedInstructions (s : ShaderConverter) (ws : List Nat) :
    (s.pushMemoryModel ws).mSourceContinuedInstructions = s.mSourceContinuedInstructions := rfl
@[simp] theorem pushMemoryModel_mNameInstructions (s : ShaderConverter) (ws : List Nat) :
    (s.pushMemoryModel ws).mNameInstructions = s.mNameInstructions := rfl
@[simp] theorem pushMemoryModel_mMemberNameInstructions (s : ShaderConverter) (ws : List Nat) :
    (s.pushMemoryModel ws).mMemberNameInstructions = s.mMemberNameInstructions := rfl
@[simp] theorem pushMemoryModel_mDecorateInstructions (s : ShaderConverter) (ws : List Nat) :
    (s.pushMemoryModel ws).mDecorateInstructions = s.mDecorateInstructions := rfl
@[simp] theorem pushMemoryModel_mMemberDecorateInstructions (s : ShaderConverter) (ws : List Nat) :
    (s.pushMemoryModel ws).mMemberDecorateInstructions = s.mMemberDecorateInstructions := rfl
@[simp] theorem pushMemoryModel_mGroupDecorateInstructions (s : ShaderConverter) (ws : List Nat) :
    (s.pushMemoryModel ws).mGroupDecorateInstructions = s.mGroupDecorateInstructions := rfl
@[simp] theorem pushMemoryModel_mGroupMemberDecorateInstructions (s : ShaderConverter) (ws : List Nat) :
    (s.pushMemoryModel ws).mGroupMemberDecorateInstructions = s.mGroupMemberDecorateInstructions := rfl
@[simp] theorem pushMemoryModel_mDecorationGroupInstructions (s : ShaderConverter) (ws : List Nat) :
    (s.pushMemoryModel ws).mDecorationGroupInstructions = s.mDecorationGroupInstructions := rfl
@[simp] theorem pushMemoryModel_mTypeInstructions (s : ShaderConverter) (ws : List Nat) :
    (s.pushMemoryModel ws).mTypeInstructions = s.mTypeInstructions := rfl
@[simp] theorem pushMemoryModel_mFunctionDeclarationInstructions (s : ShaderConverter) (ws : List Nat) :
    (s.pushMemoryModel ws).mFunctionDeclarationInstructions = s.mFunctionDeclarationInstructions := rfl
@[simp] theorem pushMemoryModel_mFunctionDefinitionInstructions (s : ShaderConverter) (ws : List Nat) :
    (s.pushMemoryModel ws).mFunctionDefinitionInstructions = s.mFunctionDefinitionInstructions := rfl
@[simp] theorem pushMemoryModel_mConvertedShader (s : ShaderConverter) (ws : List Nat) :
    (s.pushMemoryModel ws).mConvertedShader = s.mConvertedShader := rfl

@[simp] theorem pushEntryPoint_mNextToken (s : ShaderConverter) (ws : List Nat) :
    (s.pushEntryPoint ws).mNextToken = s.mNextToken := rfl
@[simp] theorem pushEntryPoint_mTokenOffset (s : ShaderConverter) (ws : List Nat) :
    (s.pushEntryPoint ws).mTokenOffset = s.mTokenOffset := rfl
@[simp] theorem pushEntryPoint_mNextId (s : ShaderConverter) (ws : List Nat) :
    (s.pushEntryPoint ws).mNextId = s.mNextId := rfl
@[simp] theorem pushEntryPoint_mMajorVersion (s : ShaderConverter) (ws : List Nat) :
    (s.pushEntryPoint ws).mMajorVersion = s.mMajorVersion := rfl
@[simp] theorem pushEntryPoint_mMinorVersion (s : ShaderConverter) (ws : List Nat) :
    (s.pushEntryPoint ws).mMinorVersion = s.mMinorVersion := rfl
@[simp] theorem pushEntryPoint_mIsVertexShader (s : ShaderConverter) (ws : List Nat) :
    (s.pushEntryPoint ws).mIsVertexShader = s.mIsVertexShader := rfl
@[simp] theorem pushEntryPoint_mEntryPointTypeId (s : ShaderConverter) (ws : List Nat) :
    (s.pushEntryPoint ws).mEntryPointTypeId = s.mEntryPointTypeId := rfl
@[simp] theorem pushEntryPoint_mEntryPointId (s : ShaderConverter) (ws : List Nat) :
    (s.pushEntryPoint ws).mEntryPointId = s.mEntryPointId := rfl
@[simp] theorem pushEntryPoint_mPositionRegister (s : ShaderConverter) (ws : List Nat) :
    (s.pushEntryPoint ws).mPositionRegister = s.mPositionRegister := rfl
@[simp] theorem pushEntryPoint_mTypeIdPairs (s : ShaderConverter) (ws : List Nat) :
    (s.pushEntryPoint ws).mTypeIdPairs = s.mTypeIdPairs := rfl
@[simp] theorem pushEntryPoint_mIdTypePairs (s : ShaderConverter) (ws : List Nat) :
    (s.pushEntryPoint ws).mIdTypePairs = s.mIdTypePairs := rfl
@[simp] theorem pushEntryPoint_mIdsByRegister (s : ShaderConverter) (ws : List Nat) :
    (s.pushEntryPoint ws).mIdsByRegister = s.mIdsByRegister := rfl
@[simp] theorem pushEntryPoint_mRegistersById (s : ShaderConverter) (ws : List Nat) :
    (s.pushEntryPoint ws).mRegistersById = s.mRegistersById := rfl
@[simp] theorem pushEntryPoint_mInterfaceIds (s : ShaderConverter) (ws : List Nat) :
    (s.pushEntryPoint ws).mInterfaceIds = s.mInterfaceIds := rfl
@[simp] theorem pushEntryPoint_mInstructions (s : ShaderConverter) (ws : List Nat) :
    (s.pushEntryPoint ws).mInstructions = s.mInstructions := rfl
@[simp] theorem pushEntryPoint_mCapabilityInstructions (s : ShaderConverter) (ws : List Nat) :
    (s.pushEntryPoint ws).mCapabilityInstructions = s.mCapabilityInstructions := rfl
@[simp] theorem pushEntryPoint_mExtensionInstructions (s : ShaderConverter) (ws : List Nat) :
    (s.pushEntryPoint ws).mExtensionInstructions = s.mExtensionInstructions := rfl
@[simp] theorem pushEntryPoint_mImportExtendedInstructions (s : ShaderConverter) (ws : List Nat) :
    (s.pushEntryPoint ws).mImportExtendedInstructions = s.mImportExtendedInstructions := rfl
@[simp] theorem pushEntryPoint_mMemoryModelInstructions (s : ShaderConverter) (ws : List Nat) :
    (s.pushEntryPoint ws).mMemoryModelInstructions = s.mMemoryModelInstructions := rfl
@[simp] theorem pushEntryPoint_mEntryPointInstructions (s : ShaderConverter) (ws : List Nat) :
    (s.pushEntryPoint ws).mEntryPointInstructions = s.mEntryPointInstructions ++ ws := rfl
@[simp] theorem pushEntryPoint_mExecutionModeInstructions (s : ShaderConverter) (ws : List Nat) :
    (s.pushEntryPoint ws).mExecutionModeInstructions = s.mExecutionModeInstructions := rfl
@[simp] theorem pushEntryPoint_mStringInstructions (s : ShaderConverter) (ws : List Nat) :
    (s.pushEntryPoint ws).mStringInstructions = s.mStringInstructions := rfl
@[simp] theorem pushEntryPoint_mSourceExtensionInstructions (s : ShaderConverter) (ws : List Nat) :
    (s.pushEntryPoint ws).mSourceExtensionInstructions = s.mSourceExtensionInstructions := rfl
@[simp] theorem pushEntryPoint_mSourceInstructions (s : ShaderConverter) (ws : List Nat) :
    (s.pushEntryPoint ws).mSourceInstructions = s.mSourceInstructions := rfl
@[simp] theorem pushEntryPoint_mSourceContinuedInstructions (s : ShaderConverter) (ws : List Nat) :
    (s.pushEntryPoint ws).mSourceContinuedInstructions = s.mSourceContinuedInstructions := rfl
@[simp] theorem pushEntryPoint_mNameInstructions (s : ShaderConverter) (ws : List Nat) :
    (s.pushEntryPoint ws).mNameInstructions = s.mNameInstructions := rfl
@[simp] theorem pushEntryPoint_mMemberNameInstructions (s : ShaderConverter) (ws : List Nat) :
    (s.pushEntryPoint ws).mMemberNameInstructions = s.mMemberNameInstructions := rfl
@[simp] theorem pushEntryPoint_mDecorateInstructions (s : ShaderConverter) (ws : List Nat) :
    (s.pushEntryPoint ws).mDecorateInstructions = s.mDecorateInstructions := rfl
@[simp] theorem pushEntryPoint_mMemberDecorateInstructions (s : ShaderConverter) (ws : List Nat) :
    (s.pushEntryPoint ws).mMemberDecorateInstructions = s.mMemberDecorateInstructions := rfl
@[simp] theorem pushEntryPoint_mGroupDecorateInstructions (s : ShaderConverter) (ws : List Nat) :
    (s.pushEntryPoint ws).mGroupDecorateInstructions = s.mGroupDecorateInstructions := rfl
@[simp] theorem pushEntryPoint_mGroupMemberDecorateInstructions (s : ShaderConverter) (ws : List Nat) :
    (s.pushEntryPoint ws).mGroupMemberDecorateInstructions = s.mGroupMemberDecorateInstructions := rfl
@[simp] theorem pushEntryPoint_mDecorationGroupInstructions (s : ShaderConverter) (ws : List Nat) :
    (s.pushEntryPoint ws).mDecorationGroupInstructions = s.mDecorationGroupInstructions := rfl
@[simp] theorem pushEntryPoint_mTypeInstructions (s : ShaderConverter) (ws : List Nat) :
    (s.pushEntryPoint ws).mTypeInstructions = s.mTypeInstructions := rfl
@[simp] theorem pushEntryPoint_mFunctionDeclarationInstructions (s : ShaderConverter) (ws : List Nat) :
    (s.pushEntryPoint ws).mFunctionDeclarationInstructions = s.mFunctionDeclarationInstructions := rfl
@[simp] theorem pushEntryPoint_mFunctionDefinitionInstructions (s : ShaderConverter) (ws : List Nat) :
    (s.pushEntryPoint ws).mFunctionDefinitionInstructions = s.mFunctionDefinitionInstructions := rfl
@[simp] theorem pushEntryPoint_mConvertedShader (s : ShaderConverter) (ws : List Nat) :
    (s.pushEntryPoint ws).mConvertedShader = s.mConvertedShader := rfl

@[simp] theorem pushExecutionMode_mNextToken (s : ShaderConverter) (ws : List Nat) :
    (s.pushExecutionMode ws).mNextToken = s.mNextToken := rfl
@[simp] theorem pushExecutionMode_mTokenOffset (s : ShaderConverter) (ws : List Nat) :
    (s.pushExecutionMode ws).mTokenOffset = s.mTokenOffset := rfl
@[simp] theorem pushExecutionMode_mNextId (s : ShaderConverter) (ws : List Nat) :
    (s.pushExecutionMode ws).mNextId = s.mNextId := rfl
@[simp] theorem pushExecutionMode_mMajorVersion (s : ShaderConverter) (ws : List Nat) :
    (s.pushExecutionMode ws).mMajorVersion = s.mMajorVersion := rfl
@[simp] theorem pushExecutionMode_mMinorVersion (s : ShaderConverter) (ws : List Nat) :
    (s.pushExecutionMode ws).mMinorVersion = s.mMinorVersion := rfl
@[simp] theorem pushExecutionMode_mIsVertexShader (s : ShaderConverter) (ws : List Nat) :
    (s.pushExecutionMode ws).mIsVertexShader = s.mIsVertexShader := rfl
@[simp] theorem pushExecutionMode_mEntryPointTypeId (s : ShaderConverter) (ws : List Nat) :
    (s.pushExecutionMode ws).mEntryPointTypeId = s.mEntryPointTypeId := rfl
@[simp] theorem pushExecutionMode_mEntryPointId (s : ShaderConverter) (ws : List Nat) :
    (s.pushExecutionMode ws).mEntryPointId = s.mEntryPointId := rfl
@[simp] theorem pushExecutionMode_mPositionRegister (s : ShaderConverter) (ws : List Nat) :
    (s.pushExecutionMode ws).mPositionRegister = s.mPositionRegister := rfl
@[simp] theorem pushExecutionMode_mTypeIdPairs (s : ShaderConverter) (ws : List Nat) :
    (s.pushExecutionMode ws).mTypeIdPairs = s.mTypeIdPairs := rfl
@[simp] theorem pushExecutionMode_mIdTypePairs (s : ShaderConverter) (ws : List Nat) :
    (s.pushExecutionMode ws).mIdTypePairs = s.mIdTypePairs := rfl
@[simp] theorem pushExecutionMode_mIdsByRegister (s : ShaderConverter) (ws : List Nat) :
    (s.pushExecutionMode ws).mIdsByRegister = s.mIdsByRegister := rfl
@[simp] theorem pushExecutionMode_mRegistersById (s : ShaderConverter) (ws : List Nat) :
    (s.pushExecutionMode ws).mRegistersById = s.mRegistersById := rfl
@[simp] theorem pushExecutionMode_mInterfaceIds (s : ShaderConverter) (ws : List Nat) :
    (s.pushExecutionMode ws).mInterfaceIds = s.mInterfaceIds := rfl
@[simp] theorem pushExecutionMode_mInstructions (s : ShaderConverter) (ws : List Nat) :
    (s.pushExecutionMode ws).mInstructions = s.mInstructions := rfl
@[simp] theorem pushExecutionMode_mCapabilityInstructions (s : ShaderConverter) (ws : List Nat) :
    (s.pushExecutionMode ws).mCapabilityInstructions = s.mCapabilityInstructions := rfl
@[simp] theorem pushExecutionMode_mExtensionInstructions (s : ShaderConverter) (ws : List Nat) :
    (s.pushExecutionMode ws).mExtensionInstructions = s.mExtensionInstructions := rfl
@[simp] theorem pushExecutionMode_mImportExtendedInstructions (s : ShaderConverter) (ws : List Nat) :
    (s.pushExecutionMode ws).mImportExtendedInstructions = s.mImportExtendedInstructions := rfl
@[simp] theorem pushExecutionMode_mMemoryModelInstructions (s : ShaderConverter) (ws : List Nat) :
    (s.pushExecutionMode ws).mMemoryModelInstructions = s.mMemoryModelInstructions := rfl
@[simp] theorem pushExecutionMode_mEntryPointInstructions (s : ShaderConverter) (ws : List Nat) :
    (s.pushExecutionMode ws).mEntryPointInstructions = s.mEntryPointInstructions := rfl
@[simp] theorem pushExecutionMode_mExecutionModeInstructions (s : ShaderConverter) (ws : List Nat) :
    (s.pushExecutionMode ws).mExecutionModeInstructions = s.mExecutionModeInstructions ++ ws := rfl
@[simp] theorem pushExecutionMode_mStringInstructions (s : ShaderConverter) (ws : List Nat) :
    (s.pushExecutionMode ws).mStringInstructions = s.mStringInstructions := rfl
@[simp] theorem pushExecutionMode_mSourceExtensionInstructions (s : ShaderConverter) (ws : List Nat) :
    (s.pushExecutionMode ws).mSourceExtensionInstructions = s.mSourceExtensionInstructions := rfl
@[simp] theorem pushExecutionMode_mSourceInstructions (s : ShaderConverter) (ws : List Nat) :
    (s.pushExecutionMode ws).mSourceInstructions = s.mSourceInstructions := rfl
@[simp] theorem pushExecutionMode_mSourceContinuedInstructions (s : ShaderConverter) (ws : List Nat) :
    (s.pushExecutionMode ws).mSourceContinuedInstructions = s.mSourceContinuedInstructions := rfl
@[simp] theorem pushExecutionMode_mNameInstructions (s : ShaderConverter) (ws : List Nat) :
    (s.pushExecutionMode ws).mNameInstructions = s.mNameInstructions := rfl
@[simp] theorem pushExecutionMode_mMemberNameInstructions (s : ShaderConverter) (ws : List Nat) :
    (s.pushExecutionMode ws).mMemberNameInstructions = s.mMemberNameInstructions := rfl
@[simp] theorem pushExecutionMode_mDecorateInstructions (s : ShaderConverter) (ws : List Nat) :
    (s.pushExecutionMode ws).mDecorateInstructions = s.mDecorateInstructions := rfl
@[simp] theorem pushExecutionMode_mMemberDecorateInstructions (s : ShaderConverter) (ws : List Nat) :
    (s.pushExecutionMode ws).mMemberDecorateInstructions = s.mMemberDecorateInstructions := rfl
@[simp] theorem pushExecutionMode_mGroupDecorateInstructions (s : ShaderConverter) (ws : List Nat) :
    (s.pushExecutionMode ws).mGroupDecorateInstructions = s.mGroupDecorateInstructions := rfl
@[simp] theorem pushExecutionMode_mGroupMemberDecorateInstructions (s : ShaderConverter) (ws : List Nat) :
    (s.pushExecutionMode ws).mGroupMemberDecorateInstructions = s.mGroupMemberDecorateInstructions := rfl
@[simp] theorem pushExecutionMode_mDecorationGroupInstructions (s : ShaderConverter) (ws : List Nat) :
    (s.pushExecutionMode ws).mDecorationGroupInstructions = s.mDecorationGroupInstructions := rfl
@[simp] theorem pushExecutionMode_mTypeInstructions (s : ShaderConverter) (ws : List Nat) :
    (s.pushExecutionMode ws).mTypeInstructions = s.mTypeInstructions := rfl
@[simp] theorem pushExecutionMode_mFunctionDeclarationInstructions (s : ShaderConverter) (ws : List Nat) :
    (s.pushExecutionMode ws).mFunctionDeclarationInstructions = s.mFunctionDeclarationInstructions := rfl
@[simp] theorem pushExecutionMode_mFunctionDefinitionInstructions (s : ShaderConverter) (ws : List Nat) :
    (s.pushExecutionMode ws).mFunctionDefinitionInstructions = s.mFunctionDefinitionInstructions := rfl
@[simp] theorem pushExecutionMode_mConvertedShader (s : ShaderConverter) (ws : List Nat) :
    (s.pushExecutionMode ws).mConvertedShader = s.mConvertedShader := rfl

@[simp] theorem pushInstructions_mNextToken (s : ShaderConverter) (ws : List Nat) :
    (s.pushInstructions ws).mNextToken = s.mNextToken := rfl
@[simp] theorem pushInstructions_mTokenOffset (s : ShaderConverter) (ws : List Nat) :
    (s.pushInstructions ws).mTokenOffset = s.mTokenOffset := rfl
@[simp] theorem pushInstructions_mNextId (s : ShaderConverter) (ws : List Nat) :
    (s.pushInstructions ws).mNextId = s.mNextId := rfl
@[simp] theorem pushInstructions_mMajorVersion (s : ShaderConverter) (ws : List Nat) :
    (s.pushInstructions ws).mMajorVersion = s.mMajorVersion := rfl
@[simp] theorem pushInstructions_mMinorVersion (s : ShaderConverter) (ws : List Nat) :
    (s.pushInstructions ws).mMinorVersion = s.mMinorVersion := rfl
@[simp] theorem pushInstructions_mIsVertexShader (s : ShaderConverter) (ws : List Nat) :
    (s.pushInstructions ws).mIsVertexShader = s.mIsVertexShader := rfl
@[simp] theorem pushInstructions_mEntryPointTypeId (s : ShaderConverter) (ws : List Nat) :
    (s.pushInstructions ws).mEntryPointTypeId = s.mEntryPointTypeId := rfl
@[simp] theorem pushInstructions_mEntryPointId (s : ShaderConverter) (ws : List Nat) :
    (s.pushInstructions ws).mEntryPointId = s.mEntryPointId := rfl
@[simp] theorem pushInstructions_mPositionRegister (s : ShaderConverter) (ws : List Nat) :
    (s.pushInstructions ws).mPositionRegister = s.mPositionRegister := rfl
@[simp] theorem pushInstructions_mTypeIdPairs (s : ShaderConverter) (ws : List Nat) :
    (s.pushInstructions ws).mTypeIdPairs = s.mTypeIdPairs := rfl
@[simp] theorem pushInstructions_mIdTypePairs (s : ShaderConverter) (ws : List Nat) :
    (s.pushInstructions ws).mIdTypePairs = s.mIdTypePairs := rfl
@[simp] theorem pushInstructions_mIdsByRegister (s : ShaderConverter) (ws : List Nat) :
    (s.pushInstructions ws).mIdsByRegister = s.mIdsByRegister := rfl
@[simp] theorem pushInstructions_mRegistersById (s : ShaderConverter) (ws : List Nat) :
    (s.pushInstructions ws).mRegistersById = s.mRegistersById := rfl
@[simp] theorem pushInstructions_mInterfaceIds (s : ShaderConverter) (ws : List Nat) :
    (s.pushInstructions ws).mInterfaceIds = s.mInterfaceIds := rfl
@[simp] theorem pushInstructions_mInstructions (s : ShaderConverter) (ws : List Nat) :
    (s.pushInstructions ws).mInstructions = s.mInstructions ++ ws := rfl
@[simp] theorem pushInstructions_mCapabilityInstructions (s : ShaderConverter) (ws : List Nat) :
    (s.pushInstructions ws).mCapabilityInstructions = s.mCapabilityInstructions := rfl
@[simp] theorem pushInstructions_mExtensionInstructions (s : ShaderConverter) (ws : List Nat) :
    (s.pushInstructions ws).mExtensionInstructions = s.mExtensionInstructions := rfl
@[simp] theorem pushInstructions_mImportExtendedInstructions (s : ShaderConverter) (ws : List Nat) :
    (s.pushInstructions ws).mImportExtendedInstructions = s.mImportExtendedInstructions := rfl
@[simp] theorem pushInstructions_mMemoryModelInstructions (s : ShaderConverter) (ws : List Nat) :
    (s.pushInstructions ws).mMemoryModelInstructions = s.mMemoryModelInstructions := rfl
@[simp] theorem pushInstructions_mEntryPointInstructions (s : ShaderConverter) (ws : List Nat) :
    (s.pushInstructions ws).mEntryPointInstructions = s.mEntryPointInstructions := rfl
@[simp] theorem pushInstructions_mExecutionModeInstructions (s : ShaderConverter) (ws : List Nat) :
    (s.pushInstructions ws).mExecutionModeInstructions = s.mExecutionModeInstructions := rfl
@[simp] theorem pushInstructions_mStringInstructions (s : ShaderConverter) (ws : List Nat) :
    (s.pushInstructions ws).mStringInstructions = s.mStringInstructions := rfl
@[simp] theorem pushInstructions_mSourceExtensionInstructions (s : ShaderConverter) (ws : List Nat) :
    (s.pushInstructions ws).mSourceExtensionInstructions = s.mSourceExtensionInstructions := rfl
@[simp] theorem pushInstructions_mSourceInstructions (s : ShaderConverter) (ws : List Nat) :
    (s.pushInstructions ws).mSourceInstructions = s.mSourceInstructions := rfl
@[simp] theorem pushInstructions_mSourceContinuedInstructions (s : ShaderConverter) (ws : List Nat) :
    (s.pushInstructions ws).mSourceContinuedInstructions = s.mSourceContinuedInstructions := rfl
@[simp] theorem pushInstructions_mNameInstructions (s : ShaderConverter) (ws : List Nat) :
    (s.pushInstructions ws).mNameInstructions = s.mNameInstructions := rfl
@[simp] theorem pushInstructions_mMemberNameInstructions (s : ShaderConverter) (ws : List Nat) :
    (s.pushInstructions ws).mMemberNameInstructions = s.mMemberNameInstructions := rfl
@[simp] theorem pushInstructions_mDecorateInstructions (s : ShaderConverter) (ws : List Nat) :
    (s.pushInstructions ws).mDecorateInstructions = s.mDecorateInstructions := rfl
@[simp] theorem pushInstructions_mMemberDecorateInstructions (s : ShaderConverter) (ws : List Nat) :
    (s.pushInstructions ws).mMemberDecorateInstructions = s.mMemberDecorateInstructions := rfl
@[simp] theorem pushInstructions_mGroupDecorateInstructions (s : ShaderConverter) (ws : List Nat) :
    (s.pushInstructions ws).mGroupDecorateInstructions = s.mGroupDecorateInstructions := rfl
@[simp] theorem pushInstructions_mGroupMemberDecorateInstructions (s : ShaderConverter) (ws : List Nat) :
    (s.pushInstructions ws).mGroupMemberDecorateInstructions = s.mGroupMemberDecorateInstructions := rfl
@[simp] theorem pushInstructions_mDecorationGroupInstructions (s : ShaderConverter) (ws : List Nat) :
    (s.pushInstructions ws).mDecorationGroupInstructions = s.mDecorationGroupInstructions := rfl
@[simp] theorem pushInstructions_mTypeInstructions (s : ShaderConverter) (ws : List Nat) :
    (s.pushInstructions ws).mTypeInstructions = s.mTypeInstructions := rfl
@[simp] theorem pushInstructions_mFunctionDeclarationInstructions (s : ShaderConverter) (ws : List Nat) :
    (s.pushInstructions ws).mFunctionDeclarationInstructions = s.mFunctionDeclarationInstructions := rfl
@[simp] theorem pushInstructions_mFunctionDefinitionInstructions (s : ShaderConverter) (ws : List Nat) :
    (s.pushInstructions ws).mFunctionDefinitionInstructions = s.mFunctionDefinitionInstructions := rfl
@[simp] theorem pushInstructions_mConvertedShader (s : ShaderConverter) (ws : List Nat) :
    (s.pushInstructions ws).mConvertedShader = s.mConvertedShader := rfl

@[simp] theorem pushType_mNextToken (s : ShaderConverter) (ws : List Nat) :
    (s.pushType ws).mNextToken = s.mNextToken := rfl
@[simp] theorem pushType_mTokenOffset (s : ShaderConverter) (ws : List Nat) :
    (s.pushType ws).mTokenOffset = s.mTokenOffset := rfl
@[simp] theorem pushType_mNextId (s : ShaderConverter) (ws : List Nat) :
    (s.pushType ws).mNextId = s.mNextId := rfl
@[simp] theorem pushType_mMajorVersion (s : ShaderConverter) (ws : List Nat) :
    (s.pushType ws).mMajorVersion = s.mMajorVersion := rfl
@[simp] theorem pushType_mMinorVersion (s : ShaderConverter) (ws : List Nat) :
    (s.pushType ws).mMinorVersion = s.mMinorVersion := rfl
@[simp] theorem pushType_mIsVertexShader (s : ShaderConverter) (ws : List Nat) :
    (s.pushType ws).mIsVertexShader = s.mIsVertexShader := rfl
@[simp] theorem pushType_mEntryPointTypeId (s : ShaderConverter) (ws : List Nat) :
    (s.pushType ws).mEntryPointTypeId = s.mEntryPointTypeId := rfl
@[simp] theorem pushType_mEntryPointId (s : ShaderConverter) (ws : List Nat) :
    (s.pushType ws).mEntryPointId = s.mEntryPointId := rfl
@[simp] theorem pushType_mPositionRegister (s : ShaderConverter) (ws : List Nat) :
    (s.pushType ws).mPositionRegister = s.mPositionRegister := rfl
@[simp] theorem pushType_mTypeIdPairs (s : ShaderConverter) (ws : List Nat) :
    (s.pushType ws).mTypeIdPairs = s.mTypeIdPairs := rfl
@[simp] theorem pushType_mIdTypePairs (s : ShaderConverter) (ws : List Nat) :
    (s.pushType ws).mIdTypePairs = s.mIdTypePairs := rfl
@[simp] theorem pushType_mIdsByRegister (s : ShaderConverter) (ws : List Nat) :
    (s.pushType ws).mIdsByRegister = s.mIdsByRegister := rfl
@[simp] theorem pushType_mRegistersById (s : ShaderConverter) (ws : List Nat) :
    (s.pushType ws).mRegistersById = s.mRegistersById := rfl
@[simp] theorem pushType_mInterfaceIds (s : ShaderConverter) (ws : List Nat) :
    (s.pushType ws).mInterfaceIds = s.mInterfaceIds := rfl
@[simp] theorem pushType_mInstructions (s : ShaderConverter) (ws : List Nat) :
    (s.pushType ws).mInstructions = s.mInstructions := rfl
@[simp] theorem pushType_mCapabilityInstructions (s : ShaderConverter) (ws : List Nat) :
    (s.pushType ws).mCapabilityInstructions = s.mCapabilityInstructions := rfl
@[simp] theorem pushType_mExtensionInstructions (s : ShaderConverter) (ws : List Nat) :
    (s.pushType ws).mExtensionInstructions = s.mExtensionInstructions := rfl
@[simp] theorem pushType_mImportExtendedInstructions (s : ShaderConverter) (ws : List Nat) :
    (s.pushType ws).mImportExtendedInstructions = s.mImportExtendedInstructions := rfl
@[simp] theorem pushType_mMemoryModelInstructions (s : ShaderConverter) (ws : List Nat) :
    (s.pushType ws).mMemoryModelInstructions = s.mMemoryModelInstructions := rfl
@[simp] theorem pushType_mEntryPointInstructions (s : ShaderConverter) (ws : List Nat) :
    (s.pushType ws).mEntryPointInstructions = s.mEntryPointInstructions := rfl
@[simp] theorem pushType_mExecutionModeInstructions (s : ShaderConverter) (ws : List Nat) :
    (s.pushType ws).mExecutionModeInstructions = s.mExecutionModeInstructions := rfl
@[simp] theorem pushType_mStringInstructions (s : ShaderConverter) (ws : List Nat) :
    (s.pushType ws).mStringInstructions = s.mStringInstructions := rfl
@[simp] theorem pushType_mSourceExtensionInstructions (s : ShaderConverter) (ws : List Nat) :
    (s.pushType ws).mSourceExtensionInstructions = s.mSourceExtensionInstructions := rfl
@[simp] theorem pushType_mSourceInstructions (s : ShaderConverter) (ws : List Nat) :
    (s.pushType ws).mSourceInstructions = s.mSourceInstructions := rfl
@[simp] theorem pushType_mSourceContinuedInstructions (s : ShaderConverter) (ws : List Nat) :
    (s.pushType ws).mSourceContinuedInstructions = s.mSourceContinuedInstructions := rfl
@[simp] theorem pushType_mNameInstructions (s : ShaderConverter) (ws : List Nat) :
    (s.pushType ws).mNameInstructions = s.mNameInstructions := rfl
@[simp] theorem pushType_mMemberNameInstructions (s : ShaderConverter) (ws : List Nat) :
    (s.pushType ws).mMemberNameInstructions = s.mMemberNameInstructions := rfl
@[simp] theorem pushType_mDecorateInstructions (s : ShaderConverter) (ws : List Nat) :
    (s.pushType ws).mDecorateInstructions = s.mDecorateInstructions := rfl
@[simp] theorem pushType_mMemberDecorateInstructions (s : ShaderConverter) (ws : List Nat) :
    (s.pushType ws).mMemberDecorateInstructions = s.mMemberDecorateInstructions := rfl
@[simp] theorem pushType_mGroupDecorateInstructions (s : ShaderConverter) (ws : List Nat) :
    (s.pushType ws).mGroupDecorateInstructions = s.mGroupDecorateInstructions := rfl
@[simp] theorem pushType_mGroupMemberDecorateInstructions (s : ShaderConverter) (ws : List Nat) :
    (s.pushType ws).mGroupMemberDecorateInstructions = s.mGroupMemberDecorateInstructions := rfl
@[simp] theorem pushType_mDecorationGroupInstructions (s : ShaderConverter) (ws : List Nat) :
    (s.pushType ws).mDecorationGroupInstructions = s.mDecorationGroupInstructions := rfl
@[simp] theorem pushType_mTypeInstructions (s : ShaderConverter) (ws : List Nat) :
    (s.pushType ws).mTypeInstructions = s.mTypeInstructions ++ ws := rfl
@[simp] theorem pushType_mFunctionDeclarationInstructions (s : ShaderConverter) (ws : List Nat) :
    (s.pushType ws).mFunctionDeclarationInstructions = s.mFunctionDeclarationInstructions := rfl
@[simp] theorem pushType_mFunctionDefinitionInstructions (s : ShaderConverter) (ws : List Nat) :
    (s.pushType ws).mFunctionDefinitionInstructions = s.mFunctionDefinitionInstructions := rfl
@[simp] theorem pushType_mConvertedShader (s : ShaderConverter) (ws : List Nat) :
    (s.pushType ws).mConvertedShader = s.mConvertedShader := rfl

@[simp] theorem GetNextId_snd_mNextToken (s : ShaderConverter) :
    (GetNextId s).2.mNextToken = s.mNextToken := rfl
@[simp] theorem GetNextId_snd_mTokenOffset (s : ShaderConverter) :
    (GetNextId s).2.mTokenOffset = s.mTokenOffset := rfl
@[simp] theorem GetNextId_snd_mNextId (s : ShaderConverter) :
    (GetNextId s).2.mNextId = (s.mNextId + 1) % 4294967296 := rfl
@[simp] theorem GetNextId_snd_mMajorVersion (s : ShaderConverter) :
    (GetNextId s).2.mMajorVersion = s.mMajorVersion := rfl
@[simp] theorem GetNextId_snd_mMinorVersion (s : ShaderConverter) :
    (GetNextId s).2.mMinorVersion = s.mMinorVersion := rfl
@[simp] theorem GetNextId_snd_mIsVertexShader (s : ShaderConverter) :
    (GetNextId s).2.mIsVertexShader = s.mIsVertexShader := rfl
@[simp] theorem GetNextId_snd_mEntryPointTypeId (s : ShaderConverter) :
    (GetNextId s).2.mEntryPointTypeId = s.mEntryPointTypeId := rfl
@[simp] theorem GetNextId_snd_mEntryPointId (s : ShaderConverter) :
    (GetNextId s).2.mEntryPointId = s.mEntryPointId := rfl
@[simp] theorem GetNextId_snd_mPositionRegister (s : ShaderConverter) :
    (GetNextId s).2.mPositionRegister = s.mPositionRegister := rfl
@[simp] theorem GetNextId_snd_mTypeIdPairs (s : ShaderConverter) :
    (GetNextId s).2.mTypeIdPairs = s.mTypeIdPairs := rfl
@[simp] theorem GetNextId_snd_mIdTypePairs (s : ShaderConverter) :
    (GetNextId s).2.mIdTypePairs = s.mIdTypePairs := rfl
@[simp] theorem GetNextId_snd_mIdsByRegister (s : ShaderConverter) :
    (GetNextId s).2.mIdsByRegister = s.mIdsByRegister := rfl
@[simp] theorem GetNextId_snd_mRegistersById (s : ShaderConverter) :
    (GetNextId s).2.mRegistersById = s.mRegistersById := rfl
@[simp] theorem GetNextId_snd_mInterfaceIds (s : ShaderConverter) :
    (GetNextId s).2.mInterfaceIds = s.mInterfaceIds := rfl
@[simp] theorem GetNextId_snd_mInstructions (s : ShaderConverter) :
    (GetNextId s).2.mInstructions = s.mInstructions := rfl
@[simp] theorem GetNextId_snd_mCapabilityInstructions (s : ShaderConverter) :
    (GetNextId s).2.mCapabilityInstructions = s.mCapabilityInstructions := rfl
@[simp] theorem GetNextId_snd_mExtensionInstructions (s : ShaderConverter) :
    (GetNextId s).2.mExtensionInstructions = s.mExtensionInstructions := rfl
@[simp] theorem GetNextId_snd_mImportExtendedInstructions (s : ShaderConverter) :
    (GetNextId s).2.mImportExtendedInstructions = s.mImportExtendedInstructions := rfl
@[simp] theorem GetNextId_snd_mMemoryModelInstructions (s : ShaderConverter) :
    (GetNextId s).2.mMemoryModelInstructions = s.mMemoryModelInstructions := rfl
@[simp] theorem GetNextId_snd_mEntryPointInstructions (s : ShaderConverter) :
    (GetNextId s).2.mEntryPointInstructions = s.mEntryPointInstructions := rfl
@[simp] theorem GetNextId_snd_mExecutionModeInstructions (s : ShaderConverter) :
    (GetNextId s).2.mExecutionModeInstructions = s.mExecutionModeInstructions := rfl
@[simp] theorem GetNextId_snd_mStringInstructions (s : ShaderConverter) :
    (GetNextId s).2.mStringInstructions = s.mStringInstructions := rfl
@[simp] theorem GetNextId_snd_mSourceExtensionInstructions (s : ShaderConverter) :
    (GetNextId s).2.mSourceExtensionInstructions = s.mSourceExtensionInstructions := rfl
@[simp] theorem GetNextId_snd_mSourceInstructions (s : ShaderConverter) :
    (GetNextId s).2.mSourceInstructions = s.mSourceInstructions := rfl
@[simp] theorem GetNextId_snd_mSourceContinuedInstructions (s : ShaderConverter) :
    (GetNextId s).2.mSourceContinuedInstructions = s.mSourceContinuedInstructions := rfl
@[simp] theorem GetNextId_snd_mNameInstructions (s : ShaderConverter) :
    (GetNextId s).2.mNameInstructions = s.mNameInstructions := rfl
@[simp] theorem GetNextId_snd_mMemberNameInstructions (s : ShaderConverter) :
    (GetNextId s).2.mMemberNameInstructions = s.mMemberNameInstructions := rfl
@[simp] theorem GetNextId_snd_mDecorateInstructions (s : ShaderConverter) :
    (GetNextId s).2.mDecorateInstructions = s.mDecorateInstructions := rfl
@[simp] theorem GetNextId_snd_mMemberDecorateInstructions (s : ShaderConverter) :
    (GetNextId s).2.mMemberDecorateInstructions = s.mMemberDecorateInstructions := rfl
@[simp] theorem GetNextId_snd_mGroupDecorateInstructions (s : ShaderConverter) :
    (GetNextId s).2.mGroupDecorateInstructions = s.mGroupDecorateInstructions := rfl
@[simp] theorem GetNextId_snd_mGroupMemberDecorateInstructions (s : ShaderConverter) :
    (GetNextId s).2.mGroupMemberDecorateInstructions = s.mGroupMemberDecorateInstructions := rfl
@[simp] theorem GetNextId_snd_mDecorationGroupInstructions (s : ShaderConverter) :
    (GetNextId s).2.mDecorationGroupInstructions = s.mDecorationGroupInstructions := rfl
@[simp] theorem GetNextId_snd_mTypeInstructions (s : ShaderConverter) :
    (GetNextId s).2.mTypeInstructions = s.mTypeInstructions := rfl
@[simp] theorem GetNextId_snd_mFunctionDeclarationInstructions (s : ShaderConverter) :
    (GetNextId s).2.mFunctionDeclarationInstructions = s.mFunctionDeclarationInstructions := rfl
@[simp] theorem GetNextId_snd_mFunctionDefinitionInstructions (s : ShaderConverter) :
    (GetNextId s).2.mFunctionDefinitionInstructions = s.mFunctionDefinitionInstructions := rfl
@[simp] theorem GetNextId_snd_mConvertedShader (s : ShaderConverter) :
    (GetNextId s).2.mConvertedShader = s.mConvertedShader := rfl

@[simp] theorem GetNextId_fst (s : ShaderConverter) : (GetNextId s).1 = s.mNextId := rfl


/-! ## The handlers read their tokens and then work on them -/

theorem GetNextToken_eq (shader : List Nat) (s : ShaderConverter) :
    GetNextToken shader s =
      if s.mNextToken < shader.length then
        .ok (shader.getD s.mNextToken 0, s.withReader (s.mNextToken + 1) s.mTokenOffset)
      else .error .readPastEnd := by
  unfold GetNextToken
  split_ifs with h
  · rw [List.getElem?_eq_getElem h]
    simp only [List.getD_eq_getElem?_getD, List.getElem?_eq_getElem h, Option.getD_some]
    rfl
  · rw [List.getElem?_eq_none (by omega)]

theorem bind_GetNextToken {α : Type} (shader : List Nat) (s : ShaderConverter)
    (f : Nat × ShaderConverter → Except Fault α) :
    (GetNextToken shader s >>= f) =
      if s.mNextToken < shader.length then
        f (shader.getD s.mNextToken 0, s.withReader (s.mNextToken + 1) s.mTokenOffset)
      else .error .readPastEnd := by
  rw [GetNextToken_eq]
  split_ifs <;> rfl

theorem Process_MOV_readThen :
    Process_MOV = readThen 2 (fun t0 t1 _ _ _ s => .ok (Process_MOV_body t0 t1 s)) := by
  funext shader s
  unfold Process_MOV readThen
  simp only [bind_GetNextToken, withReader_mNextToken, withReader_mTokenOffset, tokenAt, Nat.add_zero,
    withReader_withReader, Process_MOV_body_withReader]
  split_ifs <;> first | omega | rfl

theorem Process_arithmetic_readThen
    (body : Nat → Nat → Nat → ShaderConverter → ShaderConverter)
    (hbody : ∀ t0 t1 t2 s a b, body t0 t1 t2 (s.withReader a b) = (body t0 t1 t2 s).withReader a b) :
    Process_arithmetic body = readThen 3 (fun t0 t1 t2 _ _ s => .ok (body t0 t1 t2 s)) := by
  funext shader s
  unfold Process_arithmetic readThen
  simp only [bind_GetNextToken, withReader_mNextToken, withReader_mTokenOffset, tokenAt, Nat.add_zero,
    withReader_withReader, hbody]
  split_ifs <;> first | omega | rfl

theorem Process_MAD_readThen :
    Process_MAD = readThen 4 (fun t0 t1 t2 t3 _ s => .ok (Process_MAD_body t0 t1 t2 t3 s)) := by
  funext shader s
  unfold Process_MAD readThen
  simp only [bind_GetNextToken, withReader_mNextToken, withReader_mTokenOffset, tokenAt, Nat.add_zero,
    withReader_withReader, Process_MAD_body_withReader]
  split_ifs <;> first | omega | rfl

theorem Process_DCL_Pixel_readThen :
    Process_DCL_Pixel = readThen 2 (fun t0 t1 _ _ _ s => Process_DCL_Pixel_body t0 t1 s) := by
  funext shader s
  unfold Process_DCL_Pixel readThen
  simp only [bind_GetNextToken, withReader_mNextToken, withReader_mTokenOffset, tokenAt, Nat.add_zero,
    withReader_withReader, Process_DCL_Pixel_body_withReader]
  split_ifs <;> first | omega | rfl | (cases Process_DCL_Pixel_body _ _ _ <;> rfl)

theorem Process_DCL_Vertex_readThen :
    Process_DCL_Vertex = readThen 2 (fun t0 t1 _ _ _ s => Process_DCL_Vertex_body t0 t1 s) := by
  funext shader s
  unfold Process_DCL_Vertex readThen
  simp only [bind_GetNextToken, withReader_mNextToken, withReader_mTokenOffset, tokenAt, Nat.add_zero,
    withReader_withReader, Process_DCL_Vertex_body_withReader]
  split_ifs <;> first | omega | rfl | (cases Process_DCL_Vertex_body _ _ _ <;> rfl)

theorem Process_DCL_readThen :
    Process_DCL = readThen 2 (fun t0 t1 _ _ _ s =>
      if s.mIsVertexShader then Process_DCL_Vertex_body t0 t1 s
      else Process_DCL_Pixel_body t0 t1 s) := by
  funext shader s
  unfold Process_DCL
  rw [Process_DCL_Vertex_readThen, Process_DCL_Pixel_readThen]
  unfold readThen
  by_cases hv : s.mIsVertexShader = true
  · simp only [hv, if_true, ite_self]
  · simp only [hv, if_false, ite_self]
    rfl

theorem pushType_pushType (s : ShaderConverter) (a b : List Nat) :
    (s.pushType a).pushType b = s.pushType (a ++ b) := by
  simp only [ShaderConverter.pushType, List.append_assoc]

theorem pushFunctionDefinition_pushFunctionDefinition (s : ShaderConverter) (a b : List Nat) :
    (s.pushFunctionDefinition a).pushFunctionDefinition b =
      s.pushFunctionDefinition (a ++ b) := by
  simp only [ShaderConverter.pushFunctionDefinition, List.append_assoc]

theorem Process_DEFB_readThen :
    Process_DEFB = readThen 2 (fun t0 t1 _ _ _ s => .ok (Process_DEFB_body t0 t1 s)) := by
  funext shader s
  unfold Process_DEFB readThen Process_DEFB_body
  simp only [bind_GetNextToken, GetNextVersionId_withReader, GetSpirVTypeId_withReader,
    GetSpirVTypeId_Op_withReader, setIdType_withReader, pushType_withReader,
    pushType_pushType, List.cons_append, List.nil_append,
    withReader_mNextToken, withReader_mTokenOffset, tokenAt, Nat.add_zero, withReader_withReader]
  split_ifs <;> first | omega | rfl

theorem bind_defineLiteral {α : Type} (shader : List Nat) (componentTypeId : Nat)
    (s : ShaderConverter) (f : Nat × ShaderConverter → Except Fault α) :
    (defineLiteral shader componentTypeId s >>= f) =
      if s.mNextToken < shader.length then
        f ((GetNextId s).1,
          ((GetNextId s).2.pushType
            [Pack 4 spv.OpConstant, componentTypeId, (GetNextId s).1,
              shader.getD s.mNextToken 0]).withReader (s.mNextToken + 1) s.mTokenOffset)
      else .error .readPastEnd := by
  unfold defineLiteral
  simp only [bind_assoc, bind_GetNextToken, pure_bind]
  have e1 : ((GetNextId s).2.pushType
      [Pack 4 spv.OpConstant, componentTypeId, (GetNextId s).1]).mNextToken = s.mNextToken := rfl
  have e2 : ((GetNextId s).2.pushType
      [Pack 4 spv.OpConstant, componentTypeId, (GetNextId s).1]).mTokenOffset =
        s.mTokenOffset := rfl
  rw [e1, e2]
  by_cases h : s.mNextToken < shader.length
  · simp only [h, if_true, pure_bind, pushType_withReader, pushType_pushType, List.cons_append,
      List.nil_append]
  · simp only [h, if_false]
    rfl

theorem defineVector_readThen (componentType : Nat) :
    defineVector componentType =
      readThen 5 (fun t0 t1 t2 t3 t4 s => .ok (defineVector_body componentType t0 t1 t2 t3 t4 s)) := by
  funext shader s
  unfold defineVector readThen defineVector_body
  simp only [bind_GetNextToken, bind_defineLiteral, GetNextVersionId_withReader,
    GetSpirVTypeId_withReader,
    GetSpirVTypeId_Op_withReader, setIdType_withReader, pushType_withReader,
    pushType_pushType, List.cons_append, List.nil_append,
    GetNextId_withReader,
    withReader_mNextToken, withReader_mTokenOffset, tokenAt, Nat.add_zero, withReader_withReader]
  split_ifs <;> first | omega | rfl

theorem withReader_mIsVertexShader (s : ShaderConverter) (a b : Nat) :
    (s.withReader a b).mIsVertexShader = s.mIsVertexShader := rfl

theorem Process_DEFB_body_withReader (t0 t1 : Nat) (s : ShaderConverter) (a b : Nat) :
    Process_DEFB_body t0 t1 (s.withReader a b) =
      (Process_DEFB_body t0 t1 s).withReader a b := by
  unfold Process_DEFB_body
  simp only [GetNextVersionId_withReader, GetSpirVTypeId_withReader,
    GetSpirVTypeId_Op_withReader, setIdType_withReader, pushType_withReader]

theorem defineVector_body_withReader (ct t0 t1 t2 t3 t4 : Nat) (s : ShaderConverter)
    (a b : Nat) :
    defineVector_body ct t0 t1 t2 t3 t4 (s.withReader a b) =
      (defineVector_body ct t0 t1 t2 t3 t4 s).withReader a b := by
  unfold defineVector_body
  simp only [GetNextVersionId_withReader, GetSpirVTypeId_withReader,
    GetSpirVTypeId_Op_withReader, setIdType_withReader, pushType_withReader,
    GetNextId_withReader]

theorem dispatchBody_readerFree (token : Nat) : ReaderFree (dispatchBody token) := by
  intro t0 t1 t2 t3 t4 s a b
  unfold dispatchBody
  dsimp only
  generalize GetOpcode token = op
  by_cases h1 : op = D3DSIO_MOV
  · simp only [if_pos h1, Process_MOV_body_withReader]; rfl
  simp only [if_neg h1]
  by_cases h2 : op = D3DSIO_ADD
  · simp only [if_pos h2, Process_arithmetic_body_withReader]; rfl
  simp only [if_neg h2]
  by_cases h3 : op = D3DSIO_SUB
  · simp only [if_pos h3, Process_arithmetic_body_withReader]; rfl
  simp only [if_neg h3]
  by_cases h4 : op = D3DSIO_MUL
  · simp only [if_pos h4, Process_arithmetic_body_withReader]; rfl
  simp only [if_neg h4]
  by_cases h5 : op = D3DSIO_DP3
  · simp only [if_pos h5, Process_DP_body_withReader]; rfl
  simp only [if_neg h5]
  by_cases h5b : op = D3DSIO_DP4
  · simp only [if_pos h5b, Process_DP_body_withReader]; rfl
  simp only [if_neg h5b]
  by_cases h5c : op = D3DSIO_MIN
  · simp only [if_pos h5c]; rfl
  simp only [if_neg h5c]
  by_cases h5d : op = D3DSIO_MAX
  · simp only [if_pos h5d]; rfl
  simp only [if_neg h5d]
  by_cases h6 : op = D3DSIO_MAD
  · simp only [if_pos h6, Process_MAD_body_withReader]; rfl
  simp only [if_neg h6]
  by_cases h7 : op = D3DSIO_TEX
  · simp only [if_pos h7, Process_TEX_body_withReader]; rfl
  simp only [if_neg h7]
  by_cases h8 : op = D3DSIO_DCL
  · simp only [if_pos h8, withReader_mIsVertexShader]
    by_cases hv : s.mIsVertexShader = true
    · simp only [if_pos hv, Process_DCL_Vertex_body_withReader]
    · simp only [if_neg hv, Process_DCL_Pixel_body_withReader]
  simp only [if_neg h8]
  by_cases h9 : op = D3DSIO_DEFB
  · simp only [if_pos h9, Process_DEFB_body_withReader]; rfl
  simp only [if_neg h9]
  by_cases h10 : op = D3DSIO_DEFI
  · simp only [if_pos h10, defineVector_body_withReader]; rfl
  simp only [if_neg h10]
  by_cases h11 : op = D3DSIO_DEF
  · simp only [if_pos h11, defineVector_body_withReader]; rfl
  simp only [if_neg h11]
  rfl

theorem readThen_zero_ok (shader : List Nat) (s : ShaderConverter)
    (h : s.mNextToken ≤ shader.length) :
    readThen 0 (fun _ _ _ _ _ s => .ok s) shader s = .ok s := by
  unfold readThen
  simp only [Nat.add_zero, h, if_true]
  rfl

/-- The `switch` of `Convert` in normal form: a comment moves the reader, every other
instruction is a handler that reads `dispatchArity token` tokens. -/
theorem dispatch_eq_all (shader : List Nat) (token : Nat) (s : ShaderConverter) :
    dispatch shader token s =
      if GetOpcode token = D3DSIO_COMMENT then
        .ok (SkipTokens ((token &&& 0x0FFF0000) >>> 16) s)
      else if dispatchArity token = 0 then .ok s
      else readThen (dispatchArity token) (dispatchBody token) shader s := by
  have n2 : ¬ (2 : Nat) = 0 := by decide
  have n3 : ¬ (3 : Nat) = 0 := by decide
  have n4 : ¬ (4 : Nat) = 0 := by decide
  have n5 : ¬ (5 : Nat) = 0 := by decide
  have hc : ∀ op : Nat, op = D3DSIO_COMMENT →
      ¬ op = D3DSIO_MOV ∧ ¬ op = D3DSIO_ADD ∧ ¬ op = D3DSIO_SUB ∧ ¬ op = D3DSIO_MUL ∧
       ¬ op = D3DSIO_DP3 ∧ ¬ op = D3DSIO_DP4 ∧ ¬ op = D3DSIO_MIN ∧ ¬ op = D3DSIO_MAX ∧
       ¬ op = D3DSIO_MAD ∧ ¬ op = D3DSIO_TEX ∧
       ¬ op = D3DSIO_DCL ∧ ¬ op = D3DSIO_DEFB ∧ ¬ op = D3DSIO_DEFI ∧ ¬ op = D3DSIO_DEF := by
    intro op hop
    subst hop
    decide
  unfold dispatch dispatchArity dispatchBody
  dsimp only
  generalize GetOpcode token = op
  by_cases hcom : op = D3DSIO_COMMENT
  · obtain ⟨h1, h2, h3, h4, h5, h6, h7, h8, h9, h10, h11, h12, h13, h14⟩ := hc _ hcom
    simp only [if_neg h1, if_neg h2, if_neg h3, if_neg h4, if_neg h5, if_neg h6, if_neg h7,
      if_neg h8, if_neg h9, if_neg h10, if_neg h11, if_neg h12, if_neg h13, if_neg h14,
      if_pos hcom]
  simp only [if_neg hcom]
  by_cases h1 : op = D3DSIO_MOV
  · simp only [if_pos h1, Process_MOV_readThen, if_neg n2]
  simp only [if_neg h1]
  by_cases h2 : op = D3DSIO_ADD
  · simp only [if_pos h2, Process_ADD,
      Process_arithmetic_readThen _ (Process_arithmetic_body_withReader _ _ _), if_neg n3]
  simp only [if_neg h2]
  by_cases h3 : op = D3DSIO_SUB
  · simp only [if_pos h3, Process_SUB,
      Process_arithmetic_readThen _ (Process_arithmetic_body_withReader _ _ _), if_neg n3]
  simp only [if_neg h3]
  by_cases h4 : op = D3DSIO_MUL
  · simp only [if_pos h4, Process_MUL,
      Process_arithmetic_readThen _ (Process_arithmetic_body_withReader _ _ _), if_neg n3]
  simp only [if_neg h4]
  by_cases h5 : op = D3DSIO_DP3
  · simp only [if_pos h5, Process_DP3, Process_arithmetic_readThen _ Process_DP_body_withReader,
      if_neg n3]
  simp only [if_neg h5]
  by_cases h5b : op = D3DSIO_DP4
  · simp only [if_pos h5b, Process_DP4,
      Process_arithmetic_readThen _ Process_DP_body_withReader, if_neg n3]
  simp only [if_neg h5b]
  by_cases h5c : op = D3DSIO_MIN
  · simp only [if_pos h5c, Process_MIN, eq_self_iff_true, if_true]
  simp only [if_neg h5c]
  by_cases h5d : op = D3DSIO_MAX
  · simp only [if_pos h5d, Process_MAX, eq_self_iff_true, if_true]
  simp only [if_neg h5d]
  by_cases h6 : op = D3DSIO_MAD
  · simp only [if_pos h6, Process_MAD_readThen, if_neg n4]
  simp only [if_neg h6]
  by_cases h7 : op = D3DSIO_TEX
  · simp only [if_pos h7, Process_TEX,
      Process_arithmetic_readThen _ Process_TEX_body_withReader, if_neg n3]
  simp only [if_neg h7]
  by_cases h8 : op = D3DSIO_DCL
  · simp only [if_pos h8, Process_DCL_readThen, if_neg n2]
  simp only [if_neg h8]
  by_cases h9 : op = D3DSIO_DEFB
  · simp only [if_pos h9, Process_DEFB_readThen, if_neg n2]
  simp only [if_neg h9]
  by_cases h10 : op = D3DSIO_DEFI
  · simp only [if_pos h10, Process_DEFI, defineVector_readThen, if_neg n5]
  simp only [if_neg h10]
  by_cases h11 : op = D3DSIO_DEF
  · simp only [if_pos h11, Process_DEF, defineVector_readThen, if_neg n5]
  simp only [if_neg h11, eq_self_iff_true, if_true]

theorem dispatchArity_zero (token : Nat) (t0 t1 t2 t3 t4 : Nat) (s : ShaderConverter)
    (h : dispatchArity token = 0) : dispatchBody token t0 t1 t2 t3 t4 s = .ok s := by
  have n2 : ¬ (2 : Nat) = 0 := by decide
  have n3 : ¬ (3 : Nat) = 0 := by decide
  have n4 : ¬ (4 : Nat) = 0 := by decide
  have n5 : ¬ (5 : Nat) = 0 := by decide
  unfold dispatchArity at h
  unfold dispatchBody
  dsimp only at h ⊢
  generalize GetOpcode token = op at h ⊢
  by_cases h1 : op = D3DSIO_MOV
  · rw [if_pos h1] at h; exact absurd h n2
  simp only [if_neg h1] at h ⊢
  by_cases h2 : op = D3DSIO_ADD
  · rw [if_pos h2] at h; exact absurd h n3
  simp only [if_neg h2] at h ⊢
  by_cases h3 : op = D3DSIO_SUB
  · rw [if_pos h3] at h; exact absurd h n3
  simp only [if_neg h3] at h ⊢
  by_cases h4 : op = D3DSIO_MUL
  · rw [if_pos h4] at h; exact absurd h n3
  simp only [if_neg h4] at h ⊢
  by_cases h5 : op = D3DSIO_DP3
  · rw [if_pos h5] at h; exact absurd h n3
  simp only [if_neg h5] at h ⊢
  by_cases h6 : op = D3DSIO_DP4
  · rw [if_pos h6] at h; exact absurd h n3
  simp only [if_neg h6] at h ⊢
  by_cases h7 : op = D3DSIO_MIN
  · simp only [if_pos h7]
  simp only [if_neg h7] at h ⊢
  by_cases h8 : op = D3DSIO_MAX
  · simp only [if_pos h8]
  simp only [if_neg h8] at h ⊢
  by_cases h9 : op = D3DSIO_MAD
  · rw [if_pos h9] at h; exact absurd h n4
  simp only [if_neg h9] at h ⊢
  by_cases h10 : op = D3DSIO_TEX
  · rw [if_pos h10] at h; exact absurd h n3
  simp only [if_neg h10] at h ⊢
  by_cases h11 : op = D3DSIO_DCL
  · rw [if_pos h11] at h; exact absurd h n2
  simp only [if_neg h11] at h ⊢
  by_cases h12 : op = D3DSIO_DEFB
  · rw [if_pos h12] at h; exact absurd h n2
  simp only [if_neg h12] at h ⊢
  by_cases h13 : op = D3DSIO_DEFI
  · rw [if_pos h13] at h; exact absurd h n5
  simp only [if_neg h13] at h ⊢
  by_cases h14 : op = D3DSIO_DEF
  · rw [if_pos h14] at h; exact absurd h n5
  simp only [if_neg h14]

theorem readThen_zero_body (shader : List Nat) (s : ShaderConverter)
    (body : Nat → Nat → Nat → Nat → Nat → ShaderConverter → Except Fault ShaderConverter)
    (hb : ∀ t0 t1 t2 t3 t4 s, body t0 t1 t2 t3 t4 s = .ok s)
    (h : s.mNextToken ≤ shader.length) :
    readThen 0 body shader s = .ok s := by
  unfold readThen
  simp only [Nat.add_zero, h, if_true, hb]
  rfl

/-- The normal form when the reader is inside the buffer or at its end. -/
theorem dispatch_eq (shader : List Nat) (token : Nat) (s : ShaderConverter)
    (h : s.mNextToken ≤ shader.length) :
    dispatch shader token s =
      if GetOpcode token = D3DSIO_COMMENT then
        .ok (SkipTokens ((token &&& 0x0FFF0000) >>> 16) s)
      else readThen (dispatchArity token) (dispatchBody token) shader s := by
  rw [dispatch_eq_all]
  by_cases hc : GetOpcode token = D3DSIO_COMMENT
  · simp only [if_pos hc]
  · simp only [if_neg hc]
    by_cases hz : dispatchArity token = 0
    · rw [if_pos hz, hz, readThen_zero_body shader s _
        (fun t0 t1 t2 t3 t4 s => dispatchArity_zero token t0 t1 t2 t3 t4 s hz) h]
    · rw [if_neg hz]

/-! ## What the handlers leave alone -/

@[simp] theorem pushType_fixedPart (s : ShaderConverter) (ws : List Nat) :
    (s.pushType ws).fixedPart = s.fixedPart := rfl

@[simp] theorem pushFunctionDefinition_fixedPart (s : ShaderConverter) (ws : List Nat) :
    (s.pushFunctionDefinition ws).fixedPart = s.fixedPart := rfl

@[simp] theorem setTypeId_fixedPart (s : ShaderConverter) (d : TypeDescription) (i : Nat) :
    (s.setTypeId d i).fixedPart = s.fixedPart := rfl

@[simp] theorem setIdType_fixedPart (s : ShaderConverter) (d : TypeDescription) (i : Nat) :
    (s.setIdType i d).fixedPart = s.fixedPart := rfl

@[simp] theorem setConvertedShader_fixedPart (s : ShaderConverter) (c : ConvertedShader) :
    (s.setConvertedShader c).fixedPart = s.fixedPart := rfl

@[simp] theorem pushInterfaceId_fixedPart (s : ShaderConverter) (i : Nat) :
    (s.pushInterfaceId i).fixedPart = s.fixedPart := rfl

@[simp] theorem setPositionRegister_fixedPart (s : ShaderConverter) (i : Nat) :
    (s.setPositionRegister i).fixedPart = s.fixedPart := rfl

@[simp] theorem GetNextId_fixedPart (s : ShaderConverter) :
    (GetNextId s).2.fixedPart = s.fixedPart := rfl

@[simp] theorem SetIdByRegister_fixedPart (token id : Nat) (s : ShaderConverter) :
    (SetIdByRegister token id s).fixedPart = s.fixedPart := rfl

@[simp] theorem GetNextVersionId_fixedPart (token : Nat) (s : ShaderConverter) :
    (GetNextVersionId token s).2.fixedPart = s.fixedPart := rfl

@[simp] theorem snagNextId_fixedPart (d : TypeDescription) (s : ShaderConverter) :
    (snagNextId d s).fixedPart = s.fixedPart := rfl

@[simp] theorem GetSpirVTypeIdFuel_fixedPart (fuel : Nat) (d : TypeDescription)
    (s : ShaderConverter) : (GetSpirVTypeIdFuel fuel d s).2.fixedPart = s.fixedPart := by
  induction fuel generalizing d s with
  | zero => rfl
  | succ n ih =>
    unfold GetSpirVTypeIdFuel
    cases h : flat_map.find TypeDescription.same d s.mTypeIdPairs with
    | some id => rfl
    | none =>
      dsimp only
      split_ifs
      all_goals first
        | rfl
        | simp only [pushType_fixedPart, ih, setIdType_fixedPart, setTypeId_fixedPart,
            GetNextId_fixedPart]

@[simp] theorem GetSpirVTypeId_fixedPart (d : TypeDescription) (s : ShaderConverter) :
    (GetSpirVTypeId d s).2.fixedPart = s.fixedPart :=
  GetSpirVTypeIdFuel_fixedPart 4 d s

@[simp] theorem GetSpirVTypeId_Op_fixedPart (op : Nat) (s : ShaderConverter) :
    (GetSpirVTypeId_Op op s).2.fixedPart = s.fixedPart :=
  GetSpirVTypeId_fixedPart _ s

@[simp] theorem GetSpirVTypeId_Op2_fixedPart (op1 op2 : Nat) (s : ShaderConverter) :
    (GetSpirVTypeId_Op2 op1 op2 s).2.fixedPart = s.fixedPart :=
  GetSpirVTypeId_fixedPart _ s

@[simp] theorem GetSpirVTypeId_Op3_fixedPart (op1 op2 n : Nat) (s : ShaderConverter) :
    (GetSpirVTypeId_Op3 op1 op2 n s).2.fixedPart = s.fixedPart :=
  GetSpirVTypeId_fixedPart _ s

@[simp] theorem GetIdByRegister_fixedPart (token : Nat) (s : ShaderConverter) :
    (GetIdByRegister token s).2.fixedPart = s.fixedPart := by
  unfold GetIdByRegister
  cases h : findIdByRegister token s with
  | some id => rfl
  | none =>
    dsimp only
    split_ifs
    · simp only [pushType_fixedPart, setIdType_fixedPart, SetIdByRegister_fixedPart,
        GetSpirVTypeId_fixedPart, GetNextId_fixedPart]
    · rfl

@[simp] theorem GetTypeByRegister_fixedPart (token : Nat) (s : ShaderConverter) :
    (GetTypeByRegister token s).2.fixedPart = s.fixedPart := by
  unfold GetTypeByRegister
  dsimp only
  split <;> simp only [GetIdByRegister_fixedPart]

@[simp] theorem GetSwizzledId_fixedPart (token inputId : Nat) (s : ShaderConverter) :
    (GetSwizzledId token inputId s).2.fixedPart = s.fixedPart := by
  unfold GetSwizzledId
  dsimp only
  split_ifs <;>
    simp only [GetIdByRegister_fixedPart, GetNextId_fixedPart, GetSpirVTypeId_Op_fixedPart,
      GetSpirVTypeId_Op3_fixedPart, pushFunctionDefinition_fixedPart]

@[simp] theorem loadArgument_fixedPart (dataTypeId token : Nat) (s : ShaderConverter) :
    (loadArgument dataTypeId token s).2.fixedPart = s.fixedPart := by
  unfold loadArgument
  simp only [GetNextId_fixedPart, pushFunctionDefinition_fixedPart,
    GetIdByRegister_fixedPart, GetSwizzledId_fixedPart]

@[simp] theorem emitArithmetic_fixedPart (iop fop dt dti rt a1 a2 : Nat) (s : ShaderConverter) :
    (emitArithmetic iop fop dt dti rt a1 a2 s).fixedPart = s.fixedPart := by
  unfold emitArithmetic
  split_ifs <;> rfl

@[simp] theorem emitMultiplyAdd_fixedPart (dt dti rt ri a1 a2 a3 : Nat) (s : ShaderConverter) :
    (emitMultiplyAdd dt dti rt ri a1 a2 a3 s).fixedPart = s.fixedPart := by
  unfold emitMultiplyAdd
  split_ifs <;> rfl

@[simp] theorem Process_MOV_body_fixedPart (t0 t1 : Nat) (s : ShaderConverter) :
    (Process_MOV_body t0 t1 s).fixedPart = s.fixedPart := by
  unfold Process_MOV_body
  simp only [GetTypeByRegister_fixedPart, GetSpirVTypeId_fixedPart, snagNextId_fixedPart,
    GetSwizzledId_fixedPart, pushFunctionDefinition_fixedPart, GetNextVersionId_fixedPart]

@[simp] theorem Process_arithmetic_body_fixedPart (iop fop : Nat) (again : Bool)
    (t0 t1 t2 : Nat) (s : ShaderConverter) :
    (Process_arithmetic_body iop fop again t0 t1 t2 s).fixedPart = s.fixedPart := by
  unfold Process_arithmetic_body
  dsimp only
  cases again <;>
  split_ifs <;>
    simp only [GetSwizzledId_fixedPart, emitArithmetic_fixedPart, loadArgument_fixedPart,
      GetSpirVTypeId_fixedPart, Bool.false_eq_true, if_false, if_true,
      GetTypeByRegister_fixedPart, snagNextId_fixedPart]

@[simp] theorem Process_DP_body_fixedPart (t0 t1 t2 : Nat) (s : ShaderConverter) :
    (Process_DP_body t0 t1 t2 s).fixedPart = s.fixedPart := by
  unfold Process_DP_body
  simp only [GetSpirVTypeId_Op_fixedPart, GetNextVersionId_fixedPart, snagNextId_fixedPart,
    GetSwizzledId_fixedPart, pushFunctionDefinition_fixedPart]

@[simp] theorem Process_TEX_body_fixedPart (t0 t1 t2 : Nat) (s : ShaderConverter) :
    (Process_TEX_body t0 t1 t2 s).fixedPart = s.fixedPart := by
  unfold Process_TEX_body
  simp only [GetSpirVTypeId_fixedPart, GetNextVersionId_fixedPart, snagNextId_fixedPart,
    GetSwizzledId_fixedPart, pushFunctionDefinition_fixedPart]

@[simp] theorem Process_MAD_body_fixedPart (t0 t1 t2 t3 : Nat) (s : ShaderConverter) :
    (Process_MAD_body t0 t1 t2 t3 s).fixedPart = s.fixedPart := by
  unfold Process_MAD_body
  dsimp only
  split_ifs <;>
    simp only [GetSwizzledId_fixedPart, emitMultiplyAdd_fixedPart, loadArgument_fixedPart,
      GetSpirVTypeId_fixedPart, GetNextVersionId_fixedPart, GetTypeByRegister_fixedPart,
      snagNextId_fixedPart]

@[simp] theorem Process_DEFB_body_fixedPart (t0 t1 : Nat) (s : ShaderConverter) :
    (Process_DEFB_body t0 t1 s).fixedPart = s.fixedPart := by
  unfold Process_DEFB_body
  simp only [GetNextVersionId_fixedPart, GetSpirVTypeId_fixedPart,
    GetSpirVTypeId_Op_fixedPart, setIdType_fixedPart, pushType_fixedPart]

@[simp] theorem defineVector_body_fixedPart (ct t0 t1 t2 t3 t4 : Nat) (s : ShaderConverter) :
    (defineVector_body ct t0 t1 t2 t3 t4 s).fixedPart = s.fixedPart := by
  unfold defineVector_body
  simp only [GetNextVersionId_fixedPart, GetSpirVTypeId_fixedPart,
    GetSpirVTypeId_Op_fixedPart, setIdType_fixedPart, pushType_fixedPart,
    GetNextId_fixedPart]

theorem Process_DCL_Pixel_body_fixedPart (t0 t1 : Nat) (s r : ShaderConverter)
    (h : Process_DCL_Pixel_body t0 t1 s = .ok r) : r.fixedPart = s.fixedPart := by
  unfold Process_DCL_Pixel_body at h
  dsimp only at h
  split_ifs at h
  · cases h
    simp only [pushType_fixedPart, GetSpirVTypeId_fixedPart, setIdType_fixedPart,
      GetNextVersionId_fixedPart]
  · cases h
    simp only [pushType_fixedPart, GetSpirVTypeId_Op2_fixedPart, setIdType_fixedPart,
      GetNextVersionId_fixedPart]
  · split at h
    · cases h
      simp only [pushType_fixedPart, GetSpirVTypeId_Op2_fixedPart, setIdType_fixedPart,
        GetNextVersionId_fixedPart, setConvertedShader_fixedPart]
    · cases h
  · cases h
    simp only [setIdType_fixedPart, GetNextVersionId_fixedPart]

theorem Process_DCL_Vertex_body_fixedPart (t0 t1 : Nat) (s r : ShaderConverter)
    (h : Process_DCL_Vertex_body t0 t1 s = .ok r) : r.fixedPart = s.fixedPart := by
  unfold Process_DCL_Vertex_body at h
  dsimp only at h
  split_ifs at h
  · split at h
    · cases h
      simp only [pushType_fixedPart, GetSpirVTypeId_fixedPart, setIdType_fixedPart,
        GetNextVersionId_fixedPart, setConvertedShader_fixedPart, pushInterfaceId_fixedPart]
    · cases h
  · cases h
    simp only [pushType_fixedPart, GetSpirVTypeId_fixedPart, setIdType_fixedPart,
      GetNextVersionId_fixedPart, setPositionRegister_fixedPart]
  · cases h
    simp only [pushType_fixedPart, GetSpirVTypeId_fixedPart, setIdType_fixedPart,
      GetNextVersionId_fixedPart]
  · cases h
    simp only [setIdType_fixedPart, GetNextVersionId_fixedPart]

/-- Case analysis on the handler of an instruction token. -/
theorem dispatchBody_cases (P : Except Fault ShaderConverter → Prop)
    (token t0 t1 t2 t3 t4 : Nat) (s : ShaderConverter)
    (hMOV : P (.ok (Process_MOV_body t0 t1 s)))
    (hADD : P (.ok (Process_arithmetic_body spv.OpIAdd spv.OpFAdd false t0 t1 t2 s)))
    (hSUB : P (.ok (Process_arithmetic_body spv.OpISub spv.OpFSub false t0 t1 t2 s)))
    (hMUL : P (.ok (Process_arithmetic_body spv.OpIMul spv.OpFMul true t0 t1 t2 s)))
    (hDP : P (.ok (Process_DP_body t0 t1 t2 s)))
    (hMAD : P (.ok (Process_MAD_body t0 t1 t2 t3 s)))
    (hTEX : P (.ok (Process_TEX_body t0 t1 t2 s)))
    (hDCLV : P (Process_DCL_Vertex_body t0 t1 s))
    (hDCLP : P (Process_DCL_Pixel_body t0 t1 s))
    (hDEFB : P (.ok (Process_DEFB_body t0 t1 s)))
    (hDEFI : P (.ok (defineVector_body spv.OpTypeInt t0 t1 t2 t3 t4 s)))
    (hDEF : P (.ok (defineVector_body spv.OpTypeFloat t0 t1 t2 t3 t4 s)))
    (hNone : P (.ok s)) :
    P (dispatchBody token t0 t1 t2 t3 t4 s) := by
  unfold dispatchBody
  dsimp only
  generalize GetOpcode token = op
  by_cases h1 : op = D3DSIO_MOV
  · simpa only [if_pos h1] using hMOV
  simp only [if_neg h1]
  by_cases h2 : op = D3DSIO_ADD
  · simpa only [if_pos h2] using hADD
  simp only [if_neg h2]
  by_cases h3 : op = D3DSIO_SUB
  · simpa only [if_pos h3] using hSUB
  simp only [if_neg h3]
  by_cases h4 : op = D3DSIO_MUL
  · simpa only [if_pos h4] using hMUL
  simp only [if_neg h4]
  by_cases h5 : op = D3DSIO_DP3
  · simpa only [if_pos h5] using hDP
  simp only [if_neg h5]
  by_cases h5b : op = D3DSIO_DP4
  · simpa only [if_pos h5b] using hDP
  simp only [if_neg h5b]
  by_cases h5c : op = D3DSIO_MIN
  · simpa only [if_pos h5c] using hNone
  simp only [if_neg h5c]
  by_cases h5d : op = D3DSIO_MAX
  · simpa only [if_pos h5d] using hNone
  simp only [if_neg h5d]
  by_cases h6 : op = D3DSIO_MAD
  · simpa only [if_pos h6] using hMAD
  simp only [if_neg h6]
  by_cases h7 : op = D3DSIO_TEX
  · simpa only [if_pos h7] using hTEX
  simp only [if_neg h7]
  by_cases h8 : op = D3DSIO_DCL
  · simp only [if_pos h8]
    by_cases hv : s.mIsVertexShader = true
    · simpa only [if_pos hv] using hDCLV
    · simpa only [if_neg hv] using hDCLP
  simp only [if_neg h8]
  by_cases h9 : op = D3DSIO_DEFB
  · simpa only [if_pos h9] using hDEFB
  simp only [if_neg h9]
  by_cases h10 : op = D3DSIO_DEFI
  · simpa only [if_pos h10] using hDEFI
  simp only [if_neg h10]
  by_cases h11 : op = D3DSIO_DEF
  · simpa only [if_pos h11] using hDEF
  simpa only [if_neg h11] using hNone

theorem dispatchBody_fixedPart (token t0 t1 t2 t3 t4 : Nat) (s r : ShaderConverter)
    (h : dispatchBody token t0 t1 t2 t3 t4 s = .ok r) : r.fixedPart = s.fixedPart := by
  revert h
  apply dispatchBody_cases (fun x => x = .ok r → r.fixedPart = s.fixedPart)
  case hDCLV => exact Process_DCL_Vertex_body_fixedPart _ _ _ _
  case hDCLP => exact Process_DCL_Pixel_body_fixedPart _ _ _ _
  all_goals
    intro h
    cases h
    first
      | rfl
      | simp only [Process_MOV_body_fixedPart, Process_arithmetic_body_fixedPart,
         Process_DP_body_fixedPart, Process_MAD_body_fixedPart, Process_TEX_body_fixedPart,
         Process_DEFB_body_fixedPart, defineVector_body_fixedPart]

/-! ## One turn of the loop, and the loop -/

theorem readThen_ok (k : Nat)
    (body : Nat → Nat → Nat → Nat → Nat → ShaderConverter → Except Fault ShaderConverter)
    (shader : List Nat) (s r : ShaderConverter) (h : readThen k body shader s = .ok r) :
    s.mNextToken + k ≤ shader.length ∧
      ∃ r0, body (tokenAt shader s.mNextToken k 0) (tokenAt shader s.mNextToken k 1)
          (tokenAt shader s.mNextToken k 2) (tokenAt shader s.mNextToken k 3)
          (tokenAt shader s.mNextToken k 4) s = .ok r0 ∧
        r = r0.withReader (s.mNextToken + k) s.mTokenOffset := by
  unfold readThen at h
  split_ifs at h with hk
  refine ⟨hk, ?_⟩
  cases hb : body (tokenAt shader s.mNextToken k 0) (tokenAt shader s.mNextToken k 1)
      (tokenAt shader s.mNextToken k 2) (tokenAt shader s.mNextToken k 3)
      (tokenAt shader s.mNextToken k 4) s with
  | error e => rw [hb] at h; cases h
  | ok r0 =>
    rw [hb] at h
    refine ⟨r0, rfl, ?_⟩
    cases h
    rfl

/-- One turn of the loop in normal form. -/
theorem Convert_step_eq (shader : List Nat) (s : ShaderConverter) :
    Convert_step shader s =
      if s.mNextToken < shader.length then
        if GetOpcode (shader.getD s.mNextToken 0) = D3DSIO_COMMENT then
          .ok (shader.getD s.mNextToken 0,
            s.withReader (s.mNextToken + 1 + ((shader.getD s.mNextToken 0 &&& 0x0FFF0000) >>> 16))
              s.mNextToken)
        else
          (readThen (dispatchArity (shader.getD s.mNextToken 0))
            (dispatchBody (shader.getD s.mNextToken 0)) shader
            (s.withReader (s.mNextToken + 1) s.mNextToken)).map
            (fun r => (shader.getD s.mNextToken 0, r))
      else .error .readPastEnd := by
  unfold Convert_step
  have e : s.markTokenOffset = s.withReader s.mNextToken s.mNextToken := rfl
  simp only [bind_GetNextToken, e, withReader_mNextToken, withReader_mTokenOffset,
    withReader_withReader]
  by_cases h : s.mNextToken < shader.length
  · simp only [h, if_true]
    show (dispatch shader (shader.getD s.mNextToken 0)
      (s.withReader (s.mNextToken + 1) s.mNextToken) >>=
        fun r => pure (shader.getD s.mNextToken 0, r)) = _
    rw [dispatch_eq shader _ _ (by show s.mNextToken + 1 ≤ shader.length; omega)]
    by_cases hc : GetOpcode (shader.getD s.mNextToken 0) = D3DSIO_COMMENT
    · simp only [hc, if_true]
      rfl
    · simp only [hc, if_false]
      cases readThen (dispatchArity (shader.getD s.mNextToken 0))
        (dispatchBody (shader.getD s.mNextToken 0)) shader
        (s.withReader (s.mNextToken + 1) s.mNextToken) <;> rfl
  · simp only [h, if_false]

/-- What a turn of the loop that returns has done: it has read the token at the reader,
it has left the reader at least one token further, and it has written none of the members
of `fixedPart`. -/
theorem Convert_step_ok (shader : List Nat) (s r : ShaderConverter) (token : Nat)
    (h : Convert_step shader s = .ok (token, r)) :
    shader[s.mNextToken]? = some token ∧ s.mNextToken + 1 ≤ r.mNextToken ∧
      r.fixedPart = s.fixedPart := by
  rw [Convert_step_eq] at h
  split_ifs at h with hlt hc
  · cases h
    refine ⟨?_, ?_, rfl⟩
    · simp [List.getD_eq_getElem?_getD, List.getElem?_eq_getElem hlt]
    · show s.mNextToken + 1 ≤ s.mNextToken + 1 + _
      omega
  · cases hr : readThen (dispatchArity (shader.getD s.mNextToken 0))
        (dispatchBody (shader.getD s.mNextToken 0)) shader
        (s.withReader (s.mNextToken + 1) s.mNextToken) with
    | error e => rw [hr] at h; cases h
    | ok r1 =>
      rw [hr] at h
      cases h
      obtain ⟨_, r0, hb, rfl⟩ := readThen_ok _ _ _ _ _ hr
      refine ⟨?_, ?_, ?_⟩
      · simp [List.getD_eq_getElem?_getD, List.getElem?_eq_getElem hlt]
      · show s.mNextToken + 1 ≤ s.mNextToken + 1 + _
        omega
      · rw [withReader_fixedPart, dispatchBody_fixedPart _ _ _ _ _ _ _ _ hb, withReader_fixedPart]

theorem Convert_loop_zero (shader : List Nat) (token : Nat) (s : ShaderConverter) :
    Convert_loop shader 0 token s =
      if token = D3DPS_END then .ok s else .error .outOfFuel := by
  unfold Convert_loop
  rfl

theorem Convert_loop_succ (shader : List Nat) (fuel token : Nat) (s : ShaderConverter) :
    Convert_loop shader (fuel + 1) token s =
      if token = D3DPS_END then .ok s
      else
        match Convert_step shader s with
        | .ok r => Convert_loop shader fuel r.1 r.2
        | .error e => .error e := by
  conv_lhs => unfold Convert_loop

/-- The loop writes none of the members of `fixedPart` and never moves the reader back. -/
theorem Convert_loop_ok (shader : List Nat) (fuel token : Nat) (s r : ShaderConverter)
    (h : Convert_loop shader fuel token s = .ok r) :
    s.mNextToken ≤ r.mNextToken ∧ r.fixedPart = s.fixedPart := by
  induction fuel generalizing token s with
  | zero =>
    rw [Convert_loop_zero] at h
    split_ifs at h
    cases h
    exact ⟨Nat.le_refl _, rfl⟩
  | succ n ih =>
    rw [Convert_loop_succ] at h
    split_ifs at h
    · cases h
      exact ⟨Nat.le_refl _, rfl⟩
    · cases hs : Convert_step shader s with
      | error e => rw [hs] at h; cases h
      | ok p =>
        rw [hs] at h
        obtain ⟨tok, r1⟩ := p
        obtain ⟨_, h1, h2⟩ := Convert_step_ok _ _ _ _ hs
        obtain ⟨h3, h4⟩ := ih _ _ h
        exact ⟨by show s.mNextToken ≤ r.mNextToken; simp only at h3; omega, by rw [h4]; exact h2⟩

theorem rewind_eq (s : ShaderConverter) : s.rewind = s.withReader 0 s.mTokenOffset := rfl

theorem clearInstructions_fixedPart (s : ShaderConverter) :
    s.clearInstructions.fixedPart = (s.fixedPart.1, [] :: s.fixedPart.2.tail) := rfl

theorem setVersion_fixedPart (s : ShaderConverter) (x y : Nat) :
    (s.setVersion x y).fixedPart = ((x, y, s.fixedPart.1.2.2), s.fixedPart.2) := rfl

theorem setIsVertexShader_fixedPart (s : ShaderConverter) (x : Bool) :
    (s.setIsVertexShader x).fixedPart =
      ((s.fixedPart.1.1, s.fixedPart.1.2.1, x, s.fixedPart.1.2.2.2), s.fixedPart.2) := rfl

theorem setEntryPointTypeId_fixedPart (s : ShaderConverter) (x : Nat) :
    (s.setEntryPointTypeId x).fixedPart =
      ((s.fixedPart.1.1, s.fixedPart.1.2.1, s.fixedPart.1.2.2.1, x, s.fixedPart.1.2.2.2.2),
        s.fixedPart.2) := rfl

theorem setEntryPointId_fixedPart (s : ShaderConverter) (x : Nat) :
    (s.setEntryPointId x).fixedPart =
      ((s.fixedPart.1.1, s.fixedPart.1.2.1, s.fixedPart.1.2.2.1, s.fixedPart.1.2.2.2.1, x),
        s.fixedPart.2) := rfl

/-- What the head of `Convert` has done when it returns. -/
theorem Convert_begin_ok (shader : List Nat) (s b : ShaderConverter) (token : Nat)
    (h : Convert_begin shader s = .ok (token, b)) :
    shader[0]? = some token ∧ b.mNextToken = 1 ∧
      b.mMajorVersion = D3DSHADER_VERSION_MAJOR token ∧
      b.mMinorVersion = D3DSHADER_VERSION_MINOR token ∧
      b.mIsVertexShader = (if token &&& 0xFFFF0000 = 0xFFFF0000 then false else true) ∧
      b.fixedPart.2 = [] :: s.fixedPart.2.tail := by
  have hmaj : ∀ r : ShaderConverter, r.mMajorVersion = r.fixedPart.1.1 := fun _ => rfl
  have hmin : ∀ r : ShaderConverter, r.mMinorVersion = r.fixedPart.1.2.1 := fun _ => rfl
  have hver : ∀ r : ShaderConverter, r.mIsVertexShader = r.fixedPart.1.2.2.1 := fun _ => rfl
  unfold Convert_begin Convert_begin_body at h
  simp only [bind_GetNextToken, rewind_eq, withReader_mNextToken, withReader_mTokenOffset] at h
  split_ifs at h with hlt hk <;>
  · simp only [pure, Except.pure, Except.ok.injEq, Prod.mk.injEq] at h
    obtain ⟨rfl, rfl⟩ := h
    refine ⟨?_, ?_, ?_, ?_, ?_, ?_⟩
    · simp [List.getD_eq_getElem?_getD, List.getElem?_eq_getElem hlt]
    · simp only [setVersion_withReader, setIsVertexShader_withReader,
        GetSpirVTypeId_Op_withReader, setEntryPointTypeId_withReader, GetNextId_withReader,
        setEntryPointId_withReader, pushFunctionDefinition_withReader, withReader_mNextToken]
    · rw [hmaj]
      simp only [pushFunctionDefinition_fixedPart, GetNextId_fixedPart,
        GetSpirVTypeId_Op_fixedPart, setEntryPointId_fixedPart, setEntryPointTypeId_fixedPart,
        setIsVertexShader_fixedPart, setVersion_fixedPart]
    · rw [hmin]
      simp only [pushFunctionDefinition_fixedPart, GetNextId_fixedPart,
        GetSpirVTypeId_Op_fixedPart, setEntryPointId_fixedPart, setEntryPointTypeId_fixedPart,
        setIsVertexShader_fixedPart, setVersion_fixedPart]
    · rw [hver]
      simp only [pushFunctionDefinition_fixedPart, GetNextId_fixedPart,
        GetSpirVTypeId_Op_fixedPart, setEntryPointId_fixedPart, setEntryPointTypeId_fixedPart,
        setIsVertexShader_fixedPart, setVersion_fixedPart, hk, if_true, if_false]
    · simp only [pushFunctionDefinition_fixedPart, GetNextId_fixedPart,
        GetSpirVTypeId_Op_fixedPart, setEntryPointId_fixedPart, setEntryPointTypeId_fixedPart,
        setIsVertexShader_fixedPart, setVersion_fixedPart, withReader_fixedPart,
        clearInstructions_fixedPart, setConvertedShader_fixedPart]

theorem Convert_header_mInstructions (host : Host) (t : ShaderConverter) :
    (Convert_header host t).mInstructions =
      t.mInstructions ++ [spv.MagicNumber, host.Version, 0, t.mNextId, 0] := by
  simp [Convert_header, GetNextId, ShaderConverter.pushInstructions]

theorem Convert_header_sections (host : Host) (t : ShaderConverter) :
    specSectionOrder (Convert_header host t) = specSectionOrder t := rfl

theorem Convert_end_mInstructions (s : ShaderConverter) :
    (Convert_end s).mInstructions = s.mInstructions := by
  unfold Convert_end
  by_cases hv : s.mIsVertexShader = true <;> simp [hv]

theorem Convert_end_version (s : ShaderConverter) :
    (Convert_end s).mMajorVersion = s.mMajorVersion ∧
      (Convert_end s).mMinorVersion = s.mMinorVersion ∧
      (Convert_end s).mIsVertexShader = s.mIsVertexShader := by
  unfold Convert_end
  by_cases hv : s.mIsVertexShader = true <;> simp [hv]

/-- What the translating part of `Convert` has done when it returns. -/
theorem Convert_translate_ok (shader : List Nat) (s t : ShaderConverter)
    (h : Convert_translate shader s = .ok t) :
    ∃ token, shader[0]? = some token ∧
      t.mMajorVersion = D3DSHADER_VERSION_MAJOR token ∧
      t.mMinorVersion = D3DSHADER_VERSION_MINOR token ∧
      t.mIsVertexShader = (if token &&& 0xFFFF0000 = 0xFFFF0000 then false else true) ∧
      t.mInstructions = [] := by
  unfold Convert_translate at h
  cases hb : Convert_begin shader s with
  | error e => rw [hb] at h; cases h
  | ok p =>
    obtain ⟨token, b⟩ := p
    rw [hb] at h
    cases hl : Convert_loop shader shader.length token b with
    | error e =>
      simp only [bind, Except.bind, hl] at h
      cases h
    | ok l =>
      simp only [bind, Except.bind, hl, pure, Except.pure, Except.ok.injEq] at h
      subst h
      obtain ⟨h0, _, h2, h3, h4, h5⟩ := Convert_begin_ok _ _ _ _ hb
      obtain ⟨_, hf⟩ := Convert_loop_ok _ _ _ _ _ hl
      have hf1 : l.mMajorVersion = b.mMajorVersion := congrArg (fun p => p.1.1) hf
      have hf2 : l.mMinorVersion = b.mMinorVersion := congrArg (fun p => p.1.2.1) hf
      have hf3 : l.mIsVertexShader = b.mIsVertexShader := congrArg (fun p => p.1.2.2.1) hf
      have hf4 : l.mInstructions = b.mInstructions := by
        have := congrArg (fun p => p.2.head?) hf
        simpa [ShaderConverter.fixedPart] using this
      have hb4 : b.mInstructions = [] := by
        have := congrArg (fun p => p.head?) h5
        simpa [ShaderConverter.fixedPart] using this
      obtain ⟨e1, e2, e3⟩ := Convert_end_version l
      exact ⟨token, h0, by rw [e1, hf1, h2], by rw [e2, hf2, h3], by rw [e3, hf3, h4],
        by rw [Convert_end_mInstructions, hf4, hb4]⟩

/-! ## The header of the module (C2) -/

/-- C2: when `Convert` completes, the module it emits starts with the five words magic
number `0x07230203`, `spv::Version`, `0` (generator), the value the id allocator has when
the header is written (the id bound) and `0` (reserved), and the sections, assembled in
the order of the specification, follow from word 5 on. -/
theorem Convert_module_header (host : Host) (shader : List Nat) (s : ShaderConverter)
    (out : ConvertedShader × ShaderConverter) (h : Convert host shader s = .ok out) :
    ∃ t m, Convert_translate shader s = .ok t ∧ emittedModule host shader s = .ok m ∧
      m.take 5 = [0x07230203, host.Version, 0, t.mNextId, 0] ∧
      m.drop 5 = (specSectionOrder t).flatten := by
  unfold Convert Convert_assemble at h
  cases ht : Convert_translate shader s with
  | error e => rw [ht] at h; cases h
  | ok t =>
    obtain ⟨_, _, _, _, _, hnil⟩ := Convert_translate_ok _ _ _ ht
    refine ⟨t, [0x07230203, host.Version, 0, t.mNextId, 0] ++ (specSectionOrder t).flatten,
      rfl, ?_, ?_, ?_⟩
    · unfold emittedModule Convert_assemble
      simp only [ht, bind, Except.bind, pure, Except.pure, Except.ok.injEq]
      rw [CombineSpirVOpCodes_mInstructions, Convert_header_mInstructions,
        Convert_header_sections, hnil]
      rfl
    · rfl
    · rfl

/-- The hypothesis of C2 holds and its conclusion is met on the empty pixel shader. -/
theorem Convert_module_header_witness :
    ∃ t m, Convert_translate examplePixelShader (ShaderConverter.fresh 1 4 4) = .ok t ∧
      emittedModule exampleHost examplePixelShader (ShaderConverter.fresh 1 4 4) = .ok m ∧
      m.take 5 = [0x07230203, exampleHost.Version, 0, t.mNextId, 0] ∧
      m.drop 5 = (specSectionOrder t).flatten :=
  Convert_module_header exampleHost examplePixelShader (ShaderConverter.fresh 1 4 4)
    (returned (Convert exampleHost examplePixelShader (ShaderConverter.fresh 1 4 4)))
    (by decide!)

/-! ## The whole of `Convert` -/

/-- The state `Convert` leaves behind, from the state after translation. -/
theorem Convert_ok (host : Host) (shader : List Nat) (s : ShaderConverter)
    (out : ConvertedShader × ShaderConverter) (h : Convert host shader s = .ok out) :
    ∃ t, Convert_translate shader s = .ok t ∧
      out.2 = CreateSpirVModule host (CombineSpirVOpCodes (Convert_header host t)) ∧
      out.1 = out.2.mConvertedShader := by
  unfold Convert Convert_assemble at h
  cases ht : Convert_translate shader s with
  | error e => rw [ht] at h; cases h
  | ok t =>
    rw [ht] at h
    simp only [bind, Except.bind, pure, Except.pure, Except.ok.injEq] at h
    subst h
    exact ⟨t, rfl, rfl, rfl⟩

theorem CreateSpirVModule_version (host : Host) (s : ShaderConverter) :
    (CreateSpirVModule host s).mMajorVersion = s.mMajorVersion ∧
      (CreateSpirVModule host s).mMinorVersion = s.mMinorVersion ∧
      (CreateSpirVModule host s).mIsVertexShader = s.mIsVertexShader := by
  unfold CreateSpirVModule
  split <;> exact ⟨rfl, rfl, rfl⟩

theorem Convert_header_version (host : Host) (s : ShaderConverter) :
    (Convert_header host s).mMajorVersion = s.mMajorVersion ∧
      (Convert_header host s).mMinorVersion = s.mMinorVersion ∧
      (Convert_header host s).mIsVertexShader = s.mIsVertexShader :=
  ⟨rfl, rfl, rfl⟩

/-- The mask `0xFFFF0000` keeps bits 16 to 31 where they are. -/
theorem and_high_half (token : Nat) :
    token &&& 0xFFFF0000 = ((token >>> 16) &&& 0xFFFF) <<< 16 := by
  have e : (0xFFFF0000 : Nat) = 0xFFFF <<< 16 := by decide
  rw [e]
  apply Nat.eq_of_testBit_eq
  intro i
  simp only [Nat.testBit_and, Nat.testBit_shiftLeft, Nat.testBit_shiftRight]
  by_cases hi : 16 ≤ i
  · have e2 : 16 + (i - 16) = i := by omega
    simp [hi, e2]
  · simp [hi]

theorem high_half_eq (token : Nat) :
    token &&& 0xFFFF0000 = 0xFFFF0000 ↔ (token >>> 16) &&& 0xFFFF = 0xFFFF := by
  rw [and_high_half]
  constructor
  · intro h
    have e : (0xFFFF0000 : Nat) = 0xFFFF <<< 16 := by decide
    rw [e, Nat.shiftLeft_eq, Nat.shiftLeft_eq] at h
    exact Nat.eq_of_mul_eq_mul_right (by decide) h
  · intro h
    rw [h]
    decide

/-- C7: when `Convert` completes, the first token of the stream has been decoded as minor
version = bits 0 to 7, major version = bits 8 to 15, and the shader kind from bits 16 to
31: `0xFFFF` there makes a pixel shader and `0xFFFE` a vertex shader. -/
theorem Convert_decodes_version_token (host : Host) (shader : List Nat) (s : ShaderConverter)
    (out : ConvertedShader × ShaderConverter) (h : Convert host shader s = .ok out) :
    ∃ token, shader[0]? = some token ∧
      out.2.mMinorVersion = token &&& 0xFF ∧
      out.2.mMajorVersion = (token >>> 8) &&& 0xFF ∧
      ((token >>> 16) &&& 0xFFFF = 0xFFFF → out.2.mIsVertexShader = false) ∧
      ((token >>> 16) &&& 0xFFFF = 0xFFFE → out.2.mIsVertexShader = true) := by
  obtain ⟨t, ht, ho, _⟩ := Convert_ok host shader s out h
  obtain ⟨token, h0, hmajor, hminor, hkind, _⟩ := Convert_translate_ok shader s t ht
  obtain ⟨c1, c2, c3⟩ := CreateSpirVModule_version host
    (CombineSpirVOpCodes (Convert_header host t))
  have d1 : (CombineSpirVOpCodes (Convert_header host t)).mMajorVersion = t.mMajorVersion := rfl
  have d2 : (CombineSpirVOpCodes (Convert_header host t)).mMinorVersion = t.mMinorVersion := rfl
  have d3 : (CombineSpirVOpCodes (Convert_header host t)).mIsVertexShader =
      t.mIsVertexShader := rfl
  refine ⟨token, h0, ?_, ?_, ?_, ?_⟩
  · rw [ho, c2, d2, hminor]
    rfl
  · rw [ho, c1, d1, hmajor]
    rfl
  · intro hk
    rw [ho, c3, d3, hkind, if_pos ((high_half_eq token).2 hk)]
  · intro hk
    have hne : ¬ token &&& 0xFFFF0000 = 0xFFFF0000 := by
      intro hc
      rw [(high_half_eq token).1 hc] at hk
      exact absurd hk (by decide)
    rw [ho, c3, d3, hkind, if_neg hne]

/-- The hypothesis of C7 holds on the witness tokens of the claim: `0xFFFF0200` gives a
pixel shader of version 2.0 and `0xFFFE0300` a vertex shader of version 3.0. -/
theorem Convert_decodes_version_token_witness :
    ((returned (Convert exampleHost examplePixelShader (ShaderConverter.fresh 1 4 4))).2.mMajorVersion = 2 ∧
      (returned (Convert exampleHost examplePixelShader (ShaderConverter.fresh 1 4 4))).2.mMinorVersion = 0 ∧
      (returned (Convert exampleHost examplePixelShader (ShaderConverter.fresh 1 4 4))).2.mIsVertexShader = false) ∧
    ((returned (Convert exampleHost exampleVertexShader (ShaderConverter.fresh 1 4 4))).2.mMajorVersion = 3 ∧
      (returned (Convert exampleHost exampleVertexShader (ShaderConverter.fresh 1 4 4))).2.mMinorVersion = 0 ∧
      (returned (Convert exampleHost exampleVertexShader (ShaderConverter.fresh 1 4 4))).2.mIsVertexShader = true) := by
  constructor
  · obtain ⟨token, h0, h1, h2, h3, _⟩ :=
      Convert_decodes_version_token exampleHost examplePixelShader (ShaderConverter.fresh 1 4 4)
        (returned (Convert exampleHost examplePixelShader (ShaderConverter.fresh 1 4 4)))
        (by decide!)
    have ht : token = 0xFFFF0200 := (Option.some.inj h0).symm
    subst ht
    exact ⟨h2, h1, h3 (by decide)⟩
  · obtain ⟨token, h0, h1, h2, _, h4⟩ :=
      Convert_decodes_version_token exampleHost exampleVertexShader (ShaderConverter.fresh 1 4 4)
        (returned (Convert exampleHost exampleVertexShader (ShaderConverter.fresh 1 4 4)))
        (by decide!)
    have ht : token = 0xFFFE0300 := (Option.some.inj h0).symm
    subst ht
    exact ⟨h2, h1, h4 (by decide)⟩

/-! ## Progress of the token reader -/

/-- No handler moves the reader back. -/
theorem dispatch_forward (shader : List Nat) (token : Nat) (s r : ShaderConverter)
    (h : dispatch shader token s = .ok r) : s.mNextToken ≤ r.mNextToken := by
  rw [dispatch_eq_all] at h
  split_ifs at h with hc hz
  · cases h
    show s.mNextToken ≤ s.mNextToken + _
    omega
  · cases h
    exact Nat.le_refl _
  · obtain ⟨_, r0, _, rfl⟩ := readThen_ok _ _ _ _ _ h
    show s.mNextToken ≤ s.mNextToken + _
    omega

theorem dispatchBody_fault (token t0 t1 t2 t3 t4 : Nat) (s : ShaderConverter) :
    dispatchBody token t0 t1 t2 t3 t4 s ≠ .error .outOfFuel := by
  apply dispatchBody_cases (fun r => r ≠ .error .outOfFuel)
  case hDCLV =>
    unfold Process_DCL_Vertex_body
    dsimp only
    split_ifs <;> first | (intro h; cases h) | (split <;> intro h <;> cases h)
  case hDCLP =>
    unfold Process_DCL_Pixel_body
    dsimp only
    split_ifs <;> first | (intro h; cases h) | (split <;> intro h <;> cases h)
  all_goals (intro h; cases h)

theorem Convert_step_fault (shader : List Nat) (s : ShaderConverter) :
    Convert_step shader s ≠ .error .outOfFuel := by
  rw [Convert_step_eq]
  split_ifs with hlt hc
  · intro h; cases h
  · unfold readThen
    split_ifs
    · intro h
      cases hb : dispatchBody (shader.getD s.mNextToken 0)
          (tokenAt shader (s.withReader (s.mNextToken + 1) s.mNextToken).mNextToken
            (dispatchArity (shader.getD s.mNextToken 0)) 0)
          (tokenAt shader (s.withReader (s.mNextToken + 1) s.mNextToken).mNextToken
            (dispatchArity (shader.getD s.mNextToken 0)) 1)
          (tokenAt shader (s.withReader (s.mNextToken + 1) s.mNextToken).mNextToken
            (dispatchArity (shader.getD s.mNextToken 0)) 2)
          (tokenAt shader (s.withReader (s.mNextToken + 1) s.mNextToken).mNextToken
            (dispatchArity (shader.getD s.mNextToken 0)) 3)
          (tokenAt shader (s.withReader (s.mNextToken + 1) s.mNextToken).mNextToken
            (dispatchArity (shader.getD s.mNextToken 0)) 4)
          (s.withReader (s.mNextToken + 1) s.mNextToken) with
      | ok r0 => rw [hb] at h; cases h
      | error e =>
        rw [hb] at h
        have he : e = .outOfFuel := by
          simp only [Except.map] at h
          cases h
          rfl
        subst he
        exact dispatchBody_fault _ _ _ _ _ _ _ hb
    · intro h; cases h
  · intro h; cases h

/-- Once the loop has a turn for each token left and one more, it does not run out of
turns, and more turns change nothing. -/
theorem Convert_loop_enough (shader : List Nat) (fuel token : Nat) (s : ShaderConverter)
    (h : shader.length + 1 ≤ fuel + min s.mNextToken shader.length) :
    Convert_loop shader fuel token s ≠ .error .outOfFuel ∧
      ∀ more, fuel ≤ more → Convert_loop shader more token s = Convert_loop shader fuel token s := by
  induction fuel generalizing token s with
  | zero =>
    have := Nat.min_le_right s.mNextToken shader.length
    omega
  | succ n ih =>
    rw [Convert_loop_succ]
    by_cases hend : token = D3DPS_END
    · simp only [if_pos hend]
      refine ⟨(fun h => by cases h), ?_⟩
      intro more hm
      obtain ⟨m, rfl⟩ : ∃ m, more = m + 1 := ⟨more - 1, by omega⟩
      rw [Convert_loop_succ, if_pos hend]
    · simp only [if_neg hend]
      cases hs : Convert_step shader s with
      | error e =>
        refine ⟨?_, ?_⟩
        · intro hc
          simp only at hc
          cases hc
          exact Convert_step_fault _ _ hs
        · intro more hm
          obtain ⟨m, rfl⟩ : ∃ m, more = m + 1 := ⟨more - 1, by omega⟩
          rw [Convert_loop_succ, if_neg hend, hs]
      | ok p =>
        obtain ⟨tok, r⟩ := p
        obtain ⟨h0, h1, _⟩ := Convert_step_ok _ _ _ _ hs
        have hlt : s.mNextToken < shader.length := by
          by_contra hge
          rw [List.getElem?_eq_none (by omega)] at h0
          cases h0
        have hr : shader.length + 1 ≤ n + min r.mNextToken shader.length := by
          rw [Nat.min_eq_left (Nat.le_of_lt hlt)] at h
          rcases Nat.le_total r.mNextToken shader.length with hle | hle
          · rw [Nat.min_eq_left hle]; omega
          · rw [Nat.min_eq_right hle]; omega
        obtain ⟨i1, i2⟩ := ih tok r hr
        refine ⟨i1, ?_⟩
        intro more hm
        obtain ⟨m, rfl⟩ : ∃ m, more = m + 1 := ⟨more - 1, by omega⟩
        rw [Convert_loop_succ, if_neg hend, hs]
        exact i2 m (by omega)

theorem Convert_translate_fault (shader : List Nat) (s : ShaderConverter) :
    Convert_translate shader s ≠ .error .outOfFuel := by
  unfold Convert_translate
  cases hb : Convert_begin shader s with
  | error e =>
    intro h
    simp only [bind, Except.bind] at h
    cases h
    unfold Convert_begin at hb
    simp only [bind_GetNextToken] at hb
    split_ifs at hb
    all_goals cases hb
  | ok p =>
    obtain ⟨token, b⟩ := p
    obtain ⟨h0, h1, _⟩ := Convert_begin_ok _ _ _ _ hb
    have hlen : 1 ≤ shader.length := by
      by_contra hge
      rw [List.getElem?_eq_none (by omega)] at h0
      cases h0
    have := (Convert_loop_enough shader shader.length token b (by
      rw [h1, Nat.min_eq_left hlen])).1
    intro h
    cases hl : Convert_loop shader shader.length token b with
    | error e =>
      simp only [bind, Except.bind, hl] at h
      cases h
      exact this hl
    | ok l =>
      simp only [bind, Except.bind, hl, pure, Except.pure] at h
      cases h

/-- C6: every turn of the dispatch loop of `Convert` leaves the token reader at least one
token further, and no handler moves it back; hence over any finite token list translation
terminates: as many turns as the list has tokens are enough, more turns change nothing, and
`Convert` returns a sidecar unless it fails (a read past the end of the list, or a write
past the end of a sidecar array). -/
theorem Convert_terminates (host : Host) (shader : List Nat) (s : ShaderConverter) :
    (∀ q token r, Convert_step shader q = .ok (token, r) → q.mNextToken + 1 ≤ r.mNextToken) ∧
    (∀ q token r, dispatch shader token q = .ok r → q.mNextToken ≤ r.mNextToken) ∧
    (∀ b more, Convert_begin shader s = .ok b → shader.length ≤ more →
      Convert_loop shader more b.1 b.2 = Convert_loop shader shader.length b.1 b.2 ∧
      Convert_loop shader shader.length b.1 b.2 ≠ .error .outOfFuel) ∧
    ((∃ out, Convert host shader s = .ok out ∧ out.1 = out.2.mConvertedShader) ∨
      Convert host shader s = .error .readPastEnd ∨
      Convert host shader s = .error .arrayOverflow) := by
  refine ⟨?_, ?_, ?_, ?_⟩
  · intro q token r h
    exact (Convert_step_ok _ _ _ _ h).2.1
  · intro q token r h
    exact dispatch_forward _ _ _ _ h
  · intro b more hb hm
    obtain ⟨h0, h1, _⟩ := Convert_begin_ok _ _ _ _ hb
    have hlen : 1 ≤ shader.length := by
      by_contra hge
      rw [List.getElem?_eq_none (by omega)] at h0
      cases h0
    obtain ⟨i1, i2⟩ := Convert_loop_enough shader shader.length b.1 b.2 (by
      rw [h1, Nat.min_eq_left hlen])
    exact ⟨i2 more hm, i1⟩
  · cases hc : Convert host shader s with
    | ok out =>
      left
      exact ⟨out, rfl, (Convert_ok _ _ _ _ hc).choose_spec.2.2⟩
    | error e =>
      right
      have ht : Convert_translate shader s = .error e := by
        unfold Convert Convert_assemble at hc
        cases ht : Convert_translate shader s with
        | error e2 =>
          rw [ht] at hc
          simp only [bind, Except.bind] at hc
          cases hc
          rfl
        | ok t =>
          rw [ht] at hc
          simp only [bind, Except.bind, pure, Except.pure] at hc
          cases hc
      cases e with
      | readPastEnd => exact Or.inl rfl
      | arrayOverflow => exact Or.inr rfl
      | outOfFuel => exact absurd ht (Convert_translate_fault shader s)

/-! ## Comments -/

/-- The payload length of a comment token: the mask of the source keeps bits 16 to 27. -/
theorem comment_length_bits (token : Nat) :
    (token &&& 0x0FFF0000) >>> 16 = (token >>> 16) &&& 0xFFF := by
  have e : (0x0FFF0000 : Nat) = 0xFFF <<< 16 := by decide
  apply Nat.eq_of_testBit_eq
  intro i
  rw [e]
  simp only [Nat.testBit_shiftRight, Nat.testBit_and, Nat.testBit_shiftLeft]
  simp

theorem comment_not_end (token : Nat) (h : GetOpcode token = 0xFFFE) : token ≠ D3DPS_END := by
  intro he
  rw [he] at h
  exact absurd h (by decide)

/-- C9: when the dispatch loop reads a comment token (opcode field `0xFFFE`) whose bits 16
to 27 hold `n`, that turn changes nothing but the token reader, which it leaves `n + 1`
tokens after the comment token: no section gets a word, the loop does not end there, and
the token the next turn dispatches is the one `n + 1` places after the comment token,
whatever the `n` tokens of the payload are. -/
theorem Convert_skips_comment (shader : List Nat) (s : ShaderConverter) (comment n fuel : Nat)
    (hread : shader[s.mNextToken]? = some comment) (hop : GetOpcode comment = 0xFFFE)
    (hn : (comment >>> 16) &&& 0xFFF = n) :
    Convert_step shader s = .ok (comment, s.withReader (s.mNextToken + 1 + n) s.mNextToken) ∧
    specSectionOrder (s.withReader (s.mNextToken + 1 + n) s.mNextToken) = specSectionOrder s ∧
    (s.withReader (s.mNextToken + 1 + n) s.mNextToken).mInstructions = s.mInstructions ∧
    comment ≠ D3DPS_END ∧
    Convert_loop shader (fuel + 1) comment
        (s.withReader (s.mNextToken + 1 + n) s.mNextToken) =
      (match Convert_step shader (s.withReader (s.mNextToken + 1 + n) s.mNextToken) with
        | .ok next => Convert_loop shader fuel next.1 next.2
        | .error e => .error e) ∧
    (∀ token r, Convert_step shader (s.withReader (s.mNextToken + 1 + n) s.mNextToken) =
        .ok (token, r) → shader[s.mNextToken + (n + 1)]? = some token) ∧
    (∀ other : List Nat, (∀ i, i ≤ s.mNextToken → other[i]? = shader[i]?) →
      Convert_step other s = Convert_step shader s) := by
  have hlt : s.mNextToken < shader.length := by
    by_contra hge
    rw [List.getElem?_eq_none (by omega)] at hread
    cases hread
  have hget : shader.getD s.mNextToken 0 = comment := by
    rw [List.getD_eq_getElem?_getD, hread]
    rfl
  have hstep : ∀ other : List Nat, other[s.mNextToken]? = some comment →
      Convert_step other s =
        .ok (comment, s.withReader (s.mNextToken + 1 + n) s.mNextToken) := by
    intro other ho
    have holt : s.mNextToken < other.length := by
      by_contra hge
      rw [List.getElem?_eq_none (by omega)] at ho
      cases ho
    have hoget : other.getD s.mNextToken 0 = comment := by
      rw [List.getD_eq_getElem?_getD, ho]
      rfl
    have hop2 : GetOpcode comment = D3DSIO_COMMENT := hop
    rw [Convert_step_eq, if_pos holt, hoget, if_pos hop2, comment_length_bits, hn]
  refine ⟨hstep shader hread, rfl, rfl, comment_not_end comment hop, ?_, ?_, ?_⟩
  · rw [Convert_loop_succ, if_neg (comment_not_end comment hop)]
  · intro token r h
    have := (Convert_step_ok _ _ _ _ h).1
    rw [withReader_mNextToken] at this
    rw [← this]
    congr 1
    omega
  · intro other ho
    rw [hstep shader hread, hstep other (by rw [ho _ (Nat.le_refl _), hread])]

/-- The hypotheses of C9 hold on a stream whose comment has a payload of two tokens, the
first of them the end marker and the second the opcode of `mov`: the turn after the
comment reads the token after the payload. -/
theorem Convert_skips_comment_witness :
    Convert_step [0xFFFF0200, 0x0002FFFE, 0x0000FFFF, 0x00000001, 0x0000FFFF]
        ((ShaderConverter.fresh 1 4 4).withReader 1 0) =
      .ok (0x0002FFFE, ((ShaderConverter.fresh 1 4 4).withReader 1 0).withReader (1 + 1 + 2) 1) :=
  (Convert_skips_comment [0xFFFF0200, 0x0002FFFE, 0x0000FFFF, 0x00000001, 0x0000FFFF]
    ((ShaderConverter.fresh 1 4 4).withReader 1 0) 0x0002FFFE 2 0 (by decide) (by decide)
    (by decide)).1

/-! ## The end of the stream -/

theorem take_eq_getD (shader other : List Nat) (m i : Nat)
    (h : other.take m = shader.take m) (hi : i < m) : other.getD i 0 = shader.getD i 0 := by
  have e := congrArg (fun l => l.getD i 0) h
  simpa [List.getD_eq_getElem?_getD, List.getElem?_take, hi] using e

theorem take_eq_length (shader other : List Nat) (m k : Nat)
    (h : other.take m = shader.take m) (hk : k ≤ m) : k ≤ other.length ↔ k ≤ shader.length := by
  have e := congrArg List.length h
  simp only [List.length_take] at e
  omega

theorem take_eq_of_le (shader other : List Nat) (m k : Nat)
    (h : other.take m = shader.take m) (hk : k ≤ m) : other.take k = shader.take k := by
  have e := congrArg (List.take k) h
  simpa [List.take_take, Nat.min_eq_left hk] using e

/-- A turn of the loop looks at no token after the place where it leaves the reader. -/
theorem Convert_step_local (shader other : List Nat) (q r : ShaderConverter) (token : Nat)
    (h : Convert_step shader q = .ok (token, r))
    (ho : other.take r.mNextToken = shader.take r.mNextToken) :
    Convert_step other q = .ok (token, r) := by
  have hfwd := (Convert_step_ok _ _ _ _ h).2.1
  rw [Convert_step_eq] at h ⊢
  have hget : other.getD q.mNextToken 0 = shader.getD q.mNextToken 0 :=
    take_eq_getD _ _ _ _ ho (by omega)
  have hlen : q.mNextToken < other.length ↔ q.mNextToken < shader.length :=
    take_eq_length _ _ _ (q.mNextToken + 1) ho (by omega)
  by_cases hlt : q.mNextToken < shader.length
  · rw [if_pos hlt] at h
    rw [if_pos (hlen.2 hlt), hget]
    by_cases hc : GetOpcode (shader.getD q.mNextToken 0) = D3DSIO_COMMENT
    · rw [if_pos hc] at h
      rw [if_pos hc]
      exact h
    · rw [if_neg hc] at h
      rw [if_neg hc]
      cases hr : readThen (dispatchArity (shader.getD q.mNextToken 0))
          (dispatchBody (shader.getD q.mNextToken 0)) shader
          (q.withReader (q.mNextToken + 1) q.mNextToken) with
      | error e => rw [hr] at h; cases h
      | ok r1 =>
        rw [hr] at h
        have hr1 : r1 = r := by
          cases h
          rfl
        subst hr1
        obtain ⟨hk, r0, hb, hr0⟩ := readThen_ok _ _ _ _ _ hr
        rw [withReader_mNextToken] at hk hb hr0
        have hm : r1.mNextToken =
            q.mNextToken + 1 + dispatchArity (shader.getD q.mNextToken 0) := by
          rw [hr0]
          rfl
        have htok : ∀ i, tokenAt other (q.mNextToken + 1)
              (dispatchArity (shader.getD q.mNextToken 0)) i =
            tokenAt shader (q.mNextToken + 1)
              (dispatchArity (shader.getD q.mNextToken 0)) i := by
          intro i
          unfold tokenAt
          split_ifs with hi
          · exact take_eq_getD _ _ _ _ ho (by omega)
          · rfl
        have hrt : readThen (dispatchArity (shader.getD q.mNextToken 0))
            (dispatchBody (shader.getD q.mNextToken 0)) other
            (q.withReader (q.mNextToken + 1) q.mNextToken) = .ok r1 := by
          rw [← hr]
          unfold readThen
          rw [withReader_mNextToken]
          simp only [htok]
          rw [if_pos hk, if_pos ((take_eq_length _ _ _ _ ho (by omega)).2 hk)]
        rw [hrt]
        exact h
  · rw [if_neg hlt] at h
    cases h

theorem Convert_loop_local (shader other : List Nat) (fuel token : Nat)
    (q t : ShaderConverter) (h : Convert_loop shader fuel token q = .ok t)
    (ho : other.take t.mNextToken = shader.take t.mNextToken) :
    Convert_loop other fuel token q = .ok t := by
  induction fuel generalizing token q with
  | zero =>
    rw [Convert_loop_zero] at h ⊢
    exact h
  | succ n ih =>
    rw [Convert_loop_succ] at h ⊢
    by_cases hend : token = D3DPS_END
    · rw [if_pos hend] at h ⊢
      exact h
    · rw [if_neg hend] at h ⊢
      cases hs : Convert_step shader q with
      | error e => rw [hs] at h; cases h
      | ok p =>
        obtain ⟨tok, r⟩ := p
        rw [hs] at h
        have hle := (Convert_loop_ok _ _ _ _ _ h).1
        rw [Convert_step_local shader other q r tok hs (take_eq_of_le _ _ _ _ ho hle)]
        exact ih _ _ h

/-- A loop that has returned returns the same with more turns. -/
theorem Convert_loop_more (shader : List Nat) (fuel more token : Nat)
    (q t : ShaderConverter) (h : Convert_loop shader fuel token q = .ok t)
    (hm : fuel ≤ more) : Convert_loop shader more token q = .ok t := by
  induction fuel generalizing token q more with
  | zero =>
    rw [Convert_loop_zero] at h
    split_ifs at h with hend
    cases more with
    | zero => rw [Convert_loop_zero, if_pos hend]; exact h
    | succ m => rw [Convert_loop_succ, if_pos hend]; exact h
  | succ n ih =>
    obtain ⟨m, rfl⟩ : ∃ m, more = m + 1 := ⟨more - 1, by omega⟩
    rw [Convert_loop_succ] at h ⊢
    by_cases hend : token = D3DPS_END
    · rw [if_pos hend] at h ⊢
      exact h
    · rw [if_neg hend] at h ⊢
      cases hs : Convert_step shader q with
      | error e => rw [hs] at h; cases h
      | ok p =>
        rw [hs] at h
        exact ih _ _ _ h (by omega)

/-- The loop ends on a token that is the end marker, and that token is the last one read. -/
theorem Convert_loop_ends (shader : List Nat) (fuel token : Nat) (q t : ShaderConverter)
    (h : Convert_loop shader fuel token q = .ok t)
    (hq : token = D3DPS_END → 1 ≤ q.mNextToken ∧ shader[q.mNextToken - 1]? = some D3DPS_END) :
    1 ≤ t.mNextToken ∧ shader[t.mNextToken - 1]? = some D3DPS_END := by
  induction fuel generalizing token q with
  | zero =>
    rw [Convert_loop_zero] at h
    split_ifs at h with hend
    cases h
    exact hq hend
  | succ n ih =>
    rw [Convert_loop_succ] at h
    by_cases hend : token = D3DPS_END
    · rw [if_pos hend] at h
      cases h
      exact hq hend
    · rw [if_neg hend] at h
      cases hs : Convert_step shader q with
      | error e => rw [hs] at h; cases h
      | ok p =>
        obtain ⟨tok, r⟩ := p
        rw [hs] at h
        refine ih _ _ h ?_
        intro htok
        show 1 ≤ r.mNextToken ∧ shader[r.mNextToken - 1]? = some D3DPS_END
        have h0 := (Convert_step_ok _ _ _ _ hs).1
        have hlt : q.mNextToken < shader.length := by
          by_contra hge
          rw [List.getElem?_eq_none (by omega)] at h0
          cases h0
        have hget : shader.getD q.mNextToken 0 = tok := by
          rw [List.getD_eq_getElem?_getD, h0]
          rfl
        rw [Convert_step_eq, if_pos hlt, hget] at hs
        have hz : dispatchArity tok = 0 := by rw [show tok = D3DPS_END from htok]; decide
        have hnc : ¬ GetOpcode tok = D3DSIO_COMMENT := by
          rw [show tok = D3DPS_END from htok]; decide
        rw [if_neg hnc, hz] at hs
        rw [readThen_zero_body shader _ _
          (fun t0 t1 t2 t3 t4 s => dispatchArity_zero tok t0 t1 t2 t3 t4 s hz)
          (by show q.mNextToken + 1 ≤ shader.length; omega)] at hs
        have hr : r = q.withReader (q.mNextToken + 1) q.mNextToken := by
          cases hs
          rfl
        rw [hr, withReader_mNextToken]
        refine ⟨by omega, ?_⟩
        rw [Nat.add_sub_cancel, h0, show tok = D3DPS_END from htok]

/-- The head of `Convert` in normal form: it reads the first token only. -/
theorem Convert_begin_eq (shader : List Nat) (s : ShaderConverter) :
    Convert_begin shader s =
      if 0 < shader.length then
        .ok (shader.getD 0 0, Convert_begin_body (shader.getD 0 0)
          (((s.setConvertedShader s.mConvertedShader.cleared).clearInstructions.rewind).withReader
            1 s.mTokenOffset))
      else .error .readPastEnd := by
  unfold Convert_begin
  simp only [bind_GetNextToken]
  rfl

theorem Convert_begin_local (shader other : List Nat) (s : ShaderConverter)
    (ho : other.take 1 = shader.take 1) : Convert_begin other s = Convert_begin shader s := by
  rw [Convert_begin_eq, Convert_begin_eq, take_eq_getD _ _ _ _ ho (Nat.lt_succ_self 0)]
  have hl : 0 < other.length ↔ 0 < shader.length := take_eq_length _ _ _ _ ho (Nat.le_refl 1)
  by_cases h : 0 < shader.length
  · rw [if_pos h, if_pos (hl.2 h)]
  · rw [if_neg h, if_neg (fun h2 => h (hl.1 h2))]

theorem Convert_end_mNextToken (s : ShaderConverter) :
    (Convert_end s).mNextToken = s.mNextToken := by
  unfold Convert_end
  by_cases hv : s.mIsVertexShader = true <;> simp [hv]

/-- Translation looks at no token after the place where it leaves the reader. -/
theorem Convert_translate_local (shader other : List Nat) (s t : ShaderConverter)
    (h : Convert_translate shader s = .ok t)
    (ho : other.take t.mNextToken = shader.take t.mNextToken) :
    Convert_translate other s = .ok t := by
  unfold Convert_translate at h ⊢
  cases hb : Convert_begin shader s with
  | error e => rw [hb] at h; cases h
  | ok p =>
    obtain ⟨token, b⟩ := p
    rw [hb] at h
    cases hl : Convert_loop shader shader.length token b with
    | error e =>
      simp only [bind, Except.bind, hl] at h
      cases h
    | ok l =>
      simp only [bind, Except.bind, hl, pure, Except.pure, Except.ok.injEq] at h
      subst h
      rw [Convert_end_mNextToken] at ho
      obtain ⟨h0, h1, _⟩ := Convert_begin_ok _ _ _ _ hb
      have hle : 1 ≤ l.mNextToken := by
        have := (Convert_loop_ok _ _ _ _ _ hl).1
        omega
      have hbo : Convert_begin other s = .ok (token, b) := by
        rw [Convert_begin_local shader other s (take_eq_of_le _ _ _ _ ho hle), hb]
      have holen : 1 ≤ other.length := by
        have := (Convert_begin_ok _ _ _ _ hbo).1
        by_contra hge
        rw [List.getElem?_eq_none (by omega)] at this
        cases this
      have hlo := Convert_loop_local shader other _ _ _ _ hl ho
      have hfin : Convert_loop other other.length token b = .ok l := by
        rcases Nat.le_total shader.length other.length with hc | hc
        · exact Convert_loop_more _ _ _ _ _ _ hlo hc
        · rw [← (Convert_loop_enough other other.length token b (by
            rw [h1, Nat.min_eq_left holen])).2 shader.length hc]
          exact hlo
      rw [hbo]
      simp only [bind, Except.bind, hfin, pure, Except.pure]

theorem Convert_translate_ends (shader : List Nat) (s t : ShaderConverter)
    (h : Convert_translate shader s = .ok t) :
    1 ≤ t.mNextToken ∧ shader[t.mNextToken - 1]? = some D3DPS_END := by
  unfold Convert_translate at h
  cases hb : Convert_begin shader s with
  | error e => rw [hb] at h; cases h
  | ok p =>
    obtain ⟨token, b⟩ := p
    rw [hb] at h
    cases hl : Convert_loop shader shader.length token b with
    | error e =>
      simp only [bind, Except.bind, hl] at h
      cases h
    | ok l =>
      simp only [bind, Except.bind, hl, pure, Except.pure, Except.ok.injEq] at h
      subst h
      rw [Convert_end_mNextToken]
      obtain ⟨h0, h1, _⟩ := Convert_begin_ok _ _ _ _ hb
      refine Convert_loop_ends _ _ _ _ _ hl ?_
      intro htok
      rw [h1]
      exact ⟨Nat.le_refl 1, by rw [h0, htok]⟩

theorem Convert_of_translate (host : Host) (shader other : List Nat) (s : ShaderConverter)
    (h : Convert_translate other s = Convert_translate shader s) :
    Convert host other s = Convert host shader s ∧
      emittedModule host other s = emittedModule host shader s := by
  unfold Convert emittedModule Convert_assemble
  rw [h]
  exact ⟨rfl, rfl⟩

theorem Convert_mNextToken (host : Host) (t : ShaderConverter) :
    (CreateSpirVModule host (CombineSpirVOpCodes (Convert_header host t))).mNextToken =
      t.mNextToken := by
  unfold CreateSpirVModule
  split <;> rfl
/-- C8, as stated, fails: a token in instruction position whose opcode field is `0xFFFF`
does not stop the dispatch unless the whole token is `0x0000FFFF`.  The two streams below
agree up to and with the token `0x0001FFFF`, and `Convert` completes on both, but the
declaration after that token is read and changes the module. -/
theorem end_opcode_field_does_not_stop :
    GetOpcode 0x0001FFFF = 0xFFFF ∧
    List.take 2 [0xFFFF0200, 0x0001FFFF, 0x0000FFFF] =
      List.take 2 [0xFFFF0200, 0x0001FFFF, 0x0200001F, 0x80000000, 0x900F0000, 0x0000FFFF] ∧
    (emittedModule exampleHost [0xFFFF0200, 0x0001FFFF, 0x0000FFFF]
      (ShaderConverter.fresh 1 4 4)).toBool = true ∧
    (emittedModule exampleHost
      [0xFFFF0200, 0x0001FFFF, 0x0200001F, 0x80000000, 0x900F0000, 0x0000FFFF]
      (ShaderConverter.fresh 1 4 4)).toBool = true ∧
    emittedModule exampleHost [0xFFFF0200, 0x0001FFFF, 0x0000FFFF]
        (ShaderConverter.fresh 1 4 4) ≠
      emittedModule exampleHost
        [0xFFFF0200, 0x0001FFFF, 0x0200001F, 0x80000000, 0x900F0000, 0x0000FFFF]
        (ShaderConverter.fresh 1 4 4) := by
  decide!

/-! ## Tokens without a handler -/

theorem drop_eq_getD (A B : List Nat) (a b i : Nat) (h : A.drop a = B.drop b) :
    A.getD (a + i) 0 = B.getD (b + i) 0 := by
  have e := congrArg (fun l => l.getD i 0) h
  simpa [List.getD_eq_getElem?_getD, List.getElem?_drop] using e

theorem drop_eq_length (A B : List Nat) (a b j : Nat) (h : A.drop a = B.drop b)
    (hj : 1 ≤ j) : a + j ≤ A.length ↔ b + j ≤ B.length := by
  have e := congrArg List.length h
  simp only [List.length_drop] at e
  omega

theorem drop_eq_drop (A B : List Nat) (a b k : Nat) (h : A.drop a = B.drop b) :
    A.drop (a + k) = B.drop (b + k) := by
  have e := congrArg (List.drop k) h
  simpa [List.drop_drop, Nat.add_comm] using e

/-- A turn of the loop depends on the tokens from the reader on and on the state apart
from the reader, and so does what it leaves. -/
theorem Convert_step_shift (A B : List Nat) (qA qB : ShaderConverter)
    (hd : A.drop qA.mNextToken = B.drop qB.mNextToken)
    (hq : qA.withReader 0 0 = qB.withReader 0 0) :
    (Convert_step A qA).map (fun p => (p.1, p.2.withReader 0 0, A.drop p.2.mNextToken)) =
      (Convert_step B qB).map (fun p => (p.1, p.2.withReader 0 0, B.drop p.2.mNextToken)) := by
  rw [Convert_step_eq, Convert_step_eq]
  have hget : A.getD qA.mNextToken 0 = B.getD qB.mNextToken 0 := drop_eq_getD A B _ _ 0 hd
  have hlen : qA.mNextToken < A.length ↔ qB.mNextToken < B.length :=
    drop_eq_length A B _ _ 1 hd (Nat.le_refl 1)
  have eA : ∀ x y, qA.withReader x y = (qB.withReader 0 0).withReader x y := by
    intro x y
    rw [← hq, withReader_withReader]
  have eB : ∀ x y, qB.withReader x y = (qB.withReader 0 0).withReader x y := by
    intro x y
    rw [withReader_withReader]
  by_cases hlt : qB.mNextToken < B.length
  · rw [if_pos hlt, if_pos (hlen.2 hlt), hget]
    by_cases hc : GetOpcode (B.getD qB.mNextToken 0) = D3DSIO_COMMENT
    · rw [if_pos hc, if_pos hc]
      simp only [Except.map, withReader_withReader, withReader_mNextToken]
      rw [hq, drop_eq_drop A B _ _ 1 hd |> drop_eq_drop A B _ _ _]
    · rw [if_neg hc, if_neg hc]
      unfold readThen
      simp only [withReader_mNextToken, withReader_mTokenOffset]
      have hk : qA.mNextToken + 1 + dispatchArity (B.getD qB.mNextToken 0) ≤ A.length ↔
          qB.mNextToken + 1 + dispatchArity (B.getD qB.mNextToken 0) ≤ B.length := by
        rw [Nat.add_assoc, Nat.add_assoc]
        exact drop_eq_length A B _ _ _ hd (by omega)
      have htok : ∀ i, tokenAt A (qA.mNextToken + 1)
            (dispatchArity (B.getD qB.mNextToken 0)) i =
          tokenAt B (qB.mNextToken + 1) (dispatchArity (B.getD qB.mNextToken 0)) i := by
        intro i
        unfold tokenAt
        split_ifs
        · rw [Nat.add_assoc, Nat.add_assoc]
          exact drop_eq_getD A B _ _ _ hd
        · rfl
      simp only [htok]
      by_cases hkB : qB.mNextToken + 1 + dispatchArity (B.getD qB.mNextToken 0) ≤ B.length
      · rw [if_pos hkB, if_pos (hk.2 hkB), eA (qA.mNextToken + 1) qA.mNextToken,
          eB (qB.mNextToken + 1) qB.mNextToken,
          dispatchBody_readerFree _ _ _ _ _ _ (qB.withReader 0 0) (qA.mNextToken + 1),
          dispatchBody_readerFree _ _ _ _ _ _ (qB.withReader 0 0) (qB.mNextToken + 1)]
        cases dispatchBody (B.getD qB.mNextToken 0)
          (tokenAt B (qB.mNextToken + 1) (dispatchArity (B.getD qB.mNextToken 0)) 0)
          (tokenAt B (qB.mNextToken + 1) (dispatchArity (B.getD qB.mNextToken 0)) 1)
          (tokenAt B (qB.mNextToken + 1) (dispatchArity (B.getD qB.mNextToken 0)) 2)
          (tokenAt B (qB.mNextToken + 1) (dispatchArity (B.getD qB.mNextToken 0)) 3)
          (tokenAt B (qB.mNextToken + 1) (dispatchArity (B.getD qB.mNextToken 0)) 4)
          (qB.withReader 0 0) with
        | error e => rfl
        | ok r0 =>
          simp only [Except.map, withReader_withReader, withReader_mNextToken]
          rw [drop_eq_drop A B _ _ 1 hd |> drop_eq_drop A B _ _ _]
      · rw [if_neg hkB, if_neg (fun h => hkB (hk.1 h))]
        rfl
  · rw [if_neg hlt, if_neg (fun h => hlt (hlen.1 h))]
    rfl

/-- The loop depends on the tokens from the reader on and on the state apart from the
reader: the `withReader 0 0` of its result is the same on two streams that are equal from
their readers on. -/
theorem Convert_loop_shift (A B : List Nat) (fuel tokA tokB : Nat) (qA qB : ShaderConverter)
    (hd : A.drop qA.mNextToken = B.drop qB.mNextToken)
    (hq : qA.withReader 0 0 = qB.withReader 0 0)
    (ht : tokA = D3DPS_END ↔ tokB = D3DPS_END) :
    (Convert_loop A fuel tokA qA).map (fun r => r.withReader 0 0) =
      (Convert_loop B fuel tokB qB).map (fun r => r.withReader 0 0) := by
  induction fuel generalizing tokA tokB qA qB with
  | zero =>
    rw [Convert_loop_zero, Convert_loop_zero]
    by_cases hend : tokB = D3DPS_END
    · rw [if_pos hend, if_pos (ht.2 hend)]
      simp only [Except.map, hq]
    · rw [if_neg hend, if_neg (fun h => hend (ht.1 h))]
  | succ n ih =>
    rw [Convert_loop_succ, Convert_loop_succ]
    by_cases hend : tokB = D3DPS_END
    · rw [if_pos hend, if_pos (ht.2 hend)]
      simp only [Except.map, hq]
    · rw [if_neg hend, if_neg (fun h => hend (ht.1 h))]
      have hstep := Convert_step_shift A B qA qB hd hq
      cases hA : Convert_step A qA with
      | error e =>
        cases hB : Convert_step B qB with
        | error e2 =>
          rw [hA, hB] at hstep
          simp only [Except.map, Except.error.injEq] at hstep
          subst hstep
          rfl
        | ok p2 =>
          rw [hA, hB] at hstep
          cases hstep
      | ok p =>
        cases hB : Convert_step B qB with
        | error e2 =>
          rw [hA, hB] at hstep
          cases hstep
        | ok p2 =>
          rw [hA, hB] at hstep
          simp only [Except.map, Except.ok.injEq, Prod.mk.injEq] at hstep
          obtain ⟨h1, h2, h3⟩ := hstep
          exact ih p.1 p2.1 p.2 p2.2 h3 h2 (by rw [h1])

/-- The opcodes the `switch` of `Convert` does something for. -/
theorem dispatchArity_unhandled (token : Nat) (h : GetOpcode token ∉ handledOpcodes) :
    dispatchArity token = 0 ∧ ¬ GetOpcode token = D3DSIO_COMMENT := by
  simp only [handledOpcodes, List.mem_cons, List.mem_singleton, not_or, List.not_mem_nil,
    not_false_eq_true, and_true] at h
  obtain ⟨h1, h2, h3, h4, h5, h6, h7, h8, h9, h10, h11, h12, h13, h14, h15⟩ := h
  refine ⟨?_, h15⟩
  unfold dispatchArity
  simp only [if_neg h1, if_neg h2, if_neg h3, if_neg h4, if_neg h5, if_neg h6, if_neg h7,
    if_neg h8, if_neg h9, if_neg h10, if_neg h11, if_neg h12, if_neg h13, if_neg h14,
    ite_self]

/-- A turn of the loop on a token without a handler moves the reader one token on and
does nothing else. -/
theorem Convert_step_unhandled (shader : List Nat) (s : ShaderConverter) (token : Nat)
    (hread : shader[s.mNextToken]? = some token) (h : GetOpcode token ∉ handledOpcodes) :
    Convert_step shader s = .ok (token, s.withReader (s.mNextToken + 1) s.mNextToken) := by
  obtain ⟨hz, hc⟩ := dispatchArity_unhandled token h
  have hlt : s.mNextToken < shader.length := by
    by_contra hge
    rw [List.getElem?_eq_none (by omega)] at hread
    cases hread
  have hget : shader.getD s.mNextToken 0 = token := by
    rw [List.getD_eq_getElem?_getD, hread]
    rfl
  rw [Convert_step_eq, if_pos hlt, hget, if_neg hc, hz,
    readThen_zero_body shader _ _
      (fun t0 t1 t2 t3 t4 s => dispatchArity_zero token t0 t1 t2 t3 t4 s hz)
      (by show s.mNextToken + 1 ≤ shader.length; omega)]
  rfl

/-- C10, as stated, fails: the operand tokens of an instruction without a handler are
not skipped but dispatched as instructions.  In `rcp r0, r1` followed by two `nop` the
source token `0x80E40001` has the opcode field of `mov`, which takes the two `nop` as its
operands and emits instructions: the module differs from the module of the stream without
the `rcp` and its two operand tokens, which is the module of the empty shader. -/
theorem unsupported_operands_are_dispatched :
    GetOpcode 0x02000006 ∉ handledOpcodes ∧
    (emittedModule exampleHost
      [0xFFFF0200, 0x02000006, 0x800F0000, 0x80E40001, 0x00000000, 0x00000000, 0x0000FFFF]
      (ShaderConverter.fresh 1 4 4)).toBool = true ∧
    emittedModule exampleHost
        [0xFFFF0200, 0x02000006, 0x800F0000, 0x80E40001, 0x00000000, 0x00000000, 0x0000FFFF]
        (ShaderConverter.fresh 1 4 4) ≠
      emittedModule exampleHost [0xFFFF0200, 0x00000000, 0x00000000, 0x0000FFFF]
        (ShaderConverter.fresh 1 4 4) ∧
    emittedModule exampleHost [0xFFFF0200, 0x00000000, 0x00000000, 0x0000FFFF]
        (ShaderConverter.fresh 1 4 4) =
      emittedModule exampleHost examplePixelShader (ShaderConverter.fresh 1 4 4) := by
  decide!

/-- C10, amended: a turn of the dispatch loop that reads a token whose opcode has no
handler (`rcp` for one) changes nothing but the token reader, which it moves one token on:
no section gets a word, and the operand tokens are not skipped.  From any state of the
loop the rest of the translation is, apart from the reader, what it is on the stream
without that one token. -/
theorem Convert_unsupported_token (pre rest : List Nat) (token previous fuel : Nat)
    (s : ShaderConverter) (hs : s.mNextToken = pre.length)
    (h : GetOpcode token ∉ handledOpcodes) (hne : token ≠ D3DPS_END)
    (hprev : previous ≠ D3DPS_END) :
    Convert_step (pre ++ token :: rest) s =
      .ok (token, s.withReader (pre.length + 1) pre.length) ∧
    specSectionOrder (s.withReader (pre.length + 1) pre.length) = specSectionOrder s ∧
    (s.withReader (pre.length + 1) pre.length).mInstructions = s.mInstructions ∧
    (Convert_loop (pre ++ token :: rest) (fuel + 1) previous s).map
        (fun r => r.withReader 0 0) =
      (Convert_loop (pre ++ rest) fuel previous s).map (fun r => r.withReader 0 0) := by
  have hread : (pre ++ token :: rest)[s.mNextToken]? = some token := by
    rw [hs, List.getElem?_append_right (Nat.le_refl _), Nat.sub_self]
    exact List.getElem?_cons_zero
  have hstep := Convert_step_unhandled _ s token hread h
  rw [hs] at hstep
  refine ⟨hstep, rfl, rfl, ?_⟩
  rw [Convert_loop_succ, if_neg hprev, hstep]
  refine Convert_loop_shift _ _ fuel token previous _ s ?_ ?_ ?_
  · rw [withReader_mNextToken, hs]
    simp
  · rw [withReader_withReader]
  · exact ⟨fun h1 => absurd h1 hne, fun h1 => absurd h1 hprev⟩

/-- The hypotheses of amended C10 hold for `rcp` right after the version token of a
pixel shader: the turn that reads it moves the reader from 1 to 2 and does nothing else. -/
theorem Convert_unsupported_token_witness :
    Convert_step ([0xFFFF0200] ++ 0x02000006 :: [0x800F0000, 0x80E40000, 0x0000FFFF])
        ((ShaderConverter.fresh 1 4 4).withReader 1 0) =
      .ok (0x02000006, ((ShaderConverter.fresh 1 4 4).withReader 1 0).withReader 2 1) :=
  (Convert_unsupported_token [0xFFFF0200] [0x800F0000, 0x80E40000, 0x0000FFFF] 0x02000006
    0xFFFF0200 5 ((ShaderConverter.fresh 1 4 4).withReader 1 0) rfl (by decide) (by decide)
    (by decide)).1

/-! ## Instructions and their leading words -/

theorem splitInstructionsFuel_flatten (instructions : List (List Nat))
    (h : ∀ i ∈ instructions, Framed i) (fuel : Nat) (hf : instructions.flatten.length ≤ fuel) :
    splitInstructionsFuel fuel instructions.flatten = some instructions := by
  induction instructions generalizing fuel with
  | nil => cases fuel <;> rfl
  | cons i rest ih =>
    have hi := h i (List.mem_cons_self _ _)
    cases i with
    | nil => exact absurd hi (by simp [Framed])
    | cons word operands =>
      have hc : declaredWordCount word = operands.length + 1 := hi
      cases fuel with
      | zero => simp at hf
      | succ n =>
        have hr := ih (fun j hj => h j (List.mem_cons_of_mem _ hj)) n (by
          simp only [List.flatten_cons, List.length_append, List.length_cons] at hf
          omega)
        simp only [List.flatten_cons, List.cons_append]
        unfold splitInstructionsFuel
        simp only [hc, List.length_append, Nat.add_sub_cancel, List.drop_left', List.take_left']
        rw [if_neg (by omega)]
        simp only [List.drop_left, List.take_left, hr]

theorem splitInstructions_flatten (instructions : List (List Nat))
    (h : ∀ i ∈ instructions, Framed i) :
    splitInstructions instructions.flatten = some instructions :=
  splitInstructionsFuel_flatten instructions h _ (Nat.le_refl _)

/-- The two halves of a leading word. -/
theorem Pack_halves (wordCount opcode : Nat) (hw : wordCount < 65536) (ho : opcode < 65536) :
    declaredWordCount (Pack wordCount opcode) = wordCount ∧
      opcodeOf (Pack wordCount opcode) = opcode := by
  unfold declaredWordCount opcodeOf Pack
  have e : wordCount <<< 16 ||| opcode = wordCount * 65536 + opcode := by
    have h2 : opcode < 2 ^ 16 := ho
    rw [Nat.shiftLeft_eq, Nat.mul_comm, ← Nat.mul_add_lt_is_or h2, Nat.mul_comm]
  rw [e, Nat.mod_eq_of_lt (by omega)]
  constructor
  · rw [Nat.shiftRight_eq_div_pow]
    omega
  · have : (0xFFFF : Nat) = 2 ^ 16 - 1 := by decide
    rw [this, Nat.and_pow_two_sub_one_eq_mod]
    omega

/-! ## The rules of `Emits` -/

theorem Framed_of (word : Nat) (operands : List Nat) (n : Nat)
    (h : declaredWordCount word = n) (hn : operands.length + 1 = n) :
    Framed (word :: operands) := h.trans hn.symm

theorem resultIds_append (a b : List (List Nat)) :
    resultIds (a ++ b) = resultIds a ++ resultIds b := by
  simp [resultIds, List.filterMap_append]

theorem resultIds_some (i : List Nat) (r : Nat) (h : resultId i = some r) :
    resultIds [i] = [r] := by
  simp [resultIds, List.filterMap_cons, h]

theorem resultIds_none (i : List Nat) (h : resultId i = none) : resultIds [i] = [] := by
  simp [resultIds, List.filterMap_cons, h]

theorem Emits.refl (W : Prop) (s : ShaderConverter) (hargs : ArgumentsEmpty s)
    (hbelow : W → IdsBelow s) : Emits W 0 0 [] s s where
  args := hargs
  room := Nat.le_refl _
  counter := fun _ => ⟨Nat.le_refl _, Nat.le_refl _⟩
  below := hbelow
  out := ⟨[], [], by simp, by simp, by simp, fun _ => ⟨by simp, fun x => by simp [resultIds]⟩⟩

theorem Emits.mono {W : Prop} {c k c2 k2 : Nat} {R : List Nat} {s s1 : ShaderConverter}
    (h : Emits W c k R s s1) (hc : c ≤ c2) (hk : k ≤ k2) : Emits W c2 k2 R s s1 where
  args := h.args
  room := Nat.le_trans h.room (by omega)
  counter := fun hW => ⟨(h.counter hW).1, Nat.le_trans (h.counter hW).2 (by omega)⟩
  below := h.below
  out := h.out

/-- A pending id may be given up. -/
theorem Emits.forget {W : Prop} {c k r : Nat} {R : List Nat} {s s1 : ShaderConverter}
    (h : Emits W c k (r :: R) s s1) : Emits W c k R s s1 where
  args := h.args
  room := h.room
  counter := h.counter
  below := h.below
  out := by
    obtain ⟨T, F, h1, h2, h3, h4⟩ := h.out
    refine ⟨T, F, h1, h2, h3, fun hW => ⟨(h4 hW).1, fun x => ?_⟩⟩
    have := (h4 hW).2 x
    simp only [List.cons_append, List.count_cons] at this
    constructor
    · omega
    · intro hx
      exact this.2 (by omega)

/-- The state may be replaced by one with the same members. -/
theorem Emits.congr {W : Prop} {c k : Nat} {R : List Nat} {s s1 s2 : ShaderConverter}
    (h : Emits W c k R s s1)
    (e1 : s2.mIdTypePairs = s1.mIdTypePairs) (e2 : interfaceRoom s2 = interfaceRoom s1)
    (e3 : s2.mNextId = s1.mNextId) (e4 : IdsBelow s1 → IdsBelow s2)
    (e5 : s2.mTypeInstructions = s1.mTypeInstructions)
    (e6 : s2.mFunctionDefinitionInstructions = s1.mFunctionDefinitionInstructions) :
    Emits W c k R s s2 where
  args := by
    intro p hp
    rw [e1] at hp
    exact h.args p hp
  room := by rw [e2]; exact h.room
  counter := by rw [e3]; exact h.counter
  below := fun hW => e4 (h.below hW)
  out := by
    rw [e3, e5, e6]
    exact h.out

theorem Emits.withReader {W : Prop} {c k : Nat} {R : List Nat} {s s1 : ShaderConverter}
    (h : Emits W c k R s s1) (a b : Nat) : Emits W c k R s (s1.withReader a b) :=
  h.congr rfl rfl rfl (fun x => x) rfl rfl

theorem Emits.setPositionRegister {W : Prop} {c k : Nat} {R : List Nat}
    {s s1 : ShaderConverter} (h : Emits W c k R s s1) (a : Nat) :
    Emits W c k R s (s1.setPositionRegister a) :=
  h.congr rfl rfl rfl (fun x => x) rfl rfl

/-- The id counter hands out an id: it is pending. -/
theorem Emits.alloc {W : Prop} {c k : Nat} {R : List Nat} {s s1 : ShaderConverter}
    (h : Emits W c k R s s1) (hroom : W → s1.mNextId + 1 < 4294967296) :
    Emits W (c + 1) k (s1.mNextId :: R) s (GetNextId s1).2 where
  args := h.args
  room := h.room
  counter := by
    intro hW
    have e : (GetNextId s1).2.mNextId = s1.mNextId + 1 :=
      Nat.mod_eq_of_lt (hroom hW)
    rw [e]
    have := h.counter hW
    omega
  below := by
    intro hW
    have e : (GetNextId s1).2.mNextId = s1.mNextId + 1 :=
      Nat.mod_eq_of_lt (hroom hW)
    obtain ⟨b0, b1, b2, b3, b4, b5⟩ := h.below hW
    refine ⟨?_, ?_, ?_, ?_, ?_, ?_⟩
    · rw [e]; omega
    · intro p hp
      rw [e]
      exact Nat.lt_succ_of_lt (b1 p hp)
    · intro b hb p hp
      rw [e]
      exact Nat.lt_succ_of_lt (b2 b hb p hp)
    · intro i hi
      rw [e]
      exact Nat.lt_succ_of_lt (b3 i hi)
    · rw [e]
      exact Nat.lt_succ_of_lt b4
    · rw [e]
      exact Nat.lt_succ_of_lt b5
  out := by
    obtain ⟨T, F, h1, h2, h3, h4⟩ := h.out
    refine ⟨T, F, h1, h2, h3, fun hW => ?_⟩
    have e : (GetNextId s1).2.mNextId = s1.mNextId + 1 :=
      Nat.mod_eq_of_lt (hroom hW)
    rw [e]
    obtain ⟨g1, g2⟩ := h4 hW
    have hc := h.counter hW
    refine ⟨fun i hi id hid => Nat.lt_succ_of_lt (g1 i hi id hid), fun x => ?_⟩
    have := g2 x
    simp only [List.cons_append, List.count_cons]
    by_cases hx : s1.mNextId = x
    · subst hx
      have h0 : List.count s1.mNextId (R ++ (resultIds T ++ resultIds F)) = 0 := by
        by_contra hne
        have := this.2 (by omega)
        omega
      simp only [h0, beq_self_eq_true, if_true]
      omega
    · have hb : (s1.mNextId == x) = false := by simpa using hx
      simp only [hb]
      constructor
      · simpa using this.1
      · intro hpos
        have := this.2 (by simpa using hpos)
        omega

theorem Emits.swap {W : Prop} {c k a b : Nat} {R : List Nat} {s s1 : ShaderConverter}
    (h : Emits W c k (a :: b :: R) s s1) : Emits W c k (b :: a :: R) s s1 where
  args := h.args
  room := h.room
  counter := h.counter
  below := h.below
  out := by
    obtain ⟨T, F, h1, h2, h3, h4⟩ := h.out
    refine ⟨T, F, h1, h2, h3, fun hW => ⟨(h4 hW).1, fun x => ?_⟩⟩
    have := (h4 hW).2 x
    simp only [List.cons_append, List.count_cons] at this ⊢
    constructor
    · omega
    · intro hx
      exact this.2 (by omega)

/-- An instruction that defines no id goes to the type section. -/
theorem Emits.pushType_plain {W : Prop} {c k : Nat} {R : List Nat} {s s1 : ShaderConverter}
    (h : Emits W c k R s s1) (i : List Nat) (hf : Framed i)
    (hid : W → ∀ id ∈ idOperands i, id < s1.mNextId) (hr : resultId i = none) :
    Emits W c k R s (s1.pushType i) where
  args := h.args
  room := h.room
  counter := h.counter
  below := h.below
  out := by
    obtain ⟨T, F, h1, h2, h3, h4⟩ := h.out
    refine ⟨T ++ [i], F, ?_, h2, ?_, fun hW => ⟨?_, ?_⟩⟩
    · show s1.mTypeInstructions ++ i = _
      rw [h1]
      simp
    · intro j hj
      simp only [List.mem_append, List.mem_singleton] at hj
      rcases hj with (hj | hj) | hj
      · exact h3 j (List.mem_append_left _ hj)
      · rw [hj]; exact hf
      · exact h3 j (List.mem_append_right _ hj)
    · intro j hj
      simp only [List.mem_append, List.mem_singleton] at hj
      rcases hj with (hj | hj) | hj
      · exact (h4 hW).1 j (List.mem_append_left _ hj)
      · rw [hj]; exact hid hW
      · exact (h4 hW).1 j (List.mem_append_right _ hj)
    · rw [resultIds_append, resultIds_none i hr, List.append_nil]
      exact (h4 hW).2

/-- An instruction that defines a pending id goes to the type section. -/
theorem Emits.pushType {W : Prop} {c k r : Nat} {R : List Nat} {s s1 : ShaderConverter}
    (h : Emits W c k (r :: R) s s1) (i : List Nat) (hf : Framed i)
    (hid : W → ∀ id ∈ idOperands i, id < s1.mNextId) (hr : resultId i = some r) :
    Emits W c k R s (s1.pushType i) where
  args := h.args
  room := h.room
  counter := h.counter
  below := h.below
  out := by
    obtain ⟨T, F, h1, h2, h3, h4⟩ := h.out
    refine ⟨T ++ [i], F, ?_, h2, ?_, fun hW => ⟨?_, ?_⟩⟩
    · show s1.mTypeInstructions ++ i = _
      rw [h1]
      simp
    · intro j hj
      simp only [List.mem_append, List.mem_singleton] at hj
      rcases hj with (hj | hj) | hj
      · exact h3 j (List.mem_append_left _ hj)
      · rw [hj]; exact hf
      · exact h3 j (List.mem_append_right _ hj)
    · intro j hj
      simp only [List.mem_append, List.mem_singleton] at hj
      rcases hj with (hj | hj) | hj
      · exact (h4 hW).1 j (List.mem_append_left _ hj)
      · rw [hj]; exact hid hW
      · exact (h4 hW).1 j (List.mem_append_right _ hj)
    · rw [resultIds_append, resultIds_some i r hr]
      intro x
      have := (h4 hW).2 x
      simp only [List.cons_append, List.count_cons, List.count_append, List.count_nil] at this ⊢
      constructor
      · omega
      · intro hx
        exact this.2 (by omega)

/-- An instruction that defines no id goes to the function section. -/
theorem Emits.pushFunction_plain {W : Prop} {c k : Nat} {R : List Nat}
    {s s1 : ShaderConverter} (h : Emits W c k R s s1) (i : List Nat) (hf : Framed i)
    (hid : W → ∀ id ∈ idOperands i, id < s1.mNextId) (hr : resultId i = none) :
    Emits W c k R s (s1.pushFunctionDefinition i) where
  args := h.args
  room := h.room
  counter := h.counter
  below := h.below
  out := by
    obtain ⟨T, F, h1, h2, h3, h4⟩ := h.out
    refine ⟨T, F ++ [i], h1, ?_, ?_, fun hW => ⟨?_, ?_⟩⟩
    · show s1.mFunctionDefinitionInstructions ++ i = _
      rw [h2]
      simp
    · intro j hj
      simp only [List.mem_append, List.mem_singleton] at hj
      rcases hj with hj | hj | hj
      · exact h3 j (List.mem_append_left _ hj)
      · exact h3 j (List.mem_append_right _ hj)
      · rw [hj]; exact hf
    · intro j hj
      simp only [List.mem_append, List.mem_singleton] at hj
      rcases hj with hj | hj | hj
      · exact (h4 hW).1 j (List.mem_append_left _ hj)
      · exact (h4 hW).1 j (List.mem_append_right _ hj)
      · rw [hj]; exact hid hW
    · rw [resultIds_append, resultIds_none i hr, List.append_nil]
      exact (h4 hW).2

/-- An instruction that defines a pending id goes to the function section. -/
theorem Emits.pushFunction {W : Prop} {c k r : Nat} {R : List Nat} {s s1 : ShaderConverter}
    (h : Emits W c k (r :: R) s s1) (i : List Nat) (hf : Framed i)
    (hid : W → ∀ id ∈ idOperands i, id < s1.mNextId) (hr : resultId i = some r) :
    Emits W c k R s (s1.pushFunctionDefinition i) where
  args := h.args
  room := h.room
  counter := h.counter
  below := h.below
  out := by
    obtain ⟨T, F, h1, h2, h3, h4⟩ := h.out
    refine ⟨T, F ++ [i], h1, ?_, ?_, fun hW => ⟨?_, ?_⟩⟩
    · show s1.mFunctionDefinitionInstructions ++ i = _
      rw [h2]
      simp
    · intro j hj
      simp only [List.mem_append, List.mem_singleton] at hj
      rcases hj with hj | hj | hj
      · exact h3 j (List.mem_append_left _ hj)
      · exact h3 j (List.mem_append_right _ hj)
      · rw [hj]; exact hf
    · intro j hj
      simp only [List.mem_append, List.mem_singleton] at hj
      rcases hj with hj | hj | hj
      · exact (h4 hW).1 j (List.mem_append_left _ hj)
      · exact (h4 hW).1 j (List.mem_append_right _ hj)
      · rw [hj]; exact hid hW
    · rw [resultIds_append, resultIds_some i r hr]
      intro x
      have := (h4 hW).2 x
      simp only [List.cons_append, List.count_cons, List.count_append, List.count_nil] at this ⊢
      constructor
      · omega
      · intro hx
        exact this.2 (by omega)

/-- What a called function emits comes after what has been emitted. -/
theorem Emits.call {W : Prop} {c k c2 k2 : Nat} {R : List Nat} {s s1 s2 : ShaderConverter}
    (h : Emits W c k R s s1) (h2 : Emits W c2 k2 [] s1 s2) :
    Emits W (c + c2) (k + k2) R s s2 where
  args := h2.args
  room := by
    have := h.room
    have := h2.room
    omega
  counter := by
    intro hW
    have := h.counter hW
    have := h2.counter hW
    omega
  below := h2.below
  out := by
    obtain ⟨T, F, a1, a2, a3, a4⟩ := h.out
    obtain ⟨T2, F2, b1, b2, b3, b4⟩ := h2.out
    refine ⟨T ++ T2, F ++ F2, ?_, ?_, ?_, fun hW => ⟨?_, ?_⟩⟩
    · rw [b1, a1]
      simp
    · rw [b2, a2]
      simp
    · intro j hj
      simp only [List.mem_append] at hj
      rcases hj with (hj | hj) | hj | hj
      · exact a3 j (List.mem_append_left _ hj)
      · exact b3 j (List.mem_append_left _ hj)
      · exact a3 j (List.mem_append_right _ hj)
      · exact b3 j (List.mem_append_right _ hj)
    · have hc := (h2.counter hW).1
      intro j hj
      simp only [List.mem_append] at hj
      rcases hj with (hj | hj) | hj | hj
      · exact fun id hid => Nat.lt_of_lt_of_le ((a4 hW).1 j (List.mem_append_left _ hj) id hid) hc
      · exact (b4 hW).1 j (List.mem_append_left _ hj)
      · exact fun id hid => Nat.lt_of_lt_of_le ((a4 hW).1 j (List.mem_append_right _ hj) id hid) hc
      · exact (b4 hW).1 j (List.mem_append_right _ hj)
    · rw [resultIds_append, resultIds_append]
      intro x
      have g1 := (a4 hW).2 x
      have g2 := (b4 hW).2 x
      have hc1 := h.counter hW
      have hc2 := h2.counter hW
      simp only [List.nil_append, List.count_append] at g1 g2 ⊢
      by_cases hx : x < s1.mNextId
      · have : List.count x (resultIds T2) + List.count x (resultIds F2) = 0 := by
          by_contra hne
          have := g2.2 (by omega)
          omega
        constructor
        · omega
        · intro hpos
          have := g1.2 (by omega)
          omega
      · have : List.count x R + (List.count x (resultIds T) + List.count x (resultIds F)) = 0 := by
          by_contra hne
          have := g1.2 (by omega)
          omega
        constructor
        · omega
        · intro hpos
          have := g2.2 (by omega)
          omega

theorem flat_map.find_mem {κ ν : Type} (same : κ → κ → Bool) (key : κ) (m : List (κ × ν))
    (v : ν) (h : flat_map.find same key m = some v) : ∃ k, (k, v) ∈ m := by
  induction m with
  | nil => cases h
  | cons p rest ih =>
    obtain ⟨k, w⟩ := p
    unfold flat_map.find at h
    split_ifs at h
    · cases h
      exact ⟨k, List.mem_cons_self _ _⟩
    · obtain ⟨k2, hk⟩ := ih h
      exact ⟨k2, List.mem_cons_of_mem _ hk⟩

theorem flat_map.mem_set {κ ν : Type} (same : κ → κ → Bool) (key : κ) (value : ν)
    (m : List (κ × ν)) (p : κ × ν) (h : p ∈ flat_map.set same key value m) :
    p.2 = value ∨ p ∈ m := by
  induction m with
  | nil =>
    unfold flat_map.set at h
    simp only [List.mem_singleton] at h
    left
    rw [h]
  | cons q rest ih =>
    obtain ⟨k, w⟩ := q
    unfold flat_map.set at h
    split_ifs at h
    · rcases List.mem_cons.1 h with h | h
      · left; rw [h]
      · right; exact List.mem_cons_of_mem _ h
    · rcases List.mem_cons.1 h with h | h
      · right; rw [h]; exact List.mem_cons_self _ _
      · rcases ih h with h | h
        · left; exact h
        · right; exact List.mem_cons_of_mem _ h

theorem Emits.setTypeId {W : Prop} {c k : Nat} {R : List Nat} {s s1 : ShaderConverter}
    (h : Emits W c k R s s1) (d : TypeDescription) (id : Nat) (hid : W → id < s1.mNextId) :
    Emits W c k R s (s1.setTypeId d id) where
  args := h.args
  room := h.room
  counter := h.counter
  below := by
    intro hW
    obtain ⟨b0, b1, b2, b3, b4, b5⟩ := h.below hW
    refine ⟨b0, ?_, b2, b3, b4, b5⟩
    intro p hp
    rcases flat_map.mem_set _ _ _ _ _ hp with hp | hp
    · rw [hp]; exact hid hW
    · exact b1 p hp
  out := h.out

theorem Emits.setIdType {W : Prop} {c k : Nat} {R : List Nat} {s s1 : ShaderConverter}
    (h : Emits W c k R s s1) (id : Nat) (d : TypeDescription) (hd : d.Arguments = []) :
    Emits W c k R s (s1.setIdType id d) where
  args := by
    intro p hp
    rcases flat_map.mem_set _ _ _ _ _ hp with hp | hp
    · rw [hp]; exact hd
    · exact h.args p hp
  room := h.room
  counter := h.counter
  below := h.below
  out := h.out

theorem Emits.snag {W : Prop} {c k : Nat} {R : List Nat} {s s1 : ShaderConverter}
    (h : Emits W c k R s s1) (d : TypeDescription) (hd : d.Arguments = []) :
    Emits W c k R s (snagNextId d s1) :=
  h.setIdType _ d hd

theorem Emits.setRegister {W : Prop} {c k : Nat} {R : List Nat} {s s1 : ShaderConverter}
    (h : Emits W c k R s s1) (token id : Nat) (hid : W → id < s1.mNextId) :
    Emits W c k R s (SetIdByRegister token id s1) where
  args := h.args
  room := h.room
  counter := h.counter
  below := by
    intro hW
    obtain ⟨b0, b1, b2, b3, b4, b5⟩ := h.below hW
    refine ⟨b0, b1, ?_, b3, b4, b5⟩
    intro b hb p hp
    rcases flat_map.mem_set _ _ _ _ _ hb with hb | hb
    · rw [hb] at hp
      rcases flat_map.mem_set _ _ _ _ _ hp with hp | hp
      · rw [hp]; exact hid hW
      · cases hf : flat_map.find sameKey (GetRegisterType token) s1.mIdsByRegister with
        | none =>
          rw [hf] at hp
          cases hp
        | some inner =>
          rw [hf] at hp
          obtain ⟨k2, hk⟩ := flat_map.find_mem _ _ _ _ hf
          exact b2 _ hk p hp
    · exact b2 b hb p hp
  out := h.out

/-- The counter hands out an id for a register: the id is pending. -/
theorem Emits.nextVersion {W : Prop} {c k : Nat} {R : List Nat} {s s1 : ShaderConverter}
    (h : Emits W c k R s s1) (token : Nat) (hroom : W → s1.mNextId + 1 < 4294967296) :
    Emits W (c + 1) k (s1.mNextId :: R) s (GetNextVersionId token s1).2 :=
  (h.alloc hroom).setRegister token s1.mNextId (fun hW => by
    have e : (GetNextId s1).2.mNextId = s1.mNextId + 1 := Nat.mod_eq_of_lt (hroom hW)
    rw [e]
    exact Nat.lt_succ_self _)

theorem Emits.pushInterfaceId {W : Prop} {c k : Nat} {R : List Nat} {s s1 : ShaderConverter}
    (h : Emits W c k R s s1) (id : Nat) (hid : W → id < s1.mNextId) :
    Emits W c (k + 1) R s (s1.pushInterfaceId id) where
  args := h.args
  room := by
    have := h.room
    unfold interfaceRoom at this ⊢
    show (s1.mInterfaceIds ++ [id]).length +
      (s1.mConvertedShader.mVertexInputAttributeDescription.length -
        s1.mConvertedShader.mVertexInputAttributeDescriptionCount) ≤ _
    simp only [List.length_append, List.length_singleton]
    omega
  counter := h.counter
  below := by
    intro hW
    obtain ⟨b0, b1, b2, b3, b4, b5⟩ := h.below hW
    refine ⟨b0, b1, b2, ?_, b4, b5⟩
    intro i hi
    rcases List.mem_append.1 hi with hi | hi
    · exact b3 i hi
    · rw [List.mem_singleton.1 hi]; exact hid hW
  out := h.out

/-- An interface id gets its entry of the attribute array. -/
theorem Emits.addAttribute {W : Prop} {c k : Nat} {R : List Nat} {s s1 : ShaderConverter}
    (h : Emits W c (k + 1) R s s1) (componentCount : Nat) (cs : ConvertedShader)
    (hc : s1.mConvertedShader.addAttribute componentCount = some cs) :
    Emits W c k R s (s1.setConvertedShader cs) where
  args := h.args
  room := by
    have := h.room
    unfold ConvertedShader.addAttribute at hc
    cases he : s1.mConvertedShader.mVertexInputAttributeDescription[
        s1.mConvertedShader.mVertexInputAttributeDescriptionCount]? with
    | none => rw [he] at hc; cases hc
    | some entry =>
      rw [he] at hc
      have hlt := (List.getElem?_eq_some_iff.1 he).1
      cases hc
      unfold interfaceRoom at this ⊢
      show s1.mInterfaceIds.length + ((List.set _ _ _).length - (_ + 1)) ≤ _
      rw [List.length_set]
      omega
  counter := h.counter
  below := h.below
  out := h.out

theorem Emits.addBinding {W : Prop} {c k : Nat} {R : List Nat} {s s1 : ShaderConverter}
    (h : Emits W c k R s s1) (cs : ConvertedShader)
    (hc : s1.mConvertedShader.addBinding = some cs) :
    Emits W c k R s (s1.setConvertedShader cs) where
  args := h.args
  room := by
    have := h.room
    unfold ConvertedShader.addBinding at hc
    split_ifs at hc
    cases hc
    exact this
  counter := h.counter
  below := h.below
  out := h.out

/-! ## Words for the function section pass over what does not write it

A handler pushes the first words of an instruction, asks for an id, and pushes the other
words; what it calls in between writes other members only. -/

theorem pushType_pushFunction (s : ShaderConverter) (v ws : List Nat) :
    (s.pushFunctionDefinition ws).pushType v = (s.pushType v).pushFunctionDefinition ws := rfl

theorem setTypeId_pushFunction (s : ShaderConverter) (d : TypeDescription) (i : Nat)
    (ws : List Nat) :
    (s.pushFunctionDefinition ws).setTypeId d i =
      (s.setTypeId d i).pushFunctionDefinition ws := rfl

theorem setIdType_pushFunction (s : ShaderConverter) (d : TypeDescription) (i : Nat)
    (ws : List Nat) :
    (s.pushFunctionDefinition ws).setIdType i d =
      (s.setIdType i d).pushFunctionDefinition ws := rfl

theorem GetNextId_pushFunction (s : ShaderConverter) (ws : List Nat) :
    GetNextId (s.pushFunctionDefinition ws) =
      ((GetNextId s).1, (GetNextId s).2.pushFunctionDefinition ws) := rfl

theorem SetIdByRegister_pushFunction (token id : Nat) (s : ShaderConverter) (ws : List Nat) :
    SetIdByRegister token id (s.pushFunctionDefinition ws) =
      (SetIdByRegister token id s).pushFunctionDefinition ws := rfl

theorem GetNextVersionId_pushFunction (token : Nat) (s : ShaderConverter) (ws : List Nat) :
    GetNextVersionId token (s.pushFunctionDefinition ws) =
      ((GetNextVersionId token s).1,
        (GetNextVersionId token s).2.pushFunctionDefinition ws) := rfl

theorem GetSpirVTypeIdFuel_pushFunction (fuel : Nat) (d : TypeDescription)
    (s : ShaderConverter) (ws : List Nat) :
    GetSpirVTypeIdFuel fuel d (s.pushFunctionDefinition ws) =
      ((GetSpirVTypeIdFuel fuel d s).1,
        (GetSpirVTypeIdFuel fuel d s).2.pushFunctionDefinition ws) := by
  induction fuel generalizing d s with
  | zero => rfl
  | succ n ih =>
    unfold GetSpirVTypeIdFuel
    show (match flat_map.find TypeDescription.same d s.mTypeIdPairs with
      | some id => _ | none => _) = _
    cases h : flat_map.find TypeDescription.same d s.mTypeIdPairs with
    | some id => rfl
    | none =>
      dsimp only
      split_ifs
      all_goals first
        | rfl
        | simp only [GetNextId_pushFunction, setTypeId_pushFunction, setIdType_pushFunction,
            ih, pushType_pushFunction]

theorem GetSpirVTypeId_pushFunction (d : TypeDescription) (s : ShaderConverter)
    (ws : List Nat) :
    GetSpirVTypeId d (s.pushFunctionDefinition ws) =
      ((GetSpirVTypeId d s).1, (GetSpirVTypeId d s).2.pushFunctionDefinition ws) :=
  GetSpirVTypeIdFuel_pushFunction 4 d s ws

theorem GetSpirVTypeId_Op_pushFunction (op : Nat) (s : ShaderConverter) (ws : List Nat) :
    GetSpirVTypeId_Op op (s.pushFunctionDefinition ws) =
      ((GetSpirVTypeId_Op op s).1, (GetSpirVTypeId_Op op s).2.pushFunctionDefinition ws) :=
  GetSpirVTypeId_pushFunction _ s ws

theorem GetIdByRegister_pushFunction (token : Nat) (s : ShaderConverter) (ws : List Nat) :
    GetIdByRegister token (s.pushFunctionDefinition ws) =
      ((GetIdByRegister token s).1,
        (GetIdByRegister token s).2.pushFunctionDefinition ws) := by
  unfold GetIdByRegister
  show (match findIdByRegister token s with | some id => _ | none => _) = _
  cases h : findIdByRegister token s with
  | some id => rfl
  | none =>
    dsimp only
    split_ifs
    · simp only [GetNextId_pushFunction, GetSpirVTypeId_pushFunction,
        SetIdByRegister_pushFunction, setIdType_pushFunction, pushType_pushFunction]
    · rfl

/-! ## The instructions the converter writes -/

theorem below1 {n a : Nat} (ha : a < n) : ∀ id ∈ [a], id < n := by
  intro id hid
  rw [List.mem_singleton.1 hid]
  exact ha

theorem below2 {n a b : Nat} (ha : a < n) (hb : b < n) : ∀ id ∈ [a, b], id < n := by
  intro id hid
  simp only [List.mem_cons, List.mem_singleton, List.not_mem_nil, or_false] at hid
  rcases hid with h | h <;> rw [h] <;> assumption

theorem below3 {n a b c : Nat} (ha : a < n) (hb : b < n) (hc : c < n) :
    ∀ id ∈ [a, b, c], id < n := by
  intro id hid
  simp only [List.mem_cons, List.mem_singleton, List.not_mem_nil, or_false] at hid
  rcases hid with h | h | h <;> rw [h] <;> assumption

theorem below4 {n a b c d : Nat} (ha : a < n) (hb : b < n) (hc : c < n) (hd : d < n) :
    ∀ id ∈ [a, b, c, d], id < n := by
  intro id hid
  simp only [List.mem_cons, List.mem_singleton, List.not_mem_nil, or_false] at hid
  rcases hid with h | h | h | h <;> rw [h] <;> assumption

theorem below6 {n a b c d e f : Nat} (ha : a < n) (hb : b < n) (hc : c < n) (hd : d < n)
    (he : e < n) (hf : f < n) : ∀ id ∈ [a, b, c, d, e, f], id < n := by
  intro id hid
  simp only [List.mem_cons, List.mem_singleton, List.not_mem_nil, or_false] at hid
  rcases hid with h | h | h | h | h | h <;> rw [h] <;> assumption

theorem Emits.type {W : Prop} {c k r : Nat} {R : List Nat} {s s1 : ShaderConverter}
    (h : Emits W c k (r :: R) s s1) {i ids : List Nat} (shape : Shape i ids (some r))
    (hid : W → ∀ id ∈ ids, id < s1.mNextId) : Emits W c k R s (s1.pushType i) :=
  h.pushType i shape.1 (by rw [shape.2.1]; exact hid) shape.2.2

theorem Emits.function {W : Prop} {c k r : Nat} {R : List Nat} {s s1 : ShaderConverter}
    (h : Emits W c k (r :: R) s s1) {i ids : List Nat} (shape : Shape i ids (some r))
    (hid : W → ∀ id ∈ ids, id < s1.mNextId) :
    Emits W c k R s (s1.pushFunctionDefinition i) :=
  h.pushFunction i shape.1 (by rw [shape.2.1]; exact hid) shape.2.2

theorem Emits.function_plain {W : Prop} {c k : Nat} {R : List Nat} {s s1 : ShaderConverter}
    (h : Emits W c k R s s1) {i ids : List Nat} (shape : Shape i ids none)
    (hid : W → ∀ id ∈ ids, id < s1.mNextId) :
    Emits W c k R s (s1.pushFunctionDefinition i) :=
  h.pushFunction_plain i shape.1 (by rw [shape.2.1]; exact hid) shape.2.2

theorem shape_type2 (op id : Nat)
    (h : op = spv.OpTypeBool ∨ op = spv.OpTypeSampler ∨ op = spv.OpTypeVoid) :
    Shape [Pack 2 op, id] [id] (some id) := by
  rcases h with h | h | h <;> subst h <;> exact ⟨Framed_of _ _ 2 (by decide) rfl, rfl, rfl⟩

theorem shape_typeInt (op id a b : Nat) (h : op = spv.OpTypeInt) :
    Shape [Pack 4 op, id, a, b] [id] (some id) := by
  subst h
  exact ⟨Framed_of _ _ 4 (by decide) rfl, rfl, rfl⟩

theorem shape_typeFloat (op id a : Nat) (h : op = spv.OpTypeFloat) :
    Shape [Pack 3 op, id, a] [id] (some id) := by
  subst h
  exact ⟨Framed_of _ _ 3 (by decide) rfl, rfl, rfl⟩

theorem shape_typeVector (op id component count : Nat)
    (h : op = spv.OpTypeVector ∨ op = spv.OpTypeMatrix) :
    Shape [Pack 4 op, id, component, count] [id, component] (some id) := by
  rcases h with h | h <;> subst h <;> exact ⟨Framed_of _ _ 4 (by decide) rfl, rfl, rfl⟩

theorem shape_typePointer (op id storage pointee : Nat) (h : op = spv.OpTypePointer) :
    Shape [Pack 4 op, id, storage, pointee] [id, pointee] (some id) := by
  subst h
  exact ⟨Framed_of _ _ 4 (by decide) rfl, rfl, rfl⟩

theorem shape_typeFunction (op id returned : Nat) (arguments : List Nat)
    (h : op = spv.OpTypeFunction) (ha : arguments = []) :
    Shape ([Pack (3 + arguments.length) op, id, returned] ++ arguments) [id, returned]
      (some id) := by
  subst h
  subst ha
  exact ⟨Framed_of _ _ 3 (by decide) rfl, rfl, rfl⟩

theorem shape_variable (type id storage : Nat) :
    Shape [Pack 4 spv.OpVariable, type, id, storage] [type, id] (some id) :=
  ⟨Framed_of _ _ 4 (by decide) rfl, rfl, rfl⟩

theorem shape_constant (type id literal : Nat) :
    Shape [Pack 4 spv.OpConstant, type, id, literal] [type, id] (some id) :=
  ⟨Framed_of _ _ 4 (by decide) rfl, rfl, rfl⟩

theorem shape_composite (type id a b c d : Nat) :
    Shape [Pack 7 spv.OpConstantComposite, type, id, a, b, c, d] [type, id, a, b, c, d]
      (some id) :=
  ⟨Framed_of _ _ 7 (by decide) rfl, rfl, rfl⟩

theorem shape_copy (type id a : Nat) :
    Shape [Pack 4 spv.OpCopyObject, type, id, a] [type, id, a] (some id) :=
  ⟨Framed_of _ _ 4 (by decide) rfl, rfl, rfl⟩

theorem shape_load (type id a : Nat) :
    Shape [Pack 4 spv.OpLoad, type, id, a] [type, id, a] (some id) :=
  ⟨Framed_of _ _ 4 (by decide) rfl, rfl, rfl⟩

theorem shape_binary (op type id a b : Nat) (h : op ∈ binaryOpcodes) :
    Shape [Pack 5 op, type, id, a, b] [type, id, a, b] (some id) := by
  simp only [binaryOpcodes, List.mem_cons, List.mem_singleton, List.not_mem_nil, or_false] at h
  rcases h with h | h | h | h | h | h | h | h <;> subst h <;>
    exact ⟨Framed_of _ _ 5 (by decide) rfl, rfl, rfl⟩

theorem shape_extract (type id a literal : Nat) :
    Shape [Pack (4 + 1) spv.OpCompositeExtract, type, id, a, literal] [type, id, a]
      (some id) :=
  ⟨Framed_of _ _ 5 (by decide) rfl, rfl, rfl⟩

theorem shape_shuffle (type id a b l0 l1 l2 l3 : Nat) :
    Shape [Pack (5 + 4) spv.OpVectorShuffle, type, id, a, b, l0, l1, l2, l3] [type, id, a, b]
      (some id) :=
  ⟨Framed_of _ _ 9 (by decide) rfl, rfl, rfl⟩

theorem shape_function (type id control functionType : Nat) :
    Shape [Pack 5 spv.OpFunction, type, id, control, functionType] [type, id, functionType]
      (some id) :=
  ⟨Framed_of _ _ 5 (by decide) rfl, rfl, rfl⟩

theorem shape_label (id : Nat) : Shape [Pack 2 spv.OpLabel, id] [id] (some id) :=
  ⟨Framed_of _ _ 2 (by decide) rfl, rfl, rfl⟩

theorem shape_return : Shape [Pack 1 spv.OpReturn] [] none :=
  ⟨Framed_of _ _ 1 (by decide) rfl, rfl, rfl⟩

theorem shape_functionEnd : Shape [Pack 1 spv.OpFunctionEnd] [] none :=
  ⟨Framed_of _ _ 1 (by decide) rfl, rfl, rfl⟩

/-! ## The type table -/

theorem GetSpirVTypeIdFuel_emits (W : Prop) (fuel : Nat) (d : TypeDescription)
    (s : ShaderConverter) (hd : d.Arguments = []) (hargs : ArgumentsEmpty s)
    (hbelow : W → IdsBelow s) (hroom : W → s.mNextId + fuel < 4294967296) :
    Emits W fuel 0 [] s (GetSpirVTypeIdFuel fuel d s).2 ∧
      (W → (GetSpirVTypeIdFuel fuel d s).1 < (GetSpirVTypeIdFuel fuel d s).2.mNextId) := by
  induction fuel generalizing d s with
  | zero => exact ⟨Emits.refl W s hargs hbelow, fun hW => (hbelow hW).1⟩
  | succ n ih =>
    suffices key : ∀ r : Nat × ShaderConverter, GetSpirVTypeIdFuel (n + 1) d s = r →
        Emits W (n + 1) 0 [] s r.2 ∧ (W → r.1 < r.2.mNextId) from key _ rfl
    intro r hr
    unfold GetSpirVTypeIdFuel at hr
    cases hfind : flat_map.find TypeDescription.same d s.mTypeIdPairs with
    | some id =>
      rw [hfind] at hr
      subst hr
      refine ⟨(Emits.refl W s hargs hbelow).mono (Nat.zero_le _) (Nat.le_refl _), fun hW => ?_⟩
      obtain ⟨k, hk⟩ := flat_map.find_mem _ _ _ _ hfind
      exact (hbelow hW).2.1 _ hk
    | none =>
      rw [hfind] at hr
      dsimp only at hr
      have h1 := (Emits.refl W s hargs hbelow).alloc (fun hW => by have := hroom hW; omega)
      have hlt : W → s.mNextId < (GetNextId s).2.mNextId := fun hW => by
        have e : (GetNextId s).2.mNextId = s.mNextId + 1 :=
          Nat.mod_eq_of_lt (by have := hroom hW; omega)
        rw [e]
        exact Nat.lt_succ_self _
      have h3 := (h1.setTypeId d s.mNextId hlt).setIdType s.mNextId d hd
      have hrec : ∀ d2 : TypeDescription, d2.Arguments = [] →
          Emits W (0 + 1 + n) (0 + 0) [s.mNextId] s
              (GetSpirVTypeIdFuel n d2
                (((GetNextId s).2.setTypeId d s.mNextId).setIdType s.mNextId d)).2 ∧
            (W → s.mNextId < (GetSpirVTypeIdFuel n d2
                (((GetNextId s).2.setTypeId d s.mNextId).setIdType s.mNextId d)).2.mNextId) ∧
            (W → (GetSpirVTypeIdFuel n d2
                (((GetNextId s).2.setTypeId d s.mNextId).setIdType s.mNextId d)).1 <
              (GetSpirVTypeIdFuel n d2
                (((GetNextId s).2.setTypeId d s.mNextId).setIdType s.mNextId d)).2.mNextId) := by
        intro d2 hd2
        obtain ⟨i1, i2⟩ := ih d2 _ hd2 h3.args h3.below (fun hW => by
          have := hroom hW
          have := (h3.counter hW).2
          omega)
        exact ⟨h3.call i1, fun hW => Nat.lt_of_lt_of_le (hlt hW) (i1.counter hW).1, i2⟩
      have hfin : ∀ {c : Nat} {t : ShaderConverter}, Emits W c 0 [] s t → c ≤ n + 1 →
          (W → s.mNextId < t.mNextId) →
          Emits W (n + 1) 0 [] s t ∧ (W → s.mNextId < t.mNextId) :=
        fun h hc hl => ⟨h.mono hc (Nat.le_refl _), hl⟩
      split_ifs at hr with p1 p2 p3 p4 p5 p6 p7 p8 <;> subst hr
      · exact hfin (h3.type (shape_type2 _ _ (Or.inl p1)) (fun hW => below1 (hlt hW)))
          (by omega) hlt
      · exact hfin (h3.type (shape_typeInt _ _ _ _ p2) (fun hW => below1 (hlt hW)))
          (by omega) hlt
      · exact hfin (h3.type (shape_typeFloat _ _ _ p3) (fun hW => below1 (hlt hW)))
          (by omega) hlt
      · obtain ⟨r1, r2, r3⟩ := hrec { PrimaryType := d.SecondaryType } rfl
        exact hfin (r1.type (shape_typeVector _ _ _ _ p4) (fun hW => below2 (r2 hW) (r3 hW)))
          (by omega) r2
      · obtain ⟨r1, r2, r3⟩ := hrec
          { PrimaryType := d.SecondaryType, SecondaryType := d.TernaryType
            ComponentCount := d.ComponentCount } rfl
        exact hfin (r1.type (shape_typePointer _ _ _ _ p5) (fun hW => below2 (r2 hW) (r3 hW)))
          (by omega) r2
      · exact hfin (h3.type (shape_type2 _ _ (Or.inr (Or.inl p6))) (fun hW => below1 (hlt hW)))
          (by omega) hlt
      · obtain ⟨r1, r2, r3⟩ := hrec { PrimaryType := d.SecondaryType } rfl
        exact hfin (r1.type (shape_typeFunction _ _ _ _ p7 hd)
          (fun hW => below2 (r2 hW) (r3 hW))) (by omega) r2
      · exact hfin (h3.type (shape_type2 _ _ (Or.inr (Or.inr p8)))
          (fun hW => below1 (hlt hW))) (by omega) hlt
      · exact hfin h3.forget (by omega) hlt

/-! ## Registers and swizzles -/

theorem GetSpirVTypeId_emits (W : Prop) (d : TypeDescription) (s : ShaderConverter)
    (hd : d.Arguments = []) (hargs : ArgumentsEmpty s) (hbelow : W → IdsBelow s)
    (hroom : W → s.mNextId + 4 < 4294967296) :
    Emits W 4 0 [] s (GetSpirVTypeId d s).2 ∧
      (W → (GetSpirVTypeId d s).1 < (GetSpirVTypeId d s).2.mNextId) :=
  GetSpirVTypeIdFuel_emits W 4 d s hd hargs hbelow hroom

/-- The room the counter has left after some allocations. -/
theorem Emits.roomFor {W : Prop} {c k : Nat} {R : List Nat} {s s1 : ShaderConverter}
    (h : Emits W c k R s s1) (total need : Nat) (hroom : W → s.mNextId + total < 4294967296)
    (hc : c + need ≤ total) : W → s1.mNextId + need < 4294967296 := by
  intro hW
  have := hroom hW
  have := (h.counter hW).2
  omega

/-- A pending id is below the counter. -/
theorem Emits.pending_lt {W : Prop} {c k r : Nat} {R : List Nat} {s s1 : ShaderConverter}
    (h : Emits W c k (r :: R) s s1) : W → r < s1.mNextId := by
  intro hW
  obtain ⟨T, F, _, _, _, h4⟩ := h.out
  have := ((h4 hW).2 r).2 (by simp [List.count_cons])
  exact this.2

/-- The type of a description goes to the type section, with the types it needs. -/
theorem Emits.getType {W : Prop} {c k : Nat} {R : List Nat} {s s1 : ShaderConverter}
    (h : Emits W c k R s s1) (d : TypeDescription) (hd : d.Arguments = [])
    (hroom : W → s1.mNextId + 4 < 4294967296) :
    Emits W (c + 4) (k + 0) R s (GetSpirVTypeId d s1).2 ∧
      (W → (GetSpirVTypeId d s1).1 < (GetSpirVTypeId d s1).2.mNextId) ∧
      (W → s1.mNextId ≤ (GetSpirVTypeId d s1).2.mNextId) := by
  obtain ⟨i1, i2⟩ := GetSpirVTypeId_emits W d s1 hd h.args h.below hroom
  exact ⟨h.call i1, i2, fun hW => (i1.counter hW).1⟩

theorem findIdByRegister_lt (W : Prop) (token id : Nat) (s : ShaderConverter)
    (hbelow : W → IdsBelow s) (h : findIdByRegister token s = some id) :
    W → id < s.mNextId := by
  intro hW
  unfold findIdByRegister at h
  cases hf : flat_map.find sameKey (GetRegisterType token) s.mIdsByRegister with
  | none => rw [hf] at h; cases h
  | some inner =>
    rw [hf] at h
    obtain ⟨k1, hk1⟩ := flat_map.find_mem _ _ _ _ hf
    obtain ⟨k2, hk2⟩ := flat_map.find_mem _ _ _ _ h
    exact (hbelow hW).2.2.1 _ hk1 _ hk2

theorem GetIdByRegister_emits (W : Prop) (token : Nat) (s : ShaderConverter)
    (hargs : ArgumentsEmpty s) (hbelow : W → IdsBelow s)
    (hroom : W → s.mNextId + 5 < 4294967296) :
    Emits W 5 0 [] s (GetIdByRegister token s).2 ∧
      (W → (GetIdByRegister token s).1 < (GetIdByRegister token s).2.mNextId) := by
  suffices key : ∀ r : Nat × ShaderConverter, GetIdByRegister token s = r →
      Emits W 5 0 [] s r.2 ∧ (W → r.1 < r.2.mNextId) from key _ rfl
  intro r hr
  unfold GetIdByRegister at hr
  have h0 := Emits.refl W s hargs hbelow
  cases hfind : findIdByRegister token s with
  | some id =>
    rw [hfind] at hr
    subst hr
    exact ⟨h0.mono (Nat.zero_le _) (Nat.le_refl _),
      findIdByRegister_lt W token id s hbelow hfind⟩
  | none =>
    rw [hfind] at hr
    dsimp only at hr
    split_ifs at hr <;> subst hr
    · have h1 := h0.alloc (h0.roomFor 5 1 hroom (by decide))
      obtain ⟨h2, t1, t2⟩ := h1.getType
        { PrimaryType := spv.OpTypePointer, SecondaryType := spv.OpTypeVector
          TernaryType := spv.OpTypeFloat, ComponentCount := 4 } rfl
        (h1.roomFor 5 4 hroom (by decide))
      have h3 := (h2.setRegister token s.mNextId h2.pending_lt).setIdType s.mNextId
        { PrimaryType := spv.OpTypePointer, SecondaryType := spv.OpTypeVector
          TernaryType := spv.OpTypeFloat, ComponentCount := 4 } rfl
      have h4 := h3.type (shape_variable _ _ spv.StorageClassPushConstant)
        (fun hW => below2 (t1 hW) (h2.pending_lt hW))
      exact ⟨h4.mono (by decide) (by decide), h2.pending_lt⟩
    · exact ⟨h0.mono (Nat.zero_le _) (Nat.le_refl _), fun hW => (hbelow hW).1⟩

theorem Emits.getId {W : Prop} {c k : Nat} {R : List Nat} {s s1 : ShaderConverter}
    (h : Emits W c k R s s1) (token : Nat) (hroom : W → s1.mNextId + 5 < 4294967296) :
    Emits W (c + 5) (k + 0) R s (GetIdByRegister token s1).2 ∧
      (W → (GetIdByRegister token s1).1 < (GetIdByRegister token s1).2.mNextId) ∧
      (W → s1.mNextId ≤ (GetIdByRegister token s1).2.mNextId) := by
  obtain ⟨i1, i2⟩ := GetIdByRegister_emits W token s1 h.args h.below hroom
  exact ⟨h.call i1, i2, fun hW => (i1.counter hW).1⟩

theorem GetTypeByRegister_emits (W : Prop) (token : Nat) (s : ShaderConverter)
    (hargs : ArgumentsEmpty s) (hbelow : W → IdsBelow s)
    (hroom : W → s.mNextId + 5 < 4294967296) :
    Emits W 5 0 [] s (GetTypeByRegister token s).2 ∧
      (GetTypeByRegister token s).1.Arguments = [] := by
  suffices key : ∀ r : TypeDescription × ShaderConverter, GetTypeByRegister token s = r →
      Emits W 5 0 [] s r.2 ∧ r.1.Arguments = [] from key _ rfl
  intro r hr
  unfold GetTypeByRegister at hr
  obtain ⟨i1, _⟩ := GetIdByRegister_emits W token s hargs hbelow hroom
  dsimp only at hr
  cases hf : flat_map.find sameKey (GetIdByRegister token s).1
      (GetIdByRegister token s).2.mIdTypePairs with
  | some d =>
    rw [hf] at hr
    subst hr
    obtain ⟨k1, hk1⟩ := flat_map.find_mem _ _ _ _ hf
    exact ⟨i1, i1.args _ hk1⟩
  | none =>
    rw [hf] at hr
    subst hr
    exact ⟨i1, rfl⟩

theorem Emits.getTypeByRegister {W : Prop} {c k : Nat} {R : List Nat}
    {s s1 : ShaderConverter} (h : Emits W c k R s s1) (token : Nat)
    (hroom : W → s1.mNextId + 5 < 4294967296) :
    Emits W (c + 5) (k + 0) R s (GetTypeByRegister token s1).2 ∧
      (GetTypeByRegister token s1).1.Arguments = [] ∧
      (W → s1.mNextId ≤ (GetTypeByRegister token s1).2.mNextId) := by
  obtain ⟨i1, i2⟩ := GetTypeByRegister_emits W token s1 h.args h.below hroom
  exact ⟨h.call i1, i2, fun hW => (i1.counter hW).1⟩

/-- A mask that is a shifted mask keeps the field where it is. -/
theorem and_shiftLeft (x m k : Nat) : x &&& (m <<< k) = ((x >>> k) &&& m) <<< k := by
  apply Nat.eq_of_testBit_eq
  intro i
  simp only [Nat.testBit_and, Nat.testBit_shiftLeft, Nat.testBit_shiftRight]
  by_cases hi : k ≤ i
  · have e2 : k + (i - k) = i := by omega
    simp [hi, e2]
  · simp [hi]

theorem componentLiteral_shifted (x k : Nat) (hk : k = 16 ∨ k = 18 ∨ k = 20 ∨ k = 22) :
    ∃ l, componentLiteral (x &&& (3 <<< k)) (0 <<< k) (1 <<< k) (2 <<< k) (3 <<< k) = [l] := by
  rw [and_shiftLeft]
  have hy : (x >>> k) &&& 3 ≤ 3 := Nat.and_le_right
  generalize (x >>> k) &&& 3 = y at hy
  rcases hk with rfl | rfl | rfl | rfl <;> interval_cases y <;> exact ⟨_, rfl⟩

theorem componentLiteral_x (x : Nat) :
    ∃ l, componentLiteral (x &&& D3DVS_X_W) D3DVS_X_X D3DVS_X_Y D3DVS_X_Z D3DVS_X_W = [l] :=
  componentLiteral_shifted x 16 (Or.inl rfl)

theorem componentLiteral_y (x : Nat) :
    ∃ l, componentLiteral (x &&& D3DVS_Y_W) D3DVS_Y_X D3DVS_Y_Y D3DVS_Y_Z D3DVS_Y_W = [l] :=
  componentLiteral_shifted x 18 (Or.inr (Or.inl rfl))

theorem componentLiteral_z (x : Nat) :
    ∃ l, componentLiteral (x &&& D3DVS_Z_W) D3DVS_Z_X D3DVS_Z_Y D3DVS_Z_Z D3DVS_Z_W = [l] :=
  componentLiteral_shifted x 20 (Or.inr (Or.inr (Or.inl rfl)))

theorem componentLiteral_w (x : Nat) :
    ∃ l, componentLiteral (x &&& D3DVS_W_W) D3DVS_W_X D3DVS_W_Y D3DVS_W_Z D3DVS_W_W = [l] :=
  componentLiteral_shifted x 22 (Or.inr (Or.inr (Or.inr rfl)))

theorem GetSwizzledId_emits (W : Prop) (token inputId : Nat) (s : ShaderConverter)
    (hargs : ArgumentsEmpty s) (hbelow : W → IdsBelow s)
    (hroom : W → s.mNextId + 10 < 4294967296)
    (hin : W → inputId ≠ UINT_MAX → inputId < s.mNextId) :
    Emits W 10 0 [] s (GetSwizzledId token inputId s).2 ∧
      (W → (GetSwizzledId token inputId s).1 < (GetSwizzledId token inputId s).2.mNextId) := by
  suffices key : ∀ r : Nat × ShaderConverter, GetSwizzledId token inputId s = r →
      Emits W 10 0 [] s r.2 ∧ (W → r.1 < r.2.mNextId) from key _ rfl
  intro r hr
  unfold GetSwizzledId at hr
  dsimp only at hr
  have h0 := Emits.refl W s hargs hbelow
  obtain ⟨id0, s0, hr0, e0, l0⟩ : ∃ id0 s0,
      (if inputId = UINT_MAX then GetIdByRegister token s else (inputId, s)) = (id0, s0) ∧
        Emits W 5 0 [] s s0 ∧ (W → id0 < s0.mNextId) := by
    by_cases hu : inputId = UINT_MAX
    · rw [if_pos hu]
      obtain ⟨i1, i2⟩ := GetIdByRegister_emits W token s hargs hbelow
        (h0.roomFor 10 5 hroom (by decide))
      exact ⟨_, _, rfl, i1, i2⟩
    · rw [if_neg hu]
      exact ⟨_, _, rfl, h0.mono (by decide) (Nat.le_refl _), fun hW => hin hW hu⟩
  rw [hr0] at hr
  dsimp only at hr
  rw [if_neg (by decide : ¬ (4 : Nat) = 2), if_neg (by decide : ¬ (4 : Nat) = 3),
    if_pos (rfl : (4 : Nat) = 4)] at hr
  obtain ⟨lx, hx⟩ := componentLiteral_x (token &&& D3DVS_SWIZZLE_MASK)
  obtain ⟨ly, hy⟩ := componentLiteral_y (token &&& D3DVS_SWIZZLE_MASK)
  obtain ⟨lz, hz⟩ := componentLiteral_z (token &&& D3DVS_SWIZZLE_MASK)
  obtain ⟨lw, hw⟩ := componentLiteral_w (token &&& D3DVS_SWIZZLE_MASK)
  rw [hx, hy, hz, hw] at hr
  simp only [eq_false (by decide : ¬ (4 : Nat) = 0), or_false] at hr
  have h1 := e0.alloc (e0.roomFor 10 1 hroom (by decide))
  split_ifs at hr with c1 c2 <;> subst hr
  · exact ⟨e0.mono (by decide) (Nat.le_refl _), l0⟩
  · obtain ⟨h2, t1, t2⟩ := h1.getType { PrimaryType := spv.OpTypeFloat } rfl
      (h1.roomFor 10 4 hroom (by decide))
    have h3 := h2.function (shape_extract _ _ id0 lx)
      (fun hW => below3 (t1 hW) (h2.pending_lt hW)
        (Nat.lt_of_lt_of_le (Nat.lt_trans (l0 hW) (h1.pending_lt hW)) (t2 hW)))
    exact ⟨h3.mono (by decide) (by decide), h2.pending_lt⟩
  · obtain ⟨h2, t1, t2⟩ := h1.getType
      { PrimaryType := spv.OpTypeVector, SecondaryType := spv.OpTypeFloat
        ComponentCount := 4 } rfl (h1.roomFor 10 4 hroom (by decide))
    have hi : W → id0 < (GetSpirVTypeId
        { PrimaryType := spv.OpTypeVector, SecondaryType := spv.OpTypeFloat
          ComponentCount := 4 } (GetNextId s0).2).2.mNextId :=
      fun hW => Nat.lt_of_lt_of_le (Nat.lt_trans (l0 hW) (h1.pending_lt hW)) (t2 hW)
    have h3 := h2.function (shape_shuffle _ _ id0 id0 lx ly lz lw)
      (fun hW => below4 (t1 hW) (h2.pending_lt hW) (hi hW) (hi hW))
    exact ⟨h3.mono (by decide) (by decide), h2.pending_lt⟩

theorem Emits.swizzle {W : Prop} {c k : Nat} {R : List Nat} {s s1 : ShaderConverter}
    (h : Emits W c k R s s1) (token inputId : Nat)
    (hroom : W → s1.mNextId + 10 < 4294967296)
    (hin : W → inputId ≠ UINT_MAX → inputId < s1.mNextId) :
    Emits W (c + 10) (k + 0) R s (GetSwizzledId token inputId s1).2 ∧
      (W → (GetSwizzledId token inputId s1).1 < (GetSwizzledId token inputId s1).2.mNextId) ∧
      (W → s1.mNextId ≤ (GetSwizzledId token inputId s1).2.mNextId) := by
  obtain ⟨i1, i2⟩ := GetSwizzledId_emits W token inputId s1 h.args h.below hroom hin
  exact ⟨h.call i1, i2, fun hW => (i1.counter hW).1⟩

/-! ## The handlers of the arithmetic instructions -/

theorem pushFunction_split (s : ShaderConverter) (a b : List Nat) :
    s.pushFunctionDefinition (a ++ b) =
      (s.pushFunctionDefinition a).pushFunctionDefinition b :=
  (pushFunctionDefinition_pushFunctionDefinition s a b).symm

theorem emitArithmetic_emits (W : Prop) (integerOp floatOp dataType dataTypeId resultToken
    argumentId1 argumentId2 : Nat) (s : ShaderConverter)
    (hi : integerOp ∈ binaryOpcodes) (hf : floatOp ∈ binaryOpcodes)
    (hargs : ArgumentsEmpty s) (hbelow : W → IdsBelow s)
    (hroom : W → s.mNextId + 1 < 4294967296)
    (hids : W → dataTypeId < s.mNextId ∧ argumentId1 < s.mNextId ∧ argumentId2 < s.mNextId) :
    Emits W 1 0 [] s
      (emitArithmetic integerOp floatOp dataType dataTypeId resultToken argumentId1
        argumentId2 s) := by
  unfold emitArithmetic
  dsimp only
  simp only [GetNextVersionId_pushFunction, pushFunctionDefinition_pushFunctionDefinition,
    List.cons_append, List.nil_append]
  have h0 := Emits.refl W s hargs hbelow
  have h1 := h0.nextVersion resultToken hroom
  have hb : W → dataTypeId < (GetNextVersionId resultToken s).2.mNextId ∧
      argumentId1 < (GetNextVersionId resultToken s).2.mNextId ∧
      argumentId2 < (GetNextVersionId resultToken s).2.mNextId := fun hW => by
    have := hids hW
    have := h1.pending_lt hW
    omega
  split_ifs
  · exact (h1.function (shape_binary integerOp _ _ _ _ hi)
      (fun hW => below4 (hb hW).1 (h1.pending_lt hW) (hb hW).2.1 (hb hW).2.2)).mono
      (by decide) (by decide)
  · exact (h1.function (shape_binary floatOp _ _ _ _ hf)
      (fun hW => below4 (hb hW).1 (h1.pending_lt hW) (hb hW).2.1 (hb hW).2.2)).mono
      (by decide) (by decide)
  · exact h0.mono (by decide) (by decide)

theorem loadArgument_emits (W : Prop) (dataTypeId argumentToken : Nat) (s : ShaderConverter)
    (hargs : ArgumentsEmpty s) (hbelow : W → IdsBelow s)
    (hroom : W → s.mNextId + 16 < 4294967296) (hid : W → dataTypeId < s.mNextId) :
    Emits W 16 0 [] s (loadArgument dataTypeId argumentToken s).2 ∧
      (W → (loadArgument dataTypeId argumentToken s).1 <
        (loadArgument dataTypeId argumentToken s).2.mNextId) := by
  unfold loadArgument
  dsimp only
  simp only [GetIdByRegister_pushFunction, pushFunctionDefinition_pushFunctionDefinition,
    List.cons_append, List.nil_append]
  have h0 := Emits.refl W s hargs hbelow
  have h1 := h0.alloc (h0.roomFor 16 1 hroom (by decide))
  obtain ⟨h2, p1, p2⟩ := h1.getId argumentToken (h1.roomFor 16 5 hroom (by decide))
  have h3 := h2.function (shape_load dataTypeId s.mNextId _)
    (fun hW => below3 (Nat.lt_of_lt_of_le (Nat.lt_trans (hid hW) (h1.pending_lt hW)) (p2 hW))
      (h2.pending_lt hW) (p1 hW))
  obtain ⟨h4, q1, q2⟩ := h3.swizzle argumentToken s.mNextId
    (h3.roomFor 16 10 hroom (by decide)) (fun hW _ => h2.pending_lt hW)
  exact ⟨h4.mono (by decide) (by decide), q1⟩

theorem Emits.load {W : Prop} {c k : Nat} {R : List Nat} {s s1 : ShaderConverter}
    (h : Emits W c k R s s1) (dataTypeId token : Nat)
    (hroom : W → s1.mNextId + 16 < 4294967296) (hid : W → dataTypeId < s1.mNextId) :
    Emits W (c + 16) (k + 0) R s (loadArgument dataTypeId token s1).2 ∧
      (W → (loadArgument dataTypeId token s1).1 <
        (loadArgument dataTypeId token s1).2.mNextId) ∧
      (W → s1.mNextId ≤ (loadArgument dataTypeId token s1).2.mNextId) := by
  obtain ⟨i1, i2⟩ := loadArgument_emits W dataTypeId token s1 h.args h.below hroom hid
  exact ⟨h.call i1, i2, fun hW => (i1.counter hW).1⟩

theorem Emits.arithmetic {W : Prop} {c k : Nat} {s s1 : ShaderConverter}
    (h : Emits W c k [] s s1) (integerOp floatOp dataType dataTypeId resultToken
    argumentId1 argumentId2 : Nat)
    (hi : integerOp ∈ binaryOpcodes) (hf : floatOp ∈ binaryOpcodes)
    (hroom : W → s1.mNextId + 1 < 4294967296)
    (hids : W → dataTypeId < s1.mNextId ∧ argumentId1 < s1.mNextId ∧
      argumentId2 < s1.mNextId) :
    Emits W (c + 1) (k + 0) [] s
      (emitArithmetic integerOp floatOp dataType dataTypeId resultToken argumentId1
        argumentId2 s1) :=
  h.call (emitArithmetic_emits W integerOp floatOp dataType dataTypeId resultToken
    argumentId1 argumentId2 s1 hi hf h.args h.below hroom hids)

theorem arithmetic_tail (W : Prop) (integerOp floatOp dataType dataTypeId resultToken
    argumentToken1 argumentToken2 : Nat) (s s3 : ShaderConverter) (c : Nat)
    (hi : integerOp ∈ binaryOpcodes) (hf : floatOp ∈ binaryOpcodes)
    (hroom : W → s.mNextId + 64 < 4294967296) (hc : c + 21 ≤ 64)
    (h3 : Emits W c 0 [] s s3) (hid : W → dataTypeId < s3.mNextId) :
    Emits W 64 0 [] s
      (emitArithmetic integerOp floatOp dataType dataTypeId resultToken
        (GetSwizzledId argumentToken1 UINT_MAX s3).1
        (GetSwizzledId argumentToken2 UINT_MAX (GetSwizzledId argumentToken1 UINT_MAX s3).2).1
        (GetSwizzledId argumentToken2 UINT_MAX
          (GetSwizzledId argumentToken1 UINT_MAX s3).2).2) := by
  obtain ⟨h4, a1, a2⟩ := h3.swizzle argumentToken1 UINT_MAX
    (h3.roomFor 64 10 hroom (by omega)) (fun _ hne => absurd rfl hne)
  obtain ⟨h5, b1, b2⟩ := h4.swizzle argumentToken2 UINT_MAX
    (h4.roomFor 64 10 hroom (by omega)) (fun _ hne => absurd rfl hne)
  refine (h5.arithmetic integerOp floatOp dataType dataTypeId resultToken _ _ hi hf
    (h5.roomFor 64 1 hroom (by omega)) ?_).mono (by omega) (by decide)
  intro hW
  have := hid hW
  have := a1 hW
  have := a2 hW
  have := b1 hW
  have := b2 hW
  exact ⟨by omega, by omega, by omega⟩

theorem Process_arithmetic_body_emits (W : Prop) (integerOp floatOp : Nat) (again : Bool)
    (resultToken argumentToken1 argumentToken2 : Nat) (s : ShaderConverter)
    (hi : integerOp ∈ binaryOpcodes) (hf : floatOp ∈ binaryOpcodes)
    (hargs : ArgumentsEmpty s) (hbelow : W → IdsBelow s)
    (hroom : W → s.mNextId + 64 < 4294967296) :
    Emits W 64 0 [] s
      (Process_arithmetic_body integerOp floatOp again resultToken argumentToken1
        argumentToken2 s) := by
  unfold Process_arithmetic_body
  dsimp only
  have h0 := Emits.refl W s hargs hbelow
  obtain ⟨h1, d1, m1⟩ := h0.getTypeByRegister argumentToken1 (h0.roomFor 64 5 hroom (by decide))
  obtain ⟨h2, t1, t2⟩ := h1.getType _ d1 (h1.roomFor 64 4 hroom (by decide))
  have h3 := h2.snag _ d1
  split_ifs with c1 c2 c3
  · obtain ⟨h3b, u1, u2⟩ := h3.getType _ d1 (h3.roomFor 64 4 hroom (by decide))
    exact arithmetic_tail W _ _ _ _ _ _ _ s _ _ hi hf hroom (by decide) h3b u1
  · exact arithmetic_tail W _ _ _ _ _ _ _ s _ _ hi hf hroom (by decide) h3 t1
  · obtain ⟨h3b, u1, u2⟩ := h3.getType
      (shiftTypeDescription (GetTypeByRegister argumentToken1 s).1) d1
      (h3.roomFor 64 4 hroom (by decide))
    obtain ⟨h4, a1, a2⟩ := h3b.load _ argumentToken1 (h3b.roomFor 64 16 hroom (by decide)) u1
    obtain ⟨h5, b1, b2⟩ := h4.load _ argumentToken2 (h4.roomFor 64 16 hroom (by decide))
      (fun hW => Nat.lt_of_lt_of_le (u1 hW) (a2 hW))
    refine (h5.arithmetic integerOp floatOp _ _ resultToken _ _ hi hf
      (h5.roomFor 64 1 hroom (by decide)) ?_).mono (by decide) (by decide)
    intro hW
    have := u1 hW
    have := a1 hW
    have := a2 hW
    have := b1 hW
    have := b2 hW
    exact ⟨by omega, by omega, by omega⟩
  · exact arithmetic_tail W _ _ _ _ _ _ _ s _ _ hi hf hroom (by decide) h3 t1

theorem snag_lt {x : Nat} (d : TypeDescription) {s : ShaderConverter} (h : x < s.mNextId) :
    x < (snagNextId d s).mNextId := h

theorem binary_dot : spv.OpDot ∈ binaryOpcodes := by decide

theorem binary_fetch : spv.OpImageFetch ∈ binaryOpcodes := by decide

theorem Process_DP_body_emits (W : Prop) (resultToken argumentToken1 argumentToken2 : Nat)
    (s : ShaderConverter) (hargs : ArgumentsEmpty s) (hbelow : W → IdsBelow s)
    (hroom : W → s.mNextId + 64 < 4294967296) :
    Emits W 64 0 [] s (Process_DP_body resultToken argumentToken1 argumentToken2 s) := by
  unfold Process_DP_body GetSpirVTypeId_Op
  dsimp only
  have h0 := Emits.refl W s hargs hbelow
  obtain ⟨h1, t1, t2⟩ := h0.getType { PrimaryType := spv.OpTypeFloat } rfl
    (h0.roomFor 64 4 hroom (by decide))
  have h2 := (h1.nextVersion resultToken (h1.roomFor 64 1 hroom (by decide))).snag
    { PrimaryType := spv.OpTypeFloat } rfl
  obtain ⟨h3, a1, a2⟩ := h2.swizzle argumentToken1 UINT_MAX
    (h2.roomFor 64 10 hroom (by decide)) (fun _ hne => absurd rfl hne)
  obtain ⟨h4, b1, b2⟩ := h3.swizzle argumentToken2 UINT_MAX
    (h3.roomFor 64 10 hroom (by decide)) (fun _ hne => absurd rfl hne)
  refine (h4.function (shape_binary spv.OpDot _ _ _ _ binary_dot) ?_).mono
    (by decide) (by decide)
  intro hW
  have := t1 hW
  have := h2.pending_lt hW
  have := a1 hW
  have := a2 hW
  have := b1 hW
  have := b2 hW
  exact below4 (by omega) (h4.pending_lt hW) (by omega) (by omega)

theorem Process_TEX_body_emits (W : Prop) (resultToken argumentToken1 argumentToken2 : Nat)
    (s : ShaderConverter) (hargs : ArgumentsEmpty s) (hbelow : W → IdsBelow s)
    (hroom : W → s.mNextId + 64 < 4294967296) :
    Emits W 64 0 [] s (Process_TEX_body resultToken argumentToken1 argumentToken2 s) := by
  unfold Process_TEX_body
  dsimp only
  simp only [GetNextVersionId_pushFunction, pushFunctionDefinition_pushFunctionDefinition,
    List.cons_append, List.nil_append]
  have h0 := (Emits.refl W s hargs hbelow).snag
    { PrimaryType := spv.OpTypeVector, SecondaryType := spv.OpTypeFloat
      ComponentCount := 4 } rfl
  obtain ⟨h1, t1, t2⟩ := h0.getType
    { PrimaryType := spv.OpTypeVector, SecondaryType := spv.OpTypeFloat
      ComponentCount := 4 } rfl (h0.roomFor 64 4 hroom (by decide))
  obtain ⟨h3, a1, a2⟩ := h1.swizzle argumentToken1 UINT_MAX
    (h1.roomFor 64 10 hroom (by decide)) (fun _ hne => absurd rfl hne)
  obtain ⟨h4, b1, b2⟩ := h3.swizzle argumentToken2 UINT_MAX
    (h3.roomFor 64 10 hroom (by decide)) (fun _ hne => absurd rfl hne)
  have h5 := h4.nextVersion resultToken (h4.roomFor 64 1 hroom (by decide))
  refine (h5.function (shape_binary spv.OpImageFetch _ _ _ _ binary_fetch) ?_).mono
    (by decide) (by decide)
  intro hW
  have := t1 hW
  have := a1 hW
  have := a2 hW
  have := b1 hW
  have := b2 hW
  have := h5.pending_lt hW
  exact below4 (by omega) (h5.pending_lt hW) (by omega) (by omega)

theorem Process_MOV_body_emits (W : Prop) (resultToken argumentToken1 : Nat)
    (s : ShaderConverter) (hargs : ArgumentsEmpty s) (hbelow : W → IdsBelow s)
    (hroom : W → s.mNextId + 64 < 4294967296) :
    Emits W 64 0 [] s (Process_MOV_body resultToken argumentToken1 s) := by
  unfold Process_MOV_body
  dsimp only
  simp only [GetNextVersionId_pushFunction, pushFunctionDefinition_pushFunctionDefinition,
    List.cons_append, List.nil_append]
  have h0 := Emits.refl W s hargs hbelow
  obtain ⟨h1, d1, m1⟩ := h0.getTypeByRegister argumentToken1 (h0.roomFor 64 5 hroom (by decide))
  obtain ⟨h2, t1, t2⟩ := h1.getType _ d1 (h1.roomFor 64 4 hroom (by decide))
  have h3 := h2.snag _ d1
  obtain ⟨h4, a1, a2⟩ := h3.swizzle argumentToken1 UINT_MAX
    (h3.roomFor 64 10 hroom (by decide)) (fun _ hne => absurd rfl hne)
  have h5 := h4.nextVersion resultToken (h4.roomFor 64 1 hroom (by decide))
  refine (h5.function (shape_copy _ _ _) ?_).mono (by decide) (by decide)
  intro hW
  have := snag_lt (GetTypeByRegister argumentToken1 s).1 (t1 hW)
  have := a1 hW
  have := a2 hW
  have := h5.pending_lt hW
  exact below3 (by omega) (h5.pending_lt hW) (by omega)

theorem binary_imul : spv.OpIMul ∈ binaryOpcodes := by decide

theorem binary_iadd : spv.OpIAdd ∈ binaryOpcodes := by decide

theorem binary_fmul : spv.OpFMul ∈ binaryOpcodes := by decide

theorem binary_fadd : spv.OpFAdd ∈ binaryOpcodes := by decide

theorem binary_isub : spv.OpISub ∈ binaryOpcodes := by decide

theorem binary_fsub : spv.OpFSub ∈ binaryOpcodes := by decide

theorem pushFunction_ten (s : ShaderConverter) (a b c d e f g h i j : Nat) :
    s.pushFunctionDefinition [a, b, c, d, e, f, g, h, i, j] =
      (s.pushFunctionDefinition [a, b, c, d, e]).pushFunctionDefinition [f, g, h, i, j] :=
  pushFunction_split s [a, b, c, d, e] [f, g, h, i, j]

/-- The multiply defines the pending id, the add a new version of the destination. -/
theorem Emits.multiplyAdd {W : Prop} {c k resultId : Nat} {s s1 : ShaderConverter}
    (h : Emits W c k [resultId] s s1) (dataType dataTypeId resultToken argumentId1
    argumentId2 argumentId3 : Nat) (hroom : W → s1.mNextId + 1 < 4294967296)
    (hids : W → dataTypeId < s1.mNextId ∧ argumentId1 < s1.mNextId ∧
      argumentId2 < s1.mNextId ∧ argumentId3 < s1.mNextId) :
    Emits W (c + 1) k [] s
      (emitMultiplyAdd dataType dataTypeId resultToken resultId argumentId1 argumentId2
        argumentId3 s1) := by
  unfold emitMultiplyAdd
  dsimp only
  simp only [GetNextVersionId_pushFunction, pushFunctionDefinition_pushFunctionDefinition,
    List.cons_append, List.nil_append]
  simp only [pushFunction_ten]
  have h1 := (h.nextVersion resultToken hroom).swap
  have hb : W → dataTypeId < (GetNextVersionId resultToken s1).2.mNextId ∧
      argumentId1 < (GetNextVersionId resultToken s1).2.mNextId ∧
      argumentId2 < (GetNextVersionId resultToken s1).2.mNextId ∧
      argumentId3 < (GetNextVersionId resultToken s1).2.mNextId ∧
      resultId < (GetNextVersionId resultToken s1).2.mNextId ∧
      s1.mNextId < (GetNextVersionId resultToken s1).2.mNextId := fun hW => by
    have := hids hW
    have := h1.pending_lt hW
    have := h1.swap.pending_lt hW
    omega
  split_ifs
  · have h2 := h1.function (shape_binary spv.OpIMul dataTypeId resultId argumentId1
      argumentId2 binary_imul)
      (fun hW => below4 (hb hW).1 (hb hW).2.2.2.2.1 (hb hW).2.1 (hb hW).2.2.1)
    exact h2.function (shape_binary spv.OpIAdd dataTypeId s1.mNextId resultId argumentId3
      binary_iadd)
      (fun hW => below4 (hb hW).1 (hb hW).2.2.2.2.2 (hb hW).2.2.2.2.1 (hb hW).2.2.2.1)
  · have h2 := h1.function (shape_binary spv.OpFMul dataTypeId resultId argumentId1
      argumentId2 binary_fmul)
      (fun hW => below4 (hb hW).1 (hb hW).2.2.2.2.1 (hb hW).2.1 (hb hW).2.2.1)
    exact h2.function (shape_binary spv.OpFAdd dataTypeId s1.mNextId resultId argumentId3
      binary_fadd)
      (fun hW => below4 (hb hW).1 (hb hW).2.2.2.2.2 (hb hW).2.2.2.2.1 (hb hW).2.2.2.1)
  · exact h.forget.mono (by omega) (Nat.le_refl _)

theorem multiplyAdd_tail (W : Prop) (dataType dataTypeId resultToken argumentToken1
    argumentToken2 argumentToken3 : Nat) (s s3 : ShaderConverter) (c : Nat)
    (hroom : W → s.mNextId + 64 < 4294967296) (hc : c + 32 ≤ 64)
    (h3 : Emits W c 0 [] s s3) (hid : W → dataTypeId < s3.mNextId) :
    Emits W 64 0 [] s
      (emitMultiplyAdd dataType dataTypeId resultToken
        (GetNextVersionId resultToken (GetSwizzledId argumentToken3 UINT_MAX
          (GetSwizzledId argumentToken2 UINT_MAX
            (GetSwizzledId argumentToken1 UINT_MAX s3).2).2).2).1
        (GetSwizzledId argumentToken1 UINT_MAX s3).1
        (GetSwizzledId argumentToken2 UINT_MAX (GetSwizzledId argumentToken1 UINT_MAX s3).2).1
        (GetSwizzledId argumentToken3 UINT_MAX (GetSwizzledId argumentToken2 UINT_MAX
          (GetSwizzledId argumentToken1 UINT_MAX s3).2).2).1
        (GetNextVersionId resultToken (GetSwizzledId argumentToken3 UINT_MAX
          (GetSwizzledId argumentToken2 UINT_MAX
            (GetSwizzledId argumentToken1 UINT_MAX s3).2).2).2).2) := by
  obtain ⟨h4, a1, a2⟩ := h3.swizzle argumentToken1 UINT_MAX
    (h3.roomFor 64 10 hroom (by omega)) (fun _ hne => absurd rfl hne)
  obtain ⟨h5, b1, b2⟩ := h4.swizzle argumentToken2 UINT_MAX
    (h4.roomFor 64 10 hroom (by omega)) (fun _ hne => absurd rfl hne)
  obtain ⟨h6, c1, c2⟩ := h5.swizzle argumentToken3 UINT_MAX
    (h5.roomFor 64 10 hroom (by omega)) (fun _ hne => absurd rfl hne)
  have h7 := h6.nextVersion resultToken (h6.roomFor 64 1 hroom (by omega))
  refine (h7.multiplyAdd dataType dataTypeId resultToken _ _ _
    (h7.roomFor 64 1 hroom (by omega)) ?_).mono (by omega) (by decide)
  intro hW
  have := hid hW
  have := a1 hW
  have := a2 hW
  have := b1 hW
  have := b2 hW
  have := c1 hW
  have := c2 hW
  have := h7.pending_lt hW
  exact ⟨by omega, by omega, by omega, by omega⟩

theorem Process_MAD_body_emits (W : Prop) (resultToken argumentToken1 argumentToken2
    argumentToken3 : Nat) (s : ShaderConverter) (hargs : ArgumentsEmpty s)
    (hbelow : W → IdsBelow s) (hroom : W → s.mNextId + 64 < 4294967296) :
    Emits W 64 0 [] s
      (Process_MAD_body resultToken argumentToken1 argumentToken2 argumentToken3 s) := by
  unfold Process_MAD_body
  dsimp only
  have h0 := Emits.refl W s hargs hbelow
  obtain ⟨h1, d1, m1⟩ := h0.getTypeByRegister argumentToken1 (h0.roomFor 64 5 hroom (by decide))
  obtain ⟨h2, t1, t2⟩ := h1.getType _ d1 (h1.roomFor 64 4 hroom (by decide))
  have h3 := h2.snag _ d1
  split_ifs with c1 c2
  · exact multiplyAdd_tail W _ _ _ _ _ _ s _ _ hroom (by decide) h3 t1
  · obtain ⟨h3b, u1, u2⟩ := h3.getType
      (shiftTypeDescription (GetTypeByRegister argumentToken1 s).1) d1
      (h3.roomFor 64 4 hroom (by decide))
    obtain ⟨h4, a1, a2⟩ := h3b.load _ argumentToken1 (h3b.roomFor 64 16 hroom (by decide)) u1
    obtain ⟨h5, b1, b2⟩ := h4.load _ argumentToken2 (h4.roomFor 64 16 hroom (by decide))
      (fun hW => Nat.lt_of_lt_of_le (u1 hW) (a2 hW))
    obtain ⟨h6, e1, e2⟩ := h5.load _ argumentToken3 (h5.roomFor 64 16 hroom (by decide))
      (fun hW => Nat.lt_of_lt_of_le (Nat.lt_of_lt_of_le (u1 hW) (a2 hW)) (b2 hW))
    have h7 := h6.nextVersion resultToken (h6.roomFor 64 1 hroom (by decide))
    refine (h7.multiplyAdd _ _ resultToken _ _ _
      (h7.roomFor 64 1 hroom (by decide)) ?_).mono (by decide) (by decide)
    intro hW
    have := u1 hW
    have := a1 hW
    have := a2 hW
    have := b1 hW
    have := b2 hW
    have := e1 hW
    have := e2 hW
    have := h7.pending_lt hW
    exact ⟨by omega, by omega, by omega, by omega⟩
  · exact multiplyAdd_tail W _ _ _ _ _ _ s _ _ hroom (by decide) h3 t1

/-! ## Constants and declarations -/

theorem setIdType_mNextId (s : ShaderConverter) (i : Nat) (d : TypeDescription) :
    (s.setIdType i d).mNextId = s.mNextId := rfl

theorem declaredTypeDescription_arguments (registerComponents : Nat) :
    (declaredTypeDescription registerComponents).Arguments = [] := by
  unfold declaredTypeDescription
  dsimp only
  split_ifs <;> rfl

theorem Process_DEFB_body_emits (W : Prop) (token literal : Nat) (s : ShaderConverter)
    (hargs : ArgumentsEmpty s) (hbelow : W → IdsBelow s)
    (hroom : W → s.mNextId + 64 < 4294967296) :
    Emits W 64 0 [] s (Process_DEFB_body token literal s) := by
  unfold Process_DEFB_body GetSpirVTypeId_Op
  dsimp only
  have h0 := Emits.refl W s hargs hbelow
  have h1 := h0.nextVersion token (h0.roomFor 64 1 hroom (by decide))
  obtain ⟨h2, t1, t2⟩ := h1.getType { PrimaryType := spv.OpTypeBool } rfl
    (h1.roomFor 64 4 hroom (by decide))
  obtain ⟨h3, u1, u2⟩ := h2.getType { PrimaryType := spv.OpTypeVoid } rfl
    (h2.roomFor 64 4 hroom (by decide))
  have h4 := h3.setIdType s.mNextId { PrimaryType := spv.OpTypeBool } rfl
  refine (h4.type (shape_constant _ _ literal) ?_).mono (by decide) (by decide)
  intro hW
  exact below2 (u1 hW) (h4.pending_lt hW)

theorem defineVector_body_emits (W : Prop) (componentType token literal0 literal1 literal2
    literal3 : Nat) (s : ShaderConverter) (hargs : ArgumentsEmpty s)
    (hbelow : W → IdsBelow s) (hroom : W → s.mNextId + 64 < 4294967296) :
    Emits W 64 0 [] s
      (defineVector_body componentType token literal0 literal1 literal2 literal3 s) := by
  unfold defineVector_body GetSpirVTypeId_Op
  dsimp only
  have h0 := Emits.refl W s hargs hbelow
  have h1 := h0.nextVersion token (h0.roomFor 64 1 hroom (by decide))
  obtain ⟨h2, t1, t2⟩ := h1.getType
    { PrimaryType := spv.OpTypeVector, SecondaryType := componentType, ComponentCount := 4 }
    rfl (h1.roomFor 64 4 hroom (by decide))
  obtain ⟨h3, u1, u2⟩ := h2.getType { PrimaryType := componentType } rfl
    (h2.roomFor 64 4 hroom (by decide))
  have h4 := h3.setIdType s.mNextId
    { PrimaryType := spv.OpTypeVector, SecondaryType := componentType, ComponentCount := 4 }
    rfl
  have a0 := h4.alloc (h4.roomFor 64 1 hroom (by decide))
  have b0 := a0.type (shape_constant _ _ literal0)
    (fun hW => below2 (Nat.lt_trans (u1 hW) (a0.pending_lt hW)) (a0.pending_lt hW))
  have a1 := b0.alloc (b0.roomFor 64 1 hroom (by decide))
  have b1 := a1.type (shape_constant _ _ literal1)
    (fun hW => below2
      (Nat.lt_trans (Nat.lt_trans (u1 hW) (a0.pending_lt hW)) (a1.pending_lt hW))
      (a1.pending_lt hW))
  have a2 := b1.alloc (b1.roomFor 64 1 hroom (by decide))
  have b2 := a2.type (shape_constant _ _ literal2)
    (fun hW => below2
      (Nat.lt_trans (Nat.lt_trans (Nat.lt_trans (u1 hW) (a0.pending_lt hW))
        (a1.pending_lt hW)) (a2.pending_lt hW))
      (a2.pending_lt hW))
  have a3 := b2.alloc (b2.roomFor 64 1 hroom (by decide))
  have b3 := a3.type (shape_constant _ _ literal3)
    (fun hW => below2
      (Nat.lt_trans (Nat.lt_trans (Nat.lt_trans (Nat.lt_trans (u1 hW) (a0.pending_lt hW))
        (a1.pending_lt hW)) (a2.pending_lt hW)) (a3.pending_lt hW))
      (a3.pending_lt hW))
  refine (b3.type (shape_composite _ _ _ _ _ _) ?_).mono (by decide) (by decide)
  intro hW
  have l0 := a0.pending_lt hW
  have l1 := a1.pending_lt hW
  have l2 := a2.pending_lt hW
  have l3 := a3.pending_lt hW
  have r1 := t1 hW
  have r2 := u2 hW
  have hv := b3.pending_lt hW
  exact below6 (Nat.lt_trans (Nat.lt_trans (Nat.lt_trans (Nat.lt_trans
      (Nat.lt_of_lt_of_le r1 r2) l0) l1) l2) l3) hv
    (Nat.lt_trans (Nat.lt_trans (Nat.lt_trans l0 l1) l2) l3)
    (Nat.lt_trans (Nat.lt_trans l1 l2) l3) (Nat.lt_trans l2 l3) l3

theorem Process_DCL_Pixel_body_emits (W : Prop) (token registerToken : Nat)
    (s r : ShaderConverter) (hargs : ArgumentsEmpty s) (hbelow : W → IdsBelow s)
    (hroom : W → s.mNextId + 64 < 4294967296)
    (h : Process_DCL_Pixel_body token registerToken s = .ok r) : Emits W 64 0 [] s r := by
  unfold Process_DCL_Pixel_body GetSpirVTypeId_Op2 at h
  dsimp only at h
  have h0 := Emits.refl W s hargs hbelow
  have h1 := (h0.nextVersion registerToken (h0.roomFor 64 1 hroom (by decide))).setIdType
    s.mNextId (declaredTypeDescription ((registerToken &&& D3DSP_WRITEMASK_ALL) >>> 16))
    (declaredTypeDescription_arguments _)
  split_ifs at h with c1 c2 c3
  · obtain ⟨h2, t1, t2⟩ := h1.getType _ (declaredTypeDescription_arguments
      ((registerToken &&& D3DSP_WRITEMASK_ALL) >>> 16)) (h1.roomFor 64 4 hroom (by decide))
    cases h
    exact (h2.type (shape_variable _ _ spv.StorageClassInput)
      (fun hW => below2 (t1 hW) (h2.pending_lt hW))).mono (by decide) (by decide)
  · obtain ⟨h2, t1, t2⟩ := h1.getType
      { PrimaryType := spv.OpTypePointer, SecondaryType := spv.OpTypeImage } rfl
      (h1.roomFor 64 4 hroom (by decide))
    cases h
    exact (h2.type (shape_variable _ _ spv.StorageClassImage)
      (fun hW => below2 (t1 hW) (h2.pending_lt hW))).mono (by decide) (by decide)
  · obtain ⟨h2, t1, t2⟩ := h1.getType
      { PrimaryType := spv.OpTypePointer, SecondaryType := spv.OpTypeSampler } rfl
      (h1.roomFor 64 4 hroom (by decide))
    have h3 := h2.type (shape_variable _ _ spv.StorageClassUniform)
      (fun hW => below2 (t1 hW) (h2.pending_lt hW))
    split at h
    · rename_i cs hcs
      cases h
      exact (h3.addBinding cs hcs).mono (by decide) (by decide)
    · cases h
  · cases h
    exact h1.forget.mono (by decide) (by decide)

theorem Process_DCL_Vertex_body_emits (W : Prop) (token registerToken : Nat)
    (s r : ShaderConverter) (hargs : ArgumentsEmpty s) (hbelow : W → IdsBelow s)
    (hroom : W → s.mNextId + 64 < 4294967296)
    (h : Process_DCL_Vertex_body token registerToken s = .ok r) : Emits W 64 0 [] s r := by
  unfold Process_DCL_Vertex_body at h
  dsimp only at h
  have h0 := Emits.refl W s hargs hbelow
  have h1 := (h0.nextVersion registerToken (h0.roomFor 64 1 hroom (by decide))).setIdType
    s.mNextId (declaredTypeDescription ((registerToken &&& D3DSP_WRITEMASK_ALL) >>> 16))
    (declaredTypeDescription_arguments _)
  split_ifs at h with c1 c2 c3
  · have h1b := h1.pushInterfaceId s.mNextId h1.pending_lt
    obtain ⟨h2, t1, t2⟩ := h1b.getType _ (declaredTypeDescription_arguments
      ((registerToken &&& D3DSP_WRITEMASK_ALL) >>> 16)) (h1b.roomFor 64 4 hroom (by decide))
    have h3 := h2.type (shape_variable _ _ spv.StorageClassInput)
      (fun hW => below2 (t1 hW) (h2.pending_lt hW))
    split at h
    · rename_i cs hcs
      cases h
      exact (h3.addAttribute _ cs hcs).mono (by decide) (by decide)
    · cases h
  · obtain ⟨h2, t1, t2⟩ := h1.getType _ (declaredTypeDescription_arguments
      ((registerToken &&& D3DSP_WRITEMASK_ALL) >>> 16)) (h1.roomFor 64 4 hroom (by decide))
    have h3 := h2.type (shape_variable _ _ spv.StorageClassOutput)
      (fun hW => below2 (t1 hW) (h2.pending_lt hW))
    cases h
    exact (h3.setPositionRegister _).mono (by decide) (by decide)
  · obtain ⟨h2, t1, t2⟩ := h1.getType _ (declaredTypeDescription_arguments
      ((registerToken &&& D3DSP_WRITEMASK_ALL) >>> 16)) (h1.roomFor 64 4 hroom (by decide))
    have h3 := h2.type (shape_variable _ _ spv.StorageClassOutput)
      (fun hW => below2 (t1 hW) (h2.pending_lt hW))
    cases h
    exact h3.mono (by decide) (by decide)
  · cases h
    exact h1.forget.mono (by decide) (by decide)

theorem binaryOpcodes_mem :
    spv.OpIAdd ∈ binaryOpcodes ∧ spv.OpFAdd ∈ binaryOpcodes ∧ spv.OpISub ∈ binaryOpcodes ∧
      spv.OpFSub ∈ binaryOpcodes ∧ spv.OpIMul ∈ binaryOpcodes ∧ spv.OpFMul ∈ binaryOpcodes := by
  decide

/-- Every handler appends whole instructions and keeps the ids in order. -/
theorem dispatchBody_emits (W : Prop) (token t0 t1 t2 t3 t4 : Nat) (s r : ShaderConverter)
    (hargs : ArgumentsEmpty s) (hbelow : W → IdsBelow s)
    (hroom : W → s.mNextId + 64 < 4294967296)
    (h : dispatchBody token t0 t1 t2 t3 t4 s = .ok r) : Emits W 64 0 [] s r := by
  revert h
  apply dispatchBody_cases (fun x => x = .ok r → Emits W 64 0 [] s r)
  case hMOV =>
    intro h; cases h
    exact Process_MOV_body_emits W _ _ s hargs hbelow hroom
  case hADD =>
    intro h; cases h
    exact Process_arithmetic_body_emits W _ _ _ _ _ _ s binaryOpcodes_mem.1
      binaryOpcodes_mem.2.1 hargs hbelow hroom
  case hSUB =>
    intro h; cases h
    exact Process_arithmetic_body_emits W _ _ _ _ _ _ s binaryOpcodes_mem.2.2.1
      binaryOpcodes_mem.2.2.2.1 hargs hbelow hroom
  case hMUL =>
    intro h; cases h
    exact Process_arithmetic_body_emits W _ _ _ _ _ _ s binaryOpcodes_mem.2.2.2.2.1
      binaryOpcodes_mem.2.2.2.2.2 hargs hbelow hroom
  case hDP =>
    intro h; cases h
    exact Process_DP_body_emits W _ _ _ s hargs hbelow hroom
  case hMAD =>
    intro h; cases h
    exact Process_MAD_body_emits W _ _ _ _ s hargs hbelow hroom
  case hTEX =>
    intro h; cases h
    exact Process_TEX_body_emits W _ _ _ s hargs hbelow hroom
  case hDCLV =>
    intro h
    exact Process_DCL_Vertex_body_emits W _ _ s r hargs hbelow hroom h
  case hDCLP =>
    intro h
    exact Process_DCL_Pixel_body_emits W _ _ s r hargs hbelow hroom h
  case hDEFB =>
    intro h; cases h
    exact Process_DEFB_body_emits W _ _ s hargs hbelow hroom
  case hDEFI =>
    intro h; cases h
    exact defineVector_body_emits W _ _ _ _ _ _ s hargs hbelow hroom
  case hDEF =>
    intro h; cases h
    exact defineVector_body_emits W _ _ _ _ _ _ s hargs hbelow hroom
  case hNone =>
    intro h; cases h
    exact (Emits.refl W s hargs hbelow).mono (by decide) (by decide)

/-! ## The loop, the head and the tail of `Convert` -/

theorem Emits.fromReader {W : Prop} {c k : Nat} {R : List Nat} {s s1 : ShaderConverter}
    {a b : Nat} (h : Emits W c k R (s.withReader a b) s1) : Emits W c k R s s1 :=
  ⟨h.args, h.room, h.counter, h.below, h.out⟩

/-- A turn of the loop appends whole instructions and keeps the ids in order. -/
theorem Convert_step_emits (W : Prop) (shader : List Nat) (s r : ShaderConverter)
    (token : Nat) (hargs : ArgumentsEmpty s) (hbelow : W → IdsBelow s)
    (hroom : W → s.mNextId + 64 < 4294967296)
    (h : Convert_step shader s = .ok (token, r)) : Emits W 64 0 [] s r := by
  rw [Convert_step_eq] at h
  split_ifs at h with hlt hc
  · cases h
    exact ((Emits.refl W s hargs hbelow).withReader _ _).mono (by decide) (by decide)
  · cases hr : readThen (dispatchArity (shader.getD s.mNextToken 0))
        (dispatchBody (shader.getD s.mNextToken 0)) shader
        (s.withReader (s.mNextToken + 1) s.mNextToken) with
    | error e => rw [hr] at h; cases h
    | ok r1 =>
      rw [hr] at h
      cases h
      obtain ⟨_, r0, hb, rfl⟩ := readThen_ok _ _ _ _ _ hr
      have hargs2 : ArgumentsEmpty (s.withReader (s.mNextToken + 1) s.mNextToken) := hargs
      have hbelow2 : W → IdsBelow (s.withReader (s.mNextToken + 1) s.mNextToken) := hbelow
      have hroom2 : W →
          (s.withReader (s.mNextToken + 1) s.mNextToken).mNextId + 64 < 4294967296 := hroom
      have e := dispatchBody_emits W _ _ _ _ _ _ _ r0 hargs2 hbelow2 hroom2 hb
      exact (e.withReader _ _).fromReader

/-- The loop appends whole instructions and keeps the ids in order; it hands out 64 ids
at most for each token it has before it. -/
theorem Convert_loop_emits (W : Prop) (shader : List Nat) (fuel token : Nat)
    (s t : ShaderConverter) (hargs : ArgumentsEmpty s) (hbelow : W → IdsBelow s)
    (hroom : W → s.mNextId + 64 * (shader.length - s.mNextToken) < 4294967296)
    (h : Convert_loop shader fuel token s = .ok t) :
    Emits W (64 * (shader.length - s.mNextToken)) 0 [] s t := by
  induction fuel generalizing token s with
  | zero =>
    rw [Convert_loop_zero] at h
    split_ifs at h
    have e : s = t := by injection h
    rw [← e]
    exact (Emits.refl W s hargs hbelow).mono (Nat.zero_le _) (Nat.le_refl _)
  | succ n ih =>
    rw [Convert_loop_succ] at h
    split_ifs at h
    · have e : s = t := by injection h
      rw [← e]
      exact (Emits.refl W s hargs hbelow).mono (Nat.zero_le _) (Nat.le_refl _)
    · cases hs : Convert_step shader s with
      | error e => rw [hs] at h; cases h
      | ok p =>
        rw [hs] at h
        obtain ⟨tok, r⟩ := p
        obtain ⟨h0, h1, _⟩ := Convert_step_ok _ _ _ _ hs
        have hlt : s.mNextToken < shader.length := by
          by_contra hge
          rw [List.getElem?_eq_none (by omega)] at h0
          cases h0
        have e1 := Convert_step_emits W shader s r tok hargs hbelow
          (fun hW => by have := hroom hW; omega) hs
        have e2 := ih tok r e1.args e1.below (fun hW => by
          have := hroom hW
          have := (e1.counter hW).2
          omega) h
        exact (e1.call e2).mono (by omega) (by decide)

theorem Emits.setVersion {W : Prop} {c k : Nat} {R : List Nat} {s s1 : ShaderConverter}
    (h : Emits W c k R s s1) (a b : Nat) : Emits W c k R s (s1.setVersion a b) :=
  h.congr rfl rfl rfl (fun x => x) rfl rfl

theorem Emits.setIsVertexShader {W : Prop} {c k : Nat} {R : List Nat}
    {s s1 : ShaderConverter} (h : Emits W c k R s s1) (a : Bool) :
    Emits W c k R s (s1.setIsVertexShader a) :=
  h.congr rfl rfl rfl (fun x => x) rfl rfl

theorem Emits.setEntryPointTypeId {W : Prop} {c k : Nat} {R : List Nat}
    {s s1 : ShaderConverter} (h : Emits W c k R s s1) (id : Nat)
    (hid : W → id < s1.mNextId) : Emits W c k R s (s1.setEntryPointTypeId id) where
  args := h.args
  room := h.room
  counter := h.counter
  below := by
    intro hW
    obtain ⟨b0, b1, b2, b3, b4, b5⟩ := h.below hW
    exact ⟨b0, b1, b2, b3, b4, hid hW⟩
  out := h.out

theorem Emits.setEntryPointId {W : Prop} {c k : Nat} {R : List Nat}
    {s s1 : ShaderConverter} (h : Emits W c k R s s1) (id : Nat)
    (hid : W → id < s1.mNextId) : Emits W c k R s (s1.setEntryPointId id) where
  args := h.args
  room := h.room
  counter := h.counter
  below := by
    intro hW
    obtain ⟨b0, b1, b2, b3, b4, b5⟩ := h.below hW
    exact ⟨b0, b1, b2, b3, hid hW, b5⟩
  out := h.out

theorem setEntryPointId_mEntryPointId (s : ShaderConverter) (i : Nat) :
    (s.setEntryPointId i).mEntryPointId = i := rfl

theorem setEntryPointId_mEntryPointTypeId (s : ShaderConverter) (i : Nat) :
    (s.setEntryPointId i).mEntryPointTypeId = s.mEntryPointTypeId := rfl

theorem setEntryPointTypeId_mEntryPointTypeId (s : ShaderConverter) (i : Nat) :
    (s.setEntryPointTypeId i).mEntryPointTypeId = i := rfl

/-- The head of `Convert` writes the type of the entry point, its `OpFunction` and its
`OpLabel`. -/
theorem Convert_begin_body_emits (W : Prop) (token : Nat) (s : ShaderConverter)
    (hargs : ArgumentsEmpty s) (hbelow : W → IdsBelow s)
    (hroom : W → s.mNextId + 10 < 4294967296) :
    Emits W 10 0 [] s (Convert_begin_body token s) := by
  have key : ∀ v : Bool, Emits W 10 0 [] s
      (let s := s.setVersion (D3DSHADER_VERSION_MAJOR token) (D3DSHADER_VERSION_MINOR token)
       let s := s.setIsVertexShader v
       let entryPointTypeId := GetSpirVTypeId { PrimaryType := spv.OpTypeFunction } s
       let s := entryPointTypeId.2.setEntryPointTypeId entryPointTypeId.1
       let entryPointId := GetNextId s
       let s := entryPointId.2.setEntryPointId entryPointId.1
       let voidTypeId := GetSpirVTypeId { PrimaryType := spv.OpTypeVoid } s
       let label := GetNextId voidTypeId.2
       (label.2.pushFunctionDefinition
        [Pack 5 spv.OpFunction, voidTypeId.1, entryPointId.1, spv.FunctionControlMaskNone,
          entryPointTypeId.1]).pushFunctionDefinition [Pack 2 spv.OpLabel, label.1]) := by
    intro v
    dsimp only
    have h0 := ((Emits.refl W s hargs hbelow).setVersion (D3DSHADER_VERSION_MAJOR token)
      (D3DSHADER_VERSION_MINOR token)).setIsVertexShader v
    obtain ⟨h1, t1, t2⟩ := h0.getType { PrimaryType := spv.OpTypeFunction } rfl
      (h0.roomFor 10 4 hroom (by decide))
    have h2 := h1.setEntryPointTypeId _ t1
    have h3 := h2.alloc (h2.roomFor 10 1 hroom (by decide))
    have h4 := h3.setEntryPointId _ h3.pending_lt
    obtain ⟨h5, u1, u2⟩ := h4.getType { PrimaryType := spv.OpTypeVoid } rfl
      (h4.roomFor 10 4 hroom (by decide))
    have h6 := (h5.alloc (h5.roomFor 10 1 hroom (by decide))).swap
    have h7 := h6.function (shape_function _ _ spv.FunctionControlMaskNone _)
      (fun hW => below3 (Nat.lt_trans (u1 hW) (h6.swap.pending_lt hW)) (h6.pending_lt hW)
        (Nat.lt_trans (Nat.lt_of_lt_of_le (Nat.lt_trans (t1 hW) (h3.pending_lt hW)) (u2 hW))
          (h6.swap.pending_lt hW)))
    exact (h7.function (shape_label _) (fun hW => below1 (h7.pending_lt hW))).mono
      (by decide) (by decide)
  have e : ∀ v : Bool,
      (let s := s.setVersion (D3DSHADER_VERSION_MAJOR token) (D3DSHADER_VERSION_MINOR token)
       let s := s.setIsVertexShader v
       let entryPointTypeId := GetSpirVTypeId_Op spv.OpTypeFunction s
       let s := entryPointTypeId.2.setEntryPointTypeId entryPointTypeId.1
       let entryPointId := GetNextId s
       let s := entryPointId.2.setEntryPointId entryPointId.1
       let s := s.pushFunctionDefinition [Pack 5 spv.OpFunction]
       let voidTypeId := GetSpirVTypeId_Op spv.OpTypeVoid s
       let s := voidTypeId.2.pushFunctionDefinition
         [voidTypeId.1, s.mEntryPointId, spv.FunctionControlMaskNone, s.mEntryPointTypeId]
       let s := s.pushFunctionDefinition [Pack 2 spv.OpLabel]
       let label := GetNextId s
       label.2.pushFunctionDefinition [label.1]) =
      (let s := s.setVersion (D3DSHADER_VERSION_MAJOR token) (D3DSHADER_VERSION_MINOR token)
       let s := s.setIsVertexShader v
       let entryPointTypeId := GetSpirVTypeId { PrimaryType := spv.OpTypeFunction } s
       let s := entryPointTypeId.2.setEntryPointTypeId entryPointTypeId.1
       let entryPointId := GetNextId s
       let s := entryPointId.2.setEntryPointId entryPointId.1
       let voidTypeId := GetSpirVTypeId { PrimaryType := spv.OpTypeVoid } s
       let label := GetNextId voidTypeId.2
       (label.2.pushFunctionDefinition
        [Pack 5 spv.OpFunction, voidTypeId.1, entryPointId.1, spv.FunctionControlMaskNone,
          entryPointTypeId.1]).pushFunctionDefinition [Pack 2 spv.OpLabel, label.1]) := by
    intro v
    dsimp only
    simp only [GetSpirVTypeId_Op, GetSpirVTypeId_pushFunction, GetNextId_pushFunction,
      pushFunctionDefinition_pushFunctionDefinition, List.cons_append, List.nil_append,
      pushFunctionDefinition_mEntryPointId, pushFunctionDefinition_mEntryPointTypeId,
      setEntryPointId_mEntryPointId, setEntryPointId_mEntryPointTypeId,
      GetNextId_snd_mEntryPointTypeId, setEntryPointTypeId_mEntryPointTypeId]
  unfold Convert_begin_body
  by_cases hk : token &&& 0xFFFF0000 = 0xFFFF0000
  · simp only [if_pos hk]
    rw [e false]
    exact key false
  · simp only [if_neg hk]
    rw [e true]
    exact key true

/-! ## The translation of a stream by a converter right after construction -/

/-- The state in which `Convert` reads the version token. -/
theorem Convert_begin_fresh (shader : List Nat) (firstId attributes bindings token : Nat)
    (b : ShaderConverter)
    (h : Convert_begin shader (ShaderConverter.fresh firstId attributes bindings) =
      .ok (token, b)) :
    ∃ s1 : ShaderConverter, b = Convert_begin_body token s1 ∧ s1.mNextId = firstId ∧
      ArgumentsEmpty s1 ∧ (1 ≤ firstId → IdsBelow s1) ∧ interfaceRoom s1 = attributes ∧
      s1.mTypeInstructions = [] ∧ s1.mFunctionDefinitionInstructions = [] := by
  rw [Convert_begin_eq] at h
  split_ifs at h
  simp only [Except.ok.injEq, Prod.mk.injEq] at h
  obtain ⟨h1, h2⟩ := h
  refine ⟨((((ShaderConverter.fresh firstId attributes bindings).setConvertedShader
    (ShaderConverter.fresh firstId attributes bindings).mConvertedShader.cleared).clearInstructions.rewind).withReader
    1 (ShaderConverter.fresh firstId attributes bindings).mTokenOffset), ?_, rfl, ?_, ?_, ?_, rfl, rfl⟩
  · rw [← h2, h1]
  · intro p hp
    cases hp
  · intro hf
    refine ⟨hf, ?_, ?_, ?_, hf, hf⟩
    · intro p hp
      cases hp
    · intro p hp
      cases hp
    · intro p hp
      cases hp
  · show ([] : List Nat).length + ((List.replicate _ _).length - 0) = attributes
    simp [ShaderConverter.fresh]

/-- What the translation of a stream has done when it returns: the state before the tail
of `Convert` holds whole instructions in its type section and its function section, and
nothing in the other sections. -/
theorem Convert_translate_fresh (W : Prop) (shader : List Nat)
    (firstId attributes bindings : Nat) (t : ShaderConverter)
    (ht : Convert_translate shader (ShaderConverter.fresh firstId attributes bindings) = .ok t)
    (hW : W → 1 ≤ firstId ∧ firstId + 64 * (shader.length + 1) < 4294967296) :
    ∃ (l : ShaderConverter) (types functions : List (List Nat)),
      t = Convert_end l ∧ l.fixedPart.2 = List.replicate 19 [] ∧
      l.mTypeInstructions = types.flatten ∧
      l.mFunctionDefinitionInstructions = functions.flatten ∧
      (∀ i ∈ types ++ functions, Framed i) ∧ l.mInterfaceIds.length ≤ attributes ∧
      (W → IdsBelow l ∧ firstId ≤ l.mNextId ∧ l.mNextId + 1 < 4294967296 ∧
        (∀ i ∈ types ++ functions, ∀ id ∈ idOperands i, id < l.mNextId) ∧
        FreshIds firstId l.mNextId (resultIds types ++ resultIds functions)) := by
  unfold Convert_translate at ht
  cases hb : Convert_begin shader (ShaderConverter.fresh firstId attributes bindings) with
  | error e => rw [hb] at ht; cases ht
  | ok p =>
    obtain ⟨token, b⟩ := p
    rw [hb] at ht
    cases hl : Convert_loop shader shader.length token b with
    | error e =>
      simp only [bind, Except.bind, hl] at ht
      cases ht
    | ok l =>
      simp only [bind, Except.bind, hl, pure, Except.pure, Except.ok.injEq] at ht
      obtain ⟨h0, h1, _, _, _, h5⟩ := Convert_begin_ok _ _ _ _ hb
      obtain ⟨_, hf⟩ := Convert_loop_ok _ _ _ _ _ hl
      obtain ⟨s1, hb1, hn, ha, hi, hr, hT, hF⟩ := Convert_begin_fresh _ _ _ _ _ _ hb
      have hlen : 1 ≤ shader.length := by
        by_contra hge
        rw [List.getElem?_eq_none (by omega)] at h0
        cases h0
      have e1 : Emits W 10 0 [] s1 b := by
        rw [hb1]
        exact Convert_begin_body_emits W token s1 ha (fun w => hi (hW w).1) (fun w => by
          have := (hW w).2
          omega)
      have e2 := Convert_loop_emits W shader shader.length token b l e1.args e1.below
        (fun w => by
          have := (hW w).2
          have := (e1.counter w).2
          rw [h1]
          omega) hl
      rw [h1] at e2
      have e3 := e1.call e2
      obtain ⟨T, F, o1, o2, o3, o4⟩ := e3.out
      refine ⟨l, T, F, ht.symm, ?_, ?_, ?_, o3, ?_, ?_⟩
      · have : l.fixedPart.2 = b.fixedPart.2 := congrArg Prod.snd hf
        rw [this, h5]
        rfl
      · rw [o1, hT, List.nil_append]
      · rw [o2, hF, List.nil_append]
      · have := e3.room
        unfold interfaceRoom at this hr
        omega
      · intro w
        have hc := e3.counter w
        have hroom := (hW w).2
        rw [hn] at hc
        refine ⟨e3.below w, hc.1, by omega, (o4 w).1, ?_⟩
        have := (o4 w).2
        rw [hn] at this
        exact this

/-! ## The tail of `Convert` -/

theorem stringWordSize_import : stringWordSize 2 (stringBytes "GLSL.std.450") = 6 := by
  decide

theorem stringWordSize_main (n : Nat) (h : n + 5 < 4294967296) :
    stringWordSize (3 + n) (stringBytes "main") = 5 + n := by
  unfold stringWordSize
  have e : (stringBytes "main").length = 4 := by decide
  simp only [e]
  rw [if_pos (by decide), Nat.mod_eq_of_lt (by omega), Nat.mod_eq_of_lt (by omega)]
  omega

/-- What the tail of `Convert` makes of the sections, and the id it takes, when only the
type section and the function section hold words. -/
theorem Convert_end_sections (s : ShaderConverter)
    (hfix : s.fixedPart.2 = List.replicate 19 [])
    (h : s.mInterfaceIds.length + 5 < 4294967296) :
    (specSectionOrder (Convert_end s)).flatten =
        (headInstructions s).flatten ++ (s.mTypeInstructions ++
          (s.mFunctionDefinitionInstructions ++ endInstructions.flatten)) ∧
      (Convert_end s).mNextId = (s.mNextId + 1) % 4294967296 := by
  simp only [ShaderConverter.fixedPart, List.replicate, List.cons.injEq, and_true] at hfix
  obtain ⟨h0, h1, h2, h3, h4, h5, h6, h7, h8, h9, h10, h11, h12, h13, h14, h15, h16, h17,
    h18⟩ := hfix
  have e1 := stringWordSize_import
  have e2 := stringWordSize_main _ h
  unfold Convert_end specSectionOrder headInstructions endInstructions importInstruction
    entryPointInstruction
  by_cases hv : s.mIsVertexShader = true <;>
    simp [hv, e1, e2, h1, h2, h3, h4, h5, h6, h7, h8, h9, h10, h11, h12, h13, h14, h15, h16,
      h17, h18]

theorem shape_capability :
    Shape [Pack 2 spv.OpCapability, spv.CapabilityShader] [] none :=
  ⟨Framed_of _ _ 2 (by decide) rfl, rfl, rfl⟩

theorem shape_import (id : Nat) : Shape (importInstruction id) [id] (some id) :=
  ⟨Framed_of _ _ 6 (by decide) rfl, rfl, rfl⟩

theorem shape_memoryModel :
    Shape [Pack 3 spv.OpMemoryModel, spv.AddressingModelLogical, spv.MemoryModelGLSL450]
      [] none :=
  ⟨Framed_of _ _ 3 (by decide) rfl, rfl, rfl⟩

theorem shape_entryPoint (model entryPoint : Nat) (interfaces : List Nat)
    (h : interfaces.length + 5 < 65536) :
    Shape (entryPointInstruction model entryPoint interfaces) (entryPoint :: interfaces)
      none := by
  obtain ⟨hw, ho⟩ := Pack_halves (5 + interfaces.length) spv.OpEntryPoint (by omega)
    (by decide)
  have e : PutStringInVector (stringBytes "main") = [1852399981, 0] := by decide
  unfold entryPointInstruction
  rw [e]
  show Shape (Pack (5 + interfaces.length) spv.OpEntryPoint :: model :: entryPoint ::
    1852399981 :: 0 :: interfaces) _ _
  refine ⟨Framed_of _ _ _ hw ?_, ?_, ?_⟩
  · simp only [List.length_cons]
    omega
  · simp only [idOperands, ho]
    rfl
  · simp only [resultId, ho]
    rfl

theorem shape_executionMode (entryPoint : Nat) :
    Shape [Pack 3 spv.OpExecutionMode, entryPoint, spv.ExecutionModeOriginLowerLeft]
      [entryPoint] none :=
  ⟨Framed_of _ _ 3 (by decide) rfl, rfl, rfl⟩

/-- The instructions before the type section: their framing, their ids and the one id
they define. -/
theorem headInstructions_shape (s : ShaderConverter)
    (h : s.mInterfaceIds.length + 5 < 65536) :
    (∀ i ∈ headInstructions s, Framed i ∧
      ∀ id ∈ idOperands i, id = s.mNextId ∨ id = s.mEntryPointId ∨ id ∈ s.mInterfaceIds) ∧
    resultIds (headInstructions s) = [s.mNextId] := by
  have a := shape_capability
  have b := shape_import s.mNextId
  have c := shape_memoryModel
  have d := shape_entryPoint
    (if s.mIsVertexShader then spv.ExecutionModelVertex else spv.ExecutionModelFragment)
    s.mEntryPointId s.mInterfaceIds h
  have e := shape_executionMode s.mEntryPointId
  unfold headInstructions
  constructor
  · intro i hi
    by_cases hv : s.mIsVertexShader = true
    · simp only [hv, if_true, List.append_nil, List.mem_cons, List.mem_singleton,
        List.not_mem_nil, or_false] at hi d
      rcases hi with hi | hi | hi | hi <;> subst hi
      · exact ⟨a.1, by rw [a.2.1]; intro id hid; cases hid⟩
      · exact ⟨b.1, by rw [b.2.1]; intro id hid; simp at hid; exact Or.inl hid⟩
      · exact ⟨c.1, by rw [c.2.1]; intro id hid; cases hid⟩
      · exact ⟨d.1, by rw [d.2.1]; intro id hid; simp at hid; exact Or.inr hid⟩
    · simp only [hv, Bool.false_eq_true, if_false, List.cons_append, List.nil_append,
        List.mem_cons, List.mem_singleton, List.not_mem_nil, or_false] at hi d
      rcases hi with hi | hi | hi | hi | hi <;> subst hi
      · exact ⟨a.1, by rw [a.2.1]; intro id hid; cases hid⟩
      · exact ⟨b.1, by rw [b.2.1]; intro id hid; simp at hid; exact Or.inl hid⟩
      · exact ⟨c.1, by rw [c.2.1]; intro id hid; cases hid⟩
      · exact ⟨d.1, by rw [d.2.1]; intro id hid; simp at hid; exact Or.inr hid⟩
      · exact ⟨e.1, by rw [e.2.1]; intro id hid; simp at hid; exact Or.inr (Or.inl hid)⟩
  · by_cases hv : s.mIsVertexShader = true
    · simp only [hv, if_true, List.append_nil] at d ⊢
      simp [resultIds, List.filterMap_cons, a.2.2, b.2.2, c.2.2, d.2.2]
    · simp only [hv, Bool.false_eq_true, if_false, List.cons_append, List.nil_append] at d ⊢
      simp [resultIds, List.filterMap_cons, a.2.2, b.2.2, c.2.2, d.2.2, e.2.2]

/-- The instructions after the function section. -/
theorem endInstructions_shape :
    (∀ i ∈ endInstructions, Framed i ∧ idOperands i = []) ∧ resultIds endInstructions = [] := by
  refine ⟨?_, rfl⟩
  intro i hi
  simp only [endInstructions, List.mem_cons, List.mem_singleton, List.not_mem_nil,
    or_false] at hi
  rcases hi with hi | hi <;> subst hi
  · exact ⟨Framed_of _ _ 1 (by decide) rfl, rfl⟩
  · exact ⟨Framed_of _ _ 1 (by decide) rfl, rfl⟩

theorem FreshIds.cons (lo hi : Nat) (ids : List Nat) (h : FreshIds lo hi ids)
    (hle : lo ≤ hi) : FreshIds lo (hi + 1) (hi :: ids) := by
  intro x
  obtain ⟨h1, h2⟩ := h x
  rw [List.count_cons]
  by_cases hx : hi = x
  · subst hx
    have : ids.count hi = 0 := by
      by_contra hc
      have := (h2 (Nat.pos_of_ne_zero hc)).2
      omega
    simp [this, hle]
  · have e : (hi == x) = false := by simpa using hx
    rw [e]
    simp only [Bool.false_eq_true, if_false, Nat.add_zero]
    refine ⟨h1, fun hc => ?_⟩
    have := h2 hc
    omega

/-! ## The module of a converter right after construction -/

theorem emittedModule_of_translate (host : Host) (shader : List Nat) (s t : ShaderConverter)
    (ht : Convert_translate shader s = .ok t) :
    emittedModule host shader s =
      .ok ([0x07230203, host.Version, 0, t.mNextId, 0] ++ (specSectionOrder t).flatten) := by
  obtain ⟨_, _, _, _, _, hnil⟩ := Convert_translate_ok _ _ _ ht
  unfold emittedModule Convert_assemble
  simp only [ht, bind, Except.bind, pure, Except.pure, Except.ok.injEq]
  rw [CombineSpirVOpCodes_mInstructions, Convert_header_mInstructions,
    Convert_header_sections, hnil]
  rfl

theorem FreshIds.nodup (lo hi : Nat) (ids : List Nat) (h : FreshIds lo hi ids) :
    ids.Nodup ∧ ∀ x ∈ ids, lo ≤ x ∧ x < hi :=
  ⟨List.nodup_iff_count_le_one.mpr (fun x => (h x).1),
    fun x hx => (h x).2 (List.count_pos_iff.mpr hx)⟩

/-- The module `Convert` emits for a converter right after construction: the header with
the id counter, then the instructions of the tail of `Convert` around those of the type
section and of the function section. -/
theorem Convert_fresh_module (W : Prop) (host : Host) (shader : List Nat)
    (firstId attributes bindings : Nat) (out : ConvertedShader × ShaderConverter)
    (h : Convert host shader (ShaderConverter.fresh firstId attributes bindings) = .ok out)
    (hattr : attributes + 5 < 65536)
    (hW : W → 1 ≤ firstId ∧ firstId + 64 * (shader.length + 1) < 4294967296) :
    ∃ (l : ShaderConverter) (types functions : List (List Nat)),
      emittedModule host shader (ShaderConverter.fresh firstId attributes bindings) =
        .ok ([0x07230203, host.Version, 0, (l.mNextId + 1) % 4294967296, 0] ++
          (moduleInstructions l types functions).flatten) ∧
      (∀ i ∈ moduleInstructions l types functions, Framed i) ∧
      (W → l.mNextId + 1 < 4294967296 ∧
        (∀ i ∈ moduleInstructions l types functions, ∀ id ∈ idOperands i,
          id < l.mNextId + 1) ∧
        FreshIds firstId (l.mNextId + 1) (resultIds (moduleInstructions l types functions))) := by
  obtain ⟨t, ht, _, _⟩ := Convert_ok _ _ _ _ h
  obtain ⟨l, T, F, hl, hfix, hT, hF, hframed, hlen, hw⟩ :=
    Convert_translate_fresh W shader firstId attributes bindings t ht hW
  have hn : l.mInterfaceIds.length + 5 < 65536 := by omega
  obtain ⟨hsec, hnext⟩ := Convert_end_sections l hfix (by omega)
  obtain ⟨hhead, hres⟩ := headInstructions_shape l hn
  obtain ⟨hend, hres2⟩ := endInstructions_shape
  refine ⟨l, T, F, ?_, ?_, ?_⟩
  · rw [emittedModule_of_translate host shader _ t ht, hl, hsec, hnext, hT, hF]
    unfold moduleInstructions
    simp only [List.flatten_append]
  · intro i hi
    unfold moduleInstructions at hi
    rcases List.mem_append.mp hi with hi | hi
    · exact (hhead i hi).1
    · rcases List.mem_append.mp hi with hi | hi
      · exact hframed i (List.mem_append_left _ hi)
      · rcases List.mem_append.mp hi with hi | hi
        · exact hframed i (List.mem_append_right _ hi)
        · exact (hend i hi).1
  · intro w
    obtain ⟨hb, hlo, hhi, hids, hfresh⟩ := hw w
    obtain ⟨_, _, _, hb4, hb5, _⟩ := hb
    refine ⟨hhi, ?_, ?_⟩
    · intro i hi id hid
      unfold moduleInstructions at hi
      rcases List.mem_append.mp hi with hi | hi
      · rcases (hhead i hi).2 id hid with e | e | e
        · omega
        · omega
        · exact Nat.lt_succ_of_lt (hb4 id e)
      · rcases List.mem_append.mp hi with hi | hi
        · exact Nat.lt_succ_of_lt (hids i (List.mem_append_left _ hi) id hid)
        · rcases List.mem_append.mp hi with hi | hi
          · exact Nat.lt_succ_of_lt (hids i (List.mem_append_right _ hi) id hid)
          · rw [(hend i hi).2] at hid
            cases hid
    · unfold moduleInstructions
      rw [resultIds_append, resultIds_append, resultIds_append, hres, hres2,
        List.append_nil]
      exact FreshIds.cons firstId l.mNextId _ hfresh hlo

/-- C3: for a converter right after construction, with its id counter at `firstId ≥ 1`
and room for the counter not to wrap around (64 ids for each token and for the head and
the tail of `Convert`), when `Convert` completes the words of the module after the header
split into instructions, and the id-bound word of the header (word 3) is greater than
every id among the operands of these instructions: result ids, type ids and operand ids;
it is greater than `0` too, the id returned for an unknown register.  So it is greater
than or equal to every id of the module. -/
theorem Convert_id_bound (host : Host) (shader : List Nat)
    (firstId attributes bindings : Nat) (out : ConvertedShader × ShaderConverter)
    (h : Convert host shader (ShaderConverter.fresh firstId attributes bindings) = .ok out)
    (hfirst : 1 ≤ firstId) (hroom : firstId + 64 * (shader.length + 1) < 4294967296)
    (hattr : attributes + 5 < 65536) :
    ∃ m instructions,
      emittedModule host shader (ShaderConverter.fresh firstId attributes bindings) = .ok m ∧
      splitInstructions (m.drop 5) = some instructions ∧ 0 < m.getD 3 0 ∧
      ∀ i ∈ instructions, ∀ id ∈ idOperands i, id < m.getD 3 0 ∧ id ≤ m.getD 3 0 := by
  obtain ⟨l, T, F, hm, hframed, hw⟩ := Convert_fresh_module True host shader firstId
    attributes bindings out h hattr (fun _ => ⟨hfirst, hroom⟩)
  obtain ⟨hlt, hids, _⟩ := hw trivial
  refine ⟨_, moduleInstructions l T F, hm, splitInstructions_flatten _ hframed, ?_, ?_⟩
  · show 0 < (l.mNextId + 1) % 4294967296
    rw [Nat.mod_eq_of_lt hlt]
    exact Nat.succ_pos _
  · intro i hi id hid
    show id < (l.mNextId + 1) % 4294967296 ∧ id ≤ (l.mNextId + 1) % 4294967296
    rw [Nat.mod_eq_of_lt hlt]
    exact ⟨hids i hi id hid, Nat.le_of_lt (hids i hi id hid)⟩

/-- The hypotheses of C3 hold and its conclusion is met on a pixel shader with a
declaration, a constant and a move. -/
theorem Convert_id_bound_witness :
    ∃ m instructions,
      emittedModule exampleHost exampleMovShader (ShaderConverter.fresh 1 4 4) = .ok m ∧
      splitInstructions (m.drop 5) = some instructions ∧ 0 < m.getD 3 0 ∧
      ∀ i ∈ instructions, ∀ id ∈ idOperands i, id < m.getD 3 0 ∧ id ≤ m.getD 3 0 :=
  Convert_id_bound exampleHost exampleMovShader 1 4 4
    (returned (Convert exampleHost exampleMovShader (ShaderConverter.fresh 1 4 4)))
    (by decide!) (by decide) (by decide) (by decide)

/-! ## C4: the framing of the instructions -/

/-- C5: for a converter right after construction, with its id counter at `firstId ≥ 1`
and room for the counter not to wrap around, when `Convert` completes no two instructions
of the module define the same id: the result ids of the instructions are pairwise
different, each of them is a value the id allocator returned during the run (from
`firstId` up to the id bound of the header), and the allocator returns a greater value
with every call as long as the counter does not wrap around. -/
theorem Convert_result_ids_distinct (host : Host) (shader : List Nat)
    (firstId attributes bindings : Nat) (out : ConvertedShader × ShaderConverter)
    (h : Convert host shader (ShaderConverter.fresh firstId attributes bindings) = .ok out)
    (hfirst : 1 ≤ firstId) (hroom : firstId + 64 * (shader.length + 1) < 4294967296)
    (hattr : attributes + 5 < 65536) :
    (∃ m instructions,
      emittedModule host shader (ShaderConverter.fresh firstId attributes bindings) = .ok m ∧
      splitInstructions (m.drop 5) = some instructions ∧
      (resultIds instructions).Nodup ∧
      ∀ id ∈ resultIds instructions, firstId ≤ id ∧ id < m.getD 3 0) ∧
    ∀ s : ShaderConverter, s.mNextId + 1 < 4294967296 →
      (GetNextId s).1 < (GetNextId (GetNextId s).2).1 := by
  obtain ⟨l, T, F, hm, hframed, hw⟩ := Convert_fresh_module True host shader firstId
    attributes bindings out h hattr (fun _ => ⟨hfirst, hroom⟩)
  obtain ⟨hlt, _, hfresh⟩ := hw trivial
  obtain ⟨hnodup, hrange⟩ := FreshIds.nodup _ _ _ hfresh
  refine ⟨⟨_, moduleInstructions l T F, hm, splitInstructions_flatten _ hframed, hnodup,
    ?_⟩, ?_⟩
  · intro id hid
    show firstId ≤ id ∧ id < (l.mNextId + 1) % 4294967296
    rw [Nat.mod_eq_of_lt hlt]
    exact hrange id hid
  · intro s hs
    show s.mNextId < (s.mNextId + 1) % 4294967296
    rw [Nat.mod_eq_of_lt hs]
    exact Nat.lt_succ_self _

/-- The hypotheses of C5 hold and its conclusion is met on a pixel shader with a
declaration, a constant and a move. -/
theorem Convert_result_ids_distinct_witness :
    (∃ m instructions,
      emittedModule exampleHost exampleMovShader (ShaderConverter.fresh 1 4 4) = .ok m ∧
      splitInstructions (m.drop 5) = some instructions ∧
      (resultIds instructions).Nodup ∧
      ∀ id ∈ resultIds instructions, 1 ≤ id ∧ id < m.getD 3 0) ∧
    ∀ s : ShaderConverter, s.mNextId + 1 < 4294967296 →
      (GetNextId s).1 < (GetNextId (GetNextId s).2).1 :=
  Convert_result_ids_distinct exampleHost exampleMovShader 1 4 4
    (returned (Convert exampleHost exampleMovShader (ShaderConverter.fresh 1 4 4)))
    (by decide!) (by decide) (by decide) (by decide)

/-! ## C11: the register type of a parameter token -/

theorem shiftLeft_shiftRight_le (y a b : Nat) (h : b ≤ a) :
    (y <<< a) >>> b = y <<< (a - b) := by
  rw [Nat.shiftLeft_eq, Nat.shiftRight_eq_div_pow, Nat.shiftLeft_eq]
  have e : 2 ^ a = 2 ^ (a - b) * 2 ^ b := by
    rw [← Nat.pow_add]
    congr 1
    omega
  rw [e, ← Nat.mul_assoc, Nat.mul_div_cancel _ (Nat.two_pow_pos b)]

/-- The register type in terms of the two bit fields of the token. -/
theorem GetRegisterType_fields (token : Nat) :
    GetRegisterType token = (((token >>> 11) &&& 3) <<< 3) ||| ((token >>> 28) &&& 7) := by
  unfold GetRegisterType D3DSP_REGTYPE_MASK2 D3DSP_REGTYPE_SHIFT2 D3DSP_REGTYPE_MASK
    D3DSP_REGTYPE_SHIFT
  have e1 : (0x00001800 : Nat) = 3 <<< 11 := by decide
  have e2 : (0x70000000 : Nat) = 7 <<< 28 := by decide
  rw [e1, e2, and_shiftLeft, and_shiftLeft, shiftLeft_shiftRight_le _ 11 8 (by decide),
    shiftLeft_shiftRight_le _ 28 28 (by decide)]
  rfl

theorem GetRegisterType_lt (token : Nat) : GetRegisterType token < 32 := by
  rw [GetRegisterType_fields]
  have ha : (token >>> 11) &&& 3 ≤ 3 := Nat.and_le_right
  have hb : (token >>> 28) &&& 7 ≤ 7 := Nat.and_le_right
  generalize (token >>> 11) &&& 3 = a at ha
  generalize (token >>> 28) &&& 7 = b at hb
  interval_cases a <;> interval_cases b <;> decide

theorem GetRegisterType_masked (token : Nat) :
    GetRegisterType (token &&& 0x70001800) = GetRegisterType token := by
  unfold GetRegisterType D3DSP_REGTYPE_MASK2 D3DSP_REGTYPE_SHIFT2 D3DSP_REGTYPE_MASK
    D3DSP_REGTYPE_SHIFT
  rw [Nat.and_assoc, Nat.and_assoc]
  have e1 : (0x70001800 : Nat) &&& 0x00001800 = 0x00001800 := by decide
  have e2 : (0x70001800 : Nat) &&& 0x70000000 = 0x70000000 := by decide
  rw [e1, e2]

/-- C11: `GetRegisterType` puts the register type together from both bit fields of the
token: it returns `((token & 0x00001800) >> 8) | ((token & 0x70000000) >> 28)`, which has
the bits 28 to 30 of the token as its bits 0 to 2 and the bits 11 and 12 as its bits 3 and
4.  The result is below 32, it is the same for two tokens that agree on these five bits,
and every `t < 32` is the register type of the token
`((t & 7) << 28) | ((t & 0x18) << 8)`. -/
theorem GetRegisterType_reassembles (token : Nat) :
    GetRegisterType token =
      ((token &&& 0x00001800) >>> 8) ||| ((token &&& 0x70000000) >>> 28) ∧
    GetRegisterType token = (((token >>> 11) &&& 3) <<< 3) ||| ((token >>> 28) &&& 7) ∧
    GetRegisterType token < 32 ∧
    (∀ other, other &&& 0x70001800 = token &&& 0x70001800 →
      GetRegisterType other = GetRegisterType token) ∧
    ∀ t, t < 32 → GetRegisterType (((t &&& 7) <<< 28) ||| ((t &&& 0x18) <<< 8)) = t := by
  refine ⟨rfl, GetRegisterType_fields token, GetRegisterType_lt token, ?_, ?_⟩
  · intro other h
    rw [← GetRegisterType_masked other, h, GetRegisterType_masked]
  · intro t ht
    interval_cases t <;> decide

/-- The last part of C11 at the register type `CONST2` (11): the token with the bits
`0x30000800` set decodes to it. -/
theorem GetRegisterType_reassembles_witness :
    GetRegisterType (((11 &&& 7) <<< 28) ||| ((11 &&& 0x18) <<< 8)) = 11 :=
  (GetRegisterType_reassembles 0).2.2.2.2 11 (by decide)

/-! ## The two maps of the converter: lookups after an assignment -/

theorem flat_map.find_set_self {κ ν : Type} (same : κ → κ → Bool) (key : κ) (value : ν)
    (m : List (κ × ν)) (hrefl : same key key = true) :
    flat_map.find same key (flat_map.set same key value m) = some value := by
  induction m with
  | nil =>
    unfold flat_map.set flat_map.find
    rw [if_pos hrefl]
  | cons p rest ih =>
    obtain ⟨k, w⟩ := p
    unfold flat_map.set
    by_cases hk : same k key = true
    · rw [if_pos hk]
      unfold flat_map.find
      rw [if_pos hk]
    · rw [if_neg hk]
      unfold flat_map.find
      rw [if_neg hk]
      exact ih

theorem flat_map.find_set_other {κ ν : Type} (same : κ → κ → Bool) (key other : κ)
    (value : ν) (m : List (κ × ν)) (hne : same key other = false)
    (htrans : ∀ k, same k key = true → same k other = true → same key other = true) :
    flat_map.find same other (flat_map.set same key value m) = flat_map.find same other m := by
  induction m with
  | nil =>
    unfold flat_map.set flat_map.find
    rw [if_neg (by rw [hne]; exact Bool.false_ne_true)]
    rfl
  | cons p rest ih =>
    obtain ⟨k, w⟩ := p
    unfold flat_map.set
    by_cases hk : same k key = true
    · rw [if_pos hk]
      have ho : ¬ same k other = true := by
        intro h
        rw [htrans k hk h] at hne
        cases hne
      unfold flat_map.find
      rw [if_neg ho, if_neg ho]
    · rw [if_neg hk]
      unfold flat_map.find
      by_cases ho : same k other = true
      · rw [if_pos ho, if_pos ho]
      · rw [if_neg ho, if_neg ho]
        exact ih

theorem sameKey_iff (a b : Nat) : sameKey a b = true ↔ a = b := by
  unfold sameKey
  exact beq_iff_eq

theorem find_sameKey_set_self {ν : Type} (key : Nat) (value : ν) (m : List (Nat × ν)) :
    flat_map.find sameKey key (flat_map.set sameKey key value m) = some value :=
  flat_map.find_set_self sameKey key value m ((sameKey_iff _ _).mpr rfl)

theorem find_sameKey_set_other {ν : Type} (key other : Nat) (value : ν) (m : List (Nat × ν))
    (hne : key ≠ other) :
    flat_map.find sameKey other (flat_map.set sameKey key value m) =
      flat_map.find sameKey other m := by
  refine flat_map.find_set_other sameKey key other value m ?_ ?_
  · cases h : sameKey key other with
    | false => rfl
    | true => exact absurd ((sameKey_iff _ _).mp h) hne
  · intro k h1 h2
    exact absurd (((sameKey_iff _ _).mp h1).symm.trans ((sameKey_iff _ _).mp h2)) hne

theorem TypeDescription.same_iff (a b : TypeDescription) :
    a.same b = true ↔ a.PrimaryType = b.PrimaryType ∧ a.SecondaryType = b.SecondaryType ∧
      a.TernaryType = b.TernaryType ∧ a.ComponentCount = b.ComponentCount := by
  unfold TypeDescription.same
  simp only [Bool.and_eq_true, beq_iff_eq, and_assoc]

theorem TypeDescription.same_refl (a : TypeDescription) : a.same a = true :=
  (TypeDescription.same_iff a a).mpr ⟨rfl, rfl, rfl, rfl⟩

theorem find_same_set_self (d : TypeDescription) (id : Nat) (m : List (TypeDescription × Nat)) :
    flat_map.find TypeDescription.same d (flat_map.set TypeDescription.same d id m) = some id :=
  flat_map.find_set_self _ d id m (TypeDescription.same_refl d)

theorem find_same_set_other (d other : TypeDescription) (id : Nat)
    (m : List (TypeDescription × Nat)) (hne : d.same other = false) :
    flat_map.find TypeDescription.same other (flat_map.set TypeDescription.same d id m) =
      flat_map.find TypeDescription.same other m := by
  refine flat_map.find_set_other _ d other id m hne ?_
  intro k h1 h2
  rw [TypeDescription.same_iff] at h1 h2 ⊢
  obtain ⟨a1, a2, a3, a4⟩ := h1
  obtain ⟨b1, b2, b3, b4⟩ := h2
  exact ⟨a1.symm.trans b1, a2.symm.trans b2, a3.symm.trans b3, a4.symm.trans b4⟩

/-- Two descriptions with the same key are looked up alike. -/
theorem find_same_congr (d other : TypeDescription) (m : List (TypeDescription × Nat))
    (h : d.same other = true) :
    flat_map.find TypeDescription.same d m = flat_map.find TypeDescription.same other m := by
  rw [TypeDescription.same_iff] at h
  obtain ⟨a1, a2, a3, a4⟩ := h
  induction m with
  | nil => rfl
  | cons p rest ih =>
    obtain ⟨k, w⟩ := p
    unfold flat_map.find
    have e : k.same d = k.same other := by
      unfold TypeDescription.same
      rw [a1, a2, a3, a4]
    rw [e, ih]

/-! ## The register map -/

theorem find_set2_self (outer inner value : Nat) (m : List (Nat × List (Nat × Nat))) :
    (match flat_map.find sameKey outer (flat_map.set2 outer inner value m) with
      | some row => flat_map.find sameKey inner row
      | none => none) = some value := by
  unfold flat_map.set2
  rw [find_sameKey_set_self]
  exact find_sameKey_set_self _ _ _

theorem find_set2_other (outer inner value outer2 inner2 : Nat)
    (m : List (Nat × List (Nat × Nat))) (hne : outer2 ≠ outer ∨ inner2 ≠ inner) :
    (match flat_map.find sameKey outer2 (flat_map.set2 outer inner value m) with
      | some row => flat_map.find sameKey inner2 row
      | none => none) =
    (match flat_map.find sameKey outer2 m with
      | some row => flat_map.find sameKey inner2 row
      | none => none) := by
  unfold flat_map.set2
  by_cases ho : outer2 = outer
  · subst ho
    have hi : inner ≠ inner2 := by
      rcases hne with h | h
      · exact absurd rfl h
      · exact fun e => h e.symm
    rw [find_sameKey_set_self]
    show flat_map.find sameKey inner2 (flat_map.set sameKey inner value _) = _
    rw [find_sameKey_set_other _ _ _ _ hi]
    cases flat_map.find sameKey outer2 m with
    | none => rfl
    | some row => rfl
  · rw [find_sameKey_set_other _ _ _ _ (fun e => ho e.symm)]

theorem GetRegisterNumber_lt (token : Nat) : GetRegisterNumber token < 2048 := by
  unfold GetRegisterNumber D3DSP_REGNUM_MASK
  exact Nat.lt_of_le_of_lt Nat.and_le_right (by decide)

/-- The key of a register is fixed by its type and its number. -/
theorem registerKey_congr (a b : Nat) (ht : GetRegisterType a = GetRegisterType b)
    (hn : GetRegisterNumber a = GetRegisterNumber b) : registerKey a = registerKey b := by
  unfold registerKey
  rw [ht, hn]

theorem registerKey_ne (a b : Nat) (ht : GetRegisterType a = GetRegisterType b)
    (hn : GetRegisterNumber a ≠ GetRegisterNumber b) : registerKey a ≠ registerKey b := by
  unfold registerKey
  rw [ht]
  split_ifs <;> omega

/-- A lookup of the register that was bound last. -/
theorem findIdByRegister_bound (token other id : Nat) (s r : ShaderConverter)
    (hm : r.mIdsByRegister =
      flat_map.set2 (GetRegisterType token) (registerKey token) id s.mIdsByRegister)
    (ht : GetRegisterType other = GetRegisterType token)
    (hn : GetRegisterNumber other = GetRegisterNumber token) :
    findIdByRegister other r = some id := by
  unfold findIdByRegister
  rw [hm, ht, registerKey_congr other token ht hn]
  exact find_set2_self _ _ _ _

/-- A lookup of another register than the one that was bound last. -/
theorem findIdByRegister_kept (token other id : Nat) (s r : ShaderConverter)
    (hm : r.mIdsByRegister =
      flat_map.set2 (GetRegisterType token) (registerKey token) id s.mIdsByRegister)
    (hne : GetRegisterType other ≠ GetRegisterType token ∨
      GetRegisterNumber other ≠ GetRegisterNumber token) :
    findIdByRegister other r = findIdByRegister other s := by
  unfold findIdByRegister
  rw [hm]
  apply find_set2_other
  by_cases ht : GetRegisterType other = GetRegisterType token
  · right
    rcases hne with h | h
    · exact absurd ht h
    · exact registerKey_ne other token ht h
  · exact Or.inl ht

theorem findIdByRegister_congr (token : Nat) (s r : ShaderConverter)
    (hm : r.mIdsByRegister = s.mIdsByRegister) :
    findIdByRegister token r = findIdByRegister token s := by
  unfold findIdByRegister
  rw [hm]

theorem GetIdByRegister_found (token id : Nat) (s : ShaderConverter)
    (h : findIdByRegister token s = some id) : GetIdByRegister token s = (id, s) := by
  unfold GetIdByRegister
  rw [h]

/-! ## The type table: one call of `GetSpirVTypeId` -/

theorem GetSpirVTypeIdFuel_found (fuel : Nat) (d : TypeDescription) (s : ShaderConverter)
    (id : Nat) (h : flat_map.find TypeDescription.same d s.mTypeIdPairs = some id) :
    GetSpirVTypeIdFuel (fuel + 1) d s = (id, s) := by
  unfold GetSpirVTypeIdFuel
  rw [h]

/-- A call of `GetSpirVTypeId` with a description that is not in the table, in the three
forms it takes: a declaration without another type, a declaration after the type it names,
and no declaration. -/
theorem GetSpirVTypeIdFuel_new (fuel : Nat) (d : TypeDescription) (s : ShaderConverter)
    (h : flat_map.find TypeDescription.same d s.mTypeIdPairs = none) :
    GetSpirVTypeIdFuel (fuel + 1) d s =
      if d.PrimaryType ∈ scalarTypeOpcodes then
        (s.mNextId, (reserveTypeId d s).pushType (typeDeclarationWords d s.mNextId 0))
      else if d.PrimaryType ∈ compositeTypeOpcodes then
        (s.mNextId,
          (GetSpirVTypeIdFuel fuel (innerDescription d) (reserveTypeId d s)).2.pushType
            (typeDeclarationWords d s.mNextId
              (GetSpirVTypeIdFuel fuel (innerDescription d) (reserveTypeId d s)).1))
      else (s.mNextId, reserveTypeId d s) := by
  rw [GetSpirVTypeIdFuel, h]
  simp only [scalarTypeOpcodes, compositeTypeOpcodes, List.mem_cons, List.mem_singleton,
    List.not_mem_nil, or_false, typeDeclarationWords, innerDescription]
  simp only [spv.OpTypeBool, spv.OpTypeVoid, spv.OpTypeInt, spv.OpTypeSampler,
    spv.OpTypeFloat, spv.OpTypeVector, spv.OpTypePointer, spv.OpTypeMatrix,
    spv.OpTypeFunction]
  by_cases h1 : d.PrimaryType = 20
  · simp only [h1]
    simp
    try rfl
  by_cases h2 : d.PrimaryType = 21
  · simp only [h2]
    simp
    try rfl
  by_cases h3 : d.PrimaryType = 22
  · simp only [h3]
    simp
    try rfl
  by_cases h4 : d.PrimaryType = 23
  · simp only [h4]
    simp
    try rfl
  by_cases h5 : d.PrimaryType = 24
  · simp only [h5]
    simp
    try rfl
  by_cases h6 : d.PrimaryType = 32
  · simp only [h6]
    simp
    try rfl
  by_cases h7 : d.PrimaryType = 26
  · simp only [h7]
    simp
    try rfl
  by_cases h8 : d.PrimaryType = 33
  · simp only [h8]
    simp
    try rfl
  by_cases h9 : d.PrimaryType = 19
  · simp only [h9]
    simp
    try rfl
  simp [h1, h2, h3, h4, h5, h6, h7, h8, h9]
  try rfl

theorem reserveTypeId_fields (d : TypeDescription) (s : ShaderConverter) :
    (reserveTypeId d s).mNextId = (s.mNextId + 1) % 4294967296 ∧
    (reserveTypeId d s).mTypeIdPairs =
      flat_map.set TypeDescription.same d s.mNextId s.mTypeIdPairs ∧
    (reserveTypeId d s).mIdTypePairs = flat_map.set sameKey s.mNextId d s.mIdTypePairs ∧
    (reserveTypeId d s).mTypeInstructions = s.mTypeInstructions ∧
    (reserveTypeId d s).mIdsByRegister = s.mIdsByRegister ∧
    (reserveTypeId d s).mRegistersById = s.mRegistersById ∧
    specSectionOrder (reserveTypeId d s) = specSectionOrder s :=
  ⟨rfl, rfl, rfl, rfl, rfl, rfl, rfl⟩

/-! ### The depth of the recursion -/

theorem GetSpirVTypeIdFuel_step (n m : Nat) (d : TypeDescription) (s : ShaderConverter)
    (hin : d.PrimaryType ∈ compositeTypeOpcodes → ∀ q,
      GetSpirVTypeIdFuel n (innerDescription d) q =
        GetSpirVTypeIdFuel m (innerDescription d) q) :
    GetSpirVTypeIdFuel (n + 1) d s = GetSpirVTypeIdFuel (m + 1) d s := by
  cases h : flat_map.find TypeDescription.same d s.mTypeIdPairs with
  | some id => rw [GetSpirVTypeIdFuel_found n d s id h, GetSpirVTypeIdFuel_found m d s id h]
  | none =>
    rw [GetSpirVTypeIdFuel_new n d s h, GetSpirVTypeIdFuel_new m d s h]
    by_cases hs : d.PrimaryType ∈ scalarTypeOpcodes
    · rw [if_pos hs, if_pos hs]
    · rw [if_neg hs, if_neg hs]
      by_cases hc : d.PrimaryType ∈ compositeTypeOpcodes
      · rw [if_pos hc, if_pos hc, hin hc]
      · rw [if_neg hc, if_neg hc]

theorem innerDescription_third (d : TypeDescription) :
    (innerDescription (innerDescription (innerDescription d))).PrimaryType ∉
      compositeTypeOpcodes := by
  have e : (innerDescription (innerDescription (innerDescription d))).PrimaryType =
      spv.OpTypeVoid := by
    unfold innerDescription
    split_ifs <;> rfl
  rw [e]
  decide

/-- The recursion of `GetSpirVTypeId` is four calls deep at most: with four levels or more
the result is the same. -/
theorem GetSpirVTypeIdFuel_enough (more : Nat) (d : TypeDescription) (s : ShaderConverter) :
    GetSpirVTypeIdFuel (more + 4) d s = GetSpirVTypeId d s ∧
      GetSpirVTypeIdFuel 3 (innerDescription d) s = GetSpirVTypeId (innerDescription d) s := by
  have l3 : ∀ (n m : Nat) (d : TypeDescription) (q : ShaderConverter),
      GetSpirVTypeIdFuel (n + 1) (innerDescription (innerDescription (innerDescription d))) q =
        GetSpirVTypeIdFuel (m + 1)
          (innerDescription (innerDescription (innerDescription d))) q :=
    fun n m d q => GetSpirVTypeIdFuel_step n m _ q
      (fun hc => absurd hc (innerDescription_third d))
  have l2 : ∀ (n m : Nat) (d : TypeDescription) (q : ShaderConverter),
      GetSpirVTypeIdFuel (n + 2) (innerDescription (innerDescription d)) q =
        GetSpirVTypeIdFuel (m + 2) (innerDescription (innerDescription d)) q :=
    fun n m d q => GetSpirVTypeIdFuel_step (n + 1) (m + 1) _ q (fun _ q2 => l3 n m d q2)
  have l1 : ∀ (n m : Nat) (d : TypeDescription) (q : ShaderConverter),
      GetSpirVTypeIdFuel (n + 3) (innerDescription d) q =
        GetSpirVTypeIdFuel (m + 3) (innerDescription d) q :=
    fun n m d q => GetSpirVTypeIdFuel_step (n + 2) (m + 2) _ q (fun _ q2 => l2 n m d q2)
  exact ⟨GetSpirVTypeIdFuel_step (more + 3) 3 d s (fun _ q2 => l1 more 0 d q2), l1 0 1 d s⟩

theorem GetSpirVTypeId_found (d : TypeDescription) (s : ShaderConverter) (id : Nat)
    (h : flat_map.find TypeDescription.same d s.mTypeIdPairs = some id) :
    GetSpirVTypeId d s = (id, s) :=
  GetSpirVTypeIdFuel_found 3 d s id h

/-- A call of `GetSpirVTypeId` with a description that is not in the table. -/
theorem GetSpirVTypeId_new (d : TypeDescription) (s : ShaderConverter)
    (h : flat_map.find TypeDescription.same d s.mTypeIdPairs = none) :
    GetSpirVTypeId d s =
      if d.PrimaryType ∈ scalarTypeOpcodes then
        (s.mNextId, (reserveTypeId d s).pushType (typeDeclarationWords d s.mNextId 0))
      else if d.PrimaryType ∈ compositeTypeOpcodes then
        (s.mNextId,
          (GetSpirVTypeId (innerDescription d) (reserveTypeId d s)).2.pushType
            (typeDeclarationWords d s.mNextId
              (GetSpirVTypeId (innerDescription d) (reserveTypeId d s)).1))
      else (s.mNextId, reserveTypeId d s) := by
  rw [← (GetSpirVTypeIdFuel_enough 0 d (reserveTypeId d s)).2]
  exact GetSpirVTypeIdFuel_new 3 d s h

/-! ### What a call keeps -/

/-- A call of `GetSpirVTypeId` writes the id counter, the two type tables and the type
section; here: it keeps the register maps and appends to the type section. -/
theorem GetSpirVTypeIdFuel_frame (fuel : Nat) (d : TypeDescription) (s : ShaderConverter) :
    (GetSpirVTypeIdFuel fuel d s).2.mIdsByRegister = s.mIdsByRegister ∧
    (GetSpirVTypeIdFuel fuel d s).2.mRegistersById = s.mRegistersById ∧
    (GetSpirVTypeIdFuel fuel d s).2.mFunctionDefinitionInstructions =
      s.mFunctionDefinitionInstructions ∧
    ∃ words, (GetSpirVTypeIdFuel fuel d s).2.mTypeInstructions = s.mTypeInstructions ++ words := by
  induction fuel generalizing d s with
  | zero => exact ⟨rfl, rfl, rfl, [], (List.append_nil _).symm⟩
  | succ n ih =>
    cases h : flat_map.find TypeDescription.same d s.mTypeIdPairs with
    | some id =>
      rw [GetSpirVTypeIdFuel_found n d s id h]
      exact ⟨rfl, rfl, rfl, [], (List.append_nil _).symm⟩
    | none =>
      rw [GetSpirVTypeIdFuel_new n d s h]
      by_cases hs : d.PrimaryType ∈ scalarTypeOpcodes
      · rw [if_pos hs]
        exact ⟨rfl, rfl, rfl, _, rfl⟩
      · rw [if_neg hs]
        by_cases hc : d.PrimaryType ∈ compositeTypeOpcodes
        · rw [if_pos hc]
          obtain ⟨i1, i2, i3, w, i4⟩ := ih (innerDescription d) (reserveTypeId d s)
          refine ⟨i1, i2, i3, w ++ typeDeclarationWords d s.mNextId
            (GetSpirVTypeIdFuel n (innerDescription d) (reserveTypeId d s)).1, ?_⟩
          show _ ++ _ = _
          rw [i4, List.append_assoc]
          rfl
        · rw [if_neg hc]
          exact ⟨rfl, rfl, rfl, [], (List.append_nil _).symm⟩

/-- A call of `GetSpirVTypeId` moves the id counter on by one for each description it
enters in the table, four at most. -/
theorem GetSpirVTypeIdFuel_counter (fuel : Nat) (d : TypeDescription) (s : ShaderConverter) :
    (GetSpirVTypeIdFuel fuel d s).2.mNextId = s.mNextId ∨
      ∃ k, 0 < k ∧ k ≤ fuel ∧
        (GetSpirVTypeIdFuel fuel d s).2.mNextId = (s.mNextId + k) % 4294967296 := by
  induction fuel generalizing d s with
  | zero => exact Or.inl rfl
  | succ n ih =>
    cases h : flat_map.find TypeDescription.same d s.mTypeIdPairs with
    | some id =>
      rw [GetSpirVTypeIdFuel_found n d s id h]
      exact Or.inl rfl
    | none =>
      rw [GetSpirVTypeIdFuel_new n d s h]
      right
      by_cases hs : d.PrimaryType ∈ scalarTypeOpcodes
      · rw [if_pos hs]
        exact ⟨1, Nat.one_pos, by omega, rfl⟩
      · rw [if_neg hs]
        by_cases hc : d.PrimaryType ∈ compositeTypeOpcodes
        · rw [if_pos hc]
          have e : (reserveTypeId d s).mNextId = (s.mNextId + 1) % 4294967296 := rfl
          rcases ih (innerDescription d) (reserveTypeId d s) with i | ⟨k, k0, kn, i⟩
          · refine ⟨1, Nat.one_pos, by omega, ?_⟩
            show (GetSpirVTypeIdFuel n (innerDescription d) (reserveTypeId d s)).2.mNextId = _
            rw [i, e]
          · refine ⟨k + 1, by omega, by omega, ?_⟩
            show (GetSpirVTypeIdFuel n (innerDescription d) (reserveTypeId d s)).2.mNextId = _
            rw [i, e]
            omega
        · rw [if_neg hc]
          exact ⟨1, Nat.one_pos, by omega, rfl⟩

/-- A call of `GetSpirVTypeId` keeps the entries of the type table. -/
theorem GetSpirVTypeIdFuel_keeps (fuel : Nat) (d other : TypeDescription)
    (s : ShaderConverter) (id : Nat)
    (ho : flat_map.find TypeDescription.same other s.mTypeIdPairs = some id) :
    flat_map.find TypeDescription.same other (GetSpirVTypeIdFuel fuel d s).2.mTypeIdPairs =
      some id := by
  induction fuel generalizing d s with
  | zero => exact ho
  | succ n ih =>
    cases h : flat_map.find TypeDescription.same d s.mTypeIdPairs with
    | some id2 =>
      rw [GetSpirVTypeIdFuel_found n d s id2 h]
      exact ho
    | none =>
      have hne : d.same other = false := by
        cases hd : d.same other with
        | false => rfl
        | true =>
          rw [find_same_congr d other _ hd, ho] at h
          cases h
      have h1 : flat_map.find TypeDescription.same other (reserveTypeId d s).mTypeIdPairs =
          some id := by
        show flat_map.find TypeDescription.same other (flat_map.set _ d s.mNextId _) = _
        rw [find_same_set_other d other _ _ hne]
        exact ho
      rw [GetSpirVTypeIdFuel_new n d s h]
      by_cases hs : d.PrimaryType ∈ scalarTypeOpcodes
      · rw [if_pos hs]
        exact h1
      · rw [if_neg hs]
        by_cases hc : d.PrimaryType ∈ compositeTypeOpcodes
        · rw [if_pos hc]
          exact ih (innerDescription d) (reserveTypeId d s) h1
        · rw [if_neg hc]
          exact h1

/-- A call of `GetSpirVTypeId` keeps the entry of an id in the table of the ids when the
id is none of those it hands out. -/
theorem GetSpirVTypeIdFuel_keeps_id (fuel : Nat) (d other : TypeDescription)
    (s : ShaderConverter) (id : Nat)
    (ho : flat_map.find sameKey id s.mIdTypePairs = some other)
    (hlt : s.mNextId < 4294967296)
    (hfar : ∀ k, k < fuel → (s.mNextId + k) % 4294967296 ≠ id) :
    flat_map.find sameKey id (GetSpirVTypeIdFuel fuel d s).2.mIdTypePairs = some other := by
  induction fuel generalizing d s with
  | zero => exact ho
  | succ n ih =>
    cases h : flat_map.find TypeDescription.same d s.mTypeIdPairs with
    | some id2 =>
      rw [GetSpirVTypeIdFuel_found n d s id2 h]
      exact ho
    | none =>
      have hne : s.mNextId ≠ id := by
        have := hfar 0 (Nat.succ_pos _)
        rw [Nat.add_zero, Nat.mod_eq_of_lt hlt] at this
        exact this
      have h1 : flat_map.find sameKey id (reserveTypeId d s).mIdTypePairs = some other := by
        show flat_map.find sameKey id (flat_map.set sameKey s.mNextId d _) = _
        rw [find_sameKey_set_other _ _ _ _ hne]
        exact ho
      rw [GetSpirVTypeIdFuel_new n d s h]
      by_cases hs : d.PrimaryType ∈ scalarTypeOpcodes
      · rw [if_pos hs]
        exact h1
      · rw [if_neg hs]
        by_cases hc : d.PrimaryType ∈ compositeTypeOpcodes
        · rw [if_pos hc]
          refine ih (innerDescription d) (reserveTypeId d s) h1 (Nat.mod_lt _ (by decide)) ?_
          intro k hk
          have := hfar (k + 1) (by omega)
          show ((s.mNextId + 1) % 4294967296 + k) % 4294967296 ≠ id
          omega
        · rw [if_neg hc]
          exact h1

/-! ## C13, C14, C15: the type table -/

theorem find_same_mem (d : TypeDescription) (m : List (TypeDescription × Nat)) (id : Nat)
    (h : flat_map.find TypeDescription.same d m = some id) :
    ∃ p ∈ m, p.2 = id ∧ p.1.same d = true := by
  induction m with
  | nil => cases h
  | cons q rest ih =>
    obtain ⟨k, w⟩ := q
    unfold flat_map.find at h
    by_cases hk : k.same d = true
    · rw [if_pos hk] at h
      injection h with e
      exact ⟨(k, w), List.mem_cons_self _ _, e, hk⟩
    · rw [if_neg hk] at h
      obtain ⟨p, hp, e⟩ := ih h
      exact ⟨p, List.mem_cons_of_mem _ hp, e⟩

/-- After a call of `GetSpirVTypeId` the description is in the table with the id the call
returned. -/
theorem GetSpirVTypeId_registered (d : TypeDescription) (s : ShaderConverter) :
    flat_map.find TypeDescription.same d (GetSpirVTypeId d s).2.mTypeIdPairs =
      some (GetSpirVTypeId d s).1 := by
  cases h : flat_map.find TypeDescription.same d s.mTypeIdPairs with
  | some id =>
    rw [GetSpirVTypeId_found d s id h]
    exact h
  | none =>
    have h1 : flat_map.find TypeDescription.same d (reserveTypeId d s).mTypeIdPairs =
        some s.mNextId := find_same_set_self d s.mNextId _
    rw [GetSpirVTypeId_new d s h]
    by_cases hs : d.PrimaryType ∈ scalarTypeOpcodes
    · rw [if_pos hs]
      exact h1
    · rw [if_neg hs]
      by_cases hc : d.PrimaryType ∈ compositeTypeOpcodes
      · rw [if_pos hc]
        exact GetSpirVTypeIdFuel_keeps 4 (innerDescription d) d (reserveTypeId d s) _ h1
      · rw [if_neg hc]
        exact h1

/-- After a call of `GetSpirVTypeId` that takes a new id, the id has the description in
the table of the ids. -/
theorem GetSpirVTypeId_linked (d : TypeDescription) (s : ShaderConverter)
    (h : flat_map.find TypeDescription.same d s.mTypeIdPairs = none) :
    (GetSpirVTypeId d s).1 = s.mNextId ∧
      flat_map.find sameKey s.mNextId (GetSpirVTypeId d s).2.mIdTypePairs = some d := by
  have h1 : flat_map.find sameKey s.mNextId (reserveTypeId d s).mIdTypePairs = some d :=
    find_sameKey_set_self s.mNextId d _
  rw [GetSpirVTypeId_new d s h]
  by_cases hs : d.PrimaryType ∈ scalarTypeOpcodes
  · rw [if_pos hs]
    exact ⟨rfl, h1⟩
  · rw [if_neg hs]
    by_cases hc : d.PrimaryType ∈ compositeTypeOpcodes
    · rw [if_pos hc]
      refine ⟨rfl, ?_⟩
      refine GetSpirVTypeIdFuel_keeps_id 4 (innerDescription d) d (reserveTypeId d s) _ h1
        (Nat.mod_lt _ (by decide)) ?_
      intro k hk
      show ((s.mNextId + 1) % 4294967296 + k) % 4294967296 ≠ s.mNextId
      omega
    · rw [if_neg hc]
      exact ⟨rfl, h1⟩

/-! ## The two type tables agree -/

theorem flat_map.set_new {κ ν : Type} (same : κ → κ → Bool) (key : κ) (value : ν)
    (m : List (κ × ν)) (h : flat_map.find same key m = none) :
    flat_map.set same key value m = m ++ [(key, value)] := by
  induction m with
  | nil => rfl
  | cons p rest ih =>
    obtain ⟨k, w⟩ := p
    unfold flat_map.find at h
    unfold flat_map.set
    by_cases hk : same k key = true
    · rw [if_pos hk] at h
      cases h
    · rw [if_neg hk] at h
      rw [if_neg hk, ih h]
      rfl

theorem TypeTablesAgree_fresh (firstId attributes bindings : Nat) :
    TypeTablesAgree (ShaderConverter.fresh firstId attributes bindings) := by
  intro p hp
  cases hp

theorem TypeTablesAgree_reserve (d : TypeDescription) (s : ShaderConverter)
    (h : flat_map.find TypeDescription.same d s.mTypeIdPairs = none)
    (ha : TypeTablesAgree s) (hw : s.mNextId + 1 < 4294967296) :
    TypeTablesAgree (reserveTypeId d s) := by
  intro p hp
  have e1 : (reserveTypeId d s).mNextId = s.mNextId + 1 := by
    show (s.mNextId + 1) % 4294967296 = _
    exact Nat.mod_eq_of_lt hw
  have e2 : (reserveTypeId d s).mTypeIdPairs = s.mTypeIdPairs ++ [(d, s.mNextId)] :=
    flat_map.set_new _ d s.mNextId _ h
  have e3 : (reserveTypeId d s).mIdTypePairs =
      flat_map.set sameKey s.mNextId d s.mIdTypePairs := rfl
  rw [e2] at hp
  rw [e1, e3]
  rcases List.mem_append.mp hp with hp | hp
  · obtain ⟨b, l⟩ := ha p hp
    refine ⟨Nat.lt_succ_of_lt b, ?_⟩
    rw [find_sameKey_set_other _ _ _ _ (Nat.ne_of_gt b)]
    exact l
  · rw [List.mem_singleton] at hp
    rw [hp]
    exact ⟨Nat.lt_succ_self _, find_sameKey_set_self _ _ _⟩

/-- `GetSpirVTypeId` keeps the two type tables in agreement as long as the id counter does
not wrap around. -/
theorem GetSpirVTypeIdFuel_agree (fuel : Nat) (d : TypeDescription) (s : ShaderConverter)
    (ha : TypeTablesAgree s) (hw : s.mNextId + fuel < 4294967296) :
    TypeTablesAgree (GetSpirVTypeIdFuel fuel d s).2 := by
  induction fuel generalizing d s with
  | zero => exact ha
  | succ n ih =>
    cases h : flat_map.find TypeDescription.same d s.mTypeIdPairs with
    | some id =>
      rw [GetSpirVTypeIdFuel_found n d s id h]
      exact ha
    | none =>
      have h1 := TypeTablesAgree_reserve d s h ha (by omega)
      have e1 : (reserveTypeId d s).mNextId = s.mNextId + 1 := by
        show (s.mNextId + 1) % 4294967296 = _
        exact Nat.mod_eq_of_lt (by omega)
      rw [GetSpirVTypeIdFuel_new n d s h]
      by_cases hs : d.PrimaryType ∈ scalarTypeOpcodes
      · rw [if_pos hs]
        exact h1
      · rw [if_neg hs]
        by_cases hc : d.PrimaryType ∈ compositeTypeOpcodes
        · rw [if_pos hc]
          exact ih (innerDescription d) (reserveTypeId d s) h1 (by rw [e1]; omega)
        · rw [if_neg hc]
          exact h1

theorem TypeDescription.eq_of_same (a b : TypeDescription) (h : a.same b = true)
    (harg : a.Arguments = b.Arguments) : a = b := by
  rw [TypeDescription.same_iff] at h
  obtain ⟨h1, h2, h3, h4⟩ := h
  cases a
  cases b
  simp only at h1 h2 h3 h4 harg
  subst h1 h2 h3 h4 harg
  rfl

/-- C13, amended: `GetSpirVTypeId` is idempotent on the type table.  For every state and every
description, a second call with the description returns the id of the first call and
leaves the state as the first call left it: no id is allocated and nothing is appended to
the type section.  After the first call the description has the returned id in the type
table.  The returned id maps back to the description in the table of the ids when the
first call entered it; when the description was in the type table before, the first call
changes nothing, and the id maps back to the description of the entry, which has the same
key and is the description itself when the argument lists are equal, provided the two
tables agreed before.  The tables agree on a converter right after construction, and
`GetSpirVTypeId` keeps them in agreement while the id counter does not wrap around. -/
theorem GetSpirVTypeId_idempotent (d : TypeDescription) (s : ShaderConverter) :
    GetSpirVTypeId d (GetSpirVTypeId d s).2 =
      ((GetSpirVTypeId d s).1, (GetSpirVTypeId d s).2) ∧
    (GetSpirVTypeId d (GetSpirVTypeId d s).2).2.mNextId = (GetSpirVTypeId d s).2.mNextId ∧
    (GetSpirVTypeId d (GetSpirVTypeId d s).2).2.mTypeInstructions =
      (GetSpirVTypeId d s).2.mTypeInstructions ∧
    flat_map.find TypeDescription.same d (GetSpirVTypeId d s).2.mTypeIdPairs =
      some (GetSpirVTypeId d s).1 ∧
    (flat_map.find TypeDescription.same d s.mTypeIdPairs = none →
      flat_map.find sameKey (GetSpirVTypeId d s).1 (GetSpirVTypeId d s).2.mIdTypePairs =
        some d) ∧
    (∀ id, flat_map.find TypeDescription.same d s.mTypeIdPairs = some id →
      GetSpirVTypeId d s = (id, s)) ∧
    (TypeTablesAgree s →
      ∃ entry, flat_map.find sameKey (GetSpirVTypeId d s).1
          (GetSpirVTypeId d s).2.mIdTypePairs = some entry ∧ entry.same d = true ∧
        (entry.Arguments = d.Arguments → entry = d)) ∧
    (∀ firstId attributes bindings,
      TypeTablesAgree (ShaderConverter.fresh firstId attributes bindings)) ∧
    (TypeTablesAgree s → s.mNextId + 4 < 4294967296 →
      TypeTablesAgree (GetSpirVTypeId d s).2) := by
  have again := GetSpirVTypeId_found d _ _ (GetSpirVTypeId_registered d s)
  refine ⟨again, ?_, ?_, GetSpirVTypeId_registered d s, ?_, ?_, ?_,
    TypeTablesAgree_fresh, fun ha hw => GetSpirVTypeIdFuel_agree 4 d s ha hw⟩
  · rw [again]
  · rw [again]
  · intro h
    obtain ⟨e, hl⟩ := GetSpirVTypeId_linked d s h
    rw [e]
    exact hl
  · intro id h
    exact GetSpirVTypeId_found d s id h
  · intro hall
    cases h : flat_map.find TypeDescription.same d s.mTypeIdPairs with
    | some id =>
      rw [GetSpirVTypeId_found d s id h]
      obtain ⟨p, hp, e, hk⟩ := find_same_mem d _ id h
      exact ⟨p.1, by rw [← e]; exact (hall p hp).2, hk,
        TypeDescription.eq_of_same p.1 d hk⟩
    | none =>
      obtain ⟨e, hl⟩ := GetSpirVTypeId_linked d s h
      rw [e]
      exact ⟨d, hl, TypeDescription.same_refl d, fun _ => rfl⟩

/-- Amended C13 on the description of a vector of four floats, on a converter right after
construction and on the state after the first call. -/
theorem GetSpirVTypeId_idempotent_witness :
    flat_map.find sameKey
        (GetSpirVTypeId { PrimaryType := spv.OpTypeVector, SecondaryType := spv.OpTypeFloat
                          ComponentCount := 4 } (ShaderConverter.fresh 1 4 4)).1
        (GetSpirVTypeId { PrimaryType := spv.OpTypeVector, SecondaryType := spv.OpTypeFloat
                          ComponentCount := 4 } (ShaderConverter.fresh 1 4 4)).2.mIdTypePairs =
      some { PrimaryType := spv.OpTypeVector, SecondaryType := spv.OpTypeFloat
             ComponentCount := 4 } :=
  (GetSpirVTypeId_idempotent _ (ShaderConverter.fresh 1 4 4)).2.2.2.2.1 (by decide)

/-- The layouts of `typeDeclarationWords`, type by type. -/
theorem typeDeclarationWords_layout (d : TypeDescription) (id inner : Nat) :
    (d.PrimaryType = spv.OpTypeBool ∨ d.PrimaryType = spv.OpTypeSampler ∨
        d.PrimaryType = spv.OpTypeVoid →
      typeDeclarationWords d id inner = [Pack 2 d.PrimaryType, id]) ∧
    (d.PrimaryType = spv.OpTypeFloat →
      typeDeclarationWords d id inner = [Pack 3 d.PrimaryType, id, 32]) ∧
    (d.PrimaryType = spv.OpTypeInt →
      typeDeclarationWords d id inner = [Pack 4 d.PrimaryType, id, 32, 0]) ∧
    (d.PrimaryType = spv.OpTypeVector ∨ d.PrimaryType = spv.OpTypeMatrix →
      typeDeclarationWords d id inner = [Pack 4 d.PrimaryType, id, inner, d.ComponentCount]) ∧
    (d.PrimaryType = spv.OpTypePointer →
      typeDeclarationWords d id inner =
        [Pack 4 d.PrimaryType, id, spv.StorageClassInput, inner]) ∧
    (d.PrimaryType = spv.OpTypeFunction →
      typeDeclarationWords d id inner =
        [Pack (3 + d.Arguments.length) d.PrimaryType, id, inner] ++ d.Arguments ∧
      (typeDeclarationWords d id inner).length = 3 + d.Arguments.length) := by
  unfold typeDeclarationWords
  simp only [spv.OpTypeBool, spv.OpTypeVoid, spv.OpTypeInt, spv.OpTypeSampler,
    spv.OpTypeFloat, spv.OpTypeVector, spv.OpTypePointer, spv.OpTypeMatrix,
    spv.OpTypeFunction]
  refine ⟨?_, ?_, ?_, ?_, ?_, ?_⟩
  · intro h
    rw [if_pos h]
  · intro h
    simp [h]
  · intro h
    simp [h]
  · intro h
    rcases h with h | h <;> simp [h]
  · intro h
    simp [h]
  · intro h
    simp [h]
    omega

/-- The declaration of a type is one instruction: its leading word has the number of its
words and the opcode of the type. -/
theorem typeDeclarationWords_framed (d : TypeDescription) (id inner : Nat)
    (hp : d.PrimaryType ∈ scalarTypeOpcodes ∨ d.PrimaryType ∈ compositeTypeOpcodes)
    (ha : d.Arguments.length + 3 < 65536) :
    Framed (typeDeclarationWords d id inner) ∧
      (typeDeclarationWords d id inner).head? = some
        (Pack (typeDeclarationWords d id inner).length d.PrimaryType) ∧
      opcodeOf (Pack (typeDeclarationWords d id inner).length d.PrimaryType) =
        d.PrimaryType := by
  obtain ⟨l1, l2, l3, l4, l5, l6⟩ := typeDeclarationWords_layout d id inner
  have hop : d.PrimaryType < 65536 := by
    simp only [scalarTypeOpcodes, compositeTypeOpcodes, List.mem_cons, List.mem_singleton,
      List.not_mem_nil, or_false, spv.OpTypeBool, spv.OpTypeVoid, spv.OpTypeInt,
      spv.OpTypeSampler, spv.OpTypeFloat, spv.OpTypeVector, spv.OpTypePointer,
      spv.OpTypeMatrix, spv.OpTypeFunction] at hp
    omega
  have key : ∀ n (rest : List Nat), n < 65536 →
      typeDeclarationWords d id inner = Pack n d.PrimaryType :: rest →
      rest.length + 1 = n →
      Framed (typeDeclarationWords d id inner) ∧
        (typeDeclarationWords d id inner).head? = some
          (Pack (typeDeclarationWords d id inner).length d.PrimaryType) ∧
        opcodeOf (Pack (typeDeclarationWords d id inner).length d.PrimaryType) =
          d.PrimaryType := by
    intro n rest hn e hl
    rw [e]
    have hlen : (Pack n d.PrimaryType :: rest).length = n := hl
    rw [hlen]
    exact ⟨Framed_of _ _ n (Pack_halves n _ hn hop).1 hl, rfl, (Pack_halves n _ hn hop).2⟩
  simp only [scalarTypeOpcodes, compositeTypeOpcodes, List.mem_cons, List.mem_singleton,
    List.not_mem_nil, or_false] at hp
  rcases hp with (h | h | h | h | h) | (h | h | h | h)
  · exact key 2 _ (by decide) (l1 (Or.inr (Or.inr h))) rfl
  · exact key 2 _ (by decide) (l1 (Or.inl h)) rfl
  · exact key 4 _ (by decide) (l3 h) rfl
  · exact key 3 _ (by decide) (l2 h) rfl
  · exact key 2 _ (by decide) (l1 (Or.inr (Or.inl h))) rfl
  · exact key 4 _ (by decide) (l4 (Or.inl h)) rfl
  · exact key 4 _ (by decide) (l4 (Or.inr h)) rfl
  · exact key 4 _ (by decide) (l5 h) rfl
  · refine key (3 + d.Arguments.length) ([id, inner] ++ d.Arguments) (by omega) (l6 h).1 ?_
    rw [List.length_append]
    show 2 + d.Arguments.length + 1 = 3 + d.Arguments.length
    omega

/-- C14: when `GetSpirVTypeId` takes a new id for a description of one of the nine types,
it appends to the type section, after the declarations the call for the component type,
the pointee or the return type has appended, exactly one instruction for the description:
Bool, Sampler and Void 2 words (count and opcode, id); Float 3 words (width 32); Int 4
words (width 32, signedness 0); Vector and Matrix 4 words (id of the component type,
component count); Pointer 4 words (storage class Input, id of the pointee type); Function
3 words and the argument ids (id of the return type, the arguments in order). -/
theorem GetSpirVTypeId_declares (d : TypeDescription) (s : ShaderConverter)
    (hnew : flat_map.find TypeDescription.same d s.mTypeIdPairs = none)
    (hp : d.PrimaryType ∈ scalarTypeOpcodes ∨ d.PrimaryType ∈ compositeTypeOpcodes) :
    (GetSpirVTypeId d s).1 = s.mNextId ∧
    (d.PrimaryType ∈ scalarTypeOpcodes →
      (GetSpirVTypeId d s).2.mTypeInstructions =
        s.mTypeInstructions ++ typeDeclarationWords d s.mNextId 0) ∧
    (d.PrimaryType ∈ compositeTypeOpcodes →
      (∃ before, (GetSpirVTypeId (innerDescription d) (reserveTypeId d s)).2.mTypeInstructions =
        s.mTypeInstructions ++ before) ∧
      (GetSpirVTypeId d s).2.mTypeInstructions =
        (GetSpirVTypeId (innerDescription d) (reserveTypeId d s)).2.mTypeInstructions ++
          typeDeclarationWords d s.mNextId
            (GetSpirVTypeId (innerDescription d) (reserveTypeId d s)).1 ∧
      flat_map.find TypeDescription.same (innerDescription d)
          (GetSpirVTypeId d s).2.mTypeIdPairs =
        some (GetSpirVTypeId (innerDescription d) (reserveTypeId d s)).1) ∧
    (∀ id inner,
      (d.PrimaryType = spv.OpTypeBool ∨ d.PrimaryType = spv.OpTypeSampler ∨
          d.PrimaryType = spv.OpTypeVoid →
        typeDeclarationWords d id inner = [Pack 2 d.PrimaryType, id]) ∧
      (d.PrimaryType = spv.OpTypeFloat →
        typeDeclarationWords d id inner = [Pack 3 d.PrimaryType, id, 32]) ∧
      (d.PrimaryType = spv.OpTypeInt →
        typeDeclarationWords d id inner = [Pack 4 d.PrimaryType, id, 32, 0]) ∧
      (d.PrimaryType = spv.OpTypeVector ∨ d.PrimaryType = spv.OpTypeMatrix →
        typeDeclarationWords d id inner =
          [Pack 4 d.PrimaryType, id, inner, d.ComponentCount]) ∧
      (d.PrimaryType = spv.OpTypePointer →
        typeDeclarationWords d id inner =
          [Pack 4 d.PrimaryType, id, spv.StorageClassInput, inner]) ∧
      (d.PrimaryType = spv.OpTypeFunction →
        typeDeclarationWords d id inner =
          [Pack (3 + d.Arguments.length) d.PrimaryType, id, inner] ++ d.Arguments ∧
        (typeDeclarationWords d id inner).length = 3 + d.Arguments.length)) ∧
    (d.Arguments.length + 3 < 65536 → ∀ id inner,
      Framed (typeDeclarationWords d id inner) ∧
        (typeDeclarationWords d id inner).head? = some
          (Pack (typeDeclarationWords d id inner).length d.PrimaryType) ∧
        opcodeOf (Pack (typeDeclarationWords d id inner).length d.PrimaryType) =
          d.PrimaryType) := by
  have hdis : d.PrimaryType ∈ compositeTypeOpcodes → d.PrimaryType ∉ scalarTypeOpcodes := by
    simp only [scalarTypeOpcodes, compositeTypeOpcodes, List.mem_cons, List.mem_singleton,
      List.not_mem_nil, or_false, spv.OpTypeBool, spv.OpTypeVoid, spv.OpTypeInt,
      spv.OpTypeSampler, spv.OpTypeFloat, spv.OpTypeVector, spv.OpTypePointer,
      spv.OpTypeMatrix, spv.OpTypeFunction]
    omega
  refine ⟨(GetSpirVTypeId_linked d s hnew).1, ?_, ?_,
    fun id inner => typeDeclarationWords_layout d id inner,
    fun ha id inner => typeDeclarationWords_framed d id inner hp ha⟩
  · intro hs
    rw [GetSpirVTypeId_new d s hnew, if_pos hs]
    rfl
  · intro hc
    refine ⟨?_, ?_, ?_⟩
    · obtain ⟨_, _, _, w, hw⟩ :=
        GetSpirVTypeIdFuel_frame 4 (innerDescription d) (reserveTypeId d s)
      exact ⟨w, hw⟩
    · rw [GetSpirVTypeId_new d s hnew, if_neg (hdis hc), if_pos hc]
      rfl
    · rw [GetSpirVTypeId_new d s hnew, if_neg (hdis hc), if_pos hc]
      exact GetSpirVTypeId_registered (innerDescription d) (reserveTypeId d s)

/-- C14 on the pointer to a vector of four floats, on a converter right after
construction: the declarations of the float and of the vector come first. -/
theorem GetSpirVTypeId_declares_witness :
    (GetSpirVTypeId constantDescription (ShaderConverter.fresh 1 4 4)).2.mTypeInstructions =
      (GetSpirVTypeId (innerDescription constantDescription)
        (reserveTypeId constantDescription (ShaderConverter.fresh 1 4 4))).2.mTypeInstructions ++
        typeDeclarationWords constantDescription 1
          (GetSpirVTypeId (innerDescription constantDescription)
            (reserveTypeId constantDescription (ShaderConverter.fresh 1 4 4))).1 :=
  ((GetSpirVTypeId_declares constantDescription (ShaderConverter.fresh 1 4 4) (by decide)
    (by decide)).2.2.1 (by decide)).2.1

/-! ### C15: a description of another type -/

/-- C15, as stated, fails: a call with a description of the type `OpTypeImage`, which is
none of the nine types, takes an id.  On a converter right after construction it returns
`1`, leaves the id counter at `2` and enters the description in both tables; it appends
nothing to the type section. -/
theorem unrecognized_type_reserves_id :
    spv.OpTypeImage ∉ scalarTypeOpcodes ++ compositeTypeOpcodes ∧
    (ShaderConverter.fresh 1 4 4).mNextId = 1 ∧
    (GetSpirVTypeId { PrimaryType := spv.OpTypeImage } (ShaderConverter.fresh 1 4 4)).1 = 1 ∧
    (GetSpirVTypeId { PrimaryType := spv.OpTypeImage }
      (ShaderConverter.fresh 1 4 4)).2.mNextId = 2 ∧
    (ShaderConverter.fresh 1 4 4).mTypeIdPairs = [] ∧
    (GetSpirVTypeId { PrimaryType := spv.OpTypeImage }
      (ShaderConverter.fresh 1 4 4)).2.mTypeIdPairs = [({ PrimaryType := spv.OpTypeImage }, 1)] ∧
    (GetSpirVTypeId { PrimaryType := spv.OpTypeImage }
      (ShaderConverter.fresh 1 4 4)).2.mIdTypePairs = [(1, { PrimaryType := spv.OpTypeImage })] ∧
    (GetSpirVTypeId { PrimaryType := spv.OpTypeImage }
      (ShaderConverter.fresh 1 4 4)).2.mTypeInstructions = [] := by
  decide

/-- C15, amended: a call of `GetSpirVTypeId` with a description that is not in the table
and whose primary type is none of Bool, Int, Float, Vector, Matrix, Pointer, Sampler,
Function and Void appends nothing to the type section or to any other section, but it
takes an id: it returns the value of the id counter, moves the counter on by one and
enters the description with that id in both tables.  A second call returns the same id
and changes nothing. -/
theorem GetSpirVTypeId_unrecognized (d : TypeDescription) (s : ShaderConverter)
    (hnew : flat_map.find TypeDescription.same d s.mTypeIdPairs = none)
    (hs : d.PrimaryType ∉ scalarTypeOpcodes) (hc : d.PrimaryType ∉ compositeTypeOpcodes) :
    GetSpirVTypeId d s = (s.mNextId, reserveTypeId d s) ∧
    (GetSpirVTypeId d s).2.mTypeInstructions = s.mTypeInstructions ∧
    specSectionOrder (GetSpirVTypeId d s).2 = specSectionOrder s ∧
    (GetSpirVTypeId d s).2.mInstructions = s.mInstructions ∧
    (GetSpirVTypeId d s).2.mNextId = (s.mNextId + 1) % 4294967296 ∧
    flat_map.find TypeDescription.same d (GetSpirVTypeId d s).2.mTypeIdPairs =
      some s.mNextId ∧
    flat_map.find sameKey s.mNextId (GetSpirVTypeId d s).2.mIdTypePairs = some d ∧
    GetSpirVTypeId d (GetSpirVTypeId d s).2 = (s.mNextId, (GetSpirVTypeId d s).2) := by
  have e : GetSpirVTypeId d s = (s.mNextId, reserveTypeId d s) := by
    rw [GetSpirVTypeId_new d s hnew, if_neg hs, if_neg hc]
  have hreg := GetSpirVTypeId_registered d s
  have hl := (GetSpirVTypeId_linked d s hnew).2
  refine ⟨e, ?_, ?_, ?_, ?_, ?_, hl, ?_⟩
  · rw [e]
    rfl
  · rw [e]
    rfl
  · rw [e]
    rfl
  · rw [e]
    rfl
  · rw [hreg, e]
  · rw [GetSpirVTypeId_found d _ _ hreg, e]

/-- The hypotheses of the amended C15 hold for a description of the type `OpTypeImage` on a
converter right after construction. -/
theorem GetSpirVTypeId_unrecognized_witness :
    GetSpirVTypeId { PrimaryType := spv.OpTypeImage } (ShaderConverter.fresh 1 4 4) =
      ((ShaderConverter.fresh 1 4 4).mNextId,
        reserveTypeId { PrimaryType := spv.OpTypeImage } (ShaderConverter.fresh 1 4 4)) :=
  (GetSpirVTypeId_unrecognized { PrimaryType := spv.OpTypeImage } (ShaderConverter.fresh 1 4 4)
    (by decide) (by decide) (by decide)).1

/-! ## C16, C17, C12, C18: the register map -/

/-- The lookup of a constant register that is not in the map, in one piece. -/
theorem GetIdByRegister_new (token : Nat) (s : ShaderConverter)
    (hu : findIdByRegister token s = none) (hc : GetRegisterType token ∈ constantBanks) :
    GetIdByRegister token s =
      (s.mNextId,
        ((SetIdByRegister token s.mNextId
            (GetSpirVTypeId constantDescription (GetNextId s).2).2).setIdType s.mNextId
          constantDescription).pushType
          [Pack 4 spv.OpVariable, (GetSpirVTypeId constantDescription (GetNextId s).2).1,
            s.mNextId, spv.StorageClassPushConstant]) := by
  simp only [constantBanks, List.mem_cons, List.mem_singleton, List.not_mem_nil,
    or_false] at hc
  unfold GetIdByRegister
  rw [hu]
  dsimp only
  rw [if_pos hc]
  rfl

/-- What the lookup of a constant register that is not in the map leaves behind. -/
theorem GetIdByRegister_new_fields (token : Nat) (s : ShaderConverter)
    (hu : findIdByRegister token s = none) (hc : GetRegisterType token ∈ constantBanks) :
    (GetIdByRegister token s).1 = s.mNextId ∧
    (GetIdByRegister token s).2.mIdsByRegister =
      flat_map.set2 (GetRegisterType token) (registerKey token) s.mNextId s.mIdsByRegister ∧
    (GetIdByRegister token s).2.mIdTypePairs =
      flat_map.set sameKey s.mNextId constantDescription
        (GetSpirVTypeId constantDescription (GetNextId s).2).2.mIdTypePairs ∧
    (GetIdByRegister token s).2.mTypeIdPairs =
      (GetSpirVTypeId constantDescription (GetNextId s).2).2.mTypeIdPairs ∧
    (GetIdByRegister token s).2.mTypeInstructions =
      (GetSpirVTypeId constantDescription (GetNextId s).2).2.mTypeInstructions ++
        [Pack 4 spv.OpVariable, (GetSpirVTypeId constantDescription (GetNextId s).2).1,
          s.mNextId, spv.StorageClassPushConstant] ∧
    (GetIdByRegister token s).2.mNextId =
      (GetSpirVTypeId constantDescription (GetNextId s).2).2.mNextId ∧
    (GetIdByRegister token s).2.mFunctionDefinitionInstructions =
      s.mFunctionDefinitionInstructions := by
  obtain ⟨f1, _, f3, _⟩ := GetSpirVTypeIdFuel_frame 4 constantDescription (GetNextId s).2
  rw [GetIdByRegister_new token s hu hc]
  refine ⟨rfl, ?_, rfl, rfl, rfl, rfl, ?_⟩
  · show flat_map.set2 _ _ _
      (GetSpirVTypeId constantDescription (GetNextId s).2).2.mIdsByRegister = _
    unfold GetSpirVTypeId
    rw [f1]
    rfl
  · show (GetSpirVTypeId constantDescription (GetNextId s).2).2.mFunctionDefinitionInstructions
      = _
    unfold GetSpirVTypeId
    rw [f3]
    rfl

/-- C16: `GetIdByRegister` on a token that names a constant register (bank CONST, CONST2,
CONST3 or CONST4) which is not in the register map takes a new id, records the
description pointer to vector of four floats for it, appends to the type section, after
the declarations of that type where they were missing, one `OpVariable` of four words
(id of the pointer type, the new id, storage class PushConstant), enters the register
with the id in the map and returns the id.  A second lookup of the same register, by any
token with the same register type and number, returns the same id and changes nothing. -/
theorem GetIdByRegister_materializes (token : Nat) (s : ShaderConverter)
    (hu : findIdByRegister token s = none) (hc : GetRegisterType token ∈ constantBanks) :
    (GetIdByRegister token s).1 = s.mNextId ∧
    flat_map.find sameKey s.mNextId (GetIdByRegister token s).2.mIdTypePairs =
      some constantDescription ∧
    flat_map.find TypeDescription.same constantDescription
        (GetIdByRegister token s).2.mTypeIdPairs =
      some (GetSpirVTypeId constantDescription (GetNextId s).2).1 ∧
    (GetIdByRegister token s).2.mTypeInstructions =
      (GetSpirVTypeId constantDescription (GetNextId s).2).2.mTypeInstructions ++
        [Pack 4 spv.OpVariable, (GetSpirVTypeId constantDescription (GetNextId s).2).1,
          s.mNextId, spv.StorageClassPushConstant] ∧
    (∃ types, (GetSpirVTypeId constantDescription (GetNextId s).2).2.mTypeInstructions =
      s.mTypeInstructions ++ types) ∧
    (∀ pointer, flat_map.find TypeDescription.same constantDescription s.mTypeIdPairs =
        some pointer →
      (GetIdByRegister token s).2.mTypeInstructions = s.mTypeInstructions ++
        [Pack 4 spv.OpVariable, pointer, s.mNextId, spv.StorageClassPushConstant]) ∧
    (∀ pointer, Shape [Pack 4 spv.OpVariable, pointer, s.mNextId, spv.StorageClassPushConstant]
      [pointer, s.mNextId] (some s.mNextId)) ∧
    (GetIdByRegister token s).2.mFunctionDefinitionInstructions =
      s.mFunctionDefinitionInstructions ∧
    findIdByRegister token (GetIdByRegister token s).2 = some s.mNextId ∧
    ∀ other, GetRegisterType other = GetRegisterType token →
      GetRegisterNumber other = GetRegisterNumber token →
      GetIdByRegister other (GetIdByRegister token s).2 =
        (s.mNextId, (GetIdByRegister token s).2) := by
  obtain ⟨g1, g2, g3, g4, g5, _, g7⟩ := GetIdByRegister_new_fields token s hu hc
  obtain ⟨_, _, _, w, hw⟩ := GetSpirVTypeIdFuel_frame 4 constantDescription (GetNextId s).2
  refine ⟨g1, ?_, ?_, g5, ⟨w, hw⟩, ?_, fun pointer => shape_variable _ _ _, g7, ?_, ?_⟩
  · rw [g3]
    exact find_sameKey_set_self _ _ _
  · rw [g4]
    exact GetSpirVTypeId_registered constantDescription (GetNextId s).2
  · intro pointer hp
    rw [g5, GetSpirVTypeId_found constantDescription (GetNextId s).2 pointer hp]
    rfl
  · exact findIdByRegister_bound token token s.mNextId s _ g2 rfl rfl
  · intro other ht hn
    exact GetIdByRegister_found other s.mNextId _
      (findIdByRegister_bound token other s.mNextId s _ g2 ht hn)

/-- The hypotheses of C16 hold for the constant register `c0` on a converter right after
construction: the second lookup returns the id of the first. -/
theorem GetIdByRegister_materializes_witness :
    findIdByRegister 0xA0E40000 (GetIdByRegister 0xA0E40000 (ShaderConverter.fresh 1 4 4)).2 =
      some (ShaderConverter.fresh 1 4 4).mNextId :=
  (GetIdByRegister_materializes 0xA0E40000 (ShaderConverter.fresh 1 4 4) (by decide)
    (by decide)).2.2.2.2.2.2.2.2.1

theorem GetIdByRegister_unknown_state (token : Nat) (s : ShaderConverter)
    (hu : findIdByRegister token s = none) (hc : GetRegisterType token ∉ constantBanks) :
    GetIdByRegister token s = (0, s) := by
  simp only [constantBanks, List.mem_cons, List.mem_singleton, List.not_mem_nil,
    or_false] at hc
  unfold GetIdByRegister
  rw [hu]
  dsimp only
  rw [if_neg hc]

/-- C17: `GetIdByRegister` on a token whose register is not in the map and whose register
type is none of the constant banks returns `0` and leaves the state as it is: the id
counter, the register map, the type tables and every section. -/
theorem GetIdByRegister_unknown (token : Nat) (s : ShaderConverter)
    (hu : findIdByRegister token s = none) (hc : GetRegisterType token ∉ constantBanks) :
    GetIdByRegister token s = (0, s) ∧
    (GetIdByRegister token s).2.mNextId = s.mNextId ∧
    (GetIdByRegister token s).2.mIdsByRegister = s.mIdsByRegister ∧
    (GetIdByRegister token s).2.mTypeIdPairs = s.mTypeIdPairs ∧
    (GetIdByRegister token s).2.mIdTypePairs = s.mIdTypePairs ∧
    specSectionOrder (GetIdByRegister token s).2 = specSectionOrder s := by
  rw [GetIdByRegister_unknown_state token s hu hc]
  exact ⟨rfl, rfl, rfl, rfl, rfl, rfl⟩

/-- The hypotheses of C17 hold for the temporary register `r1` on a converter right after
construction. -/
theorem GetIdByRegister_unknown_witness :
    GetIdByRegister 0x80E40001 (ShaderConverter.fresh 1 4 4) =
      (0, ShaderConverter.fresh 1 4 4) :=
  (GetIdByRegister_unknown 0x80E40001 (ShaderConverter.fresh 1 4 4) (by decide)
    (by decide)).1

/-! ## C18: a new version of a register -/

theorem GetNextVersionId_fields (token : Nat) (s : ShaderConverter) :
    (GetNextVersionId token s).1 = s.mNextId ∧
    (GetNextVersionId token s).2.mNextId = (s.mNextId + 1) % 4294967296 ∧
    (GetNextVersionId token s).2.mIdsByRegister =
      flat_map.set2 (GetRegisterType token) (registerKey token) s.mNextId s.mIdsByRegister :=
  ⟨rfl, rfl, rfl⟩

/-- C18: `GetNextVersionId` returns the value the id counter has before the call, moves
the counter on by one (modulo `2 ^ 32`) and makes the id the current id of the register of
the token: right after, `GetIdByRegister` on any token with the same register type and
register number, whatever its other bits, returns that id and changes nothing, and the
lookup of every other pair of register type and register number gives what it gave
before. -/
theorem GetNextVersionId_binds (token : Nat) (s : ShaderConverter) :
    (GetNextVersionId token s).1 = s.mNextId ∧
    (GetNextVersionId token s).2.mNextId = (s.mNextId + 1) % 4294967296 ∧
    (s.mNextId + 1 < 4294967296 → (GetNextVersionId token s).2.mNextId = s.mNextId + 1) ∧
    (∀ other, GetRegisterType other = GetRegisterType token →
      GetRegisterNumber other = GetRegisterNumber token →
      GetIdByRegister other (GetNextVersionId token s).2 =
        (s.mNextId, (GetNextVersionId token s).2)) ∧
    (∀ other, GetRegisterType other ≠ GetRegisterType token ∨
        GetRegisterNumber other ≠ GetRegisterNumber token →
      findIdByRegister other (GetNextVersionId token s).2 = findIdByRegister other s) := by
  obtain ⟨f1, f2, f3⟩ := GetNextVersionId_fields token s
  refine ⟨f1, f2, ?_, ?_, ?_⟩
  · intro h
    rw [f2, Nat.mod_eq_of_lt h]
  · intro other ht hn
    exact GetIdByRegister_found other s.mNextId _
      (findIdByRegister_bound token other s.mNextId s _ f3 ht hn)
  · intro other hne
    exact findIdByRegister_kept token other s.mNextId s _ f3 hne

/-- C18 on the temporary register `r0`: after a new version for the token with the write
mask, the lookup by the token with a swizzle returns the new id. -/
theorem GetNextVersionId_binds_witness :
    GetIdByRegister 0x80E40000 (GetNextVersionId 0x800F0000 (ShaderConverter.fresh 1 4 4)).2 =
      ((ShaderConverter.fresh 1 4 4).mNextId,
        (GetNextVersionId 0x800F0000 (ShaderConverter.fresh 1 4 4)).2) :=
  (GetNextVersionId_binds 0x800F0000 (ShaderConverter.fresh 1 4 4)).2.2.2.1 0x80E40000
    (by decide) (by decide)

/-! ## C12: the four constant banks -/

theorem GetIdByRegister_new_counter (token : Nat) (s : ShaderConverter)
    (hu : findIdByRegister token s = none) (hc : GetRegisterType token ∈ constantBanks) :
    ∃ k, 1 ≤ k ∧ k ≤ 5 ∧
      (GetIdByRegister token s).2.mNextId = (s.mNextId + k) % 4294967296 := by
  obtain ⟨_, _, _, _, _, g6, _⟩ := GetIdByRegister_new_fields token s hu hc
  rw [g6]
  have e : (GetNextId s).2.mNextId = (s.mNextId + 1) % 4294967296 := rfl
  unfold GetSpirVTypeId
  rcases GetSpirVTypeIdFuel_counter 4 constantDescription (GetNextId s).2 with h | ⟨k, k0, k4, h⟩
  · exact ⟨1, Nat.le_refl _, by decide, by rw [h, e]⟩
  · refine ⟨k + 1, by omega, by omega, ?_⟩
    rw [h, e]
    omega

theorem registerKey_banks (token : Nat) :
    (GetRegisterType token = D3DSPR_CONST → registerKey token = GetRegisterNumber token) ∧
    (GetRegisterType token = D3DSPR_CONST2 →
      registerKey token = GetRegisterNumber token + 2048) ∧
    (GetRegisterType token = D3DSPR_CONST3 →
      registerKey token = GetRegisterNumber token + 4096) ∧
    (GetRegisterType token = D3DSPR_CONST4 →
      registerKey token = GetRegisterNumber token + 6144) := by
  unfold registerKey
  refine ⟨?_, ?_, ?_, ?_⟩ <;> intro h <;> rw [h] <;> rfl

/-- C12: from a state in which none of them is in the register map, the lookups of the
constant registers of the banks CONST, CONST2, CONST3 and CONST4 with one register number
`n` return four ids that are pairwise different, and a second round of lookups returns the
same four ids and changes nothing.  The keys under which the register map holds them are
`n`, `n + 2048`, `n + 4096` and `n + 6144`; `n` is below 2048, so the keys of the four
banks lie in four intervals without a common point. -/
theorem constant_banks_distinct (c1 c2 c3 c4 n : Nat) (s : ShaderConverter)
    (t1 : GetRegisterType c1 = D3DSPR_CONST) (t2 : GetRegisterType c2 = D3DSPR_CONST2)
    (t3 : GetRegisterType c3 = D3DSPR_CONST3) (t4 : GetRegisterType c4 = D3DSPR_CONST4)
    (n1 : GetRegisterNumber c1 = n) (n2 : GetRegisterNumber c2 = n)
    (n3 : GetRegisterNumber c3 = n) (n4 : GetRegisterNumber c4 = n)
    (u1 : findIdByRegister c1 s = none) (u2 : findIdByRegister c2 s = none)
    (u3 : findIdByRegister c3 s = none) (u4 : findIdByRegister c4 s = none) :
    (lookupRegisters [c1, c2, c3, c4] s).1.Nodup ∧
    (lookupRegisters [c1, c2, c3, c4] s).1.length = 4 ∧
    lookupRegisters [c1, c2, c3, c4] (lookupRegisters [c1, c2, c3, c4] s).2 =
      lookupRegisters [c1, c2, c3, c4] s ∧
    registerKey c1 = n ∧ registerKey c2 = n + 2048 ∧ registerKey c3 = n + 4096 ∧
    registerKey c4 = n + 6144 ∧ n < 2048 ∧
    (∀ token, GetRegisterType token = D3DSPR_CONST → registerKey token < 2048) ∧
    (∀ token, GetRegisterType token = D3DSPR_CONST2 →
      2048 ≤ registerKey token ∧ registerKey token < 4096) ∧
    (∀ token, GetRegisterType token = D3DSPR_CONST3 →
      4096 ≤ registerKey token ∧ registerKey token < 6144) ∧
    (∀ token, GetRegisterType token = D3DSPR_CONST4 →
      6144 ≤ registerKey token ∧ registerKey token < 8192) := by
  have b1 : GetRegisterType c1 ∈ constantBanks := by rw [t1]; decide
  have b2 : GetRegisterType c2 ∈ constantBanks := by rw [t2]; decide
  have b3 : GetRegisterType c3 ∈ constantBanks := by rw [t3]; decide
  have b4 : GetRegisterType c4 ∈ constantBanks := by rw [t4]; decide
  have d12 : GetRegisterType c2 ≠ GetRegisterType c1 := by rw [t1, t2]; decide
  have d13 : GetRegisterType c3 ≠ GetRegisterType c1 := by rw [t1, t3]; decide
  have d14 : GetRegisterType c4 ≠ GetRegisterType c1 := by rw [t1, t4]; decide
  have d23 : GetRegisterType c3 ≠ GetRegisterType c2 := by rw [t2, t3]; decide
  have d24 : GetRegisterType c4 ≠ GetRegisterType c2 := by rw [t2, t4]; decide
  have d34 : GetRegisterType c4 ≠ GetRegisterType c3 := by rw [t3, t4]; decide
  simp only [lookupRegisters]
  -- the first lookup
  obtain ⟨i1, m1, _⟩ := GetIdByRegister_new_fields c1 s u1 b1
  obtain ⟨k1, k1a, k1b, e1⟩ := GetIdByRegister_new_counter c1 s u1 b1
  have u2a : findIdByRegister c2 (GetIdByRegister c1 s).2 = none :=
    (findIdByRegister_kept c1 c2 _ s _ m1 (Or.inl d12)).trans u2
  have u3a : findIdByRegister c3 (GetIdByRegister c1 s).2 = none :=
    (findIdByRegister_kept c1 c3 _ s _ m1 (Or.inl d13)).trans u3
  have u4a : findIdByRegister c4 (GetIdByRegister c1 s).2 = none :=
    (findIdByRegister_kept c1 c4 _ s _ m1 (Or.inl d14)).trans u4
  have f1a : findIdByRegister c1 (GetIdByRegister c1 s).2 = some s.mNextId :=
    findIdByRegister_bound c1 c1 _ s _ m1 rfl rfl
  generalize GetIdByRegister c1 s = r1 at i1 m1 e1 u2a u3a u4a f1a ⊢
  -- the second lookup
  obtain ⟨i2, m2, _⟩ := GetIdByRegister_new_fields c2 r1.2 u2a b2
  obtain ⟨k2, k2a, k2b, e2⟩ := GetIdByRegister_new_counter c2 r1.2 u2a b2
  have u3b : findIdByRegister c3 (GetIdByRegister c2 r1.2).2 = none :=
    (findIdByRegister_kept c2 c3 _ r1.2 _ m2 (Or.inl d23)).trans u3a
  have u4b : findIdByRegister c4 (GetIdByRegister c2 r1.2).2 = none :=
    (findIdByRegister_kept c2 c4 _ r1.2 _ m2 (Or.inl d24)).trans u4a
  have f1b : findIdByRegister c1 (GetIdByRegister c2 r1.2).2 = some s.mNextId :=
    (findIdByRegister_kept c2 c1 _ r1.2 _ m2 (Or.inl d12.symm)).trans f1a
  have f2b : findIdByRegister c2 (GetIdByRegister c2 r1.2).2 = some r1.2.mNextId :=
    findIdByRegister_bound c2 c2 _ r1.2 _ m2 rfl rfl
  generalize GetIdByRegister c2 r1.2 = r2 at i2 m2 e2 u3b u4b f1b f2b ⊢
  -- the third lookup
  obtain ⟨i3, m3, _⟩ := GetIdByRegister_new_fields c3 r2.2 u3b b3
  obtain ⟨k3, k3a, k3b, e3⟩ := GetIdByRegister_new_counter c3 r2.2 u3b b3
  have u4c : findIdByRegister c4 (GetIdByRegister c3 r2.2).2 = none :=
    (findIdByRegister_kept c3 c4 _ r2.2 _ m3 (Or.inl d34)).trans u4b
  have f1c : findIdByRegister c1 (GetIdByRegister c3 r2.2).2 = some s.mNextId :=
    (findIdByRegister_kept c3 c1 _ r2.2 _ m3 (Or.inl d13.symm)).trans f1b
  have f2c : findIdByRegister c2 (GetIdByRegister c3 r2.2).2 = some r1.2.mNextId :=
    (findIdByRegister_kept c3 c2 _ r2.2 _ m3 (Or.inl d23.symm)).trans f2b
  have f3c : findIdByRegister c3 (GetIdByRegister c3 r2.2).2 = some r2.2.mNextId :=
    findIdByRegister_bound c3 c3 _ r2.2 _ m3 rfl rfl
  generalize GetIdByRegister c3 r2.2 = r3 at i3 m3 e3 u4c f1c f2c f3c ⊢
  -- the fourth lookup
  obtain ⟨i4, m4, _⟩ := GetIdByRegister_new_fields c4 r3.2 u4c b4
  have f1d : findIdByRegister c1 (GetIdByRegister c4 r3.2).2 = some s.mNextId :=
    (findIdByRegister_kept c4 c1 _ r3.2 _ m4 (Or.inl d14.symm)).trans f1c
  have f2d : findIdByRegister c2 (GetIdByRegister c4 r3.2).2 = some r1.2.mNextId :=
    (findIdByRegister_kept c4 c2 _ r3.2 _ m4 (Or.inl d24.symm)).trans f2c
  have f3d : findIdByRegister c3 (GetIdByRegister c4 r3.2).2 = some r2.2.mNextId :=
    (findIdByRegister_kept c4 c3 _ r3.2 _ m4 (Or.inl d34.symm)).trans f3c
  have f4d : findIdByRegister c4 (GetIdByRegister c4 r3.2).2 = some r3.2.mNextId :=
    findIdByRegister_bound c4 c4 _ r3.2 _ m4 rfl rfl
  generalize GetIdByRegister c4 r3.2 = r4 at i4 m4 f1d f2d f3d f4d ⊢
  have hn : n < 2048 := n1 ▸ GetRegisterNumber_lt c1
  refine ⟨?_, rfl, ?_, ?_, ?_, ?_, ?_, hn, ?_, ?_, ?_, ?_⟩
  · rw [i1, i2, i3, i4, e1, e2, e3]
    simp only [List.nodup_cons, List.mem_cons, List.mem_singleton, List.not_mem_nil,
      not_or, List.nodup_nil, not_false_eq_true, and_true]
    omega
  · rw [GetIdByRegister_found c1 _ _ f1d, GetIdByRegister_found c2 _ _ f2d,
      GetIdByRegister_found c3 _ _ f3d, GetIdByRegister_found c4 _ _ f4d, i1, i2, i3, i4]
  · rw [(registerKey_banks c1).1 t1, n1]
  · rw [(registerKey_banks c2).2.1 t2, n2]
  · rw [(registerKey_banks c3).2.2.1 t3, n3]
  · rw [(registerKey_banks c4).2.2.2 t4, n4]
  · intro token h
    rw [(registerKey_banks token).1 h]
    exact GetRegisterNumber_lt token
  · intro token h
    rw [(registerKey_banks token).2.1 h]
    have := GetRegisterNumber_lt token
    omega
  · intro token h
    rw [(registerKey_banks token).2.2.1 h]
    have := GetRegisterNumber_lt token
    omega
  · intro token h
    rw [(registerKey_banks token).2.2.2 h]
    have := GetRegisterNumber_lt token
    omega

/-- The hypotheses of C12 hold for the registers number 3 of the four banks on a converter
right after construction. -/
theorem constant_banks_distinct_witness :
    (lookupRegisters [0xA0E40003, 0xB0E40803, 0xC0E40803, 0xD0E40803]
      (ShaderConverter.fresh 1 4 4)).1.Nodup :=
  (constant_banks_distinct 0xA0E40003 0xB0E40803 0xC0E40803 0xD0E40803 3
    (ShaderConverter.fresh 1 4 4) (by decide) (by decide) (by decide) (by decide)
    (by decide) (by decide) (by decide) (by decide) (by decide) (by decide) (by decide)
    (by decide)).1

/-! ## C19, C20: swizzles that change nothing -/

/-- The swizzle field of a token in terms of its four selectors. -/
theorem swizzle_field (token : Nat) :
    token &&& D3DVS_SWIZZLE_MASK =
      (swizzleSelector token 0 + 4 * swizzleSelector token 1 + 16 * swizzleSelector token 2 +
        64 * swizzleSelector token 3) <<< 16 := by
  unfold D3DVS_SWIZZLE_MASK swizzleSelector
  have e : (0x00FF0000 : Nat) = 0xFF <<< 16 := by decide
  have e3 : ∀ x : Nat, x &&& 3 = x % 4 := fun x => Nat.and_pow_two_sub_one_eq_mod x 2
  have e255 : ∀ x : Nat, x &&& 0xFF = x % 256 := fun x => Nat.and_pow_two_sub_one_eq_mod x 8
  rw [e, and_shiftLeft, e255, e3, e3, e3, e3]
  congr 1
  rw [Nat.shiftRight_add, Nat.shiftRight_add, Nat.shiftRight_add, Nat.shiftRight_add]
  generalize token >>> 16 = y
  simp only [Nat.shiftRight_eq_div_pow]
  omega

theorem GetIdByRegister_function (token : Nat) (s : ShaderConverter) :
    (GetIdByRegister token s).2.mFunctionDefinitionInstructions =
      s.mFunctionDefinitionInstructions := by
  cases hu : findIdByRegister token s with
  | some id => rw [GetIdByRegister_found token id s hu]
  | none =>
    by_cases hc : GetRegisterType token ∈ constantBanks
    · exact (GetIdByRegister_new_fields token s hu hc).2.2.2.2.2.2
    · rw [(GetIdByRegister_unknown_state token s hu hc)]

/-- A token whose swizzle field is zero or the identity: `GetSwizzledId` returns the id it
was given, or the id of the register when it was given none. -/
theorem GetSwizzledId_unswizzled (token inputId : Nat) (s : ShaderConverter)
    (h : token &&& D3DVS_SWIZZLE_MASK = 0 ∨ token &&& D3DVS_SWIZZLE_MASK = D3DVS_NOSWIZZLE) :
    GetSwizzledId token inputId s =
      if inputId = UINT_MAX then GetIdByRegister token s else (inputId, s) := by
  unfold GetSwizzledId
  dsimp only
  rw [if_pos (by
    rcases h with h | h
    · exact Or.inl h
    · exact Or.inr (Or.inl h))]

/-- C19: `GetSwizzledId` with an input id and a source token whose swizzle is the identity
(the selectors of x, y, z, w are 0, 1, 2, 3: the no-swizzle mask) returns the input id and
leaves the state as it is: no id is allocated and no instruction, so no `OpVectorShuffle`,
is appended to any section. -/
theorem GetSwizzledId_identity (token inputId : Nat) (s : ShaderConverter)
    (hin : inputId ≠ UINT_MAX)
    (hx : swizzleSelector token 0 = 0) (hy : swizzleSelector token 1 = 1)
    (hz : swizzleSelector token 2 = 2) (hw : swizzleSelector token 3 = 3) :
    token &&& D3DVS_SWIZZLE_MASK = D3DVS_NOSWIZZLE ∧
    GetSwizzledId token inputId s = (inputId, s) ∧
    (GetSwizzledId token inputId s).2.mNextId = s.mNextId ∧
    (GetSwizzledId token inputId s).2.mFunctionDefinitionInstructions =
      s.mFunctionDefinitionInstructions ∧
    specSectionOrder (GetSwizzledId token inputId s).2 = specSectionOrder s := by
  have e : token &&& D3DVS_SWIZZLE_MASK = D3DVS_NOSWIZZLE := by
    rw [swizzle_field, hx, hy, hz, hw]
    decide
  have r : GetSwizzledId token inputId s = (inputId, s) := by
    rw [GetSwizzledId_unswizzled token inputId s (Or.inr e), if_neg hin]
  rw [r]
  exact ⟨e, rfl, rfl, rfl, rfl⟩

/-- The hypotheses of C19 hold for the source token `r0` without swizzle. -/
theorem GetSwizzledId_identity_witness :
    GetSwizzledId 0x80E40000 7 (ShaderConverter.fresh 1 4 4) =
      (7, ShaderConverter.fresh 1 4 4) :=
  (GetSwizzledId_identity 0x80E40000 7 (ShaderConverter.fresh 1 4 4) (by decide) (by decide)
    (by decide) (by decide) (by decide)).2.1

/-- C20, as stated, fails.  The token `0x80550000` is `r0.yyyy`: its four selectors are
equal, and `GetSwizzledId` appends one `OpVectorShuffle` of nine words with the four
literals `1`, not an `OpCompositeExtract`.  The token `0x80000000` is `r0.xxxx`: its four
selectors are equal, and `GetSwizzledId` returns the input id and appends nothing. -/
theorem broadcast_swizzle_is_not_extracted :
    (swizzleSelector 0x80550000 0 = 1 ∧ swizzleSelector 0x80550000 1 = 1 ∧
      swizzleSelector 0x80550000 2 = 1 ∧ swizzleSelector 0x80550000 3 = 1) ∧
    (GetSwizzledId 0x80550000 7 (ShaderConverter.fresh 1 4 4)).2.mFunctionDefinitionInstructions
      = [Pack 9 spv.OpVectorShuffle, 2, 1, 7, 7, 1, 1, 1, 1] ∧
    opcodeOf (Pack 9 spv.OpVectorShuffle) ≠ spv.OpCompositeExtract ∧
    (swizzleSelector 0x80000000 0 = 0 ∧ swizzleSelector 0x80000000 1 = 0 ∧
      swizzleSelector 0x80000000 2 = 0 ∧ swizzleSelector 0x80000000 3 = 0) ∧
    GetSwizzledId 0x80000000 7 (ShaderConverter.fresh 1 4 4) =
      (7, ShaderConverter.fresh 1 4 4) := by
  decide

/-- C20, amended: for a source token whose four swizzle selectors are all `0` (`.xxxx`,
the swizzle field zero), `GetSwizzledId` returns the input id, or the id of the register
when it was given none, and appends nothing to the function section: no
`OpCompositeExtract` and no `OpVectorShuffle`.  With an input id the state is left as it
is. -/
theorem GetSwizzledId_zero_swizzle (token inputId : Nat) (s : ShaderConverter)
    (hx : swizzleSelector token 0 = 0) (hy : swizzleSelector token 1 = 0)
    (hz : swizzleSelector token 2 = 0) (hw : swizzleSelector token 3 = 0) :
    token &&& D3DVS_SWIZZLE_MASK = 0 ∧
    GetSwizzledId token inputId s =
      (if inputId = UINT_MAX then GetIdByRegister token s else (inputId, s)) ∧
    (inputId ≠ UINT_MAX → GetSwizzledId token inputId s = (inputId, s)) ∧
    (GetSwizzledId token inputId s).2.mFunctionDefinitionInstructions =
      s.mFunctionDefinitionInstructions := by
  have e : token &&& D3DVS_SWIZZLE_MASK = 0 := by
    rw [swizzle_field, hx, hy, hz, hw]
    decide
  have r := GetSwizzledId_unswizzled token inputId s (Or.inl e)
  refine ⟨e, r, ?_, ?_⟩
  · intro hin
    rw [r, if_neg hin]
  · rw [r]
    by_cases hin : inputId = UINT_MAX
    · rw [if_pos hin]
      exact GetIdByRegister_function token s
    · rw [if_neg hin]

/-- The hypotheses of the amended C20 hold for the source token `r0.xxxx`. -/
theorem GetSwizzledId_zero_swizzle_witness :
    GetSwizzledId 0x80000000 7 (ShaderConverter.fresh 1 4 4) =
      (7, ShaderConverter.fresh 1 4 4) :=
  (GetSwizzledId_zero_swizzle 0x80000000 7 (ShaderConverter.fresh 1 4 4) (by decide)
    (by decide) (by decide) (by decide)).2.2.1 (by decide)

/-! ## C21: a swizzle that changes the order of the components -/

/-- The selectors of a token are below four. -/
theorem swizzleSelector_le (token i : Nat) : swizzleSelector token i ≤ 3 :=
  Nat.and_le_right

/-- The test of `GetSwizzledId` for a broadcast holds for the swizzle field zero only. -/
theorem broadcast_test (token : Nat)
    (h : (token &&& D3DVS_SWIZZLE_MASK) >>> D3DVS_SWIZZLE_SHIFT =
      (token &&& D3DVS_SWIZZLE_MASK) >>> (D3DVS_SWIZZLE_SHIFT + 2)) :
    token &&& D3DVS_SWIZZLE_MASK = 0 := by
  rw [swizzle_field] at h ⊢
  have a := swizzleSelector_le token 0
  have b := swizzleSelector_le token 1
  have c := swizzleSelector_le token 2
  have d := swizzleSelector_le token 3
  generalize swizzleSelector token 0 + 4 * swizzleSelector token 1 +
    16 * swizzleSelector token 2 + 64 * swizzleSelector token 3 = y at h ⊢
  unfold D3DVS_SWIZZLE_SHIFT at h
  rw [Nat.shiftRight_add, shiftLeft_shiftRight_le y 16 16 (Nat.le_refl _)] at h
  simp only [Nat.sub_self, Nat.shiftLeft_zero, Nat.shiftRight_eq_div_pow] at h
  have : y = 0 := by omega
  rw [this]
  rfl

/-- The literal `GetSwizzledId` pushes for a component is the selector of the component. -/
theorem componentLiteral_selector (token j : Nat) (hj : j < 4) :
    componentLiteral ((token &&& D3DVS_SWIZZLE_MASK) &&& (3 <<< (16 + 2 * j)))
      (0 <<< (16 + 2 * j)) (1 <<< (16 + 2 * j)) (2 <<< (16 + 2 * j))
      (3 <<< (16 + 2 * j)) = [swizzleSelector token j] := by
  have e : ((token &&& D3DVS_SWIZZLE_MASK) >>> (16 + 2 * j)) &&& 3 =
      swizzleSelector token j := by
    have a := swizzleSelector_le token 0
    have b := swizzleSelector_le token 1
    have c := swizzleSelector_le token 2
    have d := swizzleSelector_le token 3
    have e3 : ∀ x : Nat, x &&& 3 = x % 4 := fun x => Nat.and_pow_two_sub_one_eq_mod x 2
    rw [swizzle_field, Nat.shiftRight_add, shiftLeft_shiftRight_le _ 16 16 (Nat.le_refl _),
      e3]
    simp only [Nat.sub_self, Nat.shiftLeft_zero, Nat.shiftRight_eq_div_pow]
    interval_cases j <;> simp only [Nat.mul_zero, Nat.mul_one, Nat.pow_zero, Nat.div_one,
      Nat.reducePow, Nat.reduceMul] <;> omega
  rw [and_shiftLeft, e]
  have hs := swizzleSelector_le token j
  generalize swizzleSelector token j = v at hs
  interval_cases j <;> interval_cases v <;> rfl

/-- A token whose swizzle field is neither zero nor the identity: `GetSwizzledId` takes a
new id and appends one `OpVectorShuffle` with the four selectors as its literals. -/
theorem GetSwizzledId_shuffles (token inputId : Nat) (s : ShaderConverter)
    (hz : token &&& D3DVS_SWIZZLE_MASK ≠ 0)
    (hi : token &&& D3DVS_SWIZZLE_MASK ≠ D3DVS_NOSWIZZLE) (input : Nat × ShaderConverter)
    (hinput : (if inputId = UINT_MAX then GetIdByRegister token s else (inputId, s)) = input) :
    GetSwizzledId token inputId s =
      (input.2.mNextId,
        (GetSpirVTypeId floatVectorDescription (GetNextId input.2).2).2.pushFunctionDefinition
          [Pack 9 spv.OpVectorShuffle,
            (GetSpirVTypeId floatVectorDescription (GetNextId input.2).2).1,
            input.2.mNextId, input.1, input.1, swizzleSelector token 0,
            swizzleSelector token 1, swizzleSelector token 2, swizzleSelector token 3]) := by
  have l0 := componentLiteral_selector token 0 (by decide)
  have l1 := componentLiteral_selector token 1 (by decide)
  have l2 := componentLiteral_selector token 2 (by decide)
  have l3 := componentLiteral_selector token 3 (by decide)
  unfold GetSwizzledId
  dsimp only
  rw [hinput]
  have c1 : ¬ (token &&& D3DVS_SWIZZLE_MASK = 0 ∨
      token &&& D3DVS_SWIZZLE_MASK = D3DVS_NOSWIZZLE ∨ 4 = 0) := by
    intro h
    rcases h with h | h | h
    · exact hz h
    · exact hi h
    · exact absurd h (by decide)
  have c2 : ¬ ((token &&& D3DVS_SWIZZLE_MASK) >>> D3DVS_SWIZZLE_SHIFT =
        (token &&& D3DVS_SWIZZLE_MASK) >>> (D3DVS_SWIZZLE_SHIFT + 2) ∧
      (token &&& D3DVS_SWIZZLE_MASK) >>> D3DVS_SWIZZLE_SHIFT =
        (token &&& D3DVS_SWIZZLE_MASK) >>> (D3DVS_SWIZZLE_SHIFT + 4) ∧
      (token &&& D3DVS_SWIZZLE_MASK) >>> D3DVS_SWIZZLE_SHIFT =
        (token &&& D3DVS_SWIZZLE_MASK) >>> (D3DVS_SWIZZLE_SHIFT + 6)) :=
    fun h => hz (broadcast_test token h.1)
  rw [if_neg c1, if_neg c2, if_neg (by decide : ¬ (4 : Nat) = 2),
    if_neg (by decide : ¬ (4 : Nat) = 3), if_pos (rfl : (4 : Nat) = 4)]
  have m0 : D3DVS_X_W = 3 <<< (16 + 2 * 0) := rfl
  have m1 : D3DVS_Y_W = 3 <<< (16 + 2 * 1) := rfl
  have m2 : D3DVS_Z_W = 3 <<< (16 + 2 * 2) := rfl
  have m3 : D3DVS_W_W = 3 <<< (16 + 2 * 3) := rfl
  have x0 : componentLiteral ((token &&& D3DVS_SWIZZLE_MASK) &&& D3DVS_X_W) D3DVS_X_X
      D3DVS_X_Y D3DVS_X_Z D3DVS_X_W = [swizzleSelector token 0] := l0
  have x1 : componentLiteral ((token &&& D3DVS_SWIZZLE_MASK) &&& D3DVS_Y_W) D3DVS_Y_X
      D3DVS_Y_Y D3DVS_Y_Z D3DVS_Y_W = [swizzleSelector token 1] := l1
  have x2 : componentLiteral ((token &&& D3DVS_SWIZZLE_MASK) &&& D3DVS_Z_W) D3DVS_Z_X
      D3DVS_Z_Y D3DVS_Z_Z D3DVS_Z_W = [swizzleSelector token 2] := l2
  have x3 : componentLiteral ((token &&& D3DVS_SWIZZLE_MASK) &&& D3DVS_W_W) D3DVS_W_X
      D3DVS_W_Y D3DVS_W_Z D3DVS_W_W = [swizzleSelector token 3] := l3
  rw [x0, x1, x2, x3]
  rfl

theorem GetIdByRegister_input_function (token inputId : Nat) (s : ShaderConverter) :
    (if inputId = UINT_MAX then GetIdByRegister token s
      else (inputId, s)).2.mFunctionDefinitionInstructions =
      s.mFunctionDefinitionInstructions := by
  by_cases h : inputId = UINT_MAX
  · rw [if_pos h]
    exact GetIdByRegister_function token s
  · rw [if_neg h]

theorem swizzle_field_zero (token : Nat) (h : token &&& D3DVS_SWIZZLE_MASK = 0) :
    swizzleSelector token 0 = 0 ∧ swizzleSelector token 1 = 0 ∧
      swizzleSelector token 2 = 0 ∧ swizzleSelector token 3 = 0 := by
  rw [swizzle_field, Nat.shiftLeft_eq] at h
  have := Nat.mul_eq_zero.mp h
  omega

theorem swizzle_field_identity (token : Nat)
    (h : token &&& D3DVS_SWIZZLE_MASK = D3DVS_NOSWIZZLE) :
    swizzleSelector token 0 = 0 ∧ swizzleSelector token 1 = 1 ∧
      swizzleSelector token 2 = 2 ∧ swizzleSelector token 3 = 3 := by
  have e : D3DVS_NOSWIZZLE = 228 <<< 16 := by decide
  rw [swizzle_field, e, Nat.shiftLeft_eq, Nat.shiftLeft_eq] at h
  have h2 := Nat.eq_of_mul_eq_mul_right (by decide : 0 < 2 ^ 16) h
  have a := swizzleSelector_le token 0
  have b := swizzleSelector_le token 1
  have c := swizzleSelector_le token 2
  have d := swizzleSelector_le token 3
  omega

/-- C21: for a source token whose swizzle is neither zero nor the identity (so for every
swizzle that is neither zero, the identity nor a broadcast), `GetSwizzledId` returns a new
id, the value of the id counter, and appends to the function section exactly one
`OpVectorShuffle` of nine words: the id the vector of four floats has in the type table,
the new id, the input id twice, and four literals, the literal `i` being the selector
`(token >> (16 + 2 * i)) & 3`.  The input id is the id given to the call, or the one
`GetIdByRegister` returns when none is given.  The four literals are as many as the
components of the result type. -/
theorem GetSwizzledId_vector_shuffle (token inputId : Nat) (s : ShaderConverter)
    (hz : ¬ (swizzleSelector token 0 = 0 ∧ swizzleSelector token 1 = 0 ∧
      swizzleSelector token 2 = 0 ∧ swizzleSelector token 3 = 0))
    (hi : ¬ (swizzleSelector token 0 = 0 ∧ swizzleSelector token 1 = 1 ∧
      swizzleSelector token 2 = 2 ∧ swizzleSelector token 3 = 3))
    (input : Nat × ShaderConverter)
    (hinput : (if inputId = UINT_MAX then GetIdByRegister token s else (inputId, s)) = input) :
    (inputId ≠ UINT_MAX → input = (inputId, s)) ∧
    (GetSwizzledId token inputId s).1 = input.2.mNextId ∧
    ∃ vector,
      flat_map.find TypeDescription.same floatVectorDescription
        (GetSwizzledId token inputId s).2.mTypeIdPairs = some vector ∧
      (GetSwizzledId token inputId s).2.mFunctionDefinitionInstructions =
        s.mFunctionDefinitionInstructions ++
          [Pack 9 spv.OpVectorShuffle, vector, input.2.mNextId, input.1, input.1,
            swizzleSelector token 0, swizzleSelector token 1, swizzleSelector token 2,
            swizzleSelector token 3] ∧
      Shape [Pack 9 spv.OpVectorShuffle, vector, input.2.mNextId, input.1, input.1,
            swizzleSelector token 0, swizzleSelector token 1, swizzleSelector token 2,
            swizzleSelector token 3] [vector, input.2.mNextId, input.1, input.1]
          (some input.2.mNextId) ∧
      [swizzleSelector token 0, swizzleSelector token 1, swizzleSelector token 2,
        swizzleSelector token 3].length = floatVectorDescription.ComponentCount := by
  have e := GetSwizzledId_shuffles token inputId s
    (fun h => hz (swizzle_field_zero token h))
    (fun h => hi (swizzle_field_identity token h)) input hinput
  have hf := GetIdByRegister_input_function token inputId s
  rw [hinput] at hf
  refine ⟨?_, ?_, (GetSpirVTypeId floatVectorDescription (GetNextId input.2).2).1, ?_, ?_,
    shape_shuffle _ _ _ _ _ _ _ _, rfl⟩
  · intro hne
    rw [← hinput, if_neg hne]
  · rw [e]
  · rw [e]
    exact GetSpirVTypeId_registered floatVectorDescription (GetNextId input.2).2
  · rw [e]
    obtain ⟨_, _, f3, _⟩ := GetSpirVTypeIdFuel_frame 4 floatVectorDescription
      (GetNextId input.2).2
    show (GetSpirVTypeId floatVectorDescription
      (GetNextId input.2).2).2.mFunctionDefinitionInstructions ++ _ = _
    unfold GetSpirVTypeId
    rw [f3]
    show input.2.mFunctionDefinitionInstructions ++ _ = _
    rw [hf]

/-- The hypotheses of C21 hold for the source token `r0.wzyx` with the input id 7: the
literals are 3, 2, 1, 0. -/
theorem GetSwizzledId_vector_shuffle_witness :
    (GetSwizzledId 0x801B0000 7 (ShaderConverter.fresh 1 4 4)).1 = 1 ∧
    ∃ vector,
      flat_map.find TypeDescription.same floatVectorDescription
        (GetSwizzledId 0x801B0000 7 (ShaderConverter.fresh 1 4 4)).2.mTypeIdPairs =
          some vector ∧
      (GetSwizzledId 0x801B0000 7
        (ShaderConverter.fresh 1 4 4)).2.mFunctionDefinitionInstructions =
        [] ++ [Pack 9 spv.OpVectorShuffle, vector, 1, 7, 7, swizzleSelector 0x801B0000 0,
            swizzleSelector 0x801B0000 1, swizzleSelector 0x801B0000 2,
            swizzleSelector 0x801B0000 3] ∧
      Shape [Pack 9 spv.OpVectorShuffle, vector, 1, 7, 7, swizzleSelector 0x801B0000 0,
            swizzleSelector 0x801B0000 1, swizzleSelector 0x801B0000 2,
            swizzleSelector 0x801B0000 3] [vector, 1, 7, 7] (some 1) ∧
      [swizzleSelector 0x801B0000 0, swizzleSelector 0x801B0000 1,
        swizzleSelector 0x801B0000 2, swizzleSelector 0x801B0000 3].length =
        floatVectorDescription.ComponentCount :=
  (GetSwizzledId_vector_shuffle 0x801B0000 7 (ShaderConverter.fresh 1 4 4) (by decide)
    (by decide) (7, ShaderConverter.fresh 1 4 4) rfl).2

/-! ## The handlers and the sidecar

Only the two declaration handlers write the sidecar. -/

theorem pushType_sidecar (s : ShaderConverter) (ws : List Nat) :
    (s.pushType ws).mConvertedShader = s.mConvertedShader := rfl

theorem pushFunctionDefinition_sidecar (s : ShaderConverter) (ws : List Nat) :
    (s.pushFunctionDefinition ws).mConvertedShader = s.mConvertedShader := rfl

theorem setTypeId_sidecar (s : ShaderConverter) (d : TypeDescription) (i : Nat) :
    (s.setTypeId d i).mConvertedShader = s.mConvertedShader := rfl

theorem setIdType_sidecar (s : ShaderConverter) (d : TypeDescription) (i : Nat) :
    (s.setIdType i d).mConvertedShader = s.mConvertedShader := rfl

theorem pushInterfaceId_sidecar (s : ShaderConverter) (i : Nat) :
    (s.pushInterfaceId i).mConvertedShader = s.mConvertedShader := rfl

theorem setPositionRegister_sidecar (s : ShaderConverter) (i : Nat) :
    (s.setPositionRegister i).mConvertedShader = s.mConvertedShader := rfl

theorem GetNextId_sidecar (s : ShaderConverter) :
    (GetNextId s).2.mConvertedShader = s.mConvertedShader := rfl

theorem SetIdByRegister_sidecar (token id : Nat) (s : ShaderConverter) :
    (SetIdByRegister token id s).mConvertedShader = s.mConvertedShader := rfl

theorem GetNextVersionId_sidecar (token : Nat) (s : ShaderConverter) :
    (GetNextVersionId token s).2.mConvertedShader = s.mConvertedShader := rfl

theorem snagNextId_sidecar (d : TypeDescription) (s : ShaderConverter) :
    (snagNextId d s).mConvertedShader = s.mConvertedShader := rfl

theorem GetSpirVTypeIdFuel_sidecar (fuel : Nat) (d : TypeDescription)
    (s : ShaderConverter) : (GetSpirVTypeIdFuel fuel d s).2.mConvertedShader = s.mConvertedShader := by
  induction fuel generalizing d s with
  | zero => rfl
  | succ n ih =>
    unfold GetSpirVTypeIdFuel
    cases h : flat_map.find TypeDescription.same d s.mTypeIdPairs with
    | some id => rfl
    | none =>
      dsimp only
      split_ifs
      all_goals first
        | rfl
        | simp only [pushType_sidecar, ih, setIdType_sidecar, setTypeId_sidecar,
            GetNextId_sidecar]

theorem GetSpirVTypeId_sidecar (d : TypeDescription) (s : ShaderConverter) :
    (GetSpirVTypeId d s).2.mConvertedShader = s.mConvertedShader :=
  GetSpirVTypeIdFuel_sidecar 4 d s

theorem GetSpirVTypeId_Op_sidecar (op : Nat) (s : ShaderConverter) :
    (GetSpirVTypeId_Op op s).2.mConvertedShader = s.mConvertedShader :=
  GetSpirVTypeId_sidecar _ s

theorem GetSpirVTypeId_Op2_sidecar (op1 op2 : Nat) (s : ShaderConverter) :
    (GetSpirVTypeId_Op2 op1 op2 s).2.mConvertedShader = s.mConvertedShader :=
  GetSpirVTypeId_sidecar _ s

theorem GetSpirVTypeId_Op3_sidecar (op1 op2 n : Nat) (s : ShaderConverter) :
    (GetSpirVTypeId_Op3 op1 op2 n s).2.mConvertedShader = s.mConvertedShader :=
  GetSpirVTypeId_sidecar _ s

theorem GetIdByRegister_sidecar (token : Nat) (s : ShaderConverter) :
    (GetIdByRegister token s).2.mConvertedShader = s.mConvertedShader := by
  unfold GetIdByRegister
  cases h : findIdByRegister token s with
  | some id => rfl
  | none =>
    dsimp only
    split_ifs
    · simp only [pushType_sidecar, setIdType_sidecar, SetIdByRegister_sidecar,
        GetSpirVTypeId_sidecar, GetNextId_sidecar]
    · rfl

theorem GetTypeByRegister_sidecar (token : Nat) (s : ShaderConverter) :
    (GetTypeByRegister token s).2.mConvertedShader = s.mConvertedShader := by
  unfold GetTypeByRegister
  dsimp only
  split <;> simp only [GetIdByRegister_sidecar]

theorem GetSwizzledId_sidecar (token inputId : Nat) (s : ShaderConverter) :
    (GetSwizzledId token inputId s).2.mConvertedShader = s.mConvertedShader := by
  unfold GetSwizzledId
  dsimp only
  split_ifs <;>
    simp only [GetIdByRegister_sidecar, GetNextId_sidecar, GetSpirVTypeId_Op_sidecar,
      GetSpirVTypeId_Op3_sidecar, pushFunctionDefinition_sidecar]

theorem loadArgument_sidecar (dataTypeId token : Nat) (s : ShaderConverter) :
    (loadArgument dataTypeId token s).2.mConvertedShader = s.mConvertedShader := by
  unfold loadArgument
  simp only [GetNextId_sidecar, pushFunctionDefinition_sidecar,
    GetIdByRegister_sidecar, GetSwizzledId_sidecar]

theorem emitArithmetic_sidecar (iop fop dt dti rt a1 a2 : Nat) (s : ShaderConverter) :
    (emitArithmetic iop fop dt dti rt a1 a2 s).mConvertedShader = s.mConvertedShader := by
  unfold emitArithmetic
  split_ifs <;> rfl

theorem emitMultiplyAdd_sidecar (dt dti rt ri a1 a2 a3 : Nat) (s : ShaderConverter) :
    (emitMultiplyAdd dt dti rt ri a1 a2 a3 s).mConvertedShader = s.mConvertedShader := by
  unfold emitMultiplyAdd
  split_ifs <;> rfl

theorem Process_MOV_body_sidecar (t0 t1 : Nat) (s : ShaderConverter) :
    (Process_MOV_body t0 t1 s).mConvertedShader = s.mConvertedShader := by
  unfold Process_MOV_body
  simp only [GetTypeByRegister_sidecar, GetSpirVTypeId_sidecar, snagNextId_sidecar,
    GetSwizzledId_sidecar, pushFunctionDefinition_sidecar, GetNextVersionId_sidecar]

theorem Process_arithmetic_body_sidecar (iop fop : Nat) (again : Bool)
    (t0 t1 t2 : Nat) (s : ShaderConverter) :
    (Process_arithmetic_body iop fop again t0 t1 t2 s).mConvertedShader = s.mConvertedShader := by
  unfold Process_arithmetic_body
  dsimp only
  cases again <;>
  split_ifs <;>
    simp only [GetSwizzledId_sidecar, emitArithmetic_sidecar, loadArgument_sidecar,
      GetSpirVTypeId_sidecar, Bool.false_eq_true, if_false, if_true,
      GetTypeByRegister_sidecar, snagNextId_sidecar]

theorem Process_DP_body_sidecar (t0 t1 t2 : Nat) (s : ShaderConverter) :
    (Process_DP_body t0 t1 t2 s).mConvertedShader = s.mConvertedShader := by
  unfold Process_DP_body
  simp only [GetSpirVTypeId_Op_sidecar, GetNextVersionId_sidecar, snagNextId_sidecar,
    GetSwizzledId_sidecar, pushFunctionDefinition_sidecar]

theorem Process_TEX_body_sidecar (t0 t1 t2 : Nat) (s : ShaderConverter) :
    (Process_TEX_body t0 t1 t2 s).mConvertedShader = s.mConvertedShader := by
  unfold Process_TEX_body
  simp only [GetSpirVTypeId_sidecar, GetNextVersionId_sidecar, snagNextId_sidecar,
    GetSwizzledId_sidecar, pushFunctionDefinition_sidecar]

theorem Process_MAD_body_sidecar (t0 t1 t2 t3 : Nat) (s : ShaderConverter) :
    (Process_MAD_body t0 t1 t2 t3 s).mConvertedShader = s.mConvertedShader := by
  unfold Process_MAD_body
  dsimp only
  split_ifs <;>
    simp only [GetSwizzledId_sidecar, emitMultiplyAdd_sidecar, loadArgument_sidecar,
      GetSpirVTypeId_sidecar, GetNextVersionId_sidecar, GetTypeByRegister_sidecar,
      snagNextId_sidecar]

theorem Process_DEFB_body_sidecar (t0 t1 : Nat) (s : ShaderConverter) :
    (Process_DEFB_body t0 t1 s).mConvertedShader = s.mConvertedShader := by
  unfold Process_DEFB_body
  simp only [GetNextVersionId_sidecar, GetSpirVTypeId_sidecar,
    GetSpirVTypeId_Op_sidecar, setIdType_sidecar, pushType_sidecar]

theorem defineVector_body_sidecar (ct t0 t1 t2 t3 t4 : Nat) (s : ShaderConverter) :
    (defineVector_body ct t0 t1 t2 t3 t4 s).mConvertedShader = s.mConvertedShader := by
  unfold defineVector_body
  simp only [GetNextVersionId_sidecar, GetSpirVTypeId_sidecar,
    GetSpirVTypeId_Op_sidecar, setIdType_sidecar, pushType_sidecar,
    GetNextId_sidecar]


/-! ## The declaration handlers -/

theorem GetSpirVTypeIdFuel_mInterfaceIds (fuel : Nat) (d : TypeDescription)
    (s : ShaderConverter) : (GetSpirVTypeIdFuel fuel d s).2.mInterfaceIds = s.mInterfaceIds := by
  induction fuel generalizing d s with
  | zero => rfl
  | succ n ih =>
    unfold GetSpirVTypeIdFuel
    cases h : flat_map.find TypeDescription.same d s.mTypeIdPairs with
    | some id => rfl
    | none =>
      dsimp only
      split_ifs
      all_goals first
        | rfl
        | (simp only [pushType_mInterfaceIds, ih]; rfl)

/-- The sections are the members of `fixedPart` with the type section and the function
definitions. -/
theorem specSectionOrder_congr (a b : ShaderConverter) (h1 : a.fixedPart = b.fixedPart)
    (h2 : a.mTypeInstructions = b.mTypeInstructions)
    (h3 : a.mFunctionDefinitionInstructions = b.mFunctionDefinitionInstructions) :
    specSectionOrder a = specSectionOrder b := by
  have h := congrArg Prod.snd h1
  simp only [ShaderConverter.fixedPart, List.cons.injEq, and_true] at h
  obtain ⟨_, c1, c2, c3, c4, c5, c6, c7, c8, c9, c10, c11, c12, c13, c14, c15, c16, c17,
    c18⟩ := h
  simp only [specSectionOrder, c1, c2, c3, c4, c5, c6, c7, c8, c9, c10, c11, c12, c13, c14,
    c15, c16, c17, c18, h2, h3]

theorem declareRegister_fields (registerToken : Nat) (s : ShaderConverter) :
    (declareRegister registerToken s).mNextId = (s.mNextId + 1) % 4294967296 ∧
    (declareRegister registerToken s).mIdsByRegister =
      flat_map.set2 (GetRegisterType registerToken) (registerKey registerToken) s.mNextId
        s.mIdsByRegister ∧
    flat_map.find sameKey s.mNextId (declareRegister registerToken s).mIdTypePairs =
      some (declaredTypeDescription (writeMask registerToken)) ∧
    (declareRegister registerToken s).mTypeIdPairs = s.mTypeIdPairs ∧
    (declareRegister registerToken s).mConvertedShader = s.mConvertedShader ∧
    (declareRegister registerToken s).mInterfaceIds = s.mInterfaceIds ∧
    (declareRegister registerToken s).fixedPart = s.fixedPart ∧
    (declareRegister registerToken s).mTypeInstructions = s.mTypeInstructions ∧
    (declareRegister registerToken s).mFunctionDefinitionInstructions =
      s.mFunctionDefinitionInstructions :=
  ⟨rfl, rfl, find_sameKey_set_self _ _ _, rfl, rfl, rfl, rfl, rfl, rfl⟩

theorem declareRegister_sections (registerToken : Nat) (s : ShaderConverter) :
    specSectionOrder (declareRegister registerToken s) = specSectionOrder s := rfl

/-- What the declaration of a variable writes, and what it keeps. -/
theorem declareVariable_fields (d : TypeDescription) (id storage : Nat) (q : ShaderConverter) :
    (∃ types, (declareVariable d id storage q).mTypeInstructions =
      q.mTypeInstructions ++ types ++
        [Pack 4 spv.OpVariable, (GetSpirVTypeId d q).1, id, storage]) ∧
    flat_map.find TypeDescription.same d (declareVariable d id storage q).mTypeIdPairs =
      some (GetSpirVTypeId d q).1 ∧
    (declareVariable d id storage q).mIdsByRegister = q.mIdsByRegister ∧
    (declareVariable d id storage q).mFunctionDefinitionInstructions =
      q.mFunctionDefinitionInstructions ∧
    (declareVariable d id storage q).mConvertedShader = q.mConvertedShader ∧
    (declareVariable d id storage q).mInterfaceIds = q.mInterfaceIds ∧
    (declareVariable d id storage q).fixedPart = q.fixedPart := by
  obtain ⟨h1, _, h3, words, h4⟩ := GetSpirVTypeIdFuel_frame 4 d q
  refine ⟨⟨words, ?_⟩, GetSpirVTypeId_registered d q, h1, h3, GetSpirVTypeId_sidecar d q,
    GetSpirVTypeIdFuel_mInterfaceIds 4 d q, GetSpirVTypeId_fixedPart d q⟩
  show (GetSpirVTypeIdFuel 4 d q).2.mTypeInstructions ++ _ = _
  rw [h4]

/-- The declaration of a variable keeps the description recorded for the id allocated
just before. -/
theorem declareVariable_keeps_id (d other : TypeDescription) (id storage n : Nat)
    (q : ShaderConverter) (hq : q.mNextId = (n + 1) % 4294967296)
    (ho : flat_map.find sameKey n q.mIdTypePairs = some other) :
    flat_map.find sameKey n (declareVariable d id storage q).mIdTypePairs = some other := by
  refine GetSpirVTypeIdFuel_keeps_id 4 d other q n ho (by omega) ?_
  intro k hk
  omega

theorem Process_DCL_Vertex_body_eq (token registerToken : Nat) (s : ShaderConverter) :
    Process_DCL_Vertex_body token registerToken s =
      if GetRegisterType registerToken = D3DSPR_INPUT then
        match s.mConvertedShader.addAttribute
            (declaredTypeDescription (writeMask registerToken)).ComponentCount with
        | some c =>
          .ok ((declareVariable (declaredTypeDescription (writeMask registerToken)) s.mNextId
            spv.StorageClassInput
            ((declareRegister registerToken s).pushInterfaceId s.mNextId)).setConvertedShader c)
        | none => .error .arrayOverflow
      else if GetRegisterType registerToken = D3DSPR_OUTPUT then
        .ok (if GetUsage token = D3DDECLUSAGE_POSITION then
            (declareVariable (declaredTypeDescription (writeMask registerToken)) s.mNextId
              spv.StorageClassOutput (declareRegister registerToken s)).setPositionRegister
              (GetUsageIndex token)
          else
            declareVariable (declaredTypeDescription (writeMask registerToken)) s.mNextId
              spv.StorageClassOutput (declareRegister registerToken s))
      else .ok (declareRegister registerToken s) := by
  unfold Process_DCL_Vertex_body
  dsimp only
  by_cases h1 : GetRegisterType registerToken = D3DSPR_INPUT
  · rw [if_pos h1, if_pos h1]
    have e := (declareVariable_fields (declaredTypeDescription (writeMask registerToken))
      s.mNextId spv.StorageClassInput
      ((declareRegister registerToken s).pushInterfaceId s.mNextId)).2.2.2.2.1
    have e2 : (declareVariable (declaredTypeDescription (writeMask registerToken))
      s.mNextId spv.StorageClassInput
      ((declareRegister registerToken s).pushInterfaceId s.mNextId)).mConvertedShader =
        s.mConvertedShader := e
    rw [← e2]
    rfl
  · rw [if_neg h1, if_neg h1]
    by_cases h2 : GetRegisterType registerToken = D3DSPR_OUTPUT
    · rw [if_pos h2, if_pos h2]
      by_cases h3 : GetUsage token = D3DDECLUSAGE_POSITION
      · rw [if_pos h3, if_pos h3]
        rfl
      · rw [if_neg h3, if_neg h3]
        rfl
    · rw [if_neg h2, if_neg h2]
      rfl

theorem Process_DCL_Pixel_body_eq (token registerToken : Nat) (s : ShaderConverter) :
    Process_DCL_Pixel_body token registerToken s =
      if GetRegisterType registerToken = D3DSPR_INPUT then
        .ok (declareVariable (declaredTypeDescription (writeMask registerToken)) s.mNextId
          spv.StorageClassInput (declareRegister registerToken s))
      else if GetRegisterType registerToken = D3DSPR_TEXTURE then
        .ok (declareVariable
          { PrimaryType := spv.OpTypePointer, SecondaryType := spv.OpTypeImage } s.mNextId
          spv.StorageClassImage (declareRegister registerToken s))
      else if GetRegisterType registerToken = D3DSPR_SAMPLER then
        match s.mConvertedShader.addBinding with
        | some c =>
          .ok ((declareVariable
            { PrimaryType := spv.OpTypePointer, SecondaryType := spv.OpTypeSampler } s.mNextId
            spv.StorageClassUniform (declareRegister registerToken s)).setConvertedShader c)
        | none => .error .arrayOverflow
      else .ok (declareRegister registerToken s) := by
  unfold Process_DCL_Pixel_body
  dsimp only
  by_cases h1 : GetRegisterType registerToken = D3DSPR_INPUT
  · rw [if_pos h1, if_pos h1]
    rfl
  · rw [if_neg h1, if_neg h1]
    by_cases h2 : GetRegisterType registerToken = D3DSPR_TEXTURE
    · rw [if_pos h2, if_pos h2]
      rfl
    · rw [if_neg h2, if_neg h2]
      by_cases h3 : GetRegisterType registerToken = D3DSPR_SAMPLER
      · rw [if_pos h3, if_pos h3]
        have e2 : (declareVariable
            { PrimaryType := spv.OpTypePointer, SecondaryType := spv.OpTypeSampler }
            s.mNextId spv.StorageClassUniform
            (declareRegister registerToken s)).mConvertedShader = s.mConvertedShader :=
          (declareVariable_fields _ _ _ _).2.2.2.2.1
        rw [← e2]
        rfl
      · rw [if_neg h3, if_neg h3]
        rfl

/-! ## Declarations in the dispatch loop -/

theorem dispatchBody_DCL (token t0 t1 t2 t3 t4 : Nat) (s : ShaderConverter)
    (h : GetOpcode token = D3DSIO_DCL) :
    dispatchBody token t0 t1 t2 t3 t4 s =
      if s.mIsVertexShader then Process_DCL_Vertex_body t0 t1 s
      else Process_DCL_Pixel_body t0 t1 s := by
  unfold dispatchBody
  simp [h, D3DSIO_DCL, D3DSIO_MOV, D3DSIO_ADD, D3DSIO_SUB, D3DSIO_MUL, D3DSIO_DP3, D3DSIO_DP4,
    D3DSIO_MIN, D3DSIO_MAX, D3DSIO_MAD, D3DSIO_TEX]

theorem dispatchArity_DCL (token : Nat) (h : GetOpcode token = D3DSIO_DCL) :
    dispatchArity token = 2 := by
  unfold dispatchArity
  dsimp only
  rw [h]
  rfl

theorem declareVariable_sidecar (d : TypeDescription) (id storage : Nat) (q : ShaderConverter) :
    (declareVariable d id storage q).mConvertedShader = q.mConvertedShader :=
  GetSpirVTypeId_sidecar d q

/-- Instructions other than declarations return, and leave the sidecar alone. -/
theorem dispatchBody_other (token t0 t1 t2 t3 t4 : Nat) (s : ShaderConverter)
    (hop : GetOpcode token ≠ D3DSIO_DCL) :
    ∃ r, dispatchBody token t0 t1 t2 t3 t4 s = .ok r ∧
      r.mConvertedShader = s.mConvertedShader := by
  unfold dispatchBody
  dsimp only
  generalize GetOpcode token = op at hop
  by_cases h0 : op = D3DSIO_MOV
  · simp only [if_pos h0]
    exact ⟨_, rfl, Process_MOV_body_sidecar _ _ _⟩
  simp only [if_neg h0]
  by_cases h1 : op = D3DSIO_ADD
  · simp only [if_pos h1]
    exact ⟨_, rfl, Process_arithmetic_body_sidecar _ _ _ _ _ _ _⟩
  simp only [if_neg h1]
  by_cases h2 : op = D3DSIO_SUB
  · simp only [if_pos h2]
    exact ⟨_, rfl, Process_arithmetic_body_sidecar _ _ _ _ _ _ _⟩
  simp only [if_neg h2]
  by_cases h3 : op = D3DSIO_MUL
  · simp only [if_pos h3]
    exact ⟨_, rfl, Process_arithmetic_body_sidecar _ _ _ _ _ _ _⟩
  simp only [if_neg h3]
  by_cases h4 : op = D3DSIO_DP3
  · simp only [if_pos h4]
    exact ⟨_, rfl, Process_DP_body_sidecar _ _ _ _⟩
  simp only [if_neg h4]
  by_cases h5 : op = D3DSIO_DP4
  · simp only [if_pos h5]
    exact ⟨_, rfl, Process_DP_body_sidecar _ _ _ _⟩
  simp only [if_neg h5]
  by_cases h6 : op = D3DSIO_MIN
  · simp only [if_pos h6]
    exact ⟨_, rfl, rfl⟩
  simp only [if_neg h6]
  by_cases h7 : op = D3DSIO_MAX
  · simp only [if_pos h7]
    exact ⟨_, rfl, rfl⟩
  simp only [if_neg h7]
  by_cases h8 : op = D3DSIO_MAD
  · simp only [if_pos h8]
    exact ⟨_, rfl, Process_MAD_body_sidecar _ _ _ _ _⟩
  simp only [if_neg h8]
  by_cases h9 : op = D3DSIO_TEX
  · simp only [if_pos h9]
    exact ⟨_, rfl, Process_TEX_body_sidecar _ _ _ _⟩
  simp only [if_neg h9]
  by_cases h10 : op = D3DSIO_DCL
  · exact absurd h10 hop
  simp only [if_neg h10]
  by_cases h11 : op = D3DSIO_DEFB
  · simp only [if_pos h11]
    exact ⟨_, rfl, Process_DEFB_body_sidecar _ _ _⟩
  simp only [if_neg h11]
  by_cases h12 : op = D3DSIO_DEFI
  · simp only [if_pos h12]
    exact ⟨_, rfl, defineVector_body_sidecar _ _ _ _ _ _ _⟩
  simp only [if_neg h12]
  by_cases h13 : op = D3DSIO_DEF
  · simp only [if_pos h13]
    exact ⟨_, rfl, defineVector_body_sidecar _ _ _ _ _ _ _⟩
  simp only [if_neg h13]
  exact ⟨_, rfl, rfl⟩

theorem dispatchBody_sidecar (token t0 t1 t2 t3 t4 : Nat) (s r : ShaderConverter)
    (hop : GetOpcode token ≠ D3DSIO_DCL)
    (h : dispatchBody token t0 t1 t2 t3 t4 s = .ok r) :
    r.mConvertedShader = s.mConvertedShader := by
  obtain ⟨r0, h0, h1⟩ := dispatchBody_other token t0 t1 t2 t3 t4 s hop
  rw [h0] at h
  cases h
  exact h1

theorem addAttribute_some (c r : ConvertedShader) (n : Nat) (h : c.addAttribute n = some r) :
    ∃ entry,
      c.mVertexInputAttributeDescription[c.mVertexInputAttributeDescriptionCount]? =
        some entry ∧
      r = { c with
        mVertexInputAttributeDescription :=
          c.mVertexInputAttributeDescription.set c.mVertexInputAttributeDescriptionCount
            { entry with
              binding := 0
              location := c.mVertexInputAttributeDescriptionCount
              offset := 0
              format := attributeFormat n entry.format }
        mVertexInputAttributeDescriptionCount :=
          c.mVertexInputAttributeDescriptionCount + 1 } := by
  unfold ConvertedShader.addAttribute at h
  cases he : c.mVertexInputAttributeDescription[c.mVertexInputAttributeDescriptionCount]? with
  | none => rw [he] at h; cases h
  | some entry =>
    rw [he] at h
    injection h with h
    exact ⟨entry, rfl, h.symm⟩

theorem addAttribute_located (c r : ConvertedShader) (n : Nat) (h : c.addAttribute n = some r)
    (hc : AttributesLocated c) :
    r.mVertexInputAttributeDescriptionCount = c.mVertexInputAttributeDescriptionCount + 1 ∧
      AttributesLocated r := by
  obtain ⟨entry, he, rfl⟩ := addAttribute_some c r n h
  refine ⟨rfl, ?_⟩
  have hlt : c.mVertexInputAttributeDescriptionCount <
      c.mVertexInputAttributeDescription.length := by
    by_contra hn
    rw [List.getElem?_eq_none (by omega)] at he
    cases he
  intro k hk
  have hk1 : k < c.mVertexInputAttributeDescriptionCount + 1 := hk
  show ∃ e, (c.mVertexInputAttributeDescription.set _ _)[k]? = some e ∧ _
  by_cases hkc : k = c.mVertexInputAttributeDescriptionCount
  · subst hkc
    rw [List.getElem?_set_self hlt]
    exact ⟨_, rfl, rfl, rfl, rfl⟩
  · rw [List.getElem?_set_ne (fun e => hkc e.symm)]
    exact hc k (by omega)

theorem AttributesLocated_congr (c r : ConvertedShader)
    (h1 : r.mVertexInputAttributeDescriptionCount = c.mVertexInputAttributeDescriptionCount)
    (h2 : r.mVertexInputAttributeDescription = c.mVertexInputAttributeDescription)
    (hc : AttributesLocated c) : AttributesLocated r := by
  intro k hk
  rw [h2]
  exact hc k (by rw [← h1]; exact hk)

theorem addBinding_attributes (c r : ConvertedShader) (h : c.addBinding = some r) :
    r.mVertexInputAttributeDescriptionCount = c.mVertexInputAttributeDescriptionCount ∧
      r.mVertexInputAttributeDescription = c.mVertexInputAttributeDescription := by
  unfold ConvertedShader.addBinding at h
  split_ifs at h
  injection h with h
  subst h
  exact ⟨rfl, rfl⟩

/-- What a declaration does to the attributes in the sidecar. -/
theorem Process_DCL_Vertex_body_attributes (token registerToken : Nat) (s r : ShaderConverter)
    (h : Process_DCL_Vertex_body token registerToken s = .ok r) :
    if GetRegisterType registerToken = D3DSPR_INPUT then
      s.mConvertedShader.addAttribute
        (declaredTypeDescription (writeMask registerToken)).ComponentCount =
          some r.mConvertedShader
    else r.mConvertedShader = s.mConvertedShader := by
  rw [Process_DCL_Vertex_body_eq] at h
  by_cases h1 : GetRegisterType registerToken = D3DSPR_INPUT
  · rw [if_pos h1] at h
    rw [if_pos h1]
    cases ha : s.mConvertedShader.addAttribute
        (declaredTypeDescription (writeMask registerToken)).ComponentCount with
    | none => rw [ha] at h; cases h
    | some c =>
      rw [ha] at h
      cases h
      rfl
  · rw [if_neg h1] at h
    rw [if_neg h1]
    split_ifs at h
    all_goals
      cases h
      first
        | rfl
        | exact declareVariable_sidecar _ s.mNextId spv.StorageClassOutput
            (declareRegister registerToken s)

theorem Process_DCL_Pixel_body_attributes (token registerToken : Nat) (s r : ShaderConverter)
    (h : Process_DCL_Pixel_body token registerToken s = .ok r) :
    r.mConvertedShader.mVertexInputAttributeDescriptionCount =
        s.mConvertedShader.mVertexInputAttributeDescriptionCount ∧
      r.mConvertedShader.mVertexInputAttributeDescription =
        s.mConvertedShader.mVertexInputAttributeDescription := by
  rw [Process_DCL_Pixel_body_eq] at h
  split_ifs at h
  · cases h
    rw [declareVariable_sidecar]
    exact ⟨rfl, rfl⟩
  · cases h
    rw [declareVariable_sidecar]
    exact ⟨rfl, rfl⟩
  · cases ha : s.mConvertedShader.addBinding with
    | none => rw [ha] at h; cases h
    | some c =>
      rw [ha] at h
      cases h
      exact addBinding_attributes _ _ ha
  · cases h
    exact ⟨rfl, rfl⟩

/-- One instruction of the dispatch loop and the attributes: a declaration of an input
register of a vertex shader adds one entry, everything else keeps count and array. -/
theorem Convert_step_attributes (shader : List Nat) (s r : ShaderConverter) (token : Nat)
    (h : Convert_step shader s = .ok (token, r)) :
    r.mConvertedShader.mVertexInputAttributeDescriptionCount =
        s.mConvertedShader.mVertexInputAttributeDescriptionCount +
          (if isVertexInputDeclaration shader s then 1 else 0) ∧
      (AttributesLocated s.mConvertedShader → AttributesLocated r.mConvertedShader) := by
  have same : ∀ x : ShaderConverter, x.mConvertedShader = s.mConvertedShader →
      isVertexInputDeclaration shader s = false →
      x.mConvertedShader.mVertexInputAttributeDescriptionCount =
        s.mConvertedShader.mVertexInputAttributeDescriptionCount +
          (if isVertexInputDeclaration shader s then 1 else 0) ∧
      (AttributesLocated s.mConvertedShader → AttributesLocated x.mConvertedShader) := by
    intro x hx hv
    rw [hx, hv]
    exact ⟨rfl, id⟩
  rw [Convert_step_eq] at h
  split_ifs at h with hlt hc
  · cases h
    refine same _ rfl ?_
    unfold isVertexInputDeclaration
    rw [hc]
    rfl
  · cases hr : readThen (dispatchArity (shader.getD s.mNextToken 0))
        (dispatchBody (shader.getD s.mNextToken 0)) shader
        (s.withReader (s.mNextToken + 1) s.mNextToken) with
    | error e => rw [hr] at h; cases h
    | ok r1 =>
      rw [hr] at h
      cases h
      obtain ⟨_, r0, hb, rfl⟩ := readThen_ok _ _ _ _ _ hr
      by_cases hop : GetOpcode (shader.getD s.mNextToken 0) = D3DSIO_DCL
      · rw [dispatchBody_DCL _ _ _ _ _ _ _ hop, dispatchArity_DCL _ hop] at hb
        have ht1 : tokenAt shader (s.withReader (s.mNextToken + 1) s.mNextToken).mNextToken 2 1 =
            shader.getD (s.mNextToken + 2) 0 := rfl
        rw [ht1] at hb
        by_cases hv : s.mIsVertexShader = true
        · have hv2 : (s.withReader (s.mNextToken + 1) s.mNextToken).mIsVertexShader = true := hv
          rw [if_pos hv2] at hb
          have ha := Process_DCL_Vertex_body_attributes _ _ _ _ hb
          by_cases hi : GetRegisterType (shader.getD (s.mNextToken + 2) 0) = D3DSPR_INPUT
          · rw [if_pos hi] at ha
            have hd : isVertexInputDeclaration shader s = true := by
              unfold isVertexInputDeclaration
              simp only [hop, hv, hi, decide_True, Bool.and_self]
            rw [hd, if_pos rfl]
            refine ⟨(addAttribute_some _ _ _ ha).elim (fun entry he => ?_),
              fun hl => (addAttribute_located _ _ _ ha hl).2⟩
            show r0.mConvertedShader.mVertexInputAttributeDescriptionCount = _
            rw [he.2]
            rfl
          · rw [if_neg hi] at ha
            refine same _ ha ?_
            unfold isVertexInputDeclaration
            simp only [hi, decide_False, Bool.and_false]
        · have hv2 : ¬ (s.withReader (s.mNextToken + 1) s.mNextToken).mIsVertexShader = true := hv
          rw [if_neg hv2] at hb
          obtain ⟨h1, h2⟩ := Process_DCL_Pixel_body_attributes _ _ _ _ hb
          have hd : isVertexInputDeclaration shader s = false := by
            unfold isVertexInputDeclaration
            simp only [Bool.not_eq_true] at hv
            simp only [hv, Bool.and_false, Bool.false_and]
          rw [hd]
          exact ⟨h1, AttributesLocated_congr _ _ h1 h2⟩
      · have hs := dispatchBody_sidecar _ _ _ _ _ _ _ _ hop hb
        refine same _ hs ?_
        unfold isVertexInputDeclaration
        simp only [hop, decide_False, Bool.false_and]

theorem vertexInputDeclarations_zero (shader : List Nat) (token : Nat) (s : ShaderConverter) :
    vertexInputDeclarations shader 0 token s = 0 := by
  unfold vertexInputDeclarations
  split_ifs <;> rfl

theorem vertexInputDeclarations_succ (shader : List Nat) (fuel token : Nat)
    (s : ShaderConverter) :
    vertexInputDeclarations shader (fuel + 1) token s =
      if token = D3DPS_END then 0
      else
        match Convert_step shader s with
        | .ok r =>
          (if isVertexInputDeclaration shader s then 1 else 0) +
            vertexInputDeclarations shader fuel r.1 r.2
        | .error _ => 0 := by
  conv_lhs => unfold vertexInputDeclarations

/-- The dispatch loop and the attributes. -/
theorem Convert_loop_attributes (shader : List Nat) (fuel token : Nat) (s r : ShaderConverter)
    (h : Convert_loop shader fuel token s = .ok r) :
    r.mConvertedShader.mVertexInputAttributeDescriptionCount =
        s.mConvertedShader.mVertexInputAttributeDescriptionCount +
          vertexInputDeclarations shader fuel token s ∧
      (AttributesLocated s.mConvertedShader → AttributesLocated r.mConvertedShader) := by
  induction fuel generalizing token s with
  | zero =>
    rw [Convert_loop_zero] at h
    split_ifs at h
    cases h
    rw [vertexInputDeclarations_zero]
    exact ⟨rfl, id⟩
  | succ n ih =>
    rw [Convert_loop_succ] at h
    rw [vertexInputDeclarations_succ]
    split_ifs at h with he
    · cases h
      rw [if_pos he]
      exact ⟨rfl, id⟩
    · rw [if_neg he]
      cases hs : Convert_step shader s with
      | error e => rw [hs] at h; cases h
      | ok p =>
        rw [hs] at h
        obtain ⟨tok, r1⟩ := p
        obtain ⟨h1, h2⟩ := Convert_step_attributes _ _ _ _ hs
        obtain ⟨h3, h4⟩ := ih _ _ h
        refine ⟨?_, fun hl => h4 (h2 hl)⟩
        have h5 : r.mConvertedShader.mVertexInputAttributeDescriptionCount =
            r1.mConvertedShader.mVertexInputAttributeDescriptionCount +
              vertexInputDeclarations shader n tok r1 := h3
        show _ = _ + ((if isVertexInputDeclaration shader s then 1 else 0) +
          vertexInputDeclarations shader n tok r1)
        rw [h5, h1]
        omega

theorem setEntryPointId_sidecar (s : ShaderConverter) (i : Nat) :
    (s.setEntryPointId i).mConvertedShader = s.mConvertedShader := rfl

theorem setEntryPointTypeId_sidecar (s : ShaderConverter) (i : Nat) :
    (s.setEntryPointTypeId i).mConvertedShader = s.mConvertedShader := rfl

theorem setIsVertexShader_sidecar (s : ShaderConverter) (b : Bool) :
    (s.setIsVertexShader b).mConvertedShader = s.mConvertedShader := rfl

theorem setVersion_sidecar (s : ShaderConverter) (x y : Nat) :
    (s.setVersion x y).mConvertedShader = s.mConvertedShader := rfl

theorem Convert_begin_body_sidecar (token : Nat) (s : ShaderConverter) :
    (Convert_begin_body token s).mConvertedShader = s.mConvertedShader := by
  unfold Convert_begin_body
  split_ifs <;>
  simp only [pushFunctionDefinition_sidecar, GetNextId_sidecar, GetSpirVTypeId_Op_sidecar,
    setEntryPointId_sidecar, setEntryPointTypeId_sidecar, setIsVertexShader_sidecar,
    setVersion_sidecar]

theorem Convert_end_sidecar (s : ShaderConverter) :
    (Convert_end s).mConvertedShader = s.mConvertedShader := by
  unfold Convert_end
  by_cases hv : s.mIsVertexShader = true <;> simp [hv]

theorem Convert_begin_sidecar (shader : List Nat) (s b : ShaderConverter) (token : Nat)
    (h : Convert_begin shader s = .ok (token, b)) :
    b.mConvertedShader = s.mConvertedShader.cleared := by
  unfold Convert_begin at h
  simp only [bind_GetNextToken, rewind_eq, withReader_mNextToken, withReader_mTokenOffset] at h
  split_ifs at h with hlt
  simp only [pure, Except.pure, Except.ok.injEq, Prod.mk.injEq] at h
  obtain ⟨rfl, rfl⟩ := h
  rw [Convert_begin_body_sidecar]
  rfl

theorem CreateSpirVModule_attributes (host : Host) (s : ShaderConverter) :
    (CreateSpirVModule host s).mConvertedShader.mVertexInputAttributeDescriptionCount =
        s.mConvertedShader.mVertexInputAttributeDescriptionCount ∧
      (CreateSpirVModule host s).mConvertedShader.mVertexInputAttributeDescription =
        s.mConvertedShader.mVertexInputAttributeDescription ∧
      (CreateSpirVModule host s).mConvertedShader.mDescriptorSetLayoutBindingCount =
        s.mConvertedShader.mDescriptorSetLayoutBindingCount ∧
      (CreateSpirVModule host s).mConvertedShader.mDescriptorSetLayoutBinding =
        s.mConvertedShader.mDescriptorSetLayoutBinding := by
  unfold CreateSpirVModule
  cases host.vkCreateShaderModule s.mInstructions <;> exact ⟨rfl, rfl, rfl, rfl⟩

/-- The attributes `Convert` returns: as many as the loop processed declarations of input
registers of a vertex shader, entry `k` with location `k`. -/
theorem Convert_attributes (host : Host) (shader : List Nat) (s : ShaderConverter)
    (out : ConvertedShader × ShaderConverter) (h : Convert host shader s = .ok out) :
    ∃ b, Convert_begin shader s = .ok b ∧
      out.1.mVertexInputAttributeDescriptionCount =
        vertexInputDeclarations shader shader.length b.1 b.2 ∧
      AttributesLocated out.1 := by
  unfold Convert Convert_assemble at h
  cases ht : Convert_translate shader s with
  | error e => rw [ht] at h; cases h
  | ok t =>
    rw [ht] at h
    simp only [bind, Except.bind, pure, Except.pure, Except.ok.injEq] at h
    subst h
    unfold Convert_translate at ht
    cases hb : Convert_begin shader s with
    | error e => rw [hb] at ht; cases ht
    | ok p =>
      obtain ⟨token, b⟩ := p
      rw [hb] at ht
      cases hl : Convert_loop shader shader.length token b with
      | error e =>
        simp only [bind, Except.bind, hl] at ht
        cases ht
      | ok l =>
        simp only [bind, Except.bind, hl, pure, Except.pure, Except.ok.injEq] at ht
        subst ht
        obtain ⟨h1, h2⟩ := Convert_loop_attributes _ _ _ _ _ hl
        have hc := Convert_begin_sidecar _ _ _ _ hb
        obtain ⟨c1, c2, _, _⟩ := CreateSpirVModule_attributes host
          (CombineSpirVOpCodes (Convert_header host (Convert_end l)))
        have e : (CombineSpirVOpCodes (Convert_header host (Convert_end l))).mConvertedShader =
            l.mConvertedShader := Convert_end_sidecar l
        rw [e] at c1 c2
        refine ⟨(token, b), rfl, ?_, ?_⟩
        · show (CreateSpirVModule host _).mConvertedShader.mVertexInputAttributeDescriptionCount
            = _
          rw [c1, h1, hc]
          exact Nat.zero_add _
        · refine AttributesLocated_congr l.mConvertedShader _ c1 c2 (h2 ?_)
          rw [hc]
          intro k hk
          exact absurd hk (Nat.not_lt_zero k)

/-! ## C22: the declared register and its type -/

theorem writeMask_bits (registerToken : Nat) :
    writeMask registerToken = (registerToken >>> 16) &&& 0xF := by
  unfold writeMask D3DSP_WRITEMASK_ALL
  have e : (0x000F0000 : Nat) = 0xF <<< 16 := by decide
  rw [e, and_shiftLeft, shiftLeft_shiftRight_le _ 16 16 (by decide)]
  rfl

/-- A state that has the register map and the id table of a declared variable has the
register bound to the declared id, and the description of the write mask recorded for that
id. -/
theorem declared_lookup (registerToken : Nat) (s x : ShaderConverter) (d : TypeDescription)
    (storage : Nat) (q : ShaderConverter)
    (hq : q.mNextId = (s.mNextId + 1) % 4294967296)
    (hm : q.mIdsByRegister = (declareRegister registerToken s).mIdsByRegister)
    (hi : q.mIdTypePairs = (declareRegister registerToken s).mIdTypePairs)
    (hx : x.mIdsByRegister = (declareVariable d s.mNextId storage q).mIdsByRegister)
    (hy : x.mIdTypePairs = (declareVariable d s.mNextId storage q).mIdTypePairs) :
    findIdByRegister registerToken x = some s.mNextId ∧
      flat_map.find sameKey s.mNextId x.mIdTypePairs =
        some (declaredTypeDescription (writeMask registerToken)) := by
  obtain ⟨_, h2, h3, _⟩ := declareRegister_fields registerToken s
  constructor
  · refine findIdByRegister_bound registerToken registerToken s.mNextId s x ?_ rfl rfl
    rw [hx, (declareVariable_fields d s.mNextId storage q).2.2.1, hm, h2]
  · rw [hy]
    refine declareVariable_keeps_id d _ s.mNextId storage s.mNextId q hq ?_
    rw [hi]
    exact h3

theorem declareRegister_lookup (registerToken : Nat) (s : ShaderConverter) :
    findIdByRegister registerToken (declareRegister registerToken s) = some s.mNextId ∧
      flat_map.find sameKey s.mNextId (declareRegister registerToken s).mIdTypePairs =
        some (declaredTypeDescription (writeMask registerToken)) := by
  obtain ⟨_, h2, h3, _⟩ := declareRegister_fields registerToken s
  exact ⟨findIdByRegister_bound registerToken registerToken s.mNextId s _ h2 rfl rfl, h3⟩

theorem Process_DCL_Vertex_body_declares (token registerToken : Nat) (s r : ShaderConverter)
    (h : Process_DCL_Vertex_body token registerToken s = .ok r) :
    findIdByRegister registerToken r = some s.mNextId ∧
      flat_map.find sameKey s.mNextId r.mIdTypePairs =
        some (declaredTypeDescription (writeMask registerToken)) := by
  rw [Process_DCL_Vertex_body_eq] at h
  by_cases h1 : GetRegisterType registerToken = D3DSPR_INPUT
  · rw [if_pos h1] at h
    cases ha : s.mConvertedShader.addAttribute
        (declaredTypeDescription (writeMask registerToken)).ComponentCount with
    | none => rw [ha] at h; cases h
    | some c =>
      rw [ha] at h
      cases h
      exact declared_lookup registerToken s _ _ spv.StorageClassInput
        ((declareRegister registerToken s).pushInterfaceId s.mNextId) rfl rfl rfl rfl rfl
  · rw [if_neg h1] at h
    by_cases h2 : GetRegisterType registerToken = D3DSPR_OUTPUT
    · rw [if_pos h2] at h
      by_cases h3 : GetUsage token = D3DDECLUSAGE_POSITION
      · rw [if_pos h3] at h
        cases h
        exact declared_lookup registerToken s _ _ spv.StorageClassOutput
          (declareRegister registerToken s) rfl rfl rfl rfl rfl
      · rw [if_neg h3] at h
        cases h
        exact declared_lookup registerToken s _ _ spv.StorageClassOutput
          (declareRegister registerToken s) rfl rfl rfl rfl rfl
    · rw [if_neg h2] at h
      cases h
      exact declareRegister_lookup registerToken s

theorem Process_DCL_Pixel_body_declares (token registerToken : Nat) (s r : ShaderConverter)
    (h : Process_DCL_Pixel_body token registerToken s = .ok r) :
    findIdByRegister registerToken r = some s.mNextId ∧
      flat_map.find sameKey s.mNextId r.mIdTypePairs =
        some (declaredTypeDescription (writeMask registerToken)) := by
  rw [Process_DCL_Pixel_body_eq] at h
  by_cases h1 : GetRegisterType registerToken = D3DSPR_INPUT
  · rw [if_pos h1] at h
    cases h
    exact declared_lookup registerToken s _ _ spv.StorageClassInput
      (declareRegister registerToken s) rfl rfl rfl rfl rfl
  · rw [if_neg h1] at h
    by_cases h2 : GetRegisterType registerToken = D3DSPR_TEXTURE
    · rw [if_pos h2] at h
      cases h
      exact declared_lookup registerToken s _ _ spv.StorageClassImage
        (declareRegister registerToken s) rfl rfl rfl rfl rfl
    · rw [if_neg h2] at h
      by_cases h3 : GetRegisterType registerToken = D3DSPR_SAMPLER
      · rw [if_pos h3] at h
        cases ha : s.mConvertedShader.addBinding with
        | none => rw [ha] at h; cases h
        | some c =>
          rw [ha] at h
          cases h
          exact declared_lookup registerToken s _ _ spv.StorageClassUniform
            (declareRegister registerToken s) rfl rfl rfl rfl rfl
      · rw [if_neg h3] at h
        cases h
        exact declareRegister_lookup registerToken s

/-- C22: both declaration handlers derive the type of the declared register from the
write mask, bits 16 to 19 of the register token: mask 1 gives a pointer to a scalar float
with component count 1, mask 3 a pointer to a vector of floats with count 2, mask 7 count
3, mask `0xF` count 4.  When a handler returns, the id the allocator had ready is the
current id of the declared register and this description is recorded as its type, and both
handlers (and `Process_DCL`, which picks one) have read exactly two tokens. -/
theorem DCL_declares_type (token registerToken : Nat) (s : ShaderConverter) :
    writeMask registerToken = (registerToken >>> 16) &&& 0xF ∧
    declaredTypeDescription 1 =
      { PrimaryType := spv.OpTypePointer, SecondaryType := spv.OpTypeFloat
        TernaryType := spv.OpTypeVoid, ComponentCount := 1 } ∧
    declaredTypeDescription 3 =
      { PrimaryType := spv.OpTypePointer, SecondaryType := spv.OpTypeVector
        TernaryType := spv.OpTypeFloat, ComponentCount := 2 } ∧
    declaredTypeDescription 7 =
      { PrimaryType := spv.OpTypePointer, SecondaryType := spv.OpTypeVector
        TernaryType := spv.OpTypeFloat, ComponentCount := 3 } ∧
    declaredTypeDescription 0xF =
      { PrimaryType := spv.OpTypePointer, SecondaryType := spv.OpTypeVector
        TernaryType := spv.OpTypeFloat, ComponentCount := 4 } ∧
    (∀ r, Process_DCL_Vertex_body token registerToken s = .ok r →
      GetIdByRegister registerToken r = (s.mNextId, r) ∧
        flat_map.find sameKey s.mNextId r.mIdTypePairs =
          some (declaredTypeDescription (writeMask registerToken))) ∧
    (∀ r, Process_DCL_Pixel_body token registerToken s = .ok r →
      GetIdByRegister registerToken r = (s.mNextId, r) ∧
        flat_map.find sameKey s.mNextId r.mIdTypePairs =
          some (declaredTypeDescription (writeMask registerToken))) ∧
    (∀ shader r, Process_DCL_Vertex shader s = .ok r →
      s.mNextToken + 2 ≤ shader.length ∧ r.mNextToken = s.mNextToken + 2 ∧
        ∃ r0, Process_DCL_Vertex_body (shader.getD s.mNextToken 0)
            (shader.getD (s.mNextToken + 1) 0) s = .ok r0 ∧
          r = r0.withReader (s.mNextToken + 2) s.mTokenOffset) ∧
    (∀ shader r, Process_DCL_Pixel shader s = .ok r →
      s.mNextToken + 2 ≤ shader.length ∧ r.mNextToken = s.mNextToken + 2 ∧
        ∃ r0, Process_DCL_Pixel_body (shader.getD s.mNextToken 0)
            (shader.getD (s.mNextToken + 1) 0) s = .ok r0 ∧
          r = r0.withReader (s.mNextToken + 2) s.mTokenOffset) ∧
    (∀ shader r, Process_DCL shader s = .ok r →
      s.mNextToken + 2 ≤ shader.length ∧ r.mNextToken = s.mNextToken + 2) := by
  refine ⟨writeMask_bits registerToken, rfl, rfl, rfl, rfl, ?_, ?_, ?_, ?_, ?_⟩
  · intro r h
    obtain ⟨h1, h2⟩ := Process_DCL_Vertex_body_declares _ _ _ _ h
    exact ⟨GetIdByRegister_found _ _ _ h1, h2⟩
  · intro r h
    obtain ⟨h1, h2⟩ := Process_DCL_Pixel_body_declares _ _ _ _ h
    exact ⟨GetIdByRegister_found _ _ _ h1, h2⟩
  · intro shader r h
    rw [Process_DCL_Vertex_readThen] at h
    obtain ⟨h1, r0, h2, rfl⟩ := readThen_ok _ _ _ _ _ h
    exact ⟨h1, rfl, r0, h2, rfl⟩
  · intro shader r h
    rw [Process_DCL_Pixel_readThen] at h
    obtain ⟨h1, r0, h2, rfl⟩ := readThen_ok _ _ _ _ _ h
    exact ⟨h1, rfl, r0, h2, rfl⟩
  · intro shader r h
    rw [Process_DCL_readThen] at h
    obtain ⟨h1, r0, h2, rfl⟩ := readThen_ok _ _ _ _ _ h
    exact ⟨h1, rfl⟩

/-- The statement of C22 at the declaration `dcl_position v0` of the vertex shader
`exampleInputShader`, on a fresh converter placed after the instruction token. -/
theorem DCL_declares_type_witness :
    (Process_DCL_Vertex exampleInputShader
        ((ShaderConverter.fresh 1 4 4).withReader 2 1)).isOk = true ∧
      GetIdByRegister 0x900F0000
          (returned (Process_DCL_Vertex_body 0x80000000 0x900F0000
            ((ShaderConverter.fresh 1 4 4).withReader 2 1))) =
        (1, returned (Process_DCL_Vertex_body 0x80000000 0x900F0000
            ((ShaderConverter.fresh 1 4 4).withReader 2 1))) ∧
      (returned (Process_DCL_Vertex exampleInputShader
        ((ShaderConverter.fresh 1 4 4).withReader 2 1))).mNextToken = 4 :=
  ⟨by decide,
    ((DCL_declares_type 0x80000000 0x900F0000
      ((ShaderConverter.fresh 1 4 4).withReader 2 1)).2.2.2.2.2.1 _ (by decide)).1,
    ((DCL_declares_type 0x80000000 0x900F0000
      ((ShaderConverter.fresh 1 4 4).withReader 2 1)).2.2.2.2.2.2.2.1 exampleInputShader _
        (by decide)).2.1⟩

/-! ## C23: declarations of input registers in a vertex shader -/

theorem Process_DCL_Vertex_body_input (token registerToken : Nat) (s r : ShaderConverter)
    (hreg : GetRegisterType registerToken = D3DSPR_INPUT)
    (h : Process_DCL_Vertex_body token registerToken s = .ok r) :
    (∃ types pointer,
      r.mTypeInstructions = s.mTypeInstructions ++ types ++
        [Pack 4 spv.OpVariable, pointer, s.mNextId, spv.StorageClassInput] ∧
      flat_map.find TypeDescription.same (declaredTypeDescription (writeMask registerToken))
        r.mTypeIdPairs = some pointer) ∧
    r.mInterfaceIds = s.mInterfaceIds ++ [s.mNextId] ∧
    r.mFunctionDefinitionInstructions = s.mFunctionDefinitionInstructions ∧
    s.mConvertedShader.addAttribute
      (declaredTypeDescription (writeMask registerToken)).ComponentCount =
        some r.mConvertedShader := by
  rw [Process_DCL_Vertex_body_eq, if_pos hreg] at h
  cases ha : s.mConvertedShader.addAttribute
      (declaredTypeDescription (writeMask registerToken)).ComponentCount with
  | none => rw [ha] at h; cases h
  | some c =>
    rw [ha] at h
    cases h
    obtain ⟨⟨types, h1⟩, h2, _, h4, _, h6, _⟩ :=
      declareVariable_fields (declaredTypeDescription (writeMask registerToken)) s.mNextId
        spv.StorageClassInput ((declareRegister registerToken s).pushInterfaceId s.mNextId)
    exact ⟨⟨types, _, h1, h2⟩, h6, h4, rfl⟩

/-- C23: a declaration of an input register in a vertex shader appends, after the type
declarations it needs, one `OpVariable` with storage class Input to the type section,
appends the id of the variable to the interface ids, and writes one attribute entry with
binding 0, offset 0, location the number of entries written before it, and the format
R32, R32G32, R32G32B32 or R32G32B32A32 SFLOAT for the component count 1, 2, 3 or 4.  When
`Convert` returns, the attribute count is the number of such declarations the loop
processed, and the entry `k` below the count has location `k`.  On the vertex shader with
the one declaration `dcl_position v0`, write mask `0xF`, there is one entry, with binding
0, location 0 and the format R32G32B32A32 SFLOAT. -/
theorem vertex_input_declaration (host : Host) (shader : List Nat) (s : ShaderConverter)
    (out : ConvertedShader × ShaderConverter) (h : Convert host shader s = .ok out) :
    (∀ token registerToken q r, GetRegisterType registerToken = D3DSPR_INPUT →
      Process_DCL_Vertex_body token registerToken q = .ok r →
      (∃ types pointer,
        r.mTypeInstructions = q.mTypeInstructions ++ types ++
          [Pack 4 spv.OpVariable, pointer, q.mNextId, spv.StorageClassInput] ∧
        flat_map.find TypeDescription.same (declaredTypeDescription (writeMask registerToken))
          r.mTypeIdPairs = some pointer) ∧
      r.mInterfaceIds = q.mInterfaceIds ++ [q.mNextId] ∧
      ∃ old,
        q.mConvertedShader.mVertexInputAttributeDescription[
          q.mConvertedShader.mVertexInputAttributeDescriptionCount]? = some old ∧
        r.mConvertedShader.mVertexInputAttributeDescription =
          q.mConvertedShader.mVertexInputAttributeDescription.set
            q.mConvertedShader.mVertexInputAttributeDescriptionCount
            { location := q.mConvertedShader.mVertexInputAttributeDescriptionCount
              binding := 0
              format := attributeFormat
                (declaredTypeDescription (writeMask registerToken)).ComponentCount old.format
              offset := 0 } ∧
        r.mConvertedShader.mVertexInputAttributeDescriptionCount =
          q.mConvertedShader.mVertexInputAttributeDescriptionCount + 1) ∧
    (∀ old, attributeFormat 1 old = VK_FORMAT_R32_SFLOAT ∧
      attributeFormat 2 old = VK_FORMAT_R32G32_SFLOAT ∧
      attributeFormat 3 old = VK_FORMAT_R32G32B32_SFLOAT ∧
      attributeFormat 4 old = VK_FORMAT_R32G32B32A32_SFLOAT) ∧
    (∃ b, Convert_begin shader s = .ok b ∧
      out.1.mVertexInputAttributeDescriptionCount =
        vertexInputDeclarations shader shader.length b.1 b.2 ∧
      ∀ k, k < out.1.mVertexInputAttributeDescriptionCount →
        ∃ entry, out.1.mVertexInputAttributeDescription[k]? = some entry ∧
          entry.binding = 0 ∧ entry.offset = 0 ∧ entry.location = k) ∧
    (returned (Convert exampleHost exampleInputShader
      (ShaderConverter.fresh 1 4 4))).1.mVertexInputAttributeDescriptionCount = 1 ∧
    (returned (Convert exampleHost exampleInputShader
      (ShaderConverter.fresh 1 4 4))).1.mVertexInputAttributeDescription[0]? =
        some { location := 0, binding := 0, format := VK_FORMAT_R32G32B32A32_SFLOAT,
               offset := 0 } := by
  refine ⟨?_, fun old => ⟨rfl, rfl, rfl, rfl⟩, Convert_attributes host shader s out h,
    by decide!, by decide!⟩
  intro token registerToken q r hreg hb
  obtain ⟨h1, h2, _, h4⟩ := Process_DCL_Vertex_body_input token registerToken q r hreg hb
  obtain ⟨old, ho, hr⟩ := addAttribute_some _ _ _ h4
  refine ⟨h1, h2, old, ho, ?_, ?_⟩
  · rw [hr]
  · rw [hr]

/-- The hypothesis of C23 holds on the vertex shader with the one declaration
`dcl_position v0`: `Convert` returns, and the loop processes one declaration of an input
register. -/
theorem vertex_input_declaration_witness :
    (Convert exampleHost exampleInputShader (ShaderConverter.fresh 1 4 4)).isOk = true ∧
    vertexInputDeclarations exampleInputShader exampleInputShader.length
      (returned (Convert_begin exampleInputShader (ShaderConverter.fresh 1 4 4))).1
      (returned (Convert_begin exampleInputShader (ShaderConverter.fresh 1 4 4))).2 = 1 ∧
    ∃ b, Convert_begin exampleInputShader (ShaderConverter.fresh 1 4 4) = .ok b ∧
      (returned (Convert exampleHost exampleInputShader
        (ShaderConverter.fresh 1 4 4))).1.mVertexInputAttributeDescriptionCount =
        vertexInputDeclarations exampleInputShader exampleInputShader.length b.1 b.2 ∧
      ∀ k, k < (returned (Convert exampleHost exampleInputShader
          (ShaderConverter.fresh 1 4 4))).1.mVertexInputAttributeDescriptionCount →
        ∃ entry, (returned (Convert exampleHost exampleInputShader
            (ShaderConverter.fresh 1 4 4))).1.mVertexInputAttributeDescription[k]? =
            some entry ∧
          entry.binding = 0 ∧ entry.offset = 0 ∧ entry.location = k :=
  ⟨by decide!, by decide!,
    (vertex_input_declaration exampleHost exampleInputShader (ShaderConverter.fresh 1 4 4)
      (returned (Convert exampleHost exampleInputShader (ShaderConverter.fresh 1 4 4)))
      (by decide!)).2.2.1⟩

/-! ## C24: declarations of samplers in a pixel shader -/

theorem addBinding_some (c r : ConvertedShader) (h : c.addBinding = some r) :
    c.mDescriptorSetLayoutBindingCount < c.mDescriptorSetLayoutBinding.length ∧
    r = { c with
      mDescriptorSetLayoutBinding :=
        c.mDescriptorSetLayoutBinding.set c.mDescriptorSetLayoutBindingCount
          { binding := c.mDescriptorSetLayoutBindingCount
            descriptorType := VK_DESCRIPTOR_TYPE_COMBINED_IMAGE_SAMPLER
            descriptorCount := 1
            stageFlags := VK_SHADER_STAGE_FRAGMENT_BIT
            pImmutableSamplers := 0 }
      mDescriptorSetLayoutBindingCount := c.mDescriptorSetLayoutBindingCount + 1 } := by
  unfold ConvertedShader.addBinding at h
  split_ifs at h with hlt
  injection h with h
  exact ⟨hlt, h.symm⟩

theorem Process_DCL_Pixel_body_sampler (token registerToken : Nat) (s r : ShaderConverter)
    (hreg : GetRegisterType registerToken = D3DSPR_SAMPLER)
    (h : Process_DCL_Pixel_body token registerToken s = .ok r) :
    (∃ types pointer,
      r.mTypeInstructions = s.mTypeInstructions ++ types ++
        [Pack 4 spv.OpVariable, pointer, s.mNextId, spv.StorageClassUniform] ∧
      flat_map.find TypeDescription.same
        { PrimaryType := spv.OpTypePointer, SecondaryType := spv.OpTypeSampler }
        r.mTypeIdPairs = some pointer) ∧
    r.mFunctionDefinitionInstructions = s.mFunctionDefinitionInstructions ∧
    s.mConvertedShader.addBinding = some r.mConvertedShader := by
  have h1 : GetRegisterType registerToken ≠ D3DSPR_INPUT := by rw [hreg]; decide
  have h2 : GetRegisterType registerToken ≠ D3DSPR_TEXTURE := by rw [hreg]; decide
  rw [Process_DCL_Pixel_body_eq, if_neg h1, if_neg h2, if_pos hreg] at h
  cases ha : s.mConvertedShader.addBinding with
  | none => rw [ha] at h; cases h
  | some c =>
    rw [ha] at h
    cases h
    obtain ⟨⟨types, h1⟩, h2, _, h4, _, _, _⟩ :=
      declareVariable_fields
        { PrimaryType := spv.OpTypePointer, SecondaryType := spv.OpTypeSampler } s.mNextId
        spv.StorageClassUniform (declareRegister registerToken s)
    exact ⟨⟨types, _, h1, h2⟩, h4, rfl⟩

/-- C24: a declaration of a sampler register in a pixel shader appends, after the type
declarations it needs, one four-word `OpVariable` whose result type is the pointer to
Sampler and whose storage class is Uniform, and writes one descriptor-set binding with
the binding number equal to the number of bindings written before it, the descriptor type
combined image sampler, the descriptor count 1 and the stage Fragment.  On the pixel
shader with the single declaration `dcl_2d s0`, `Convert` returns exactly one binding,
with binding number 0. -/
theorem pixel_sampler_declaration (token registerToken : Nat) (s r : ShaderConverter)
    (hreg : GetRegisterType registerToken = D3DSPR_SAMPLER)
    (h : Process_DCL_Pixel_body token registerToken s = .ok r) :
    (∃ types pointer,
      r.mTypeInstructions = s.mTypeInstructions ++ types ++
        [Pack 4 spv.OpVariable, pointer, s.mNextId, spv.StorageClassUniform] ∧
      Framed [Pack 4 spv.OpVariable, pointer, s.mNextId, spv.StorageClassUniform] ∧
      flat_map.find TypeDescription.same
        { PrimaryType := spv.OpTypePointer, SecondaryType := spv.OpTypeSampler }
        r.mTypeIdPairs = some pointer) ∧
    r.mFunctionDefinitionInstructions = s.mFunctionDefinitionInstructions ∧
    s.mConvertedShader.mDescriptorSetLayoutBindingCount <
      s.mConvertedShader.mDescriptorSetLayoutBinding.length ∧
    r.mConvertedShader.mDescriptorSetLayoutBinding =
      s.mConvertedShader.mDescriptorSetLayoutBinding.set
        s.mConvertedShader.mDescriptorSetLayoutBindingCount
        { binding := s.mConvertedShader.mDescriptorSetLayoutBindingCount
          descriptorType := VK_DESCRIPTOR_TYPE_COMBINED_IMAGE_SAMPLER
          descriptorCount := 1
          stageFlags := VK_SHADER_STAGE_FRAGMENT_BIT
          pImmutableSamplers := 0 } ∧
    r.mConvertedShader.mDescriptorSetLayoutBindingCount =
      s.mConvertedShader.mDescriptorSetLayoutBindingCount + 1 ∧
    (returned (Convert exampleHost exampleSamplerShader
      (ShaderConverter.fresh 1 4 4))).1.mDescriptorSetLayoutBindingCount = 1 ∧
    (returned (Convert exampleHost exampleSamplerShader
      (ShaderConverter.fresh 1 4 4))).1.mDescriptorSetLayoutBinding =
      [{ binding := 0, descriptorType := VK_DESCRIPTOR_TYPE_COMBINED_IMAGE_SAMPLER
         descriptorCount := 1, stageFlags := VK_SHADER_STAGE_FRAGMENT_BIT
         pImmutableSamplers := 0 }, {}, {}, {}] := by
  obtain ⟨⟨types, pointer, h1, h2⟩, h3, h4⟩ :=
    Process_DCL_Pixel_body_sampler token registerToken s r hreg h
  obtain ⟨h5, h6⟩ := addBinding_some _ _ h4
  refine ⟨⟨types, pointer, h1, ?_, h2⟩, h3, h5, ?_, ?_, by decide!, by decide!⟩
  · show declaredWordCount (Pack 4 spv.OpVariable) = 4
    decide
  · rw [h6]
  · rw [h6]

/-- The hypotheses of C24 hold for `dcl_2d s0` on a fresh pixel-shader converter. -/
theorem pixel_sampler_declaration_witness :
    (returned (Process_DCL_Pixel_body 0x90000000 0xA00F0800
        (ShaderConverter.fresh 1 4 4))).mFunctionDefinitionInstructions =
      (ShaderConverter.fresh 1 4 4).mFunctionDefinitionInstructions ∧
    (returned (Process_DCL_Pixel_body 0x90000000 0xA00F0800
        (ShaderConverter.fresh 1 4 4))).mConvertedShader.mDescriptorSetLayoutBindingCount =
      (ShaderConverter.fresh 1 4 4).mConvertedShader.mDescriptorSetLayoutBindingCount + 1 :=
  ⟨(pixel_sampler_declaration 0x90000000 0xA00F0800 (ShaderConverter.fresh 1 4 4)
      (returned (Process_DCL_Pixel_body 0x90000000 0xA00F0800 (ShaderConverter.fresh 1 4 4)))
      (by decide) (by decide)).2.1,
    (pixel_sampler_declaration 0x90000000 0xA00F0800 (ShaderConverter.fresh 1 4 4)
      (returned (Process_DCL_Pixel_body 0x90000000 0xA00F0800 (ShaderConverter.fresh 1 4 4)))
      (by decide) (by decide)).2.2.2.2.1⟩

/-! ## C25: the stage of a binding -/

theorem Process_DCL_body (shader : List Nat) (s r : ShaderConverter)
    (h : Process_DCL shader s = .ok r) :
    s.mNextToken + 2 ≤ shader.length ∧
      ∃ r0, (if s.mIsVertexShader then
            Process_DCL_Vertex_body (shader.getD s.mNextToken 0)
              (shader.getD (s.mNextToken + 1) 0) s
          else
            Process_DCL_Pixel_body (shader.getD s.mNextToken 0)
              (shader.getD (s.mNextToken + 1) 0) s) = .ok r0 ∧
        r = r0.withReader (s.mNextToken + 2) s.mTokenOffset := by
  rw [Process_DCL_readThen] at h
  obtain ⟨h1, r0, h2, rfl⟩ := readThen_ok _ _ _ _ _ h
  exact ⟨h1, r0, h2, rfl⟩

/-- The vertex handler on a register that is neither an input nor an output: only the
register map, the id table and the id counter change. -/
theorem Process_DCL_Vertex_body_unsupported (token registerToken : Nat) (s : ShaderConverter)
    (h1 : GetRegisterType registerToken ≠ D3DSPR_INPUT)
    (h2 : GetRegisterType registerToken ≠ D3DSPR_OUTPUT) :
    Process_DCL_Vertex_body token registerToken s = .ok (declareRegister registerToken s) := by
  rw [Process_DCL_Vertex_body_eq, if_neg h1, if_neg h2]

theorem Process_DCL_Pixel_body_unsupported (token registerToken : Nat) (s : ShaderConverter)
    (h1 : GetRegisterType registerToken ≠ D3DSPR_INPUT)
    (h2 : GetRegisterType registerToken ≠ D3DSPR_TEXTURE)
    (h3 : GetRegisterType registerToken ≠ D3DSPR_SAMPLER) :
    Process_DCL_Pixel_body token registerToken s = .ok (declareRegister registerToken s) := by
  rw [Process_DCL_Pixel_body_eq, if_neg h1, if_neg h2, if_neg h3]

/-- C25, counterexample: the vertex shader with the one declaration `dcl_2d s0` is
converted, and the sidecar has no binding: the count is 0 and every entry of the array is
as it was cleared. -/
theorem vertex_sampler_appends_no_binding :
    (Convert exampleHost exampleVertexSamplerShader (ShaderConverter.fresh 1 4 4)).isOk = true ∧
    GetRegisterType 0xA00F0800 = D3DSPR_SAMPLER ∧
    (returned (Convert exampleHost exampleVertexSamplerShader
      (ShaderConverter.fresh 1 4 4))).2.mIsVertexShader = true ∧
    (returned (Convert exampleHost exampleVertexSamplerShader
      (ShaderConverter.fresh 1 4 4))).1.mDescriptorSetLayoutBindingCount = 0 ∧
    (returned (Convert exampleHost exampleVertexSamplerShader
      (ShaderConverter.fresh 1 4 4))).1.mDescriptorSetLayoutBinding = [{}, {}, {}, {}] := by
  decide!

/-- C25, as the code has it: a declaration of a sampler register that `Process_DCL`
processes in a pixel shader writes one descriptor-set binding (combined image sampler,
count 1, the running binding index) whose stage flag is Fragment; in a vertex shader it
writes no binding and leaves the sidecar and every section as they were.  In both cases
two tokens are read. -/
theorem DCL_sampler_stage (shader : List Nat) (s r : ShaderConverter)
    (hreg : GetRegisterType (shader.getD (s.mNextToken + 1) 0) = D3DSPR_SAMPLER)
    (h : Process_DCL shader s = .ok r) :
    r.mNextToken = s.mNextToken + 2 ∧
    (s.mIsVertexShader = false →
      r.mConvertedShader.mDescriptorSetLayoutBinding =
        s.mConvertedShader.mDescriptorSetLayoutBinding.set
          s.mConvertedShader.mDescriptorSetLayoutBindingCount
          { binding := s.mConvertedShader.mDescriptorSetLayoutBindingCount
            descriptorType := VK_DESCRIPTOR_TYPE_COMBINED_IMAGE_SAMPLER
            descriptorCount := 1
            stageFlags := VK_SHADER_STAGE_FRAGMENT_BIT
            pImmutableSamplers := 0 } ∧
      r.mConvertedShader.mDescriptorSetLayoutBindingCount =
        s.mConvertedShader.mDescriptorSetLayoutBindingCount + 1) ∧
    (s.mIsVertexShader = true →
      r.mConvertedShader = s.mConvertedShader ∧ specSectionOrder r = specSectionOrder s) := by
  obtain ⟨_, r0, hb, rfl⟩ := Process_DCL_body shader s r h
  refine ⟨rfl, ?_, ?_⟩
  · intro hv
    rw [hv] at hb
    have hb2 : Process_DCL_Pixel_body (shader.getD s.mNextToken 0)
        (shader.getD (s.mNextToken + 1) 0) s = .ok r0 := hb
    obtain ⟨_, _, h4⟩ := Process_DCL_Pixel_body_sampler _ _ s r0 hreg hb2
    obtain ⟨_, h6⟩ := addBinding_some _ _ h4
    constructor
    · show r0.mConvertedShader.mDescriptorSetLayoutBinding = _
      rw [h6]
    · show r0.mConvertedShader.mDescriptorSetLayoutBindingCount = _
      rw [h6]
  · intro hv
    rw [hv, if_pos rfl, Process_DCL_Vertex_body_unsupported _ _ _ (by rw [hreg]; decide)
      (by rw [hreg]; decide)] at hb
    cases hb
    exact ⟨rfl, rfl⟩

/-- The hypotheses of the amended C25 hold for `dcl_2d s0` in a pixel shader. -/
theorem DCL_sampler_stage_witness :
    (returned (Process_DCL exampleSamplerShader
      ((ShaderConverter.fresh 1 4 4).withReader 2 1))).mNextToken = 4 :=
  (DCL_sampler_stage exampleSamplerShader ((ShaderConverter.fresh 1 4 4).withReader 2 1)
    (returned (Process_DCL exampleSamplerShader ((ShaderConverter.fresh 1 4 4).withReader 2 1)))
    (by decide) (by decide)).1

/-! ## C26: declarations the handlers do not support -/

/-- C26, counterexample: the declaration of `v0` with the write mask 5, which is none of
1, 3, 7 and `0xF`, in a vertex shader: the handler returns, and the type section, empty
before, holds the declarations of a float, of a vector of 0 floats and of a pointer to it,
and an `OpVariable`. -/
theorem unsupported_mask_still_declares :
    writeMask 0x90050000 = 5 ∧
    (ShaderConverter.fresh 1 4 4).mTypeInstructions = [] ∧
    (Process_DCL_Vertex_body 0x80000000 0x90050000 (ShaderConverter.fresh 1 4 4)).isOk = true ∧
    (returned (Process_DCL_Vertex_body 0x80000000 0x90050000
      (ShaderConverter.fresh 1 4 4))).mTypeInstructions =
      [Pack 3 spv.OpTypeFloat, 4, 32, Pack 4 spv.OpTypeVector, 3, 4, 0,
        Pack 4 spv.OpTypePointer, 2, spv.StorageClassInput, 3,
        Pack 4 spv.OpVariable, 2, 1, spv.StorageClassInput] := by
  decide

/-- C26, as the code has it: a declaration whose register type the handler of the shader
kind does not support (in a vertex shader neither input nor output, in a pixel shader
none of input, texture and sampler) contributes no SPIR-V, whatever its write mask: when
`Process_DCL` returns, every section buffer, the module buffer and the sidecar hold what
they held before, and the reader is after the two operand tokens of the declaration. -/
theorem DCL_unsupported_register (shader : List Nat) (s r : ShaderConverter)
    (hreg : if s.mIsVertexShader then
        GetRegisterType (shader.getD (s.mNextToken + 1) 0) ≠ D3DSPR_INPUT ∧
          GetRegisterType (shader.getD (s.mNextToken + 1) 0) ≠ D3DSPR_OUTPUT
      else
        GetRegisterType (shader.getD (s.mNextToken + 1) 0) ≠ D3DSPR_INPUT ∧
          GetRegisterType (shader.getD (s.mNextToken + 1) 0) ≠ D3DSPR_TEXTURE ∧
          GetRegisterType (shader.getD (s.mNextToken + 1) 0) ≠ D3DSPR_SAMPLER)
    (h : Process_DCL shader s = .ok r) :
    specSectionOrder r = specSectionOrder s ∧ r.mInstructions = s.mInstructions ∧
      r.mConvertedShader = s.mConvertedShader ∧ r.mInterfaceIds = s.mInterfaceIds ∧
      s.mNextToken + 2 ≤ shader.length ∧ r.mNextToken = s.mNextToken + 2 := by
  obtain ⟨hlen, r0, hb, rfl⟩ := Process_DCL_body shader s r h
  by_cases hv : s.mIsVertexShader = true
  · rw [if_pos hv] at hreg hb
    rw [Process_DCL_Vertex_body_unsupported _ _ _ hreg.1 hreg.2] at hb
    cases hb
    exact ⟨rfl, rfl, rfl, rfl, hlen, rfl⟩
  · rw [if_neg hv] at hreg hb
    rw [Process_DCL_Pixel_body_unsupported _ _ _ hreg.1 hreg.2.1 hreg.2.2] at hb
    cases hb
    exact ⟨rfl, rfl, rfl, rfl, hlen, rfl⟩

/-- The hypotheses of the amended C26 hold for `dcl_2d s0` in a vertex shader. -/
theorem DCL_unsupported_register_witness :
    specSectionOrder (returned (Process_DCL exampleVertexSamplerShader
        (((ShaderConverter.fresh 1 4 4).setIsVertexShader true).withReader 2 1))) =
      specSectionOrder (((ShaderConverter.fresh 1 4 4).setIsVertexShader true).withReader 2 1) :=
  (DCL_unsupported_register exampleVertexSamplerShader
    (((ShaderConverter.fresh 1 4 4).setIsVertexShader true).withReader 2 1)
    (returned (Process_DCL exampleVertexSamplerShader
      (((ShaderConverter.fresh 1 4 4).setIsVertexShader true).withReader 2 1)))
    (by decide) (by decide)).1

/-! ## C27: the definitions of constant vectors -/

/-- A call of `GetSpirVTypeId` moves the id counter by at most four. -/
theorem GetSpirVTypeId_next (d : TypeDescription) (s : ShaderConverter)
    (hs : s.mNextId < 4294967296) :
    ∃ k, k ≤ 4 ∧ (GetSpirVTypeId d s).2.mNextId = (s.mNextId + k) % 4294967296 := by
  rcases GetSpirVTypeIdFuel_counter 4 d s with h | ⟨k, _, hk, h⟩
  · exact ⟨0, by omega, by rw [GetSpirVTypeId, h, Nat.add_zero, Nat.mod_eq_of_lt hs]⟩
  · exact ⟨k, hk, h⟩

theorem setIdType_mTypeInstructions (s : ShaderConverter) (i : Nat) (d : TypeDescription) :
    (s.setIdType i d).mTypeInstructions = s.mTypeInstructions := rfl

theorem setIdType_mTypeIdPairs (s : ShaderConverter) (i : Nat) (d : TypeDescription) :
    (s.setIdType i d).mTypeIdPairs = s.mTypeIdPairs := rfl

theorem setIdType_mIdsByRegister (s : ShaderConverter) (i : Nat) (d : TypeDescription) :
    (s.setIdType i d).mIdsByRegister = s.mIdsByRegister := rfl

theorem setIdType_mFunctionDefinitionInstructions (s : ShaderConverter) (i : Nat)
    (d : TypeDescription) :
    (s.setIdType i d).mFunctionDefinitionInstructions = s.mFunctionDefinitionInstructions :=
  rfl

/-- The members of the state after `defineVector_body`, from the state after its two
lookups of types. -/
theorem defineVector_body_fields (ct token l0 l1 l2 l3 : Nat) (s : ShaderConverter)
    (vector : Nat × ShaderConverter) (component : Nat × ShaderConverter)
    (hv : GetSpirVTypeId
      { PrimaryType := spv.OpTypeVector, SecondaryType := ct, ComponentCount := 4 }
      (GetNextVersionId token s).2 = vector)
    (hc : GetSpirVTypeId { PrimaryType := ct } vector.2 = component) :
    (defineVector_body ct token l0 l1 l2 l3 s).mTypeInstructions =
      component.2.mTypeInstructions ++
        ([Pack 4 spv.OpConstant, component.1, component.2.mNextId, l0] ++
          [Pack 4 spv.OpConstant, component.1, (component.2.mNextId + 1) % 4294967296, l1] ++
          [Pack 4 spv.OpConstant, component.1,
            ((component.2.mNextId + 1) % 4294967296 + 1) % 4294967296, l2] ++
          [Pack 4 spv.OpConstant, component.1,
            (((component.2.mNextId + 1) % 4294967296 + 1) % 4294967296 + 1) % 4294967296,
            l3] ++
          [Pack 7 spv.OpConstantComposite, vector.1, s.mNextId, component.2.mNextId,
            (component.2.mNextId + 1) % 4294967296,
            ((component.2.mNextId + 1) % 4294967296 + 1) % 4294967296,
            (((component.2.mNextId + 1) % 4294967296 + 1) % 4294967296 + 1) %
              4294967296]) ∧
    (defineVector_body ct token l0 l1 l2 l3 s).mTypeIdPairs = component.2.mTypeIdPairs ∧
    (defineVector_body ct token l0 l1 l2 l3 s).mIdsByRegister = component.2.mIdsByRegister ∧
    (defineVector_body ct token l0 l1 l2 l3 s).mFunctionDefinitionInstructions =
      component.2.mFunctionDefinitionInstructions ∧
    (defineVector_body ct token l0 l1 l2 l3 s).mNextId =
      ((((component.2.mNextId + 1) % 4294967296 + 1) % 4294967296 + 1) % 4294967296 + 1) %
        4294967296 := by
  have hc2 : GetSpirVTypeId_Op ct vector.2 = component := hc
  have hn : (GetNextVersionId token s).1 = s.mNextId := rfl
  unfold defineVector_body
  simp only [hv, hc2, hn, pushType_mTypeInstructions, GetNextId_snd_mTypeInstructions,
    setIdType_mTypeInstructions, pushType_mNextId, GetNextId_snd_mNextId, setIdType_mNextId,
    GetNextId_fst, pushType_mTypeIdPairs, GetNextId_snd_mTypeIdPairs, setIdType_mTypeIdPairs,
    pushType_mIdsByRegister, GetNextId_snd_mIdsByRegister, setIdType_mIdsByRegister,
    pushType_mFunctionDefinitionInstructions, GetNextId_snd_mFunctionDefinitionInstructions,
    setIdType_mFunctionDefinitionInstructions, List.append_assoc, and_self]

/-- What `defineVector_body` leaves behind. -/
theorem defineVector_body_words (ct token l0 l1 l2 l3 : Nat) (s : ShaderConverter) :
    ∃ types vector component c0 c1 c2 c3,
      (defineVector_body ct token l0 l1 l2 l3 s).mTypeInstructions =
        s.mTypeInstructions ++ types ++
          ([Pack 4 spv.OpConstant, component, c0, l0] ++
            [Pack 4 spv.OpConstant, component, c1, l1] ++
            [Pack 4 spv.OpConstant, component, c2, l2] ++
            [Pack 4 spv.OpConstant, component, c3, l3] ++
            [Pack 7 spv.OpConstantComposite, vector, s.mNextId, c0, c1, c2, c3]) ∧
      flat_map.find TypeDescription.same
        { PrimaryType := spv.OpTypeVector, SecondaryType := ct, ComponentCount := 4 }
        (defineVector_body ct token l0 l1 l2 l3 s).mTypeIdPairs = some vector ∧
      flat_map.find TypeDescription.same { PrimaryType := ct }
        (defineVector_body ct token l0 l1 l2 l3 s).mTypeIdPairs = some component ∧
      findIdByRegister token (defineVector_body ct token l0 l1 l2 l3 s) = some s.mNextId ∧
      (defineVector_body ct token l0 l1 l2 l3 s).mFunctionDefinitionInstructions =
        s.mFunctionDefinitionInstructions ∧
      (∃ k, 1 ≤ k ∧ k ≤ 9 ∧ c0 = (s.mNextId + k) % 4294967296) ∧
      c1 = (c0 + 1) % 4294967296 ∧ c2 = (c1 + 1) % 4294967296 ∧
      c3 = (c2 + 1) % 4294967296 ∧
      (defineVector_body ct token l0 l1 l2 l3 s).mNextId = (c3 + 1) % 4294967296 := by
  obtain ⟨f1, _, f3, w1, f4⟩ := GetSpirVTypeIdFuel_frame 4
    { PrimaryType := spv.OpTypeVector, SecondaryType := ct, ComponentCount := 4 }
    (GetNextVersionId token s).2
  obtain ⟨g1, _, g3, w2, g4⟩ := GetSpirVTypeIdFuel_frame 4 { PrimaryType := ct }
    (GetSpirVTypeId
      { PrimaryType := spv.OpTypeVector, SecondaryType := ct, ComponentCount := 4 }
      (GetNextVersionId token s).2).2
  have hq : (GetNextVersionId token s).2.mNextId < 4294967296 := Nat.mod_lt _ (by decide)
  obtain ⟨k1, hk1, e1⟩ := GetSpirVTypeId_next
    { PrimaryType := spv.OpTypeVector, SecondaryType := ct, ComponentCount := 4 }
    (GetNextVersionId token s).2 hq
  have hq2 : (GetSpirVTypeId
      { PrimaryType := spv.OpTypeVector, SecondaryType := ct, ComponentCount := 4 }
      (GetNextVersionId token s).2).2.mNextId < 4294967296 := by
    rw [e1]
    exact Nat.mod_lt _ (by decide)
  obtain ⟨k2, hk2, e2⟩ := GetSpirVTypeId_next { PrimaryType := ct }
    (GetSpirVTypeId
      { PrimaryType := spv.OpTypeVector, SecondaryType := ct, ComponentCount := 4 }
      (GetNextVersionId token s).2).2 hq2
  have hreg := GetSpirVTypeId_registered
    { PrimaryType := spv.OpTypeVector, SecondaryType := ct, ComponentCount := 4 }
    (GetNextVersionId token s).2
  have hkeep := GetSpirVTypeIdFuel_keeps 4 { PrimaryType := ct } _ _ _ hreg
  have hreg2 := GetSpirVTypeId_registered { PrimaryType := ct }
    (GetSpirVTypeId
      { PrimaryType := spv.OpTypeVector, SecondaryType := ct, ComponentCount := 4 }
      (GetNextVersionId token s).2).2
  have g1b : (GetSpirVTypeId { PrimaryType := ct }
    (GetSpirVTypeId
      { PrimaryType := spv.OpTypeVector, SecondaryType := ct, ComponentCount := 4 }
      (GetNextVersionId token s).2).2).2.mIdsByRegister =
      flat_map.set2 (GetRegisterType token) (registerKey token) s.mNextId s.mIdsByRegister := by
    show (GetSpirVTypeIdFuel 4 _ _).2.mIdsByRegister = _
    rw [g1]
    show (GetSpirVTypeIdFuel 4 _ _).2.mIdsByRegister = _
    rw [f1]
    rfl
  have g3b : (GetSpirVTypeId { PrimaryType := ct }
    (GetSpirVTypeId
      { PrimaryType := spv.OpTypeVector, SecondaryType := ct, ComponentCount := 4 }
      (GetNextVersionId token s).2).2).2.mFunctionDefinitionInstructions =
      s.mFunctionDefinitionInstructions := by
    show (GetSpirVTypeIdFuel 4 _ _).2.mFunctionDefinitionInstructions = _
    rw [g3]
    show (GetSpirVTypeIdFuel 4 _ _).2.mFunctionDefinitionInstructions = _
    rw [f3]
    rfl
  have g4b : (GetSpirVTypeId { PrimaryType := ct }
    (GetSpirVTypeId
      { PrimaryType := spv.OpTypeVector, SecondaryType := ct, ComponentCount := 4 }
      (GetNextVersionId token s).2).2).2.mTypeInstructions =
      s.mTypeInstructions ++ (w1 ++ w2) := by
    show (GetSpirVTypeIdFuel 4 _ _).2.mTypeInstructions = _
    rw [g4]
    show (GetSpirVTypeIdFuel 4 _ _).2.mTypeInstructions ++ _ = _
    rw [f4, List.append_assoc]
    rfl
  have e3 : (GetSpirVTypeId { PrimaryType := ct }
    (GetSpirVTypeId
      { PrimaryType := spv.OpTypeVector, SecondaryType := ct, ComponentCount := 4 }
      (GetNextVersionId token s).2).2).2.mNextId =
      (s.mNextId + (1 + k1 + k2)) % 4294967296 := by
    rw [e2, e1]
    show (((s.mNextId + 1) % 4294967296 + k1) % 4294967296 + k2) % 4294967296 = _
    omega
  generalize hv : GetSpirVTypeId
      { PrimaryType := spv.OpTypeVector, SecondaryType := ct, ComponentCount := 4 }
      (GetNextVersionId token s).2 = vector at hkeep hreg2 g1b g3b g4b e3
  generalize hc : GetSpirVTypeId { PrimaryType := ct } vector.2 = component
    at hkeep hreg2 g1b g3b g4b e3
  have hkeep2 : flat_map.find TypeDescription.same
      { PrimaryType := spv.OpTypeVector, SecondaryType := ct, ComponentCount := 4 }
      component.2.mTypeIdPairs = some vector.1 := by
    rw [← hc]
    exact hkeep
  obtain ⟨r1, r2, r3, r4, r5⟩ := defineVector_body_fields ct token l0 l1 l2 l3 s vector
    component hv hc
  refine ⟨w1 ++ w2, vector.1, component.1, component.2.mNextId, _, _, _, ?_, ?_, ?_, ?_, ?_,
    ⟨1 + k1 + k2, by omega, by omega, e3⟩, rfl, rfl, rfl, r5⟩
  · rw [r1, g4b]
  · rw [r2]
    exact hkeep2
  · rw [r2]
    exact hreg2
  · exact findIdByRegister_bound token token s.mNextId s _ (r3.trans g1b) rfl rfl
  · rw [r4]
    exact g3b

/-- C27: `Process_DEF` reads exactly five tokens, the destination and then four literal
words, and appends to the type section, after the type declarations it needs, four
four-word `OpConstant` instructions of type Float whose literals are the four words in
the order of the stream and whose result ids are four fresh ids, then one seven-word
`OpConstantComposite` of the type vector of four floats whose constituents are those four
ids in order and whose result id is the new current id of the destination register.
`Process_DEFI` is the same text with Int for Float.  On `def c0, 1.0, 0.0, 0.0, 1.0` with
a fresh converter the constants get the ids 4 to 7 and the composite the id 1. -/
theorem defineVector_constants (componentType : Nat) (shader : List Nat)
    (s r : ShaderConverter) (h : defineVector componentType shader s = .ok r) :
    Process_DEF = defineVector spv.OpTypeFloat ∧ Process_DEFI = defineVector spv.OpTypeInt ∧
    s.mNextToken + 5 ≤ shader.length ∧ r.mNextToken = s.mNextToken + 5 ∧
    (∃ types vector component c0 c1 c2 c3,
      r.mTypeInstructions =
        s.mTypeInstructions ++ types ++
          ([Pack 4 spv.OpConstant, component, c0, shader.getD (s.mNextToken + 1) 0] ++
            [Pack 4 spv.OpConstant, component, c1, shader.getD (s.mNextToken + 2) 0] ++
            [Pack 4 spv.OpConstant, component, c2, shader.getD (s.mNextToken + 3) 0] ++
            [Pack 4 spv.OpConstant, component, c3, shader.getD (s.mNextToken + 4) 0] ++
            [Pack 7 spv.OpConstantComposite, vector, s.mNextId, c0, c1, c2, c3]) ∧
      flat_map.find TypeDescription.same
        { PrimaryType := spv.OpTypeVector, SecondaryType := componentType
          ComponentCount := 4 } r.mTypeIdPairs = some vector ∧
      flat_map.find TypeDescription.same { PrimaryType := componentType } r.mTypeIdPairs =
        some component ∧
      GetIdByRegister (shader.getD s.mNextToken 0) r = (s.mNextId, r) ∧
      r.mFunctionDefinitionInstructions = s.mFunctionDefinitionInstructions ∧
      [s.mNextId, c0, c1, c2, c3].Nodup ∧
      (s.mNextId + 13 < 4294967296 →
        s.mNextId < c0 ∧ c1 = c0 + 1 ∧ c2 = c0 + 2 ∧ c3 = c0 + 3 ∧ r.mNextId = c0 + 4)) ∧
    (returned (Process_DEF exampleDefShader
        ((ShaderConverter.fresh 1 4 4).withReader 2 1))).mTypeInstructions =
      [Pack 3 spv.OpTypeFloat, 3, 32, Pack 4 spv.OpTypeVector, 2, 3, 4,
        Pack 4 spv.OpConstant, 3, 4, 0x3F800000, Pack 4 spv.OpConstant, 3, 5, 0,
        Pack 4 spv.OpConstant, 3, 6, 0, Pack 4 spv.OpConstant, 3, 7, 0x3F800000,
        Pack 7 spv.OpConstantComposite, 2, 1, 4, 5, 6, 7] := by
  rw [defineVector_readThen] at h
  obtain ⟨hlen, r0, hb, rfl⟩ := readThen_ok _ _ _ _ _ h
  have t0 : tokenAt shader s.mNextToken 5 0 = shader.getD s.mNextToken 0 := rfl
  have t1 : tokenAt shader s.mNextToken 5 1 = shader.getD (s.mNextToken + 1) 0 := rfl
  have t2 : tokenAt shader s.mNextToken 5 2 = shader.getD (s.mNextToken + 2) 0 := rfl
  have t3 : tokenAt shader s.mNextToken 5 3 = shader.getD (s.mNextToken + 3) 0 := rfl
  have t4 : tokenAt shader s.mNextToken 5 4 = shader.getD (s.mNextToken + 4) 0 := rfl
  rw [t0, t1, t2, t3, t4] at hb
  have hb2 : defineVector_body componentType (shader.getD s.mNextToken 0)
      (shader.getD (s.mNextToken + 1) 0) (shader.getD (s.mNextToken + 2) 0)
      (shader.getD (s.mNextToken + 3) 0) (shader.getD (s.mNextToken + 4) 0) s = r0 :=
    Except.ok.inj hb
  obtain ⟨types, vector, component, c0, c1, c2, c3, h1, h2, h3, h4, h5, ⟨k, hk1, hk9, hk⟩,
    e1, e2, e3, h6⟩ := defineVector_body_words componentType
      (shader.getD s.mNextToken 0)
      (shader.getD (s.mNextToken + 1) 0) (shader.getD (s.mNextToken + 2) 0)
      (shader.getD (s.mNextToken + 3) 0) (shader.getD (s.mNextToken + 4) 0) s
  rw [hb2] at h1 h2 h3 h4 h5 h6
  clear hb hb2 h
  refine ⟨rfl, rfl, hlen, rfl, ⟨types, vector, component, c0, c1, c2, c3, h1, h2, h3,
    ?_, h5, ?_, ?_⟩, by decide!⟩
  · exact GetIdByRegister_found _ _ _ h4
  · simp only [List.nodup_cons, List.mem_cons, List.mem_singleton, List.not_mem_nil,
      List.nodup_nil, not_or, not_false_eq_true, and_true]
    omega
  · intro hroom
    refine ⟨by omega, by omega, by omega, by omega, ?_⟩
    show r0.mNextId = _
    rw [h6]
    omega

/-- The hypothesis of C27 holds for `defi i0, 1, 2, 3, 4` and for
`def c0, 1.0, 0.0, 0.0, 1.0`: five tokens are read. -/
theorem defineVector_constants_witness :
    (returned (Process_DEFI exampleDefiShader
      ((ShaderConverter.fresh 1 4 4).withReader 2 1))).mNextToken = 2 + 5 ∧
    (returned (Process_DEF exampleDefShader
      ((ShaderConverter.fresh 1 4 4).withReader 2 1))).mNextToken = 2 + 5 :=
  ⟨(defineVector_constants spv.OpTypeInt exampleDefiShader
      ((ShaderConverter.fresh 1 4 4).withReader 2 1)
      (returned (Process_DEFI exampleDefiShader ((ShaderConverter.fresh 1 4 4).withReader 2 1)))
      (by decide!)).2.2.2.1,
    (defineVector_constants spv.OpTypeFloat exampleDefShader
      ((ShaderConverter.fresh 1 4 4).withReader 2 1)
      (returned (Process_DEF exampleDefShader ((ShaderConverter.fresh 1 4 4).withReader 2 1)))
      (by decide!)).2.2.2.1⟩

/-! ## C28: the definition of a boolean constant -/

/-- C28, the code at `defb b0, true`: `Process_DEFB` reads two tokens and appends one
four-word `OpConstant` whose result id is the new id of `b0` and whose literal is the
second token, but the result-type word is the id of the Void type, not the id of the Bool
type.  With a fresh converter at the handler, Bool has the id 2 and Void the id 3, and the
word is 3; in the whole conversion of the shader, Void has the id 2 and Bool the id 6, and
the word is 2. -/
theorem Process_DEFB_result_type :
    (Process_DEFB exampleDefbShader ((ShaderConverter.fresh 1 4 4).withReader 2 1)).isOk =
      true ∧
    (returned (Process_DEFB exampleDefbShader
      ((ShaderConverter.fresh 1 4 4).withReader 2 1))).mNextToken = 4 ∧
    (returned (Process_DEFB exampleDefbShader
      ((ShaderConverter.fresh 1 4 4).withReader 2 1))).mTypeInstructions =
      [Pack 2 spv.OpTypeBool, 2, Pack 2 spv.OpTypeVoid, 3, Pack 4 spv.OpConstant, 3, 1, 1] ∧
    flat_map.find TypeDescription.same { PrimaryType := spv.OpTypeBool }
      (returned (Process_DEFB exampleDefbShader
        ((ShaderConverter.fresh 1 4 4).withReader 2 1))).mTypeIdPairs = some 2 ∧
    flat_map.find TypeDescription.same { PrimaryType := spv.OpTypeVoid }
      (returned (Process_DEFB exampleDefbShader
        ((ShaderConverter.fresh 1 4 4).withReader 2 1))).mTypeIdPairs = some 3 ∧
    findIdByRegister 0xE00F0800
      (returned (Process_DEFB exampleDefbShader
        ((ShaderConverter.fresh 1 4 4).withReader 2 1))) = some 1 ∧
    (Convert exampleHost exampleDefbShader (ShaderConverter.fresh 1 4 4)).isOk = true ∧
    (returned (Convert_translate exampleDefbShader
      (ShaderConverter.fresh 1 4 4))).mTypeInstructions =
      [Pack 2 spv.OpTypeVoid, 2, Pack 3 spv.OpTypeFunction, 1, 2, Pack 2 spv.OpTypeBool, 6,
        Pack 4 spv.OpConstant, 2, 5, 1] ∧
    flat_map.find TypeDescription.same { PrimaryType := spv.OpTypeBool }
      (returned (Convert_translate exampleDefbShader
        (ShaderConverter.fresh 1 4 4))).mTypeIdPairs = some 6 ∧
    flat_map.find TypeDescription.same { PrimaryType := spv.OpTypeVoid }
      (returned (Convert_translate exampleDefbShader
        (ShaderConverter.fresh 1 4 4))).mTypeIdPairs = some 2 := by
  decide!

/-! ## C29: the sum of two constant registers -/

theorem GetTypeByRegister_new (token : Nat) (s : ShaderConverter)
    (hu : findIdByRegister token s = none) (hc : GetRegisterType token ∈ constantBanks) :
    GetTypeByRegister token s = (constantDescription, (GetIdByRegister token s).2) := by
  obtain ⟨g1, _, g3, _⟩ := GetIdByRegister_new_fields token s hu hc
  unfold GetTypeByRegister
  dsimp only
  rw [g1, g3, find_sameKey_set_self]

/-- The load of an operand whose swizzle is zero or the identity: the id the counter has
is the result, an `OpLoad` into it from the id of the register is appended. -/
theorem loadArgument_unswizzled (t token : Nat) (s : ShaderConverter)
    (hs : token &&& D3DVS_SWIZZLE_MASK = 0 ∨ token &&& D3DVS_SWIZZLE_MASK = D3DVS_NOSWIZZLE)
    (hu : s.mNextId ≠ UINT_MAX) :
    loadArgument t token s =
      (s.mNextId,
        (GetIdByRegister token
          ((GetNextId s).2.pushFunctionDefinition [Pack 4 spv.OpLoad, t, s.mNextId])).2.pushFunctionDefinition
          [(GetIdByRegister token
            ((GetNextId s).2.pushFunctionDefinition [Pack 4 spv.OpLoad, t, s.mNextId])).1]) := by
  unfold loadArgument
  dsimp only
  rw [GetSwizzledId_unswizzled _ _ _ hs, GetNextId_fst, if_neg hu]

theorem emitArithmetic_float (integerOp floatOp t resultToken x1 x2 : Nat)
    (s : ShaderConverter) :
    emitArithmetic integerOp floatOp spv.OpTypeFloat t resultToken x1 x2 s =
      (GetNextVersionId resultToken
        (s.pushFunctionDefinition [Pack 5 floatOp, t])).2.pushFunctionDefinition
        [s.mNextId, x1, x2] := by
  unfold emitArithmetic
  rw [if_neg (by decide), if_pos rfl]
  rfl

/-- The arithmetic handlers on a first operand that is a pointer whose type is in the type
table. -/
theorem Process_arithmetic_body_pointer (integerOp floatOp : Nat) (again : Bool)
    (resultToken a1 a2 : Nat) (s s1 : ShaderConverter) (td : TypeDescription) (pointer : Nat)
    (ht : GetTypeByRegister a1 s = (td, s1)) (hp : td.PrimaryType = spv.OpTypePointer)
    (hf : GetSpirVTypeId td s1 = (pointer, s1)) :
    Process_arithmetic_body integerOp floatOp again resultToken a1 a2 s =
      emitArithmetic integerOp floatOp (leafDataType td)
        (GetSpirVTypeId (shiftTypeDescription td) (snagNextId td s1)).1 resultToken
        (loadArgument (GetSpirVTypeId (shiftTypeDescription td) (snagNextId td s1)).1 a1
          (GetSpirVTypeId (shiftTypeDescription td) (snagNextId td s1)).2).1
        (loadArgument (GetSpirVTypeId (shiftTypeDescription td) (snagNextId td s1)).1 a2
          (loadArgument (GetSpirVTypeId (shiftTypeDescription td) (snagNextId td s1)).1 a1
            (GetSpirVTypeId (shiftTypeDescription td) (snagNextId td s1)).2).2).1
        (loadArgument (GetSpirVTypeId (shiftTypeDescription td) (snagNextId td s1)).1 a2
          (loadArgument (GetSpirVTypeId (shiftTypeDescription td) (snagNextId td s1)).1 a1
            (GetSpirVTypeId (shiftTypeDescription td) (snagNextId td s1)).2).2).2 := by
  unfold Process_arithmetic_body
  simp only [ht, hf, hp]
  rw [if_pos trivial, if_neg (by decide)]

theorem GetNextVersionId_snd_mTypeInstructions (token : Nat) (s : ShaderConverter) :
    (GetNextVersionId token s).2.mTypeInstructions = s.mTypeInstructions := rfl

theorem GetNextVersionId_snd_mFunctionDefinitionInstructions (token : Nat)
    (s : ShaderConverter) :
    (GetNextVersionId token s).2.mFunctionDefinitionInstructions =
      s.mFunctionDefinitionInstructions := rfl

theorem GetNextVersionId_snd_mTypeIdPairs (token : Nat) (s : ShaderConverter) :
    (GetNextVersionId token s).2.mTypeIdPairs = s.mTypeIdPairs := rfl

theorem GetNextVersionId_snd_mIdsByRegister (token : Nat) (s : ShaderConverter) :
    (GetNextVersionId token s).2.mIdsByRegister =
      flat_map.set2 (GetRegisterType token) (registerKey token) s.mNextId s.mIdsByRegister :=
  rfl

theorem snagNextId_fields (d : TypeDescription) (s : ShaderConverter) :
    (snagNextId d s).mNextId = s.mNextId ∧
    (snagNextId d s).mIdsByRegister = s.mIdsByRegister ∧
    (snagNextId d s).mTypeIdPairs = s.mTypeIdPairs ∧
    (snagNextId d s).mTypeInstructions = s.mTypeInstructions ∧
    (snagNextId d s).mFunctionDefinitionInstructions = s.mFunctionDefinitionInstructions :=
  ⟨rfl, rfl, rfl, rfl, rfl⟩

/-- The state after the lookup of a constant register that is not in the map, from the
members of the state before, when the pointer type is in the type table. -/
theorem GetIdByRegister_new_typed (token pointer : Nat) (s : ShaderConverter)
    (hu : findIdByRegister token s = none) (hc : GetRegisterType token ∈ constantBanks)
    (hp : flat_map.find TypeDescription.same constantDescription s.mTypeIdPairs =
      some pointer) :
    (GetIdByRegister token s).1 = s.mNextId ∧
    (GetIdByRegister token s).2.mIdsByRegister =
      flat_map.set2 (GetRegisterType token) (registerKey token) s.mNextId s.mIdsByRegister ∧
    (GetIdByRegister token s).2.mTypeIdPairs = s.mTypeIdPairs ∧
    (GetIdByRegister token s).2.mTypeInstructions =
      s.mTypeInstructions ++
        [Pack 4 spv.OpVariable, pointer, s.mNextId, spv.StorageClassPushConstant] ∧
    (GetIdByRegister token s).2.mNextId = (s.mNextId + 1) % 4294967296 ∧
    (GetIdByRegister token s).2.mFunctionDefinitionInstructions =
      s.mFunctionDefinitionInstructions := by
  obtain ⟨g1, g2, _, g4, g5, g6, g7⟩ := GetIdByRegister_new_fields token s hu hc
  have hf : GetSpirVTypeId constantDescription (GetNextId s).2 = (pointer, (GetNextId s).2) :=
    GetSpirVTypeId_found _ _ _ hp
  rw [hf] at g4 g5 g6
  exact ⟨g1, g2, g4, g5, g6, g7⟩

/-- The state after the lookup of a constant register that is not in the map. -/
theorem GetIdByRegister_new_untyped (token : Nat) (s : ShaderConverter)
    (hu : findIdByRegister token s = none) (hc : GetRegisterType token ∈ constantBanks)
    (hn : s.mNextId + 5 < 4294967296) :
    ∃ types pointer k,
      (GetIdByRegister token s).1 = s.mNextId ∧
      (GetIdByRegister token s).2.mIdsByRegister =
        flat_map.set2 (GetRegisterType token) (registerKey token) s.mNextId
          s.mIdsByRegister ∧
      flat_map.find TypeDescription.same constantDescription
        (GetIdByRegister token s).2.mTypeIdPairs = some pointer ∧
      (GetIdByRegister token s).2.mTypeInstructions =
        s.mTypeInstructions ++ types ++
          [Pack 4 spv.OpVariable, pointer, s.mNextId, spv.StorageClassPushConstant] ∧
      k ≤ 4 ∧ (GetIdByRegister token s).2.mNextId = s.mNextId + 1 + k ∧
      (GetIdByRegister token s).2.mFunctionDefinitionInstructions =
        s.mFunctionDefinitionInstructions := by
  obtain ⟨g1, g2, _, g4, g5, g6, g7⟩ := GetIdByRegister_new_fields token s hu hc
  obtain ⟨_, _, _, w1, x4⟩ := GetSpirVTypeIdFuel_frame 4 constantDescription (GetNextId s).2
  obtain ⟨k1, hk1, xe⟩ := GetSpirVTypeId_next constantDescription (GetNextId s).2
    (Nat.mod_lt _ (by decide))
  have xr := GetSpirVTypeId_registered constantDescription (GetNextId s).2
  refine ⟨w1, (GetSpirVTypeId constantDescription (GetNextId s).2).1, k1, g1, g2, ?_, ?_,
    hk1, ?_, g7⟩
  · rw [g4]
    exact xr
  · rw [g5]
    show (GetSpirVTypeIdFuel 4 _ _).2.mTypeInstructions ++ _ = _
    rw [x4]
    rfl
  · rw [g6, xe]
    show ((s.mNextId + 1) % 4294967296 + k1) % 4294967296 = _
    omega

/-- What the arithmetic handler for `add` leaves behind when both sources are constant
registers that are not in the register map, with identity swizzles. -/
theorem Process_ADD_body_constants (dst a1 a2 : Nat) (s r : ShaderConverter)
    (hc1 : GetRegisterType a1 ∈ constantBanks) (hc2 : GetRegisterType a2 ∈ constantBanks)
    (hu1 : findIdByRegister a1 s = none) (hu2 : findIdByRegister a2 s = none)
    (hne : GetRegisterType a2 ≠ GetRegisterType a1 ∨
      GetRegisterNumber a2 ≠ GetRegisterNumber a1)
    (hs1 : a1 &&& D3DVS_SWIZZLE_MASK = D3DVS_NOSWIZZLE)
    (hs2 : a2 &&& D3DVS_SWIZZLE_MASK = D3DVS_NOSWIZZLE)
    (hroom : s.mNextId + 13 < 4294967296)
    (hr : Process_arithmetic_body spv.OpIAdd spv.OpFAdd false dst a1 a2 s = r) :
    ∃ types1 types2 pointer vector l1 l2 v2 d,
      r.mTypeInstructions =
        s.mTypeInstructions ++ types1 ++
          [Pack 4 spv.OpVariable, pointer, s.mNextId, spv.StorageClassPushConstant] ++
          types2 ++ [Pack 4 spv.OpVariable, pointer, v2, spv.StorageClassPushConstant] ∧
      r.mFunctionDefinitionInstructions =
        s.mFunctionDefinitionInstructions ++
          ([Pack 4 spv.OpLoad, vector, l1, s.mNextId] ++ [Pack 4 spv.OpLoad, vector, l2, v2] ++
            [Pack 5 spv.OpFAdd, vector, d, l1, l2]) ∧
      flat_map.find TypeDescription.same constantDescription r.mTypeIdPairs =
        some pointer ∧
      flat_map.find TypeDescription.same floatVectorDescription r.mTypeIdPairs =
        some vector ∧
      r.mIdsByRegister =
        flat_map.set2 (GetRegisterType dst) (registerKey dst) d
          (flat_map.set2 (GetRegisterType a2) (registerKey a2) v2
            (flat_map.set2 (GetRegisterType a1) (registerKey a1) s.mNextId
              s.mIdsByRegister)) ∧
      s.mNextId < l1 ∧ l2 = l1 + 1 ∧ v2 = l1 + 2 ∧ d = l1 + 3 ∧ r.mNextId = l1 + 4 ∧
      l1 + 4 ≤ s.mNextId + 13 := by
  -- the lookup of the first source declares its variable
  obtain ⟨w1, ptr, k1, _, g2, g3, g4, hk1, g5, g6⟩ :=
    GetIdByRegister_new_untyped a1 s hu1 hc1 (by omega)
  have ht := GetTypeByRegister_new a1 s hu1 hc1
  have hf : GetSpirVTypeId constantDescription (GetIdByRegister a1 s).2 =
      (ptr, (GetIdByRegister a1 s).2) := GetSpirVTypeId_found _ _ _ g3
  rw [Process_arithmetic_body_pointer _ _ _ _ _ _ s _ constantDescription ptr ht rfl hf] at hr
  clear ht hf
  generalize (GetIdByRegister a1 s).2 = s1 at hr g2 g3 g4 g5 g6
  -- the vector type
  obtain ⟨sn1, sn2, sn3, sn4, sn5⟩ := snagNextId_fields constantDescription s1
  obtain ⟨v1, _, v3, w2, v4⟩ := GetSpirVTypeIdFuel_frame 4
    (shiftTypeDescription constantDescription) (snagNextId constantDescription s1)
  obtain ⟨k2, hk2, ve⟩ := GetSpirVTypeId_next (shiftTypeDescription constantDescription)
    (snagNextId constantDescription s1) (by rw [sn1, g5]; omega)
  have vr := GetSpirVTypeId_registered (shiftTypeDescription constantDescription)
    (snagNextId constantDescription s1)
  have vk : flat_map.find TypeDescription.same constantDescription
      (GetSpirVTypeId (shiftTypeDescription constantDescription)
        (snagNextId constantDescription s1)).2.mTypeIdPairs = some ptr :=
    GetSpirVTypeIdFuel_keeps 4 _ constantDescription _ ptr (by rw [sn3]; exact g3)
  have v1b : (GetSpirVTypeId (shiftTypeDescription constantDescription)
      (snagNextId constantDescription s1)).2.mIdsByRegister =
      flat_map.set2 (GetRegisterType a1) (registerKey a1) s.mNextId s.mIdsByRegister := by
    rw [← g2, ← sn2]
    exact v1
  have v3b : (GetSpirVTypeId (shiftTypeDescription constantDescription)
      (snagNextId constantDescription s1)).2.mFunctionDefinitionInstructions =
      s.mFunctionDefinitionInstructions := by
    rw [← g6, ← sn5]
    exact v3
  have v4b : (GetSpirVTypeId (shiftTypeDescription constantDescription)
      (snagNextId constantDescription s1)).2.mTypeInstructions =
      s.mTypeInstructions ++ w1 ++
        [Pack 4 spv.OpVariable, ptr, s.mNextId, spv.StorageClassPushConstant] ++ w2 := by
    rw [← g4, ← sn4]
    exact v4
  have veb : (GetSpirVTypeId (shiftTypeDescription constantDescription)
      (snagNextId constantDescription s1)).2.mNextId = s.mNextId + 1 + k1 + k2 := by
    rw [ve, sn1, g5]
    omega
  clear v1 v3 v4 ve sn1 sn2 sn3 sn4 sn5 g2 g3 g4 g5 g6
  generalize GetSpirVTypeId (shiftTypeDescription constantDescription)
    (snagNextId constantDescription s1) = V at hr vr vk v1b v3b v4b veb
  -- the load of the first source
  have hmax1 : V.2.mNextId ≠ UINT_MAX := by
    rw [veb]
    unfold UINT_MAX
    omega
  rw [loadArgument_unswizzled V.1 a1 V.2 (Or.inr hs1) hmax1] at hr
  have hq1 : GetIdByRegister a1
      ((GetNextId V.2).2.pushFunctionDefinition [Pack 4 spv.OpLoad, V.1, V.2.mNextId]) =
      (s.mNextId,
        (GetNextId V.2).2.pushFunctionDefinition [Pack 4 spv.OpLoad, V.1, V.2.mNextId]) :=
    GetIdByRegister_found _ _ _
      (findIdByRegister_bound a1 a1 s.mNextId s _ v1b rfl rfl)
  rw [hq1] at hr
  dsimp only at hr
  -- the load of the second source declares its variable
  have hmax2 : (((GetNextId V.2).2.pushFunctionDefinition
      [Pack 4 spv.OpLoad, V.1, V.2.mNextId]).pushFunctionDefinition [s.mNextId]).mNextId ≠
      UINT_MAX := by
    show (V.2.mNextId + 1) % 4294967296 ≠ UINT_MAX
    rw [veb]
    unfold UINT_MAX
    omega
  rw [loadArgument_unswizzled V.1 a2 _ (Or.inr hs2) hmax2] at hr
  dsimp only at hr
  have hn4 : (((GetNextId V.2).2.pushFunctionDefinition
      [Pack 4 spv.OpLoad, V.1, V.2.mNextId]).pushFunctionDefinition [s.mNextId]).mNextId =
      V.2.mNextId + 1 := by
    show (V.2.mNextId + 1) % 4294967296 = _
    rw [veb]
    omega
  rw [hn4] at hr
  generalize hq2 : (GetNextId (((GetNextId V.2).2.pushFunctionDefinition
      [Pack 4 spv.OpLoad, V.1, V.2.mNextId]).pushFunctionDefinition [s.mNextId])).2.pushFunctionDefinition
      [Pack 4 spv.OpLoad, V.1, V.2.mNextId + 1] = q2 at hr
  have q2n : q2.mNextId = V.2.mNextId + 2 := by
    rw [← hq2]
    show ((V.2.mNextId + 1) % 4294967296 + 1) % 4294967296 = _
    rw [veb]
    omega
  have q2m : q2.mIdsByRegister =
      flat_map.set2 (GetRegisterType a1) (registerKey a1) s.mNextId s.mIdsByRegister := by
    rw [← hq2]
    exact v1b
  have q2t : q2.mTypeIdPairs = V.2.mTypeIdPairs := by
    rw [← hq2]
    rfl
  have q2T : q2.mTypeInstructions = V.2.mTypeInstructions := by
    rw [← hq2]
    rfl
  have q2F : q2.mFunctionDefinitionInstructions =
      V.2.mFunctionDefinitionInstructions ++ [Pack 4 spv.OpLoad, V.1, V.2.mNextId] ++
        [s.mNextId] ++ [Pack 4 spv.OpLoad, V.1, V.2.mNextId + 1] := by
    rw [← hq2]
    rfl
  clear hq2 hq1 hmax2 hn4
  have hu2b : findIdByRegister a2 q2 = none := by
    rw [findIdByRegister_kept a1 a2 s.mNextId s q2 q2m hne]
    exact hu2
  obtain ⟨e1, e2, e3, e4, e5, e6⟩ := GetIdByRegister_new_typed a2 ptr q2 hu2b hc2
    (by rw [q2t]; exact vk)
  have hleaf : leafDataType constantDescription = spv.OpTypeFloat := by decide
  rw [hleaf, emitArithmetic_float] at hr
  generalize GetIdByRegister a2 q2 = G at hr e1 e2 e3 e4 e5 e6
  subst hr
  have e5b : G.2.mNextId = V.2.mNextId + 3 := by
    rw [e5, q2n, veb]
    omega
  refine ⟨w1, w2, ptr, V.1, V.2.mNextId, V.2.mNextId + 1, V.2.mNextId + 2,
    V.2.mNextId + 3, ?_, ?_, ?_, ?_, ?_, by omega, rfl, rfl, rfl, ?_, by omega⟩
  · simp only [pushFunctionDefinition_mTypeInstructions,
      GetNextVersionId_snd_mTypeInstructions, e4, q2T, v4b, q2n]
  · simp only [pushFunctionDefinition_mFunctionDefinitionInstructions,
      GetNextVersionId_snd_mFunctionDefinitionInstructions, pushFunctionDefinition_mNextId,
      e6, q2F, v3b, e1, q2n, e5b, List.append_assoc, List.cons_append, List.nil_append]
  · simp only [pushFunctionDefinition_mTypeIdPairs, GetNextVersionId_snd_mTypeIdPairs, e3,
      q2t, vk]
  · simp only [pushFunctionDefinition_mTypeIdPairs, GetNextVersionId_snd_mTypeIdPairs, e3,
      q2t]
    exact vr
  · simp only [pushFunctionDefinition_mIdsByRegister, GetNextVersionId_snd_mIdsByRegister,
      pushFunctionDefinition_mNextId, e2, q2m, q2n, e5b]
  · show (G.2.mNextId + 1) % 4294967296 = _
    rw [e5b, veb]
    omega

/-- C29: for `add r0, c0, c1` with identity swizzles, where `c0` and `c1` are not yet in
the register map and the id counter has room, `Process_ADD` reads three tokens, appends to
the type section (after the type declarations it needs) two `OpVariable` instructions of
the type pointer to a vector of four floats with storage class PushConstant, one for each
constant, and appends to the function definitions exactly two `OpLoad` instructions with
result type vector of four floats, from the two variables, then one `OpFAdd` of the two
loaded ids with the same result type, whose result id is afterwards the current id of
`r0`.  On the shader `add r0, c0, c1` with a fresh converter the variables are 1 and 7, the
loaded ids 5 and 6, and the sum is 8. -/
theorem Process_ADD_constants (shader : List Nat) (dst a1 a2 : Nat) (s r : ShaderConverter)
    (h0 : shader.getD s.mNextToken 0 = dst) (h1 : shader.getD (s.mNextToken + 1) 0 = a1)
    (h2 : shader.getD (s.mNextToken + 2) 0 = a2)
    (hc1 : GetRegisterType a1 ∈ constantBanks) (hc2 : GetRegisterType a2 ∈ constantBanks)
    (hu1 : findIdByRegister a1 s = none) (hu2 : findIdByRegister a2 s = none)
    (hne : GetRegisterType a2 ≠ GetRegisterType a1 ∨
      GetRegisterNumber a2 ≠ GetRegisterNumber a1)
    (hs1 : a1 &&& D3DVS_SWIZZLE_MASK = D3DVS_NOSWIZZLE)
    (hs2 : a2 &&& D3DVS_SWIZZLE_MASK = D3DVS_NOSWIZZLE)
    (hroom : s.mNextId + 13 < 4294967296)
    (h : Process_ADD shader s = .ok r) :
    r.mNextToken = s.mNextToken + 3 ∧
    (∃ types1 types2 pointer vector v1 v2 l1 l2 d,
      r.mTypeInstructions =
        s.mTypeInstructions ++ types1 ++
          [Pack 4 spv.OpVariable, pointer, v1, spv.StorageClassPushConstant] ++
          types2 ++ [Pack 4 spv.OpVariable, pointer, v2, spv.StorageClassPushConstant] ∧
      r.mFunctionDefinitionInstructions =
        s.mFunctionDefinitionInstructions ++
          ([Pack 4 spv.OpLoad, vector, l1, v1] ++ [Pack 4 spv.OpLoad, vector, l2, v2] ++
            [Pack 5 spv.OpFAdd, vector, d, l1, l2]) ∧
      flat_map.find TypeDescription.same constantDescription r.mTypeIdPairs =
        some pointer ∧
      flat_map.find TypeDescription.same floatVectorDescription r.mTypeIdPairs =
        some vector ∧
      GetIdByRegister dst r = (d, r) ∧
      ((GetRegisterType a1 ≠ GetRegisterType dst ∨
          GetRegisterNumber a1 ≠ GetRegisterNumber dst) →
        (GetRegisterType a2 ≠ GetRegisterType dst ∨
          GetRegisterNumber a2 ≠ GetRegisterNumber dst) →
        GetIdByRegister a1 r = (v1, r) ∧ GetIdByRegister a2 r = (v2, r)) ∧
      [v1, l1, l2, v2, d].Nodup ∧ s.mNextId ≤ v1 ∧ d < r.mNextId) ∧
    (returned (Process_ADD exampleAddShader
        ((ShaderConverter.fresh 1 4 4).withReader 2 1))).mTypeInstructions =
      [Pack 3 spv.OpTypeFloat, 4, 32, Pack 4 spv.OpTypeVector, 3, 4, 4,
        Pack 4 spv.OpTypePointer, 2, 1, 3,
        Pack 4 spv.OpVariable, 2, 1, spv.StorageClassPushConstant,
        Pack 4 spv.OpVariable, 2, 7, spv.StorageClassPushConstant] ∧
    (returned (Process_ADD exampleAddShader
        ((ShaderConverter.fresh 1 4 4).withReader 2 1))).mFunctionDefinitionInstructions =
      [Pack 4 spv.OpLoad, 3, 5, 1, Pack 4 spv.OpLoad, 3, 6, 7, Pack 5 spv.OpFAdd, 3, 8, 5, 6] := by
  have e : Process_ADD = readThen 3 (fun t0 t1 t2 _ _ s =>
      .ok (Process_arithmetic_body spv.OpIAdd spv.OpFAdd false t0 t1 t2 s)) :=
    Process_arithmetic_readThen _ (Process_arithmetic_body_withReader _ _ _)
  rw [e] at h
  obtain ⟨hlen, r0, hb, rfl⟩ := readThen_ok _ _ _ _ _ h
  have t0 : tokenAt shader s.mNextToken 3 0 = dst := h0
  have t1 : tokenAt shader s.mNextToken 3 1 = a1 := h1
  have t2 : tokenAt shader s.mNextToken 3 2 = a2 := h2
  rw [t0, t1, t2] at hb
  have hb2 : Process_arithmetic_body spv.OpIAdd spv.OpFAdd false dst a1 a2 s = r0 :=
    Except.ok.inj hb
  obtain ⟨w1, w2, ptr, vec, l1, l2, v2, d, c1, c2, c3, c4, c5, n1, n2, n3, n4, n5, n6⟩ :=
    Process_ADD_body_constants dst a1 a2 s r0 hc1 hc2 hu1 hu2 hne hs1 hs2 hroom hb2
  clear hb hb2 h
  refine ⟨rfl, ⟨w1, w2, ptr, vec, s.mNextId, v2, l1, l2, d, c1, c2, c3, c4, ?_, ?_, ?_,
    Nat.le_refl _, ?_⟩, by decide!, by decide!⟩
  · exact GetIdByRegister_found _ _ _
      (findIdByRegister_bound dst dst d
        (SetIdByRegister a2 v2 (SetIdByRegister a1 s.mNextId s)) _ c5 rfl rfl)
  · intro d1 d2
    constructor
    · refine GetIdByRegister_found _ _ _ ?_
      rw [findIdByRegister_kept dst a1 d
        (SetIdByRegister a2 v2 (SetIdByRegister a1 s.mNextId s))
        (r0.withReader (s.mNextToken + 3) s.mTokenOffset) c5 d1,
        findIdByRegister_kept a2 a1 v2 (SetIdByRegister a1 s.mNextId s)
          (SetIdByRegister a2 v2 (SetIdByRegister a1 s.mNextId s)) rfl
          (by
            rcases hne with hne | hne
            · exact Or.inl (fun e => hne e.symm)
            · exact Or.inr (fun e => hne e.symm))]
      exact findIdByRegister_bound a1 a1 s.mNextId s _ rfl rfl rfl
    · refine GetIdByRegister_found _ _ _ ?_
      rw [findIdByRegister_kept dst a2 d
        (SetIdByRegister a2 v2 (SetIdByRegister a1 s.mNextId s))
        (r0.withReader (s.mNextToken + 3) s.mTokenOffset) c5 d2]
      exact findIdByRegister_bound a2 a2 v2 (SetIdByRegister a1 s.mNextId s) _ rfl rfl rfl
  · simp only [List.nodup_cons, List.mem_cons, List.mem_singleton, List.not_mem_nil,
      List.nodup_nil, not_or, not_false_eq_true, and_true]
    omega
  · show d < r0.mNextId
    omega

/-- The hypotheses of C29 hold for `add r0, c0, c1` on a fresh converter placed after the
instruction token. -/
theorem Process_ADD_constants_witness :
    (returned (Process_ADD exampleAddShader
      ((ShaderConverter.fresh 1 4 4).withReader 2 1))).mNextToken = 2 + 3 :=
  (Process_ADD_constants exampleAddShader 0x800F0000 0xA0E40000 0xA0E40001
    ((ShaderConverter.fresh 1 4 4).withReader 2 1)
    (returned (Process_ADD exampleAddShader ((ShaderConverter.fresh 1 4 4).withReader 2 1)))
    (by decide) (by decide) (by decide) (by decide) (by decide) (by decide) (by decide)
    (by decide) (by decide) (by decide) (by decide) (by decide!)).1

/-! ## C30: multiply and add -/

/-- `GetSwizzledId` appends to the function definitions. -/
theorem GetSwizzledId_extends (token inputId : Nat) (s : ShaderConverter) :
    ∃ words, (GetSwizzledId token inputId s).2.mFunctionDefinitionInstructions =
      s.mFunctionDefinitionInstructions ++ words := by
  by_cases hz : token &&& D3DVS_SWIZZLE_MASK = 0
  · rw [GetSwizzledId_unswizzled token inputId s (Or.inl hz)]
    exact ⟨[], by rw [GetIdByRegister_input_function, List.append_nil]⟩
  by_cases hi : token &&& D3DVS_SWIZZLE_MASK = D3DVS_NOSWIZZLE
  · rw [GetSwizzledId_unswizzled token inputId s (Or.inr hi)]
    exact ⟨[], by rw [GetIdByRegister_input_function, List.append_nil]⟩
  rw [GetSwizzledId_shuffles token inputId s hz hi _ rfl]
  refine ⟨[Pack 9 spv.OpVectorShuffle,
    (GetSpirVTypeId floatVectorDescription
      (GetNextId (if inputId = UINT_MAX then GetIdByRegister token s
        else (inputId, s)).2).2).1,
    (if inputId = UINT_MAX then GetIdByRegister token s else (inputId, s)).2.mNextId,
    (if inputId = UINT_MAX then GetIdByRegister token s else (inputId, s)).1,
    (if inputId = UINT_MAX then GetIdByRegister token s else (inputId, s)).1,
    swizzleSelector token 0, swizzleSelector token 1, swizzleSelector token 2,
    swizzleSelector token 3], ?_⟩
  show (GetSpirVTypeIdFuel 4 _ _).2.mFunctionDefinitionInstructions ++ _ = _
  rw [(GetSpirVTypeIdFuel_frame 4 _ _).2.2.1]
  show (if inputId = UINT_MAX then GetIdByRegister token s
    else (inputId, s)).2.mFunctionDefinitionInstructions ++ _ = _
  rw [GetIdByRegister_input_function]

/-- `loadArgument` appends to the function definitions. -/
theorem loadArgument_extends (t token : Nat) (s : ShaderConverter) :
    ∃ words, (loadArgument t token s).2.mFunctionDefinitionInstructions =
      s.mFunctionDefinitionInstructions ++ words := by
  unfold loadArgument
  dsimp only
  obtain ⟨ws, h⟩ := GetSwizzledId_extends token (GetNextId s).1
    ((GetIdByRegister token
      ((GetNextId s).2.pushFunctionDefinition
        [Pack 4 spv.OpLoad, t, (GetNextId s).1])).2.pushFunctionDefinition
      [(GetIdByRegister token
        ((GetNextId s).2.pushFunctionDefinition [Pack 4 spv.OpLoad, t, (GetNextId s).1])).1])
  rw [h, pushFunctionDefinition_mFunctionDefinitionInstructions, GetIdByRegister_function,
    pushFunctionDefinition_mFunctionDefinitionInstructions,
    GetNextId_snd_mFunctionDefinitionInstructions]
  exact ⟨[Pack 4 spv.OpLoad, t, (GetNextId s).1] ++
    ([(GetIdByRegister token
      ((GetNextId s).2.pushFunctionDefinition [Pack 4 spv.OpLoad, t, (GetNextId s).1])).1] ++
      ws), by simp only [List.append_assoc]⟩

theorem GetTypeByRegister_snd (token : Nat) (s : ShaderConverter) :
    (GetTypeByRegister token s).2 = (GetIdByRegister token s).2 := by
  unfold GetTypeByRegister
  dsimp only
  split <;> rfl

/-- The `switch` at the end of `Process_MAD` for a leaf type that is Bool, Int or Float:
the multiply into the id `m` allocated just before, then the add into a new id. -/
theorem emitMultiplyAdd_words (leaf t dst x1 x2 x3 : Nat) (q : ShaderConverter)
    (hleaf : leaf = spv.OpTypeBool ∨ leaf = spv.OpTypeInt ∨ leaf = spv.OpTypeFloat) :
    emitMultiplyAdd leaf t dst (GetNextVersionId dst q).1 x1 x2 x3 (GetNextVersionId dst q).2 =
      (GetNextVersionId dst
        ((GetNextVersionId dst q).2.pushFunctionDefinition
          [Pack 5 (multiplyOpcode leaf), t, q.mNextId, x1, x2,
            Pack 5 (addOpcode leaf), t])).2.pushFunctionDefinition
        [(q.mNextId + 1) % 4294967296, q.mNextId, x3] := by
  unfold emitMultiplyAdd multiplyOpcode addOpcode
  rcases hleaf with h | h | h
  · subst h
    rw [if_pos (Or.inl rfl), if_neg (by decide), if_neg (by decide)]
    rfl
  · subst h
    rw [if_pos (Or.inr rfl), if_neg (by decide), if_neg (by decide)]
    rfl
  · subst h
    rw [if_neg (by decide), if_pos rfl, if_pos rfl, if_pos rfl]
    rfl

/-- The end of `Process_MAD` on a state whose function definitions extend those of `s`. -/
theorem multiplyAdd_after (leaf t dst x1 x2 x3 : Nat) (s q : ShaderConverter)
    (hleaf : leaf = spv.OpTypeBool ∨ leaf = spv.OpTypeInt ∨ leaf = spv.OpTypeFloat)
    (hq : ∃ before, q.mFunctionDefinitionInstructions =
      s.mFunctionDefinitionInstructions ++ before) :
    ∃ before m d,
      (emitMultiplyAdd leaf t dst (GetNextVersionId dst q).1 x1 x2 x3
        (GetNextVersionId dst q).2).mFunctionDefinitionInstructions =
        s.mFunctionDefinitionInstructions ++ before ++
          ([Pack 5 (multiplyOpcode leaf), t, m, x1, x2] ++
            [Pack 5 (addOpcode leaf), t, d, m, x3]) ∧
      d = (m + 1) % 4294967296 ∧ m ≠ d ∧
      findIdByRegister dst (emitMultiplyAdd leaf t dst (GetNextVersionId dst q).1 x1 x2 x3
        (GetNextVersionId dst q).2) = some d ∧
      (emitMultiplyAdd leaf t dst (GetNextVersionId dst q).1 x1 x2 x3
        (GetNextVersionId dst q).2).mTypeInstructions = q.mTypeInstructions := by
  obtain ⟨before, hb⟩ := hq
  rw [emitMultiplyAdd_words leaf t dst x1 x2 x3 q hleaf]
  refine ⟨before, q.mNextId, (q.mNextId + 1) % 4294967296, ?_, rfl, by omega, ?_, rfl⟩
  · simp only [pushFunctionDefinition_mFunctionDefinitionInstructions,
      GetNextVersionId_snd_mFunctionDefinitionInstructions, hb, List.append_assoc,
      List.cons_append, List.nil_append]
  · exact findIdByRegister_bound dst dst _ (GetNextVersionId dst q).2 _ rfl rfl rfl

/-- What `Process_MAD_body` appends when the leaf type of the first source is Bool, Int or
Float. -/
theorem Process_MAD_body_words (dst a1 a2 a3 : Nat) (s : ShaderConverter)
    (hleaf : leafDataType (GetTypeByRegister a1 s).1 = spv.OpTypeBool ∨
      leafDataType (GetTypeByRegister a1 s).1 = spv.OpTypeInt ∨
      leafDataType (GetTypeByRegister a1 s).1 = spv.OpTypeFloat) :
    ∃ before t x1 x2 x3 m d,
      (Process_MAD_body dst a1 a2 a3 s).mFunctionDefinitionInstructions =
        s.mFunctionDefinitionInstructions ++ before ++
          ([Pack 5 (multiplyOpcode (leafDataType (GetTypeByRegister a1 s).1)), t, m, x1, x2] ++
            [Pack 5 (addOpcode (leafDataType (GetTypeByRegister a1 s).1)), t, d, m, x3]) ∧
      d = (m + 1) % 4294967296 ∧ m ≠ d ∧
      findIdByRegister dst (Process_MAD_body dst a1 a2 a3 s) = some d := by
  have base : (snagNextId (GetTypeByRegister a1 s).1
      (GetSpirVTypeId (GetTypeByRegister a1 s).1
        (GetTypeByRegister a1 s).2).2).mFunctionDefinitionInstructions =
      s.mFunctionDefinitionInstructions := by
    show (GetSpirVTypeIdFuel 4 _ _).2.mFunctionDefinitionInstructions = _
    rw [(GetSpirVTypeIdFuel_frame 4 _ _).2.2.1, GetTypeByRegister_snd,
      GetIdByRegister_function]
  have ext : ∀ (x y : ShaderConverter),
      (∃ ws, x.mFunctionDefinitionInstructions = s.mFunctionDefinitionInstructions ++ ws) →
      (∃ ws, y.mFunctionDefinitionInstructions = x.mFunctionDefinitionInstructions ++ ws) →
      ∃ ws, y.mFunctionDefinitionInstructions = s.mFunctionDefinitionInstructions ++ ws := by
    intro x y ⟨w1, h1⟩ ⟨w2, h2⟩
    exact ⟨w1 ++ w2, by rw [h2, h1, List.append_assoc]⟩
  have key : ∀ (t x1 x2 x3 : Nat) (q : ShaderConverter),
      (∃ ws, q.mFunctionDefinitionInstructions = s.mFunctionDefinitionInstructions ++ ws) →
      ∃ before u y1 y2 y3 m d,
        (emitMultiplyAdd (leafDataType (GetTypeByRegister a1 s).1) t dst
          (GetNextVersionId dst q).1 x1 x2 x3
          (GetNextVersionId dst q).2).mFunctionDefinitionInstructions =
          s.mFunctionDefinitionInstructions ++ before ++
            ([Pack 5 (multiplyOpcode (leafDataType (GetTypeByRegister a1 s).1)), u, m, y1,
                y2] ++
              [Pack 5 (addOpcode (leafDataType (GetTypeByRegister a1 s).1)), u, d, m, y3]) ∧
        d = (m + 1) % 4294967296 ∧ m ≠ d ∧
        findIdByRegister dst (emitMultiplyAdd (leafDataType (GetTypeByRegister a1 s).1) t dst
          (GetNextVersionId dst q).1 x1 x2 x3 (GetNextVersionId dst q).2) = some d := by
    intro t x1 x2 x3 q hq
    obtain ⟨before, m, d, h1, h2, h3, h4, _⟩ :=
      multiplyAdd_after _ t dst x1 x2 x3 s q hleaf hq
    exact ⟨before, t, x1, x2, x3, m, d, h1, h2, h3, h4⟩
  unfold Process_MAD_body
  dsimp only
  split_ifs
  · refine key _ _ _ _ _ ?_
    refine ext _ _ (ext _ _ (ext _ _ ⟨[], by rw [base, List.append_nil]⟩
      (GetSwizzledId_extends _ _ _)) (GetSwizzledId_extends _ _ _))
      (GetSwizzledId_extends _ _ _)
  · refine key _ _ _ _ _ ?_
    refine ext _ _ (ext _ _ (ext _ _ ⟨[], ?_⟩
      (loadArgument_extends _ _ _)) (loadArgument_extends _ _ _))
      (loadArgument_extends _ _ _)
    show (GetSpirVTypeIdFuel 4 _ _).2.mFunctionDefinitionInstructions = _
    rw [(GetSpirVTypeIdFuel_frame 4 _ _).2.2.1, base, List.append_nil]
  · refine key _ _ _ _ _ ?_
    refine ext _ _ (ext _ _ (ext _ _ ⟨[], by rw [base, List.append_nil]⟩
      (GetSwizzledId_extends _ _ _)) (GetSwizzledId_extends _ _ _))
      (GetSwizzledId_extends _ _ _)

theorem GetTypeByRegister_found (token id : Nat) (td : TypeDescription) (s : ShaderConverter)
    (hf : findIdByRegister token s = some id)
    (ht : flat_map.find sameKey id s.mIdTypePairs = some td) :
    GetTypeByRegister token s = (td, s) := by
  unfold GetTypeByRegister
  dsimp only
  rw [GetIdByRegister_found token id s hf]
  dsimp only
  rw [ht]

/-- A source in the register map with an identity swizzle: `GetSwizzledId` without an
input id returns the current id of the register and leaves the state as it is. -/
theorem GetSwizzledId_register (token id : Nat) (s q : ShaderConverter)
    (hs : token &&& D3DVS_SWIZZLE_MASK = D3DVS_NOSWIZZLE)
    (hf : findIdByRegister token s = some id) (hq : q.mIdsByRegister = s.mIdsByRegister) :
    GetSwizzledId token UINT_MAX q = (id, q) := by
  rw [GetSwizzledId_unswizzled token UINT_MAX q (Or.inr hs), if_pos rfl]
  exact GetIdByRegister_found token id q ((findIdByRegister_congr token s q hq).trans hf)

/-- `Process_MAD_body` on three sources in the register map, with identity swizzles, the
first with a vector type whose leaf type is Bool, Int or Float: nothing but the multiply
and the add is appended, and their operands are the current ids of the sources. -/
theorem Process_MAD_body_registers (dst a1 a2 a3 id1 id2 id3 : Nat) (td : TypeDescription)
    (s : ShaderConverter)
    (hf1 : findIdByRegister a1 s = some id1) (hf2 : findIdByRegister a2 s = some id2)
    (hf3 : findIdByRegister a3 s = some id3)
    (hs1 : a1 &&& D3DVS_SWIZZLE_MASK = D3DVS_NOSWIZZLE)
    (hs2 : a2 &&& D3DVS_SWIZZLE_MASK = D3DVS_NOSWIZZLE)
    (hs3 : a3 &&& D3DVS_SWIZZLE_MASK = D3DVS_NOSWIZZLE)
    (ht : flat_map.find sameKey id1 s.mIdTypePairs = some td)
    (hv : td.PrimaryType = spv.OpTypeVector)
    (hleaf : leafDataType td = spv.OpTypeBool ∨ leafDataType td = spv.OpTypeInt ∨
      leafDataType td = spv.OpTypeFloat) :
    ∃ t m d,
      (Process_MAD_body dst a1 a2 a3 s).mFunctionDefinitionInstructions =
        s.mFunctionDefinitionInstructions ++
          ([Pack 5 (multiplyOpcode (leafDataType td)), t, m, id1, id2] ++
            [Pack 5 (addOpcode (leafDataType td)), t, d, m, id3]) ∧
      flat_map.find TypeDescription.same td (Process_MAD_body dst a1 a2 a3 s).mTypeIdPairs =
        some t ∧
      d = (m + 1) % 4294967296 ∧ m ≠ d ∧
      findIdByRegister dst (Process_MAD_body dst a1 a2 a3 s) = some d := by
  have hty := GetTypeByRegister_found a1 id1 td s hf1 ht
  obtain ⟨f1, _, f3, _⟩ := GetSpirVTypeIdFuel_frame 4 td s
  have hreg := GetSpirVTypeId_registered td s
  have hm : (snagNextId td (GetSpirVTypeId td s).2).mIdsByRegister = s.mIdsByRegister := f1
  have hF : (snagNextId td (GetSpirVTypeId td s).2).mFunctionDefinitionInstructions =
      s.mFunctionDefinitionInstructions := f3
  have hT : (snagNextId td (GetSpirVTypeId td s).2).mTypeIdPairs =
      (GetSpirVTypeId td s).2.mTypeIdPairs := rfl
  unfold Process_MAD_body
  simp only [hty, hv]
  rw [if_pos (Or.inr trivial)]
  generalize snagNextId td (GetSpirVTypeId td s).2 = q at hm hF hT
  rw [GetSwizzledId_register a1 id1 s q hs1 hf1 hm]
  dsimp only
  rw [GetSwizzledId_register a2 id2 s q hs2 hf2 hm]
  dsimp only
  rw [GetSwizzledId_register a3 id3 s q hs3 hf3 hm]
  dsimp only
  rw [emitMultiplyAdd_words _ _ dst id1 id2 id3 q hleaf]
  refine ⟨(GetSpirVTypeId td s).1, q.mNextId, (q.mNextId + 1) % 4294967296, ?_, ?_, rfl,
    by omega, ?_⟩
  · simp only [pushFunctionDefinition_mFunctionDefinitionInstructions,
      GetNextVersionId_snd_mFunctionDefinitionInstructions, hF, List.append_assoc,
      List.cons_append, List.nil_append]
  · simp only [pushFunctionDefinition_mTypeIdPairs, GetNextVersionId_snd_mTypeIdPairs, hT]
    exact hreg
  · exact findIdByRegister_bound dst dst _ (GetNextVersionId dst q).2 _ rfl rfl rfl


/-! ## Runs of the converter on small streams -/

/-- C31: on `mov r0, c0` with `c0` a constant register that the handler materializes when
it asks for its type (a variable of the type pointer to `Vector<Float,4>`), `Process_MOV`
appends no `OpLoad`: the one instruction it emits is `OpCopyObject` whose result type is
the pointer type (id 6, declared by `OpTypePointer`), not the pointee type (id 7), and whose
operand is the id of the variable itself (id 5). -/
theorem Process_MOV_copies_pointer :
    (Convert_translate exampleMovConstantShader (ShaderConverter.fresh 1 4 4)).toBool = true ∧
    (returned (Convert_translate exampleMovConstantShader
        (ShaderConverter.fresh 1 4 4))).mTypeInstructions =
      [Pack 2 spv.OpTypeVoid, 2, Pack 3 spv.OpTypeFunction, 1, 2,
        Pack 3 spv.OpTypeFloat, 8, 32, Pack 4 spv.OpTypeVector, 7, 8, 4,
        Pack 4 spv.OpTypePointer, 6, spv.StorageClassInput, 7,
        Pack 4 spv.OpVariable, 6, 5, spv.StorageClassPushConstant] ∧
    (returned (Convert_translate exampleMovConstantShader
        (ShaderConverter.fresh 1 4 4))).mFunctionDefinitionInstructions =
      [Pack 5 spv.OpFunction, 2, 3, spv.FunctionControlMaskNone, 1, Pack 2 spv.OpLabel, 4,
        Pack 4 spv.OpCopyObject, 6, 9, 5, Pack 1 spv.OpReturn, Pack 1 spv.OpFunctionEnd] ∧
    (GetTypeByRegister 0xA0E40000 (returned (Convert_translate exampleMovConstantShader
        (ShaderConverter.fresh 1 4 4)))).1 = constantDescription ∧
    Pack 4 spv.OpLoad ∉ (returned (Convert_translate exampleMovConstantShader
        (ShaderConverter.fresh 1 4 4))).mFunctionDefinitionInstructions := by
  decide!

/-- C32: on the vertex shader `vs_3_0` with the one declaration `dcl_2d s0`, `Convert`
completes and the sampler register is bound to the id 5, but the emitted module has no
instruction with the result id 5: the ids its instructions define are 6, 2, 1, 3 and 4. -/
theorem declared_sampler_id_never_defined :
    (Convert exampleHost exampleVertexSamplerShader (ShaderConverter.fresh 1 4 4)).toBool =
      true ∧
    findIdByRegister 0xA00F0800
        (returned (Convert exampleHost exampleVertexSamplerShader
          (ShaderConverter.fresh 1 4 4))).2 = some 5 ∧
    Option.map resultIds (splitInstructions
        ((returned (emittedModule exampleHost exampleVertexSamplerShader
          (ShaderConverter.fresh 1 4 4))).drop 5)) = some [6, 2, 1, 3, 4] := by
  decide!

/-- C33: after `add r0, c0, c1` with both constants materialized by the handler, the
register `r0` is bound to the id 12, which the `OpFAdd` of result type 7 (the type id of
`Vector<Float,4>`) defines, but the id-to-type table has no entry for 12, so that
`GetTypeByRegister` answers `Float` for `r0`: the description the handler recorded went to
the id 9, the counter of the moment, which the first `OpLoad` took. -/
theorem Process_ADD_result_untyped :
    (Convert_translate exampleAddShader (ShaderConverter.fresh 1 4 4)).toBool = true ∧
    (returned (Convert_translate exampleAddShader
        (ShaderConverter.fresh 1 4 4))).mFunctionDefinitionInstructions =
      [Pack 5 spv.OpFunction, 2, 3, spv.FunctionControlMaskNone, 1, Pack 2 spv.OpLabel, 4,
        Pack 4 spv.OpLoad, 7, 9, 5, Pack 4 spv.OpLoad, 7, 10, 11,
        Pack 5 spv.OpFAdd, 7, 12, 9, 10, Pack 1 spv.OpReturn, Pack 1 spv.OpFunctionEnd] ∧
    findIdByRegister 0x800F0000
        (returned (Convert_translate exampleAddShader (ShaderConverter.fresh 1 4 4))) =
      some 12 ∧
    flat_map.find sameKey 12
        (returned (Convert_translate exampleAddShader
          (ShaderConverter.fresh 1 4 4))).mIdTypePairs = none ∧
    (GetTypeByRegister 0x800F0000
        (returned (Convert_translate exampleAddShader (ShaderConverter.fresh 1 4 4)))).1 =
      { PrimaryType := spv.OpTypeFloat } ∧
    flat_map.find sameKey 7
        (returned (Convert_translate exampleAddShader
          (ShaderConverter.fresh 1 4 4))).mIdTypePairs = some floatVectorDescription ∧
    flat_map.find sameKey 9
        (returned (Convert_translate exampleAddShader
          (ShaderConverter.fresh 1 4 4))).mIdTypePairs = some constantDescription := by
  decide!

/-- C35: the tail of `Convert` puts the `OpExtInstImport` of `GLSL.std.450` into the buffer
of the extensions and leaves the buffer of the extended-instruction imports as it was, on
every state; on the empty pixel shader the former holds that instruction and the latter is
empty when the sections are assembled. -/
theorem import_held_in_extension_buffer :
    (∀ l : ShaderConverter,
      (Convert_end l).mExtensionInstructions =
        l.mExtensionInstructions ++ importInstruction l.mNextId ∧
      (Convert_end l).mImportExtendedInstructions = l.mImportExtendedInstructions) ∧
    (Convert_translate examplePixelShader (ShaderConverter.fresh 1 4 4)).toBool = true ∧
    (returned (Convert_translate examplePixelShader
        (ShaderConverter.fresh 1 4 4))).mExtensionInstructions =
      [Pack 6 spv.OpExtInstImport, 5] ++ PutStringInVector (stringBytes "GLSL.std.450") ∧
    (returned (Convert_translate examplePixelShader
        (ShaderConverter.fresh 1 4 4))).mImportExtendedInstructions = [] ∧
    opcodeOf (Pack 6 spv.OpExtInstImport) ≠ spv.OpExtension := by
  refine ⟨?_, by decide!, by decide!, by decide!, by decide⟩
  intro l
  constructor
  · unfold Convert_end
    by_cases hv : l.mIsVertexShader = true <;>
      simp [hv, importInstruction, stringWordSize, stringBytes]
  · unfold Convert_end
    by_cases hv : l.mIsVertexShader = true <;> simp [hv]

/-- C37: on `def c0`, `mov r0, c0`, `mov r1, c0`, `dp3 r0, r0, r1` the register `r0` has
the id 12 before the `dp3`, and the `OpDot` the handler emits has the result id 14 and the
operands 14 and 13: the operand for `r0` is the id the handler has just bound to the
destination, the instruction's own result, not 12.  The same stream with `dp4` gives the
same instruction. -/
theorem Process_DP3_uses_own_result :
    (Convert_translate exampleDotShader (ShaderConverter.fresh 1 4 4)).toBool = true ∧
    findIdByRegister 0x80E40000
        (returned (Convert_translate (exampleDotShader.take 13 ++ [0x0000FFFF])
          (ShaderConverter.fresh 1 4 4))) = some 12 ∧
    (returned (Convert_translate exampleDotShader
        (ShaderConverter.fresh 1 4 4))).mFunctionDefinitionInstructions =
      [Pack 5 spv.OpFunction, 2, 3, spv.FunctionControlMaskNone, 1, Pack 2 spv.OpLabel, 4,
        Pack 4 spv.OpCopyObject, 6, 12, 5, Pack 4 spv.OpCopyObject, 6, 13, 5,
        Pack 5 spv.OpDot, 7, 14, 14, 13, Pack 1 spv.OpReturn, Pack 1 spv.OpFunctionEnd] ∧
    (returned (Convert_translate
        (exampleDotShader.take 13 ++
          [0x03000009, 0x800F0000, 0x80E40000, 0x80E40001, 0x0000FFFF])
        (ShaderConverter.fresh 1 4 4))).mFunctionDefinitionInstructions =
      [Pack 5 spv.OpFunction, 2, 3, spv.FunctionControlMaskNone, 1, Pack 2 spv.OpLabel, 4,
        Pack 4 spv.OpCopyObject, 6, 12, 5, Pack 4 spv.OpCopyObject, 6, 13, 5,
        Pack 5 spv.OpDot, 7, 14, 14, 13, Pack 1 spv.OpReturn, Pack 1 spv.OpFunctionEnd] := by
  decide!

/-- C38: a second `Convert` on the converter the first call leaves does not give the module
of the first call.  For the empty pixel shader the first module has the bound 6, the entry
point 3 and the declarations of the void and the function type; the second has the bound 10,
the entry point 7 and no type declaration.  For a vertex shader with one input declaration
the interface list of the entry point is `[5]` in the first module and `[5, 13]` in the
second. -/
theorem second_Convert_differs :
    (Convert exampleHost examplePixelShader (ShaderConverter.fresh 1 4 4)).toBool = true ∧
    emittedModule exampleHost examplePixelShader (ShaderConverter.fresh 1 4 4) =
      .ok ([spv.MagicNumber, exampleHost.Version, 0, 6, 0] ++
        [Pack 2 spv.OpCapability, spv.CapabilityShader] ++
        importInstruction 5 ++
        [Pack 3 spv.OpMemoryModel, spv.AddressingModelLogical, spv.MemoryModelGLSL450] ++
        entryPointInstruction spv.ExecutionModelFragment 3 [] ++
        [Pack 3 spv.OpExecutionMode, 3, spv.ExecutionModeOriginLowerLeft] ++
        [Pack 2 spv.OpTypeVoid, 2, Pack 3 spv.OpTypeFunction, 1, 2] ++
        [Pack 5 spv.OpFunction, 2, 3, spv.FunctionControlMaskNone, 1, Pack 2 spv.OpLabel, 4,
          Pack 1 spv.OpReturn, Pack 1 spv.OpFunctionEnd]) ∧
    emittedModule exampleHost examplePixelShader
        (returned (Convert exampleHost examplePixelShader (ShaderConverter.fresh 1 4 4))).2 =
      .ok ([spv.MagicNumber, exampleHost.Version, 0, 10, 0] ++
        [Pack 2 spv.OpCapability, spv.CapabilityShader] ++
        importInstruction 9 ++
        [Pack 3 spv.OpMemoryModel, spv.AddressingModelLogical, spv.MemoryModelGLSL450] ++
        entryPointInstruction spv.ExecutionModelFragment 7 [] ++
        [Pack 3 spv.OpExecutionMode, 7, spv.ExecutionModeOriginLowerLeft] ++
        [Pack 5 spv.OpFunction, 2, 7, spv.FunctionControlMaskNone, 1, Pack 2 spv.OpLabel, 8,
          Pack 1 spv.OpReturn, Pack 1 spv.OpFunctionEnd]) ∧
    (returned (Convert_translate exampleInputShader
        (ShaderConverter.fresh 1 4 4))).mEntryPointInstructions =
      entryPointInstruction spv.ExecutionModelVertex 3 [5] ∧
    (returned (Convert_translate exampleInputShader
        (returned (Convert exampleHost exampleInputShader
          (ShaderConverter.fresh 1 4 4))).2)).mEntryPointInstructions =
      entryPointInstruction spv.ExecutionModelVertex 11 [5, 13] := by
  decide!

/-- C39: on the pixel shader `ps_2_0` with the one declaration `dcl t0` the type section
is the declarations of the void type (id 2) and of the function type (id 1), then
`OpTypePointer` of id 6 with the pointee 7 and the `OpVariable` of that type; no
instruction of the module defines the id 7: the ids defined are 8, 2, 1, 6, 5, 3 and 4. -/
theorem texture_pointee_never_declared :
    (Convert exampleHost exampleTextureShader (ShaderConverter.fresh 1 4 4)).toBool = true ∧
    (returned (Convert_translate exampleTextureShader
        (ShaderConverter.fresh 1 4 4))).mTypeInstructions =
      [Pack 2 spv.OpTypeVoid, 2, Pack 3 spv.OpTypeFunction, 1, 2,
        Pack 4 spv.OpTypePointer, 6, spv.StorageClassInput, 7,
        Pack 4 spv.OpVariable, 6, 5, spv.StorageClassImage] ∧
    Option.map resultIds (splitInstructions
        ((returned (emittedModule exampleHost exampleTextureShader
          (ShaderConverter.fresh 1 4 4))).drop 5)) = some [8, 2, 1, 6, 5, 3, 4] := by
  decide!


/-! ## The empty program

No step of the translation of the empty program looks at the sidecar, so the run is the one
of a converter with empty sidecar arrays, whatever the sizes of the arrays. -/

theorem GetSpirVTypeIdFuel_setConvertedShader (fuel : Nat) (d : TypeDescription)
    (s : ShaderConverter) (c : ConvertedShader) :
    GetSpirVTypeIdFuel fuel d (s.setConvertedShader c) =
      ((GetSpirVTypeIdFuel fuel d s).1, (GetSpirVTypeIdFuel fuel d s).2.setConvertedShader c) := by
  induction fuel generalizing d s with
  | zero => rfl
  | succ n ih =>
    have e0 : (s.setConvertedShader c).mTypeIdPairs = s.mTypeIdPairs := rfl
    have e1 : ∀ x y, ((GetNextId (s.setConvertedShader c)).2.setTypeId x y).setIdType y x =
        (((GetNextId s).2.setTypeId x y).setIdType y x).setConvertedShader c := fun _ _ => rfl
    have e2 : (GetNextId (s.setConvertedShader c)).1 = (GetNextId s).1 := rfl
    rw [GetSpirVTypeIdFuel, GetSpirVTypeIdFuel, e0]
    cases h : flat_map.find TypeDescription.same d s.mTypeIdPairs with
    | some id => rfl
    | none =>
      dsimp only
      rw [e1, e2]
      split_ifs
      all_goals first
        | rfl
        | (rw [ih]; rfl)

theorem GetSpirVTypeId_Op_setConvertedShader (op : Nat) (s : ShaderConverter)
    (c : ConvertedShader) :
    GetSpirVTypeId_Op op (s.setConvertedShader c) =
      ((GetSpirVTypeId_Op op s).1, (GetSpirVTypeId_Op op s).2.setConvertedShader c) :=
  GetSpirVTypeIdFuel_setConvertedShader 4 _ s c

theorem Convert_begin_body_setConvertedShader (token : Nat) (s : ShaderConverter)
    (c : ConvertedShader) :
    Convert_begin_body token (s.setConvertedShader c) =
      (Convert_begin_body token s).setConvertedShader c := by
  have e1 : ∀ (x : ShaderConverter) (a b : Nat),
      (x.setConvertedShader c).setVersion a b = (x.setVersion a b).setConvertedShader c :=
    fun _ _ _ => rfl
  have e2 : ∀ (x : ShaderConverter) (v : Bool),
      (x.setConvertedShader c).setIsVertexShader v =
        (x.setIsVertexShader v).setConvertedShader c := fun _ _ => rfl
  have e3 : ∀ (x : ShaderConverter) (a : Nat),
      (x.setConvertedShader c).setEntryPointTypeId a =
        (x.setEntryPointTypeId a).setConvertedShader c := fun _ _ => rfl
  have e4 : ∀ (x : ShaderConverter) (a : Nat),
      (x.setConvertedShader c).setEntryPointId a =
        (x.setEntryPointId a).setConvertedShader c := fun _ _ => rfl
  have e5 : ∀ (x : ShaderConverter) (ws : List Nat),
      (x.setConvertedShader c).pushFunctionDefinition ws =
        (x.pushFunctionDefinition ws).setConvertedShader c := fun _ _ => rfl
  have e6 : ∀ x : ShaderConverter, GetNextId (x.setConvertedShader c) =
      ((GetNextId x).1, (GetNextId x).2.setConvertedShader c) := fun _ => rfl
  have e7 : ∀ x : ShaderConverter, (x.setConvertedShader c).mEntryPointId = x.mEntryPointId :=
    fun _ => rfl
  have e8 : ∀ x : ShaderConverter,
      (x.setConvertedShader c).mEntryPointTypeId = x.mEntryPointTypeId := fun _ => rfl
  unfold Convert_begin_body
  split_ifs <;>
  simp only [e1, e2, e3, e4, e5, e6, e7, e8, GetSpirVTypeId_Op_setConvertedShader]

theorem Convert_end_setConvertedShader (s : ShaderConverter) (c : ConvertedShader) :
    Convert_end (s.setConvertedShader c) = (Convert_end s).setConvertedShader c := by
  have e1 : ∀ (x : ShaderConverter) (ws : List Nat),
      (x.setConvertedShader c).pushFunctionDefinition ws =
        (x.pushFunctionDefinition ws).setConvertedShader c := fun _ _ => rfl
  have e2 : ∀ (x : ShaderConverter) (ws : List Nat),
      (x.setConvertedShader c).pushCapability ws =
        (x.pushCapability ws).setConvertedShader c := fun _ _ => rfl
  have e3 : ∀ (x : ShaderConverter) (ws : List Nat),
      (x.setConvertedShader c).pushExtension ws =
        (x.pushExtension ws).setConvertedShader c := fun _ _ => rfl
  have e4 : ∀ (x : ShaderConverter) (ws : List Nat),
      (x.setConvertedShader c).pushMemoryModel ws =
        (x.pushMemoryModel ws).setConvertedShader c := fun _ _ => rfl
  have e5 : ∀ (x : ShaderConverter) (ws : List Nat),
      (x.setConvertedShader c).pushEntryPoint ws =
        (x.pushEntryPoint ws).setConvertedShader c := fun _ _ => rfl
  have e6 : ∀ (x : ShaderConverter) (ws : List Nat),
      (x.setConvertedShader c).pushExecutionMode ws =
        (x.pushExecutionMode ws).setConvertedShader c := fun _ _ => rfl
  have e7 : ∀ x : ShaderConverter, GetNextId (x.setConvertedShader c) =
      ((GetNextId x).1, (GetNextId x).2.setConvertedShader c) := fun _ => rfl
  have e8 : ∀ x : ShaderConverter, (x.setConvertedShader c).mEntryPointId = x.mEntryPointId :=
    fun _ => rfl
  have e9 : ∀ x : ShaderConverter,
      (x.setConvertedShader c).mIsVertexShader = x.mIsVertexShader := fun _ => rfl
  have e10 : ∀ x : ShaderConverter,
      (x.setConvertedShader c).mInterfaceIds = x.mInterfaceIds := fun _ => rfl
  unfold Convert_end
  simp only [e1, e2, e3, e4, e5, e6, e7, e8, e9, e10]
  split_ifs <;> rfl

theorem dispatchBody_END (t0 t1 t2 t3 t4 : Nat) (s : ShaderConverter) :
    dispatchBody D3DPS_END t0 t1 t2 t3 t4 s = .ok s := by
  unfold dispatchBody
  dsimp only
  have e : GetOpcode D3DPS_END = 0xFFFF := by decide
  rw [e]
  rfl

/-- The loop on the empty program: one turn, which reads the end token. -/
theorem Convert_loop_empty (version : Nat) (b : ShaderConverter) (h : b.mNextToken = 1)
    (hv : version ≠ D3DPS_END) :
    Convert_loop [version, 0x0000FFFF] 2 version b = .ok (b.withReader 2 1) := by
  have hb : dispatchBody 0x0000FFFF
      (tokenAt [version, 0x0000FFFF] (b.withReader (1 + 1) 1).mNextToken 0 0)
      (tokenAt [version, 0x0000FFFF] (b.withReader (1 + 1) 1).mNextToken 0 1)
      (tokenAt [version, 0x0000FFFF] (b.withReader (1 + 1) 1).mNextToken 0 2)
      (tokenAt [version, 0x0000FFFF] (b.withReader (1 + 1) 1).mNextToken 0 3)
      (tokenAt [version, 0x0000FFFF] (b.withReader (1 + 1) 1).mNextToken 0 4)
      (b.withReader (1 + 1) 1) = .ok (b.withReader (1 + 1) 1) := dispatchBody_END _ _ _ _ _ _
  have ha : dispatchArity 0x0000FFFF = 0 := by decide
  have hs : Convert_step [version, 0x0000FFFF] b = .ok (0x0000FFFF, b.withReader 2 1) := by
    rw [Convert_step_eq, h]
    have hg : [version, 0x0000FFFF].getD 1 0 = 0x0000FFFF := rfl
    rw [if_pos (by show 1 < 2; decide), hg, if_neg (by decide), ha]
    unfold readThen
    rw [if_pos (by show 1 + 1 + 0 ≤ 2; decide), hb]
    rfl
  rw [Convert_loop_succ, if_neg hv, hs]
  show Convert_loop [version, 0x0000FFFF] 1 0x0000FFFF (b.withReader 2 1) = _
  rw [Convert_loop_succ]
  exact if_pos rfl

theorem Convert_translate_of_loop (shader : List Nat) (s b l : ShaderConverter) (token : Nat)
    (hb : Convert_begin shader s = .ok (token, b))
    (hl : Convert_loop shader shader.length token b = .ok l) :
    Convert_translate shader s = .ok (Convert_end l) := by
  unfold Convert_translate
  rw [hb]
  simp only [bind, Except.bind, pure, Except.pure]
  rw [hl]

theorem Convert_begin_empty (a b : Nat) :
    Convert_begin [0xFFFF0200, 0x0000FFFF] (ShaderConverter.fresh 1 a b) =
      .ok (0xFFFF0200, Convert_begin_body 0xFFFF0200
        (((((ShaderConverter.fresh 1 a b).setConvertedShader
          (ShaderConverter.fresh 1 a b).mConvertedShader.cleared).clearInstructions.rewind).withReader
            1 (ShaderConverter.fresh 1 a b).mTokenOffset))) := by
  have hg : [0xFFFF0200, 0x0000FFFF].getD 0 0 = 0xFFFF0200 := rfl
  rw [Convert_begin_eq, if_pos (by show 0 < 2; decide), hg]

theorem Convert_translate_empty_eq (a b : Nat) :
    Convert_translate [0xFFFF0200, 0x0000FFFF] (ShaderConverter.fresh 1 a b) =
      .ok (Convert_end ((Convert_begin_body 0xFFFF0200
        (((((ShaderConverter.fresh 1 a b).setConvertedShader
          (ShaderConverter.fresh 1 a b).mConvertedShader.cleared).clearInstructions.rewind).withReader
            1 (ShaderConverter.fresh 1 a b).mTokenOffset))).withReader 2 1)) :=
  Convert_translate_of_loop _ _ _ _ _ (Convert_begin_empty a b)
    (Convert_loop_empty 0xFFFF0200 _ (Convert_begin_ok _ _ _ _ (Convert_begin_empty a b)).2.1
      (by decide))

/-- The translation of the empty pixel program by a converter right after construction: the
state the converter with empty sidecar arrays ends in, with the sidecar of this one
reset. -/
theorem Convert_translate_empty (attributes bindings : Nat) :
    Convert_translate [0xFFFF0200, 0x0000FFFF] (ShaderConverter.fresh 1 attributes bindings) =
      .ok ((returned (Convert_translate [0xFFFF0200, 0x0000FFFF]
          (ShaderConverter.fresh 1 0 0))).setConvertedShader
        (ShaderConverter.fresh 1 attributes bindings).mConvertedShader.cleared) := by
  have e : ((((ShaderConverter.fresh 1 attributes bindings).setConvertedShader
      (ShaderConverter.fresh 1 attributes bindings).mConvertedShader.cleared).clearInstructions.rewind).withReader
        1 (ShaderConverter.fresh 1 attributes bindings).mTokenOffset) =
      (((((ShaderConverter.fresh 1 0 0).setConvertedShader
        (ShaderConverter.fresh 1 0 0).mConvertedShader.cleared).clearInstructions.rewind).withReader
          1 (ShaderConverter.fresh 1 0 0).mTokenOffset)).setConvertedShader
        (ShaderConverter.fresh 1 attributes bindings).mConvertedShader.cleared := rfl
  have w : ∀ (x : ShaderConverter) (c : ConvertedShader) (i j : Nat),
      (x.setConvertedShader c).withReader i j = (x.withReader i j).setConvertedShader c :=
    fun _ _ _ _ => rfl
  have r : ∀ x : ShaderConverter, returned (Except.ok x : Except Fault ShaderConverter) = x :=
    fun _ => rfl
  rw [Convert_translate_empty_eq attributes bindings, Convert_translate_empty_eq 0 0, e,
    Convert_begin_body_setConvertedShader, w, Convert_end_setConvertedShader, r]

/-- C36: for the empty pixel program `[0xFFFF0200, 0x0000FFFF]` on a converter right after
construction, whatever the sizes of its sidecar arrays and the version word of the host, the
module is the header and then exactly `OpCapability Shader`, `OpExtInstImport` of
`GLSL.std.450`, `OpMemoryModel Logical GLSL450`, `OpEntryPoint Fragment` of the name `main`
without interface ids, `OpExecutionMode OriginLowerLeft`, the declarations of the void type
and of the function type, `OpFunction`, `OpLabel`, `OpReturn` and `OpFunctionEnd`; `Convert`
returns, and both counts of the sidecar it returns are 0. -/
theorem Convert_empty_pixel_program (host : Host) (attributes bindings : Nat) :
    emittedModule host [0xFFFF0200, 0x0000FFFF]
        (ShaderConverter.fresh 1 attributes bindings) =
      .ok ([spv.MagicNumber, host.Version, 0, 6, 0] ++
        ([Pack 2 spv.OpCapability, spv.CapabilityShader] ++
        ([Pack 6 spv.OpExtInstImport, 5] ++ PutStringInVector (stringBytes "GLSL.std.450")) ++
        [Pack 3 spv.OpMemoryModel, spv.AddressingModelLogical, spv.MemoryModelGLSL450] ++
        ([Pack 5 spv.OpEntryPoint, spv.ExecutionModelFragment, 3] ++
          PutStringInVector (stringBytes "main")) ++
        [Pack 3 spv.OpExecutionMode, 3, spv.ExecutionModeOriginLowerLeft] ++
        [Pack 2 spv.OpTypeVoid, 2] ++
        [Pack 3 spv.OpTypeFunction, 1, 2] ++
        [Pack 5 spv.OpFunction, 2, 3, spv.FunctionControlMaskNone, 1] ++
        [Pack 2 spv.OpLabel, 4] ++
        [Pack 1 spv.OpReturn] ++
        [Pack 1 spv.OpFunctionEnd])) ∧
    ∃ out, Convert host [0xFFFF0200, 0x0000FFFF]
        (ShaderConverter.fresh 1 attributes bindings) = .ok out ∧
      out.1.mVertexInputAttributeDescriptionCount = 0 ∧
      out.1.mDescriptorSetLayoutBindingCount = 0 := by
  have ht := Convert_translate_empty attributes bindings
  have h1 : (returned (Convert_translate [0xFFFF0200, 0x0000FFFF]
      (ShaderConverter.fresh 1 0 0))).mNextId = 6 := by decide!
  have h2 : (specSectionOrder (returned (Convert_translate [0xFFFF0200, 0x0000FFFF]
      (ShaderConverter.fresh 1 0 0)))).flatten =
      [Pack 2 spv.OpCapability, spv.CapabilityShader] ++
        ([Pack 6 spv.OpExtInstImport, 5] ++ PutStringInVector (stringBytes "GLSL.std.450")) ++
        [Pack 3 spv.OpMemoryModel, spv.AddressingModelLogical, spv.MemoryModelGLSL450] ++
        ([Pack 5 spv.OpEntryPoint, spv.ExecutionModelFragment, 3] ++
          PutStringInVector (stringBytes "main")) ++
        [Pack 3 spv.OpExecutionMode, 3, spv.ExecutionModeOriginLowerLeft] ++
        [Pack 2 spv.OpTypeVoid, 2] ++
        [Pack 3 spv.OpTypeFunction, 1, 2] ++
        [Pack 5 spv.OpFunction, 2, 3, spv.FunctionControlMaskNone, 1] ++
        [Pack 2 spv.OpLabel, 4] ++
        [Pack 1 spv.OpReturn] ++
        [Pack 1 spv.OpFunctionEnd] := by decide!
  constructor
  · rw [emittedModule_of_translate host _ _ _ ht]
    have e1 : ∀ (x : ShaderConverter) (c : ConvertedShader),
        (x.setConvertedShader c).mNextId = x.mNextId := fun _ _ => rfl
    have e2 : ∀ (x : ShaderConverter) (c : ConvertedShader),
        specSectionOrder (x.setConvertedShader c) = specSectionOrder x := fun _ _ => rfl
    rw [e1, e2, h1, h2]
    rfl
  · refine ⟨_, by unfold Convert Convert_assemble; rw [ht]; rfl, ?_, ?_⟩
    · exact (CreateSpirVModule_attributes host _).1
    · exact (CreateSpirVModule_attributes host _).2.2.1


/-! ## Well-formed streams

On a stream of handled instructions with their operands the reader never leaves the
buffer. -/

theorem operandCount_arity (token k : Nat) (hc : GetOpcode token ≠ D3DSIO_COMMENT)
    (h : operandCount token = some k) : dispatchArity token = k := by
  unfold operandCount at h
  unfold dispatchArity
  dsimp only
  generalize GetOpcode token = op at hc h
  rw [if_neg hc] at h
  by_cases h0 : op = D3DSIO_NOP
  · subst h0
    simp [D3DSIO_NOP, D3DSIO_MOV, D3DSIO_ADD, D3DSIO_SUB, D3DSIO_MAD, D3DSIO_MUL, D3DSIO_DP3,
      D3DSIO_DP4, D3DSIO_MIN, D3DSIO_MAX, D3DSIO_DCL, D3DSIO_DEFB, D3DSIO_DEFI, D3DSIO_TEX,
      D3DSIO_DEF, D3DSIO_COMMENT] at h
    subst h
    decide
  rw [if_neg h0] at h
  by_cases h1 : op = D3DSIO_DCL
  · subst h1
    simp [D3DSIO_NOP, D3DSIO_MOV, D3DSIO_ADD, D3DSIO_SUB, D3DSIO_MAD, D3DSIO_MUL, D3DSIO_DP3,
      D3DSIO_DP4, D3DSIO_MIN, D3DSIO_MAX, D3DSIO_DCL, D3DSIO_DEFB, D3DSIO_DEFI, D3DSIO_TEX,
      D3DSIO_DEF, D3DSIO_COMMENT] at h
    subst h
    decide
  rw [if_neg h1] at h
  by_cases h2 : op = D3DSIO_DEFB
  · subst h2
    simp [D3DSIO_NOP, D3DSIO_MOV, D3DSIO_ADD, D3DSIO_SUB, D3DSIO_MAD, D3DSIO_MUL, D3DSIO_DP3,
      D3DSIO_DP4, D3DSIO_MIN, D3DSIO_MAX, D3DSIO_DCL, D3DSIO_DEFB, D3DSIO_DEFI, D3DSIO_TEX,
      D3DSIO_DEF, D3DSIO_COMMENT] at h
    subst h
    decide
  rw [if_neg h2] at h
  by_cases h3 : op = D3DSIO_DEF
  · subst h3
    simp [D3DSIO_NOP, D3DSIO_MOV, D3DSIO_ADD, D3DSIO_SUB, D3DSIO_MAD, D3DSIO_MUL, D3DSIO_DP3,
      D3DSIO_DP4, D3DSIO_MIN, D3DSIO_MAX, D3DSIO_DCL, D3DSIO_DEFB, D3DSIO_DEFI, D3DSIO_TEX,
      D3DSIO_DEF, D3DSIO_COMMENT] at h
    subst h
    decide
  rw [if_neg h3] at h
  by_cases h4 : op = D3DSIO_DEFI
  · subst h4
    simp [D3DSIO_NOP, D3DSIO_MOV, D3DSIO_ADD, D3DSIO_SUB, D3DSIO_MAD, D3DSIO_MUL, D3DSIO_DP3,
      D3DSIO_DP4, D3DSIO_MIN, D3DSIO_MAX, D3DSIO_DCL, D3DSIO_DEFB, D3DSIO_DEFI, D3DSIO_TEX,
      D3DSIO_DEF, D3DSIO_COMMENT] at h
    subst h
    decide
  rw [if_neg h4] at h
  by_cases h5 : op = D3DSIO_MOV
  · subst h5
    simp [D3DSIO_NOP, D3DSIO_MOV, D3DSIO_ADD, D3DSIO_SUB, D3DSIO_MAD, D3DSIO_MUL, D3DSIO_DP3,
      D3DSIO_DP4, D3DSIO_MIN, D3DSIO_MAX, D3DSIO_DCL, D3DSIO_DEFB, D3DSIO_DEFI, D3DSIO_TEX,
      D3DSIO_DEF, D3DSIO_COMMENT] at h
    subst h
    decide
  rw [if_neg h5] at h
  by_cases h6 : op = D3DSIO_ADD
  · subst h6
    simp [D3DSIO_NOP, D3DSIO_MOV, D3DSIO_ADD, D3DSIO_SUB, D3DSIO_MAD, D3DSIO_MUL, D3DSIO_DP3,
      D3DSIO_DP4, D3DSIO_MIN, D3DSIO_MAX, D3DSIO_DCL, D3DSIO_DEFB, D3DSIO_DEFI, D3DSIO_TEX,
      D3DSIO_DEF, D3DSIO_COMMENT] at h
    subst h
    decide
  rw [if_neg h6] at h
  by_cases h7 : op = D3DSIO_SUB
  · subst h7
    simp [D3DSIO_NOP, D3DSIO_MOV, D3DSIO_ADD, D3DSIO_SUB, D3DSIO_MAD, D3DSIO_MUL, D3DSIO_DP3,
      D3DSIO_DP4, D3DSIO_MIN, D3DSIO_MAX, D3DSIO_DCL, D3DSIO_DEFB, D3DSIO_DEFI, D3DSIO_TEX,
      D3DSIO_DEF, D3DSIO_COMMENT] at h
    subst h
    decide
  rw [if_neg h7] at h
  by_cases h8 : op = D3DSIO_MUL
  · subst h8
    simp [D3DSIO_NOP, D3DSIO_MOV, D3DSIO_ADD, D3DSIO_SUB, D3DSIO_MAD, D3DSIO_MUL, D3DSIO_DP3,
      D3DSIO_DP4, D3DSIO_MIN, D3DSIO_MAX, D3DSIO_DCL, D3DSIO_DEFB, D3DSIO_DEFI, D3DSIO_TEX,
      D3DSIO_DEF, D3DSIO_COMMENT] at h
    subst h
    decide
  rw [if_neg h8] at h
  by_cases h9 : op = D3DSIO_DP3
  · subst h9
    simp [D3DSIO_NOP, D3DSIO_MOV, D3DSIO_ADD, D3DSIO_SUB, D3DSIO_MAD, D3DSIO_MUL, D3DSIO_DP3,
      D3DSIO_DP4, D3DSIO_MIN, D3DSIO_MAX, D3DSIO_DCL, D3DSIO_DEFB, D3DSIO_DEFI, D3DSIO_TEX,
      D3DSIO_DEF, D3DSIO_COMMENT] at h
    subst h
    decide
  rw [if_neg h9] at h
  by_cases h10 : op = D3DSIO_DP4
  · subst h10
    simp [D3DSIO_NOP, D3DSIO_MOV, D3DSIO_ADD, D3DSIO_SUB, D3DSIO_MAD, D3DSIO_MUL, D3DSIO_DP3,
      D3DSIO_DP4, D3DSIO_MIN, D3DSIO_MAX, D3DSIO_DCL, D3DSIO_DEFB, D3DSIO_DEFI, D3DSIO_TEX,
      D3DSIO_DEF, D3DSIO_COMMENT] at h
    subst h
    decide
  rw [if_neg h10] at h
  by_cases h11 : op = D3DSIO_TEX
  · subst h11
    simp [D3DSIO_NOP, D3DSIO_MOV, D3DSIO_ADD, D3DSIO_SUB, D3DSIO_MAD, D3DSIO_MUL, D3DSIO_DP3,
      D3DSIO_DP4, D3DSIO_MIN, D3DSIO_MAX, D3DSIO_DCL, D3DSIO_DEFB, D3DSIO_DEFI, D3DSIO_TEX,
      D3DSIO_DEF, D3DSIO_COMMENT] at h
    subst h
    decide
  rw [if_neg h11] at h
  by_cases h12 : op = D3DSIO_MAD
  · subst h12
    simp [D3DSIO_NOP, D3DSIO_MOV, D3DSIO_ADD, D3DSIO_SUB, D3DSIO_MAD, D3DSIO_MUL, D3DSIO_DP3,
      D3DSIO_DP4, D3DSIO_MIN, D3DSIO_MAX, D3DSIO_DCL, D3DSIO_DEFB, D3DSIO_DEFI, D3DSIO_TEX,
      D3DSIO_DEF, D3DSIO_COMMENT] at h
    subst h
    decide
  rw [if_neg h12] at h
  cases h

theorem Process_DCL_Vertex_body_fault (token registerToken : Nat) (s : ShaderConverter)
    (e : Fault) (h : Process_DCL_Vertex_body token registerToken s = .error e) :
    e = .arrayOverflow := by
  rw [Process_DCL_Vertex_body_eq] at h
  split_ifs at h
  · split at h
    · cases h
    · cases h
      rfl

theorem Process_DCL_Pixel_body_fault (token registerToken : Nat) (s : ShaderConverter)
    (e : Fault) (h : Process_DCL_Pixel_body token registerToken s = .error e) :
    e = .arrayOverflow := by
  rw [Process_DCL_Pixel_body_eq] at h
  split_ifs at h
  · split at h
    · cases h
    · cases h
      rfl

/-- The work of a handler on the tokens it has read fails only by a write past the end of a
sidecar array. -/
theorem dispatchBody_overflow (token t0 t1 t2 t3 t4 : Nat) (s : ShaderConverter) (e : Fault)
    (h : dispatchBody token t0 t1 t2 t3 t4 s = .error e) : e = .arrayOverflow := by
  revert e
  apply dispatchBody_cases (fun r => ∀ e, r = .error e → e = .arrayOverflow)
  case hDCLV => exact fun e h => Process_DCL_Vertex_body_fault _ _ _ e h
  case hDCLP => exact fun e h => Process_DCL_Pixel_body_fault _ _ _ e h
  all_goals (intro e h; cases h)

theorem WellFormedFrom_none (shader : List Nat) (fuel position : Nat)
    (h : shader[position]? = none) : WellFormedFrom shader (fuel + 1) position = false := by
  simp only [WellFormedFrom, h]

theorem WellFormedFrom_end (shader : List Nat) (fuel position : Nat)
    (h : shader[position]? = some D3DPS_END) :
    WellFormedFrom shader (fuel + 1) position = (position + 1 == shader.length) := by
  simp only [WellFormedFrom, h, if_true]

theorem WellFormedFrom_unknown (shader : List Nat) (fuel position token : Nat)
    (h : shader[position]? = some token) (hend : token ≠ D3DPS_END)
    (hk : operandCount token = none) : WellFormedFrom shader (fuel + 1) position = false := by
  simp only [WellFormedFrom, h, hk, if_neg hend]

theorem WellFormedFrom_operands (shader : List Nat) (fuel position token k : Nat)
    (h : shader[position]? = some token) (hend : token ≠ D3DPS_END)
    (hk : operandCount token = some k) :
    WellFormedFrom shader (fuel + 1) position =
      WellFormedFrom shader fuel (position + 1 + k) := by
  simp only [WellFormedFrom, h, hk, if_neg hend]

theorem WellFormedFrom_lt (shader : List Nat) (fuel position : Nat)
    (h : WellFormedFrom shader fuel position = true) : position < shader.length := by
  cases fuel with
  | zero =>
    simp only [WellFormedFrom] at h
    cases h
  | succ n =>
    by_contra hge
    rw [WellFormedFrom_none _ _ _ (List.getElem?_eq_none (by omega))] at h
    cases h

theorem readThen_cases (k : Nat)
    (body : Nat → Nat → Nat → Nat → Nat → ShaderConverter → Except Fault ShaderConverter)
    (shader : List Nat) (s : ShaderConverter) (hk : s.mNextToken + k ≤ shader.length) :
    (∃ r0, body (tokenAt shader s.mNextToken k 0) (tokenAt shader s.mNextToken k 1)
          (tokenAt shader s.mNextToken k 2) (tokenAt shader s.mNextToken k 3)
          (tokenAt shader s.mNextToken k 4) s = .ok r0 ∧
        readThen k body shader s = .ok (r0.withReader (s.mNextToken + k) s.mTokenOffset)) ∨
      ∃ e, body (tokenAt shader s.mNextToken k 0) (tokenAt shader s.mNextToken k 1)
          (tokenAt shader s.mNextToken k 2) (tokenAt shader s.mNextToken k 3)
          (tokenAt shader s.mNextToken k 4) s = .error e ∧
        readThen k body shader s = .error e := by
  unfold readThen
  rw [if_pos hk]
  cases hb : body (tokenAt shader s.mNextToken k 0) (tokenAt shader s.mNextToken k 1)
      (tokenAt shader s.mNextToken k 2) (tokenAt shader s.mNextToken k 3)
      (tokenAt shader s.mNextToken k 4) s with
  | error e => exact Or.inr ⟨e, rfl, rfl⟩
  | ok r0 => exact Or.inl ⟨r0, rfl, rfl⟩

/-- One turn of the loop at a place from which the stream is well formed: the turn reads
the token there and leaves the reader after its operands, where the stream is well formed
again, or at the end of the buffer when the token is the end token; or it fails by a write
past the end of a sidecar array. -/
theorem Convert_step_wellFormed (shader : List Nat) (n : Nat) (s : ShaderConverter)
    (h : WellFormedFrom shader (n + 1) s.mNextToken = true) :
    (∃ token r, Convert_step shader s = .ok (token, r) ∧
      (if token = D3DPS_END then r.mNextToken = shader.length
        else WellFormedFrom shader n r.mNextToken = true)) ∨
    Convert_step shader s = .error .arrayOverflow := by
  have hlt := WellFormedFrom_lt _ _ _ h
  have hread : shader[s.mNextToken]? = some (shader.getD s.mNextToken 0) := by
    simp [List.getD_eq_getElem?_getD, List.getElem?_eq_getElem hlt]
  rw [Convert_step_eq, if_pos hlt]
  generalize shader.getD s.mNextToken 0 = token at hread
  by_cases hend : token = D3DPS_END
  · subst hend
    rw [WellFormedFrom_end _ _ _ hread] at h
    have hlen : s.mNextToken + 1 = shader.length := by simpa using h
    left
    rw [if_neg (by decide)]
    have ha : dispatchArity D3DPS_END = 0 := by decide
    rw [ha]
    rcases readThen_cases 0 (dispatchBody D3DPS_END) shader
      (s.withReader (s.mNextToken + 1) s.mNextToken)
      (by show s.mNextToken + 1 + 0 ≤ shader.length; omega) with ⟨r0, _, hr⟩ | ⟨e, he, _⟩
    · rw [hr]
      refine ⟨D3DPS_END, _, rfl, ?_⟩
      rw [if_pos rfl]
      show s.mNextToken + 1 + 0 = shader.length
      omega
    · rw [dispatchBody_END] at he
      cases he
  · cases hk : operandCount token with
    | none =>
      rw [WellFormedFrom_unknown _ _ _ _ hread hend hk] at h
      cases h
    | some k =>
      rw [WellFormedFrom_operands _ _ _ _ _ hread hend hk] at h
      have hlt2 := WellFormedFrom_lt _ _ _ h
      by_cases hc : GetOpcode token = D3DSIO_COMMENT
      · rw [if_pos hc]
        left
        have hk2 : (token &&& 0x0FFF0000) >>> 16 = k := by
          unfold operandCount at hk
          rw [if_pos hc] at hk
          injection hk
        refine ⟨token, _, rfl, ?_⟩
        rw [if_neg hend]
        show WellFormedFrom shader n (s.mNextToken + 1 + _) = true
        rw [hk2]
        exact h
      · rw [if_neg hc, operandCount_arity _ _ hc hk]
        rcases readThen_cases k (dispatchBody token) shader
          (s.withReader (s.mNextToken + 1) s.mNextToken)
          (by show s.mNextToken + 1 + k ≤ shader.length; omega) with ⟨r0, _, hr⟩ | ⟨e, he, hr⟩
        · rw [hr]
          left
          refine ⟨token, _, rfl, ?_⟩
          rw [if_neg hend]
          exact h
        · rw [hr, dispatchBody_overflow _ _ _ _ _ _ _ _ he]
          right
          rfl

theorem Convert_loop_end (shader : List Nat) (fuel : Nat) (s : ShaderConverter) :
    Convert_loop shader fuel D3DPS_END s = .ok s := by
  cases fuel with
  | zero =>
    rw [Convert_loop_zero]
    exact if_pos rfl
  | succ n =>
    rw [Convert_loop_succ]
    exact if_pos rfl

/-- The loop on a well-formed stream reads up to the end of the buffer and no further. -/
theorem Convert_loop_wellFormed (shader : List Nat) (n fuel token : Nat) (s : ShaderConverter)
    (hn : n ≤ fuel)
    (h : if token = D3DPS_END then s.mNextToken = shader.length
      else WellFormedFrom shader n s.mNextToken = true) :
    (∃ r, Convert_loop shader fuel token s = .ok r ∧ r.mNextToken = shader.length) ∨
      Convert_loop shader fuel token s = .error .arrayOverflow := by
  induction n generalizing fuel token s with
  | zero =>
    by_cases hend : token = D3DPS_END
    · rw [if_pos hend] at h
      subst hend
      exact Or.inl ⟨s, Convert_loop_end _ _ _, h⟩
    · rw [if_neg hend] at h
      simp only [WellFormedFrom] at h
      cases h
  | succ m ih =>
    by_cases hend : token = D3DPS_END
    · rw [if_pos hend] at h
      subst hend
      exact Or.inl ⟨s, Convert_loop_end _ _ _, h⟩
    · rw [if_neg hend] at h
      obtain ⟨f, rfl⟩ : ∃ f, fuel = f + 1 := ⟨fuel - 1, by omega⟩
      rw [Convert_loop_succ, if_neg hend]
      rcases Convert_step_wellFormed shader m s h with ⟨tok, r, hs, hinv⟩ | hs
      · rw [hs]
        exact ih f tok r (by omega) hinv
      · rw [hs]
        exact Or.inr rfl

theorem Convert_translate_of_fault (shader : List Nat) (s b : ShaderConverter) (token : Nat)
    (e : Fault) (hb : Convert_begin shader s = .ok (token, b))
    (hl : Convert_loop shader shader.length token b = .error e) :
    Convert_translate shader s = .error e := by
  unfold Convert_translate
  rw [hb]
  simp only [bind, Except.bind, pure, Except.pure]
  rw [hl]

theorem Convert_of_translate_ok (host : Host) (shader : List Nat) (s t : ShaderConverter)
    (ht : Convert_translate shader s = .ok t) :
    Convert host shader s =
      .ok ((CreateSpirVModule host (CombineSpirVOpCodes (Convert_header host t))).mConvertedShader,
        CreateSpirVModule host (CombineSpirVOpCodes (Convert_header host t))) := by
  unfold Convert Convert_assemble
  rw [ht]
  rfl

theorem Convert_of_translate_fault (host : Host) (shader : List Nat) (s : ShaderConverter)
    (e : Fault) (ht : Convert_translate shader s = .error e) :
    Convert host shader s = .error e := by
  unfold Convert Convert_assemble
  rw [ht]
  rfl

/-- C40: on a token stream that consists of a version token, then instructions the
translator handles, each followed by exactly the operand tokens its handler consumes, then
the end token `0x0000FFFF`, `Convert` never reads a token at or beyond the end of the
stream: the read past the end does not happen, and the run either returns with the reader
right after the last token of the stream, which is the end token, or stops at a write past
the end of a sidecar array. -/
theorem Convert_reads_inside_stream (host : Host) (shader : List Nat) (s : ShaderConverter)
    (h : WellFormed shader = true) :
    Convert host shader s ≠ .error .readPastEnd ∧
    Convert host shader s ≠ .error .outOfFuel ∧
    ((∃ out, Convert host shader s = .ok out ∧ out.2.mNextToken = shader.length ∧
        shader[out.2.mNextToken - 1]? = some 0x0000FFFF) ∨
      Convert host shader s = .error .arrayOverflow) := by
  have main : (∃ out, Convert host shader s = .ok out ∧ out.2.mNextToken = shader.length ∧
        shader[out.2.mNextToken - 1]? = some 0x0000FFFF) ∨
      Convert host shader s = .error .arrayOverflow := by
    unfold WellFormed at h
    cases h0 : shader[0]? with
    | none =>
      rw [h0] at h
      cases h
    | some version =>
      rw [h0] at h
      dsimp only at h
      rw [Bool.and_eq_true] at h
      obtain ⟨hver, hwf⟩ := h
      have hlen : 0 < shader.length := by
        by_contra hge
        rw [List.getElem?_eq_none (by omega)] at h0
        cases h0
      have hg : shader.getD 0 0 = version := by
        rw [List.getD_eq_getElem?_getD, h0]
        rfl
      have hb := Convert_begin_eq shader s
      rw [if_pos hlen, hg] at hb
      have h1 := (Convert_begin_ok _ _ _ _ hb).2.1
      have hne : version ≠ D3DPS_END := by
        intro hv
        rw [hv] at hver
        revert hver
        decide
      rcases Convert_loop_wellFormed shader shader.length shader.length version _
          (Nat.le_refl _) (by rw [if_neg hne, h1]; exact hwf) with ⟨l, hl, hend⟩ | hl
      · left
        have ht := Convert_translate_of_loop _ _ _ _ _ hb hl
        have hc := Convert_of_translate_ok host _ _ _ ht
        have hends := (Convert_translate_ends _ _ _ ht).2
        refine ⟨_, hc, ?_, ?_⟩
        · show (CreateSpirVModule host (CombineSpirVOpCodes
            (Convert_header host (Convert_end l)))).mNextToken = _
          rw [Convert_mNextToken, Convert_end_mNextToken, hend]
        · show shader[(CreateSpirVModule host (CombineSpirVOpCodes
            (Convert_header host (Convert_end l)))).mNextToken - 1]? = _
          rw [Convert_mNextToken]
          exact hends
      · right
        exact Convert_of_translate_fault host _ _ _ (Convert_translate_of_fault _ _ _ _ _ hb hl)
  refine ⟨?_, ?_, main⟩
  · rcases main with ⟨out, ho, _⟩ | he
    · rw [ho]
      intro hc
      cases hc
    · rw [he]
      intro hc
      cases hc
  · rcases main with ⟨out, ho, _⟩ | he
    · rw [ho]
      intro hc
      cases hc
    · rw [he]
      intro hc
      cases hc

/-- The hypothesis of C40 holds on the stream `def c0`, `mov r0, c0`, `mov r1, c0`,
`dp3 r0, r0, r1`, and the run on it returns. -/
theorem Convert_reads_inside_stream_witness :
    WellFormed exampleDotShader = true ∧
    Convert exampleHost exampleDotShader (ShaderConverter.fresh 1 4 4) ≠ .error .readPastEnd ∧
    Convert exampleHost exampleDotShader (ShaderConverter.fresh 1 4 4) ≠ .error .outOfFuel ∧
    ((∃ out, Convert exampleHost exampleDotShader (ShaderConverter.fresh 1 4 4) = .ok out ∧
        out.2.mNextToken = exampleDotShader.length ∧
        exampleDotShader[out.2.mNextToken - 1]? = some 0x0000FFFF) ∨
      Convert exampleHost exampleDotShader (ShaderConverter.fresh 1 4 4) =
        .error .arrayOverflow) :=
  ⟨by decide!, Convert_reads_inside_stream exampleHost exampleDotShader
    (ShaderConverter.fresh 1 4 4) (by decide!)⟩


/-! ## The handlers and the interface list

Only the declaration of an input register of a vertex shader writes the list of the
interface ids. -/

theorem setConvertedShader_interfaces (s : ShaderConverter) (c : ConvertedShader) :
    (s.setConvertedShader c).mInterfaceIds = s.mInterfaceIds := rfl

theorem pushType_interfaces (s : ShaderConverter) (ws : List Nat) :
    (s.pushType ws).mInterfaceIds = s.mInterfaceIds := rfl

theorem pushFunctionDefinition_interfaces (s : ShaderConverter) (ws : List Nat) :
    (s.pushFunctionDefinition ws).mInterfaceIds = s.mInterfaceIds := rfl

theorem setTypeId_interfaces (s : ShaderConverter) (d : TypeDescription) (i : Nat) :
    (s.setTypeId d i).mInterfaceIds = s.mInterfaceIds := rfl

theorem setIdType_interfaces (s : ShaderConverter) (d : TypeDescription) (i : Nat) :
    (s.setIdType i d).mInterfaceIds = s.mInterfaceIds := rfl

theorem setPositionRegister_interfaces (s : ShaderConverter) (i : Nat) :
    (s.setPositionRegister i).mInterfaceIds = s.mInterfaceIds := rfl

theorem GetNextId_interfaces (s : ShaderConverter) :
    (GetNextId s).2.mInterfaceIds = s.mInterfaceIds := rfl

theorem SetIdByRegister_interfaces (token id : Nat) (s : ShaderConverter) :
    (SetIdByRegister token id s).mInterfaceIds = s.mInterfaceIds := rfl

theorem GetNextVersionId_interfaces (token : Nat) (s : ShaderConverter) :
    (GetNextVersionId token s).2.mInterfaceIds = s.mInterfaceIds := rfl

theorem snagNextId_interfaces (d : TypeDescription) (s : ShaderConverter) :
    (snagNextId d s).mInterfaceIds = s.mInterfaceIds := rfl

theorem GetSpirVTypeIdFuel_interfaces (fuel : Nat) (d : TypeDescription)
    (s : ShaderConverter) : (GetSpirVTypeIdFuel fuel d s).2.mInterfaceIds = s.mInterfaceIds := by
  induction fuel generalizing d s with
  | zero => rfl
  | succ n ih =>
    unfold GetSpirVTypeIdFuel
    cases h : flat_map.find TypeDescription.same d s.mTypeIdPairs with
    | some id => rfl
    | none =>
      dsimp only
      split_ifs
      all_goals first
        | rfl
        | simp only [pushType_interfaces, ih, setIdType_interfaces, setTypeId_interfaces,
            GetNextId_interfaces]

theorem GetSpirVTypeId_interfaces (d : TypeDescription) (s : ShaderConverter) :
    (GetSpirVTypeId d s).2.mInterfaceIds = s.mInterfaceIds :=
  GetSpirVTypeIdFuel_interfaces 4 d s

theorem GetSpirVTypeId_Op_interfaces (op : Nat) (s : ShaderConverter) :
    (GetSpirVTypeId_Op op s).2.mInterfaceIds = s.mInterfaceIds :=
  GetSpirVTypeId_interfaces _ s

theorem GetSpirVTypeId_Op2_interfaces (op1 op2 : Nat) (s : ShaderConverter) :
    (GetSpirVTypeId_Op2 op1 op2 s).2.mInterfaceIds = s.mInterfaceIds :=
  GetSpirVTypeId_interfaces _ s

theorem GetSpirVTypeId_Op3_interfaces (op1 op2 n : Nat) (s : ShaderConverter) :
    (GetSpirVTypeId_Op3 op1 op2 n s).2.mInterfaceIds = s.mInterfaceIds :=
  GetSpirVTypeId_interfaces _ s

theorem GetIdByRegister_interfaces (token : Nat) (s : ShaderConverter) :
    (GetIdByRegister token s).2.mInterfaceIds = s.mInterfaceIds := by
  unfold GetIdByRegister
  cases h : findIdByRegister token s with
  | some id => rfl
  | none =>
    dsimp only
    split_ifs
    · simp only [pushType_interfaces, setIdType_interfaces, SetIdByRegister_interfaces,
        GetSpirVTypeId_interfaces, GetNextId_interfaces]
    · rfl

theorem GetTypeByRegister_interfaces (token : Nat) (s : ShaderConverter) :
    (GetTypeByRegister token s).2.mInterfaceIds = s.mInterfaceIds := by
  unfold GetTypeByRegister
  dsimp only
  split <;> simp only [GetIdByRegister_interfaces]

theorem GetSwizzledId_interfaces (token inputId : Nat) (s : ShaderConverter) :
    (GetSwizzledId token inputId s).2.mInterfaceIds = s.mInterfaceIds := by
  unfold GetSwizzledId
  dsimp only
  split_ifs <;>
    simp only [GetIdByRegister_interfaces, GetNextId_interfaces, GetSpirVTypeId_Op_interfaces,
      GetSpirVTypeId_Op3_interfaces, pushFunctionDefinition_interfaces]

theorem loadArgument_interfaces (dataTypeId token : Nat) (s : ShaderConverter) :
    (loadArgument dataTypeId token s).2.mInterfaceIds = s.mInterfaceIds := by
  unfold loadArgument
  simp only [GetNextId_interfaces, pushFunctionDefinition_interfaces,
    GetIdByRegister_interfaces, GetSwizzledId_interfaces]

theorem emitArithmetic_interfaces (iop fop dt dti rt a1 a2 : Nat) (s : ShaderConverter) :
    (emitArithmetic iop fop dt dti rt a1 a2 s).mInterfaceIds = s.mInterfaceIds := by
  unfold emitArithmetic
  split_ifs <;> rfl

theorem emitMultiplyAdd_interfaces (dt dti rt ri a1 a2 a3 : Nat) (s : ShaderConverter) :
    (emitMultiplyAdd dt dti rt ri a1 a2 a3 s).mInterfaceIds = s.mInterfaceIds := by
  unfold emitMultiplyAdd
  split_ifs <;> rfl

theorem Process_MOV_body_interfaces (t0 t1 : Nat) (s : ShaderConverter) :
    (Process_MOV_body t0 t1 s).mInterfaceIds = s.mInterfaceIds := by
  unfold Process_MOV_body
  simp only [GetTypeByRegister_interfaces, GetSpirVTypeId_interfaces, snagNextId_interfaces,
    GetSwizzledId_interfaces, pushFunctionDefinition_interfaces, GetNextVersionId_interfaces]

theorem Process_arithmetic_body_interfaces (iop fop : Nat) (again : Bool)
    (t0 t1 t2 : Nat) (s : ShaderConverter) :
    (Process_arithmetic_body iop fop again t0 t1 t2 s).mInterfaceIds = s.mInterfaceIds := by
  unfold Process_arithmetic_body
  dsimp only
  cases again <;>
  split_ifs <;>
    simp only [GetSwizzledId_interfaces, emitArithmetic_interfaces, loadArgument_interfaces,
      GetSpirVTypeId_interfaces, Bool.false_eq_true, if_false, if_true,
      GetTypeByRegister_interfaces, snagNextId_interfaces]

theorem Process_DP_body_interfaces (t0 t1 t2 : Nat) (s : ShaderConverter) :
    (Process_DP_body t0 t1 t2 s).mInterfaceIds = s.mInterfaceIds := by
  unfold Process_DP_body
  simp only [GetSpirVTypeId_Op_interfaces, GetNextVersionId_interfaces, snagNextId_interfaces,
    GetSwizzledId_interfaces, pushFunctionDefinition_interfaces]

theorem Process_TEX_body_interfaces (t0 t1 t2 : Nat) (s : ShaderConverter) :
    (Process_TEX_body t0 t1 t2 s).mInterfaceIds = s.mInterfaceIds := by
  unfold Process_TEX_body
  simp only [GetSpirVTypeId_interfaces, GetNextVersionId_interfaces, snagNextId_interfaces,
    GetSwizzledId_interfaces, pushFunctionDefinition_interfaces]

theorem Process_MAD_body_interfaces (t0 t1 t2 t3 : Nat) (s : ShaderConverter) :
    (Process_MAD_body t0 t1 t2 t3 s).mInterfaceIds = s.mInterfaceIds := by
  unfold Process_MAD_body
  dsimp only
  split_ifs <;>
    simp only [GetSwizzledId_interfaces, emitMultiplyAdd_interfaces, loadArgument_interfaces,
      GetSpirVTypeId_interfaces, GetNextVersionId_interfaces, GetTypeByRegister_interfaces,
      snagNextId_interfaces]

theorem Process_DEFB_body_interfaces (t0 t1 : Nat) (s : ShaderConverter) :
    (Process_DEFB_body t0 t1 s).mInterfaceIds = s.mInterfaceIds := by
  unfold Process_DEFB_body
  simp only [GetNextVersionId_interfaces, GetSpirVTypeId_interfaces,
    GetSpirVTypeId_Op_interfaces, setIdType_interfaces, pushType_interfaces]

theorem defineVector_body_interfaces (ct t0 t1 t2 t3 t4 : Nat) (s : ShaderConverter) :
    (defineVector_body ct t0 t1 t2 t3 t4 s).mInterfaceIds = s.mInterfaceIds := by
  unfold defineVector_body
  simp only [GetNextVersionId_interfaces, GetSpirVTypeId_interfaces,
    GetSpirVTypeId_Op_interfaces, setIdType_interfaces, pushType_interfaces,
    GetNextId_interfaces]



/-- Instructions other than declarations leave the interface list alone. -/
theorem dispatchBody_other_interfaces (token t0 t1 t2 t3 t4 : Nat) (s : ShaderConverter)
    (hop : GetOpcode token ≠ D3DSIO_DCL) :
    ∃ r, dispatchBody token t0 t1 t2 t3 t4 s = .ok r ∧
      r.mInterfaceIds = s.mInterfaceIds := by
  unfold dispatchBody
  dsimp only
  generalize GetOpcode token = op at hop
  by_cases h0 : op = D3DSIO_MOV
  · simp only [if_pos h0]
    exact ⟨_, rfl, Process_MOV_body_interfaces _ _ _⟩
  simp only [if_neg h0]
  by_cases h1 : op = D3DSIO_ADD
  · simp only [if_pos h1]
    exact ⟨_, rfl, Process_arithmetic_body_interfaces _ _ _ _ _ _ _⟩
  simp only [if_neg h1]
  by_cases h2 : op = D3DSIO_SUB
  · simp only [if_pos h2]
    exact ⟨_, rfl, Process_arithmetic_body_interfaces _ _ _ _ _ _ _⟩
  simp only [if_neg h2]
  by_cases h3 : op = D3DSIO_MUL
  · simp only [if_pos h3]
    exact ⟨_, rfl, Process_arithmetic_body_interfaces _ _ _ _ _ _ _⟩
  simp only [if_neg h3]
  by_cases h4 : op = D3DSIO_DP3
  · simp only [if_pos h4]
    exact ⟨_, rfl, Process_DP_body_interfaces _ _ _ _⟩
  simp only [if_neg h4]
  by_cases h5 : op = D3DSIO_DP4
  · simp only [if_pos h5]
    exact ⟨_, rfl, Process_DP_body_interfaces _ _ _ _⟩
  simp only [if_neg h5]
  by_cases h6 : op = D3DSIO_MIN
  · simp only [if_pos h6]
    exact ⟨_, rfl, rfl⟩
  simp only [if_neg h6]
  by_cases h7 : op = D3DSIO_MAX
  · simp only [if_pos h7]
    exact ⟨_, rfl, rfl⟩
  simp only [if_neg h7]
  by_cases h8 : op = D3DSIO_MAD
  · simp only [if_pos h8]
    exact ⟨_, rfl, Process_MAD_body_interfaces _ _ _ _ _⟩
  simp only [if_neg h8]
  by_cases h9 : op = D3DSIO_TEX
  · simp only [if_pos h9]
    exact ⟨_, rfl, Process_TEX_body_interfaces _ _ _ _⟩
  simp only [if_neg h9]
  by_cases h10 : op = D3DSIO_DCL
  · exact absurd h10 hop
  simp only [if_neg h10]
  by_cases h11 : op = D3DSIO_DEFB
  · simp only [if_pos h11]
    exact ⟨_, rfl, Process_DEFB_body_interfaces _ _ _⟩
  simp only [if_neg h11]
  by_cases h12 : op = D3DSIO_DEFI
  · simp only [if_pos h12]
    exact ⟨_, rfl, defineVector_body_interfaces _ _ _ _ _ _ _⟩
  simp only [if_neg h12]
  by_cases h13 : op = D3DSIO_DEF
  · simp only [if_pos h13]
    exact ⟨_, rfl, defineVector_body_interfaces _ _ _ _ _ _ _⟩
  simp only [if_neg h13]
  exact ⟨_, rfl, rfl⟩

theorem dispatchBody_interfaces (token t0 t1 t2 t3 t4 : Nat) (s r : ShaderConverter)
    (hop : GetOpcode token ≠ D3DSIO_DCL)
    (h : dispatchBody token t0 t1 t2 t3 t4 s = .ok r) :
    r.mInterfaceIds = s.mInterfaceIds := by
  obtain ⟨r0, h0, h1⟩ := dispatchBody_other_interfaces token t0 t1 t2 t3 t4 s hop
  rw [h0] at h
  cases h
  exact h1

theorem declareVariable_interfaces (d : TypeDescription) (id storage : Nat)
    (q : ShaderConverter) :
    (declareVariable d id storage q).mInterfaceIds = q.mInterfaceIds :=
  GetSpirVTypeId_interfaces d q

theorem declareRegister_interfaces (registerToken : Nat) (s : ShaderConverter) :
    (declareRegister registerToken s).mInterfaceIds = s.mInterfaceIds := rfl

/-- What a declaration in a vertex shader does to the interface list: the id of the
variable of an input register, which is the value of the id counter, goes to its end. -/
theorem Process_DCL_Vertex_body_interfaces (token registerToken : Nat) (s r : ShaderConverter)
    (h : Process_DCL_Vertex_body token registerToken s = .ok r) :
    r.mInterfaceIds = s.mInterfaceIds ++
      (if GetRegisterType registerToken = D3DSPR_INPUT then [s.mNextId] else []) := by
  rw [Process_DCL_Vertex_body_eq] at h
  by_cases h1 : GetRegisterType registerToken = D3DSPR_INPUT
  · rw [if_pos h1] at h
    rw [if_pos h1]
    cases ha : s.mConvertedShader.addAttribute
        (declaredTypeDescription (writeMask registerToken)).ComponentCount with
    | none => rw [ha] at h; cases h
    | some c =>
      rw [ha] at h
      cases h
      rw [setConvertedShader_interfaces, declareVariable_interfaces]
      rfl
  · rw [if_neg h1] at h
    rw [if_neg h1, List.append_nil]
    split_ifs at h
    all_goals
      cases h
      first
        | rfl
        | exact declareVariable_interfaces _ s.mNextId spv.StorageClassOutput
            (declareRegister registerToken s)

theorem Process_DCL_Pixel_body_interfaces (token registerToken : Nat) (s r : ShaderConverter)
    (h : Process_DCL_Pixel_body token registerToken s = .ok r) :
    r.mInterfaceIds = s.mInterfaceIds := by
  rw [Process_DCL_Pixel_body_eq] at h
  split_ifs at h
  · cases h
    rw [declareVariable_interfaces]
    rfl
  · cases h
    rw [declareVariable_interfaces]
    rfl
  · cases ha : s.mConvertedShader.addBinding with
    | none => rw [ha] at h; cases h
    | some c =>
      rw [ha] at h
      cases h
      rw [setConvertedShader_interfaces, declareVariable_interfaces]
      rfl
  · cases h
    rfl

/-- One instruction of the dispatch loop and the interface list: a declaration of an input
register of a vertex shader appends the value of the id counter, everything else keeps the
list. -/
theorem Convert_step_interfaces (shader : List Nat) (s r : ShaderConverter) (token : Nat)
    (h : Convert_step shader s = .ok (token, r)) :
    r.mInterfaceIds = s.mInterfaceIds ++
      (if isVertexInputDeclaration shader s then [s.mNextId] else []) := by
  have same : ∀ x : ShaderConverter, x.mInterfaceIds = s.mInterfaceIds →
      isVertexInputDeclaration shader s = false →
      x.mInterfaceIds = s.mInterfaceIds ++
        (if isVertexInputDeclaration shader s then [s.mNextId] else []) := by
    intro x hx hv
    rw [hx, hv]
    exact (List.append_nil _).symm
  rw [Convert_step_eq] at h
  split_ifs at h with hlt hc
  · cases h
    refine same _ rfl ?_
    unfold isVertexInputDeclaration
    rw [hc]
    rfl
  · cases hr : readThen (dispatchArity (shader.getD s.mNextToken 0))
        (dispatchBody (shader.getD s.mNextToken 0)) shader
        (s.withReader (s.mNextToken + 1) s.mNextToken) with
    | error e => rw [hr] at h; cases h
    | ok r1 =>
      rw [hr] at h
      cases h
      obtain ⟨_, r0, hb, rfl⟩ := readThen_ok _ _ _ _ _ hr
      by_cases hop : GetOpcode (shader.getD s.mNextToken 0) = D3DSIO_DCL
      · rw [dispatchBody_DCL _ _ _ _ _ _ _ hop, dispatchArity_DCL _ hop] at hb
        have ht1 : tokenAt shader (s.withReader (s.mNextToken + 1) s.mNextToken).mNextToken 2 1 =
            shader.getD (s.mNextToken + 2) 0 := rfl
        rw [ht1] at hb
        by_cases hv : s.mIsVertexShader = true
        · have hv2 : (s.withReader (s.mNextToken + 1) s.mNextToken).mIsVertexShader = true := hv
          rw [if_pos hv2] at hb
          have ha := Process_DCL_Vertex_body_interfaces _ _ _ _ hb
          by_cases hi : GetRegisterType (shader.getD (s.mNextToken + 2) 0) = D3DSPR_INPUT
          · rw [if_pos hi] at ha
            have hd : isVertexInputDeclaration shader s = true := by
              unfold isVertexInputDeclaration
              simp only [hop, hv, hi, decide_True, Bool.and_self]
            rw [hd, if_pos rfl]
            exact ha
          · rw [if_neg hi, List.append_nil] at ha
            refine same _ ha ?_
            unfold isVertexInputDeclaration
            simp only [hi, decide_False, Bool.and_false]
        · have hv2 : ¬ (s.withReader (s.mNextToken + 1) s.mNextToken).mIsVertexShader = true := hv
          rw [if_neg hv2] at hb
          have h1 := Process_DCL_Pixel_body_interfaces _ _ _ _ hb
          have hd : isVertexInputDeclaration shader s = false := by
            unfold isVertexInputDeclaration
            simp only [Bool.not_eq_true] at hv
            simp only [hv, Bool.and_false, Bool.false_and]
          exact same _ h1 hd
      · have hs := dispatchBody_interfaces _ _ _ _ _ _ _ _ hop hb
        refine same _ hs ?_
        unfold isVertexInputDeclaration
        simp only [hop, decide_False, Bool.false_and]

theorem vertexInputIds_end (shader : List Nat) (fuel : Nat) (s : ShaderConverter) :
    vertexInputIds shader fuel D3DPS_END s = [] := by
  cases fuel <;> simp only [vertexInputIds, if_true]

theorem vertexInputIds_zero (shader : List Nat) (token : Nat) (s : ShaderConverter) :
    vertexInputIds shader 0 token s = [] := by
  simp only [vertexInputIds, ite_self]

theorem vertexInputIds_step (shader : List Nat) (fuel token next : Nat)
    (s r : ShaderConverter) (hend : token ≠ D3DPS_END)
    (hs : Convert_step shader s = .ok (next, r)) :
    vertexInputIds shader (fuel + 1) token s =
      (if isVertexInputDeclaration shader s then [s.mNextId] else []) ++
        vertexInputIds shader fuel next r := by
  simp only [vertexInputIds, hs, if_neg hend]

/-- The dispatch loop and the interface list: the loop appends the ids of the variables of
the input declarations it processes, in their order. -/
theorem Convert_loop_interfaces (shader : List Nat) (fuel token : Nat) (s r : ShaderConverter)
    (h : Convert_loop shader fuel token s = .ok r) :
    r.mInterfaceIds = s.mInterfaceIds ++ vertexInputIds shader fuel token s := by
  induction fuel generalizing token s with
  | zero =>
    rw [Convert_loop_zero] at h
    split_ifs at h
    cases h
    rw [vertexInputIds_zero, List.append_nil]
  | succ n ih =>
    rw [Convert_loop_succ] at h
    split_ifs at h with he
    · cases h
      rw [he, vertexInputIds_end, List.append_nil]
    · cases hs : Convert_step shader s with
      | error e => rw [hs] at h; cases h
      | ok p =>
        rw [hs] at h
        obtain ⟨tok, r1⟩ := p
        have h1 := Convert_step_interfaces _ _ _ _ hs
        have h3 : r.mInterfaceIds = r1.mInterfaceIds ++ vertexInputIds shader n tok r1 :=
          ih _ _ h
        rw [vertexInputIds_step _ _ _ _ _ _ he hs, h3, h1, List.append_assoc]


/-! ## C34: the entry point -/

theorem Convert_translate_parts (shader : List Nat) (s t : ShaderConverter)
    (ht : Convert_translate shader s = .ok t) :
    ∃ token b l, Convert_begin shader s = .ok (token, b) ∧
      Convert_loop shader shader.length token b = .ok l ∧ t = Convert_end l := by
  unfold Convert_translate at ht
  cases hb : Convert_begin shader s with
  | error e => rw [hb] at ht; cases ht
  | ok p =>
    obtain ⟨token, b⟩ := p
    rw [hb] at ht
    cases hl : Convert_loop shader shader.length token b with
    | error e =>
      simp only [bind, Except.bind, hl] at ht
      cases ht
    | ok l =>
      simp only [bind, Except.bind, hl, pure, Except.pure, Except.ok.injEq] at ht
      exact ⟨token, b, l, rfl, hl, ht.symm⟩

theorem setEntryPointId_interfaces (s : ShaderConverter) (i : Nat) :
    (s.setEntryPointId i).mInterfaceIds = s.mInterfaceIds := rfl

theorem setEntryPointTypeId_interfaces (s : ShaderConverter) (i : Nat) :
    (s.setEntryPointTypeId i).mInterfaceIds = s.mInterfaceIds := rfl

theorem setIsVertexShader_interfaces (s : ShaderConverter) (b : Bool) :
    (s.setIsVertexShader b).mInterfaceIds = s.mInterfaceIds := rfl

theorem setVersion_interfaces (s : ShaderConverter) (x y : Nat) :
    (s.setVersion x y).mInterfaceIds = s.mInterfaceIds := rfl

theorem Convert_begin_body_interfaces (token : Nat) (s : ShaderConverter) :
    (Convert_begin_body token s).mInterfaceIds = s.mInterfaceIds := by
  unfold Convert_begin_body
  split_ifs <;>
  simp only [pushFunctionDefinition_interfaces, GetNextId_interfaces,
    GetSpirVTypeId_Op_interfaces, setEntryPointId_interfaces, setEntryPointTypeId_interfaces,
    setIsVertexShader_interfaces, setVersion_interfaces]

/-- The head of `Convert` does not touch the interface list, not even to empty it. -/
theorem Convert_begin_interfaces (shader : List Nat) (s b : ShaderConverter) (token : Nat)
    (h : Convert_begin shader s = .ok (token, b)) : b.mInterfaceIds = s.mInterfaceIds := by
  rw [Convert_begin_eq] at h
  split_ifs at h
  simp only [Except.ok.injEq, Prod.mk.injEq] at h
  rw [← h.2, Convert_begin_body_interfaces]
  rfl

/-- The words the head of `Convert` puts into the function section: the `OpFunction` of the
entry point, with the two ids it records, and the `OpLabel`. -/
theorem Convert_begin_body_function (token : Nat) (s : ShaderConverter) :
    ∃ void label, (Convert_begin_body token s).mFunctionDefinitionInstructions =
      s.mFunctionDefinitionInstructions ++
        [Pack 5 spv.OpFunction, void, (Convert_begin_body token s).mEntryPointId,
          spv.FunctionControlMaskNone, (Convert_begin_body token s).mEntryPointTypeId,
          Pack 2 spv.OpLabel, label] := by
  have hF : ∀ (op : Nat) (x : ShaderConverter),
      (GetSpirVTypeId_Op op x).2.mFunctionDefinitionInstructions =
        x.mFunctionDefinitionInstructions := fun _ x => (GetSpirVTypeIdFuel_frame 4 _ x).2.2.1
  have hE : ∀ (op : Nat) (x : ShaderConverter),
      (GetSpirVTypeId_Op op x).2.mEntryPointId = x.mEntryPointId :=
    fun op x => congrArg (fun p => p.1.2.2.2.2) (GetSpirVTypeId_Op_fixedPart op x)
  have hT : ∀ (op : Nat) (x : ShaderConverter),
      (GetSpirVTypeId_Op op x).2.mEntryPointTypeId = x.mEntryPointTypeId :=
    fun op x => congrArg (fun p => p.1.2.2.2.1) (GetSpirVTypeId_Op_fixedPart op x)
  have a1 : ∀ (x : ShaderConverter) (i : Nat),
      (x.setEntryPointId i).mFunctionDefinitionInstructions =
        x.mFunctionDefinitionInstructions := fun _ _ => rfl
  have a2 : ∀ (x : ShaderConverter) (i : Nat),
      (x.setEntryPointTypeId i).mFunctionDefinitionInstructions =
        x.mFunctionDefinitionInstructions := fun _ _ => rfl
  have a3 : ∀ (x : ShaderConverter) (v : Bool),
      (x.setIsVertexShader v).mFunctionDefinitionInstructions =
        x.mFunctionDefinitionInstructions := fun _ _ => rfl
  have a4 : ∀ (x : ShaderConverter) (i j : Nat),
      (x.setVersion i j).mFunctionDefinitionInstructions =
        x.mFunctionDefinitionInstructions := fun _ _ _ => rfl
  unfold Convert_begin_body
  split_ifs <;>
  · simp only [pushFunctionDefinition_mFunctionDefinitionInstructions,
      pushFunctionDefinition_mEntryPointId, pushFunctionDefinition_mEntryPointTypeId,
      GetNextId_snd_mFunctionDefinitionInstructions, GetNextId_snd_mEntryPointId,
      GetNextId_snd_mEntryPointTypeId, hF, hE, hT, a1, a2, a3, a4,
      setEntryPointId_mEntryPointId, setEntryPointId_mEntryPointTypeId,
      setEntryPointTypeId_mEntryPointTypeId, List.append_assoc, List.cons_append,
      List.nil_append]
    exact ⟨_, _, rfl⟩

/-- What the tail of `Convert` writes about the entry point. -/
theorem Convert_end_entry (l : ShaderConverter) :
    (Convert_end l).mEntryPointInstructions =
      l.mEntryPointInstructions ++
        ([Pack (stringWordSize (3 + l.mInterfaceIds.length) (stringBytes "main"))
            spv.OpEntryPoint,
          if l.mIsVertexShader then spv.ExecutionModelVertex else spv.ExecutionModelFragment,
          l.mEntryPointId] ++ PutStringInVector (stringBytes "main") ++ l.mInterfaceIds) ∧
    (Convert_end l).mExecutionModeInstructions =
      l.mExecutionModeInstructions ++
        (if l.mIsVertexShader then []
          else [Pack 3 spv.OpExecutionMode, l.mEntryPointId,
            spv.ExecutionModeOriginLowerLeft]) ∧
    (Convert_end l).mFunctionDefinitionInstructions =
      l.mFunctionDefinitionInstructions ++ [Pack 1 spv.OpReturn, Pack 1 spv.OpFunctionEnd] ∧
    (Convert_end l).mEntryPointId = l.mEntryPointId ∧
    (Convert_end l).mEntryPointTypeId = l.mEntryPointTypeId := by
  unfold Convert_end
  by_cases hv : l.mIsVertexShader = true <;> simp [hv]

/-- C34: on a converter right after construction, when `Convert` returns, the entry-point
section of the module is exactly one `OpEntryPoint`: its execution model is Vertex for a
vertex shader and Fragment for a pixel shader, its entry id is the result id of the
`OpFunction` at the head of the function section, its name is `main`, and its interface list
is the ids of the variables of the input declarations of a vertex shader, in the order the
loop processed them (the handler gives the variable the value of the id counter and appends
that id to the interface list).  The execution-mode section is one `OpExecutionMode` of the
entry id with `OriginLowerLeft` for a pixel shader and empty for a vertex shader. -/
theorem Convert_entry_point (host : Host) (shader : List Nat)
    (firstId attributes bindings : Nat) (out : ConvertedShader × ShaderConverter)
    (h : Convert host shader (ShaderConverter.fresh firstId attributes bindings) = .ok out)
    (hattr : attributes + 5 < 65536) :
    ∃ (version : Nat) (b t : ShaderConverter) (void : Nat) (body : List Nat),
      Convert_begin shader (ShaderConverter.fresh firstId attributes bindings) =
        .ok (version, b) ∧
      Convert_translate shader (ShaderConverter.fresh firstId attributes bindings) = .ok t ∧
      emittedModule host shader (ShaderConverter.fresh firstId attributes bindings) =
        .ok ([0x07230203, host.Version, 0, t.mNextId, 0] ++ (specSectionOrder t).flatten) ∧
      t.mIsVertexShader = (if version &&& 0xFFFF0000 = 0xFFFF0000 then false else true) ∧
      t.mEntryPointInstructions =
        entryPointInstruction
          (if t.mIsVertexShader then spv.ExecutionModelVertex else spv.ExecutionModelFragment)
          t.mEntryPointId (vertexInputIds shader shader.length version b) ∧
      Framed (entryPointInstruction
        (if t.mIsVertexShader then spv.ExecutionModelVertex else spv.ExecutionModelFragment)
        t.mEntryPointId (vertexInputIds shader shader.length version b)) ∧
      PutStringInVector (stringBytes "main") = [0x6E69616D, 0] ∧
      t.mExecutionModeInstructions =
        (if t.mIsVertexShader then []
          else [Pack 3 spv.OpExecutionMode, t.mEntryPointId,
            spv.ExecutionModeOriginLowerLeft]) ∧
      t.mFunctionDefinitionInstructions =
        [Pack 5 spv.OpFunction, void, t.mEntryPointId, spv.FunctionControlMaskNone,
          t.mEntryPointTypeId] ++ body ∧
      resultId [Pack 5 spv.OpFunction, void, t.mEntryPointId, spv.FunctionControlMaskNone,
        t.mEntryPointTypeId] = some t.mEntryPointId ∧
      ∀ token registerToken q r, GetRegisterType registerToken = D3DSPR_INPUT →
        Process_DCL_Vertex_body token registerToken q = .ok r →
        (∃ types pointer, r.mTypeInstructions = q.mTypeInstructions ++ types ++
          [Pack 4 spv.OpVariable, pointer, q.mNextId, spv.StorageClassInput]) ∧
        r.mInterfaceIds = q.mInterfaceIds ++ [q.mNextId] := by
  obtain ⟨t, ht, _, _⟩ := Convert_ok _ _ _ _ h
  obtain ⟨version, b, l, hb, hl, hte⟩ := Convert_translate_parts _ _ _ ht
  obtain ⟨h0, h1, _, _, _, h5⟩ := Convert_begin_ok _ _ _ _ hb
  obtain ⟨_, hf⟩ := Convert_loop_ok _ _ _ _ _ hl
  obtain ⟨s1, hb1, _, ha, _, hr, _, hF⟩ := Convert_begin_fresh _ _ _ _ _ _ hb
  obtain ⟨tok, ht0, _, _, hkind, _⟩ := Convert_translate_ok _ _ _ ht
  have htok : tok = version := Option.some.inj (ht0.symm.trans h0)
  rw [htok] at hkind
  have e1 : Emits False 10 0 [] s1 b := by
    rw [hb1]
    exact Convert_begin_body_emits False version s1 ha (fun w => w.elim) (fun w => w.elim)
  have e2 := Convert_loop_emits False shader shader.length version b l e1.args e1.below
    (fun w => w.elim) hl
  have hlen : l.mInterfaceIds.length ≤ attributes := by
    have := (e1.call e2).room
    unfold interfaceRoom at this hr
    omega
  have hint : l.mInterfaceIds = vertexInputIds shader shader.length version b := by
    rw [Convert_loop_interfaces _ _ _ _ _ hl, Convert_begin_interfaces _ _ _ _ hb]
    exact List.nil_append _
  have hfix : l.fixedPart.2 = List.replicate 19 [] := by
    have : l.fixedPart.2 = b.fixedPart.2 := congrArg Prod.snd hf
    rw [this, h5]
    rfl
  simp only [ShaderConverter.fixedPart, List.replicate, List.cons.injEq, and_true] at hfix
  obtain ⟨_, _, _, _, _, g5, g6, _⟩ := hfix
  obtain ⟨c1, c2, c3, c4, c5⟩ := Convert_end_entry l
  have hv : t.mIsVertexShader = l.mIsVertexShader := by
    rw [hte]
    unfold Convert_end
    by_cases hv : l.mIsVertexShader = true <;> simp [hv]
  obtain ⟨void, label, hbf⟩ := Convert_begin_body_function version s1
  rw [← hb1, hF, List.nil_append] at hbf
  obtain ⟨types, functions, _, o2, _⟩ := e2.out
  have k1 : l.mEntryPointId = b.mEntryPointId := congrArg (fun p => p.1.2.2.2.2) hf
  have k2 : l.mEntryPointTypeId = b.mEntryPointTypeId := congrArg (fun p => p.1.2.2.2.1) hf
  have hn : (vertexInputIds shader shader.length version b).length + 5 < 65536 := by
    rw [← hint]
    omega
  refine ⟨version, b, t, void,
    [Pack 2 spv.OpLabel, label] ++ functions.flatten ++
      [Pack 1 spv.OpReturn, Pack 1 spv.OpFunctionEnd], hb, ht,
    emittedModule_of_translate host shader _ t ht, hkind, ?_, (shape_entryPoint _ _ _ hn).1,
    by decide, ?_, ?_, rfl, ?_⟩
  · rw [hv, hte, c1, c4, g5, List.nil_append, stringWordSize_main _ (by omega), hint]
    rfl
  · rw [hv, hte, c2, c4, g6, List.nil_append]
  · rw [hte, c3, c4, c5, o2, hbf, k1, k2]
    simp only [List.append_assoc, List.cons_append, List.nil_append]
  · intro token registerToken q r hreg hq
    obtain ⟨⟨types, pointer, q1, _⟩, q2, _⟩ :=
      Process_DCL_Vertex_body_input token registerToken q r hreg hq
    exact ⟨⟨types, pointer, q1⟩, q2⟩

/-- The hypotheses of C34 hold on the vertex shader with the one declaration
`dcl_position v0`: the interface list is the id 5 of its variable. -/
theorem Convert_entry_point_witness :
    vertexInputIds exampleInputShader exampleInputShader.length 0xFFFE0300
      (returned (Convert_begin exampleInputShader (ShaderConverter.fresh 1 4 4))).2 = [5] ∧
    ∃ (version : Nat) (b t : ShaderConverter) (void : Nat) (body : List Nat),
      Convert_begin exampleInputShader (ShaderConverter.fresh 1 4 4) = .ok (version, b) ∧
      Convert_translate exampleInputShader (ShaderConverter.fresh 1 4 4) = .ok t ∧
      emittedModule exampleHost exampleInputShader (ShaderConverter.fresh 1 4 4) =
        .ok ([0x07230203, exampleHost.Version, 0, t.mNextId, 0] ++
          (specSectionOrder t).flatten) ∧
      t.mIsVertexShader = (if version &&& 0xFFFF0000 = 0xFFFF0000 then false else true) ∧
      t.mEntryPointInstructions =
        entryPointInstruction
          (if t.mIsVertexShader then spv.ExecutionModelVertex else spv.ExecutionModelFragment)
          t.mEntryPointId
          (vertexInputIds exampleInputShader exampleInputShader.length version b) ∧
      Framed (entryPointInstruction
        (if t.mIsVertexShader then spv.ExecutionModelVertex else spv.ExecutionModelFragment)
        t.mEntryPointId
        (vertexInputIds exampleInputShader exampleInputShader.length version b)) ∧
      PutStringInVector (stringBytes "main") = [0x6E69616D, 0] ∧
      t.mExecutionModeInstructions =
        (if t.mIsVertexShader then []
          else [Pack 3 spv.OpExecutionMode, t.mEntryPointId,
            spv.ExecutionModeOriginLowerLeft]) ∧
      t.mFunctionDefinitionInstructions =
        [Pack 5 spv.OpFunction, void, t.mEntryPointId, spv.FunctionControlMaskNone,
          t.mEntryPointTypeId] ++ body ∧
      resultId [Pack 5 spv.OpFunction, void, t.mEntryPointId, spv.FunctionControlMaskNone,
        t.mEntryPointTypeId] = some t.mEntryPointId ∧
      ∀ token registerToken q r, GetRegisterType registerToken = D3DSPR_INPUT →
        Process_DCL_Vertex_body token registerToken q = .ok r →
        (∃ types pointer, r.mTypeInstructions = q.mTypeInstructions ++ types ++
          [Pack 4 spv.OpVariable, pointer, q.mNextId, spv.StorageClassInput]) ∧
        r.mInterfaceIds = q.mInterfaceIds ++ [q.mNextId] :=
  ⟨by decide!, Convert_entry_point exampleHost exampleInputShader 1 4 4
    (returned (Convert exampleHost exampleInputShader (ShaderConverter.fresh 1 4 4)))
    (by decide!) (by decide)⟩


/-! ## C8: the first end marker -/

/-- One turn of the loop leaves the reader at the next token in instruction position. -/
theorem Convert_step_reader (shader : List Nat) (s r : ShaderConverter) (token : Nat)
    (h : Convert_step shader s = .ok (token, r)) :
    r.mNextToken = s.mNextToken + instructionLength token := by
  have hread := (Convert_step_ok _ _ _ _ h).1
  rw [Convert_step_eq] at h
  split_ifs at h with hlt hc
  · simp only [Except.ok.injEq, Prod.mk.injEq] at h
    obtain ⟨h1, h2⟩ := h
    rw [← h2, ← h1]
    unfold instructionLength
    rw [if_pos hc]
    show s.mNextToken + 1 + _ = _
    omega
  · cases hr : readThen (dispatchArity (shader.getD s.mNextToken 0))
        (dispatchBody (shader.getD s.mNextToken 0)) shader
        (s.withReader (s.mNextToken + 1) s.mNextToken) with
    | error e => rw [hr] at h; cases h
    | ok r1 =>
      rw [hr] at h
      simp only [Except.map, Except.ok.injEq, Prod.mk.injEq] at h
      obtain ⟨h1, h2⟩ := h
      obtain ⟨_, r0, _, hr0⟩ := readThen_ok _ _ _ _ _ hr
      rw [← h2, hr0, ← h1]
      unfold instructionLength
      rw [if_neg hc]
      show s.mNextToken + 1 + _ = _
      omega

theorem firstEndFrom_end (shader : List Nat) (fuel position : Nat)
    (h : shader[position]? = some D3DPS_END) :
    firstEndFrom shader (fuel + 1) position = some position := by
  simp only [firstEndFrom, h, if_true]

theorem firstEndFrom_next (shader : List Nat) (fuel position token : Nat)
    (h : shader[position]? = some token) (hend : token ≠ D3DPS_END) :
    firstEndFrom shader (fuel + 1) position =
      firstEndFrom shader fuel (position + instructionLength token) := by
  simp only [firstEndFrom, h, if_neg hend]

/-- The loop, entered with a token that is not the end marker, stops right after the first
end marker in instruction position. -/
theorem Convert_loop_first_end (shader : List Nat) (fuel token : Nat) (s r : ShaderConverter)
    (h : Convert_loop shader fuel token s = .ok r) (hne : token ≠ D3DPS_END) :
    firstEndFrom shader fuel s.mNextToken = some (r.mNextToken - 1) ∧ 1 ≤ r.mNextToken := by
  induction fuel generalizing token s with
  | zero =>
    rw [Convert_loop_zero, if_neg hne] at h
    cases h
  | succ n ih =>
    rw [Convert_loop_succ, if_neg hne] at h
    cases hs : Convert_step shader s with
    | error e => rw [hs] at h; cases h
    | ok p =>
      rw [hs] at h
      obtain ⟨tok, r1⟩ := p
      have hread := (Convert_step_ok _ _ _ _ hs).1
      have hnext := Convert_step_reader _ _ _ _ hs
      by_cases hend : tok = D3DPS_END
      · subst hend
        have hr : Convert_loop shader n D3DPS_END r1 = .ok r := h
        rw [Convert_loop_end] at hr
        have e : r1 = r := Except.ok.inj hr
        have hl : instructionLength D3DPS_END = 1 := by decide
        rw [firstEndFrom_end _ _ _ hread, ← e, hnext, hl]
        exact ⟨rfl, by omega⟩
      · have hr : Convert_loop shader n tok r1 = .ok r := h
        obtain ⟨i1, i2⟩ := ih _ _ hr hend
        rw [firstEndFrom_next _ _ _ _ hread hend, ← hnext]
        exact ⟨i1, i2⟩

/-- Translation stops right after the first end marker the loop tests. -/
theorem Convert_translate_first_end (shader : List Nat) (s t : ShaderConverter)
    (ht : Convert_translate shader s = .ok t) :
    firstEndMarker shader = some (t.mNextToken - 1) := by
  obtain ⟨version, b, l, hb, hl, hte⟩ := Convert_translate_parts _ _ _ ht
  obtain ⟨h0, h1, _⟩ := Convert_begin_ok _ _ _ _ hb
  rw [hte, Convert_end_mNextToken]
  by_cases hv : version = D3DPS_END
  · subst hv
    rw [Convert_loop_end] at hl
    have e : b = l := Except.ok.inj hl
    simp only [firstEndMarker, h0, if_true]
    rw [← e, h1]
  · obtain ⟨i1, _⟩ := Convert_loop_first_end _ _ _ _ _ hl hv
    rw [h1] at i1
    simp only [firstEndMarker, h0, if_neg hv]
    exact i1

/-- A token in instruction position whose opcode field is `0xFFFF`: the turn changes
nothing but the reader, which it leaves at the next token. -/
theorem Convert_step_end_opcode (shader : List Nat) (q : ShaderConverter) (token : Nat)
    (hread : shader[q.mNextToken]? = some token) (hop : GetOpcode token = 0xFFFF) :
    instructionLength token = 1 ∧
      Convert_step shader q = .ok (token, q.withReader (q.mNextToken + 1) q.mNextToken) := by
  have hlt : q.mNextToken < shader.length := by
    by_contra hge
    rw [List.getElem?_eq_none (by omega)] at hread
    cases hread
  have hget : shader.getD q.mNextToken 0 = token := by
    rw [List.getD_eq_getElem?_getD, hread]
    rfl
  have hc : ¬ GetOpcode token = D3DSIO_COMMENT := by
    rw [hop]
    decide
  have ha : dispatchArity token = 0 := by
    unfold dispatchArity
    dsimp only
    rw [hop]
    rfl
  have hb : ∀ t0 t1 t2 t3 t4 x, dispatchBody token t0 t1 t2 t3 t4 x = .ok x := by
    intro t0 t1 t2 t3 t4 x
    unfold dispatchBody
    dsimp only
    rw [hop]
    rfl
  refine ⟨by unfold instructionLength; rw [if_neg hc, ha], ?_⟩
  rw [Convert_step_eq, if_pos hlt, hget, if_neg hc, ha]
  unfold readThen
  rw [if_pos (by show q.mNextToken + 1 + 0 ≤ shader.length; omega), hb]
  rfl

/-- C8, amended: when `Convert` completes, the dispatch has stopped at the first token the
loop tests (the version token, then the tokens in instruction position) that is the end
marker `0x0000FFFF` as a whole word: that token is the last one read, the reader is right
after it, and the result depends only on the tokens up to and with it, so that on every
stream that agrees with this one up to that token `Convert` returns the same sidecar and
state and emits the same module.  A token in instruction position whose opcode field is
`0xFFFF` counts as an instruction of one token: its turn changes nothing but the reader,
and unless the token is `0x0000FFFF` the loop goes on with the turn for the next token.
The tokens the loop tests are those `firstEndMarker` walks over: every turn moves the
reader by `instructionLength` of the token it has read. -/
theorem Convert_stops_at_end_marker (host : Host) (shader : List Nat) (s : ShaderConverter)
    (out : ConvertedShader × ShaderConverter) (h : Convert host shader s = .ok out) :
    1 ≤ out.2.mNextToken ∧ shader[out.2.mNextToken - 1]? = some 0x0000FFFF ∧
    firstEndMarker shader = some (out.2.mNextToken - 1) ∧
    (∀ other : List Nat, other.take out.2.mNextToken = shader.take out.2.mNextToken →
      Convert host other s = .ok out ∧
      emittedModule host other s = emittedModule host shader s) ∧
    (∀ (q : ShaderConverter) (token : Nat), shader[q.mNextToken]? = some token →
      GetOpcode token = 0xFFFF →
      instructionLength token = 1 ∧
      Convert_step shader q = .ok (token, q.withReader (q.mNextToken + 1) q.mNextToken) ∧
      (token ≠ 0x0000FFFF →
        (∀ fuel next r, Convert_step shader (q.withReader (q.mNextToken + 1) q.mNextToken) =
            .ok (next, r) →
          Convert_loop shader (fuel + 1) token
            (q.withReader (q.mNextToken + 1) q.mNextToken) =
            Convert_loop shader fuel next r) ∧
        (∀ fuel e, Convert_step shader (q.withReader (q.mNextToken + 1) q.mNextToken) =
            .error e →
          Convert_loop shader (fuel + 1) token
            (q.withReader (q.mNextToken + 1) q.mNextToken) = .error e))) ∧
    (∀ (q r : ShaderConverter) (token : Nat), Convert_step shader q = .ok (token, r) →
      r.mNextToken = q.mNextToken + instructionLength token) := by
  obtain ⟨t, ht, ho, _⟩ := Convert_ok host shader s out h
  have hc : out.2.mNextToken = t.mNextToken := by rw [ho, Convert_mNextToken]
  obtain ⟨h1, h2⟩ := Convert_translate_ends shader s t ht
  rw [hc]
  refine ⟨h1, h2, Convert_translate_first_end shader s t ht, ?_, ?_,
    fun q r token hs => Convert_step_reader shader q r token hs⟩
  · intro other hother
    have hto := Convert_translate_local shader other s t ht hother
    obtain ⟨e1, e2⟩ := Convert_of_translate host shader other s (by rw [hto, ht])
    exact ⟨by rw [e1, h], e2⟩
  · intro q token hread hop
    obtain ⟨g1, g2⟩ := Convert_step_end_opcode shader q token hread hop
    refine ⟨g1, g2, ?_⟩
    intro hne
    have hne2 : token ≠ D3DPS_END := hne
    constructor
    · intro fuel next r hs
      rw [Convert_loop_succ, if_neg hne2, hs]
    · intro fuel e hs
      rw [Convert_loop_succ, if_neg hne2, hs]

/-- The hypothesis of amended C8 holds on the stream with the token `0x0001FFFF` before a
declaration and the end marker: the token `0x0001FFFF` does not stop the loop, the first
end marker is at place 5, and tokens after it change nothing. -/
theorem Convert_stops_at_end_marker_witness :
    firstEndMarker [0xFFFF0200, 0x0001FFFF, 0x0200001F, 0x80000000, 0x900F0000, 0x0000FFFF] =
      some ((returned (Convert exampleHost
        [0xFFFF0200, 0x0001FFFF, 0x0200001F, 0x80000000, 0x900F0000, 0x0000FFFF]
        (ShaderConverter.fresh 1 4 4))).2.mNextToken - 1) ∧
    (returned (Convert exampleHost
        [0xFFFF0200, 0x0001FFFF, 0x0200001F, 0x80000000, 0x900F0000, 0x0000FFFF]
        (ShaderConverter.fresh 1 4 4))).2.mNextToken = 6 ∧
    Convert exampleHost
        [0xFFFF0200, 0x0001FFFF, 0x0200001F, 0x80000000, 0x900F0000, 0x0000FFFF, 0x0000FFFF,
          0x02000001]
        (ShaderConverter.fresh 1 4 4) =
      .ok (returned (Convert exampleHost
        [0xFFFF0200, 0x0001FFFF, 0x0200001F, 0x80000000, 0x900F0000, 0x0000FFFF]
        (ShaderConverter.fresh 1 4 4))) :=
  ⟨(Convert_stops_at_end_marker exampleHost
      [0xFFFF0200, 0x0001FFFF, 0x0200001F, 0x80000000, 0x900F0000, 0x0000FFFF]
      (ShaderConverter.fresh 1 4 4)
      (returned (Convert exampleHost
        [0xFFFF0200, 0x0001FFFF, 0x0200001F, 0x80000000, 0x900F0000, 0x0000FFFF]
        (ShaderConverter.fresh 1 4 4)))
      (by decide!)).2.2.1,
    by decide!,
    ((Convert_stops_at_end_marker exampleHost
      [0xFFFF0200, 0x0001FFFF, 0x0200001F, 0x80000000, 0x900F0000, 0x0000FFFF]
      (ShaderConverter.fresh 1 4 4)
      (returned (Convert exampleHost
        [0xFFFF0200, 0x0001FFFF, 0x0200001F, 0x80000000, 0x900F0000, 0x0000FFFF]
        (ShaderConverter.fresh 1 4 4)))
      (by decide!)).2.2.2.1
      [0xFFFF0200, 0x0001FFFF, 0x0200001F, 0x80000000, 0x900F0000, 0x0000FFFF, 0x0000FFFF,
        0x02000001]
      (by decide!)).1⟩


/-! ## C13: where the id does not map back -/

/-- C13, as stated, fails.  On a converter right after construction the call with the
function description of the argument list `[7]` enters that description with the id 1; the
call with the function description of the argument list `[8]` on the state it leaves is a
first call with that description, finds the entry (the key comparison does not look at the
argument lists) and returns 1, and the id 1 maps back to the description with `[7]`, not to
the description of the call.  And on a state whose type table holds an entry the table of
the ids does not know, the id returned maps back to nothing. -/
theorem GetSpirVTypeId_maps_back_to_other :
    (GetSpirVTypeId { PrimaryType := spv.OpTypeFunction, Arguments := [7] }
      (ShaderConverter.fresh 1 4 4)).1 = 1 ∧
    (GetSpirVTypeId { PrimaryType := spv.OpTypeFunction, Arguments := [8] }
      (GetSpirVTypeId { PrimaryType := spv.OpTypeFunction, Arguments := [7] }
        (ShaderConverter.fresh 1 4 4)).2).1 = 1 ∧
    flat_map.find sameKey 1
      (GetSpirVTypeId { PrimaryType := spv.OpTypeFunction, Arguments := [8] }
        (GetSpirVTypeId { PrimaryType := spv.OpTypeFunction, Arguments := [7] }
          (ShaderConverter.fresh 1 4 4)).2).2.mIdTypePairs =
      some { PrimaryType := spv.OpTypeFunction, Arguments := [7] } ∧
    ({ PrimaryType := spv.OpTypeFunction, Arguments := [7] } : TypeDescription) ≠
      { PrimaryType := spv.OpTypeFunction, Arguments := [8] } ∧
    (GetSpirVTypeId { PrimaryType := spv.OpTypeFloat }
      { mNextId := 6, mTypeIdPairs := [({ PrimaryType := spv.OpTypeFloat }, 5)] }).1 = 5 ∧
    flat_map.find sameKey 5
      (GetSpirVTypeId { PrimaryType := spv.OpTypeFloat }
        { mNextId := 6,
          mTypeIdPairs := [({ PrimaryType := spv.OpTypeFloat }, 5)] }).2.mIdTypePairs = none := by
  decide!


/-! ## C30: the operands of the multiply and of the add -/

/-- What the multiply and the add leave behind, on the state after the lookups of the
sources. -/
theorem emitMultiplyAdd_result (leaf t dst x1 x2 x3 : Nat) (q : ShaderConverter)
    (hleaf : leaf = spv.OpTypeBool ∨ leaf = spv.OpTypeInt ∨ leaf = spv.OpTypeFloat) :
    (emitMultiplyAdd leaf t dst (GetNextVersionId dst q).1 x1 x2 x3
      (GetNextVersionId dst q).2).mFunctionDefinitionInstructions =
      q.mFunctionDefinitionInstructions ++
        ([Pack 5 (multiplyOpcode leaf), t, q.mNextId, x1, x2] ++
          [Pack 5 (addOpcode leaf), t, (q.mNextId + 1) % 4294967296, q.mNextId, x3]) ∧
    findIdByRegister dst (emitMultiplyAdd leaf t dst (GetNextVersionId dst q).1 x1 x2 x3
      (GetNextVersionId dst q).2) = some ((q.mNextId + 1) % 4294967296) ∧
    (emitMultiplyAdd leaf t dst (GetNextVersionId dst q).1 x1 x2 x3
      (GetNextVersionId dst q).2).mTypeIdPairs = q.mTypeIdPairs := by
  rw [emitMultiplyAdd_words leaf t dst x1 x2 x3 q hleaf]
  refine ⟨?_, ?_, ?_⟩
  · simp only [pushFunctionDefinition_mFunctionDefinitionInstructions,
      GetNextVersionId_snd_mFunctionDefinitionInstructions, List.append_assoc,
      List.cons_append, List.nil_append]
  · exact findIdByRegister_bound dst dst _ (GetNextVersionId dst q).2 _ rfl rfl rfl
  · simp only [pushFunctionDefinition_mTypeIdPairs, GetNextVersionId_snd_mTypeIdPairs]

theorem sourcesState_function (a1 : Nat) (s : ShaderConverter) :
    (sourcesState a1 s).mFunctionDefinitionInstructions = s.mFunctionDefinitionInstructions := by
  show (GetSpirVTypeIdFuel 4 _ _).2.mFunctionDefinitionInstructions = _
  rw [(GetSpirVTypeIdFuel_frame 4 _ _).2.2.1, GetTypeByRegister_snd,
    GetIdByRegister_function]

/-- `Process_MAD_body` when the type of the first source is no pointer: the sources are
looked up by `GetSwizzledId`, in their order, and the multiply takes the ids of the first
two and the add the id of the third. -/
theorem Process_MAD_body_values (dst a1 a2 a3 x1 x2 x3 : Nat) (s q : ShaderConverter)
    (hleaf : leafDataType (GetTypeByRegister a1 s).1 = spv.OpTypeBool ∨
      leafDataType (GetTypeByRegister a1 s).1 = spv.OpTypeInt ∨
      leafDataType (GetTypeByRegister a1 s).1 = spv.OpTypeFloat)
    (hp : (GetTypeByRegister a1 s).1.PrimaryType ≠ spv.OpTypePointer)
    (hL : lookupSources (fun token x => GetSwizzledId token UINT_MAX x) a1 a2 a3
      (sourcesState a1 s) = (x1, x2, x3, q)) :
    (Process_MAD_body dst a1 a2 a3 s).mFunctionDefinitionInstructions =
      q.mFunctionDefinitionInstructions ++
        ([Pack 5 (multiplyOpcode (leafDataType (GetTypeByRegister a1 s).1)),
            (GetSpirVTypeId (GetTypeByRegister a1 s).1 (GetTypeByRegister a1 s).2).1,
            q.mNextId, x1, x2] ++
          [Pack 5 (addOpcode (leafDataType (GetTypeByRegister a1 s).1)),
            (GetSpirVTypeId (GetTypeByRegister a1 s).1 (GetTypeByRegister a1 s).2).1,
            (q.mNextId + 1) % 4294967296, q.mNextId, x3]) ∧
    findIdByRegister dst (Process_MAD_body dst a1 a2 a3 s) =
      some ((q.mNextId + 1) % 4294967296) ∧
    (Process_MAD_body dst a1 a2 a3 s).mTypeIdPairs = q.mTypeIdPairs ∧
    ∃ before, q.mFunctionDefinitionInstructions =
      s.mFunctionDefinitionInstructions ++ before := by
  simp only [lookupSources, Prod.mk.injEq] at hL
  obtain ⟨e1, e2, e3, e4⟩ := hL
  have hbody : Process_MAD_body dst a1 a2 a3 s =
      emitMultiplyAdd (leafDataType (GetTypeByRegister a1 s).1)
        (GetSpirVTypeId (GetTypeByRegister a1 s).1 (GetTypeByRegister a1 s).2).1 dst
        (GetNextVersionId dst q).1 x1 x2 x3 (GetNextVersionId dst q).2 := by
    rw [← e1, ← e2, ← e3, ← e4]
    unfold Process_MAD_body sourcesState
    dsimp only
    by_cases hmv : (GetTypeByRegister a1 s).1.PrimaryType = spv.OpTypeMatrix ∨
        (GetTypeByRegister a1 s).1.PrimaryType = spv.OpTypeVector
    · rw [if_pos hmv]
    · rw [if_neg hmv, if_neg hp]
  rw [hbody]
  obtain ⟨r1, r2, r3⟩ := emitMultiplyAdd_result _
    (GetSpirVTypeId (GetTypeByRegister a1 s).1 (GetTypeByRegister a1 s).2).1 dst x1 x2 x3 q
    hleaf
  refine ⟨r1, r2, r3, ?_⟩
  obtain ⟨w1, g1⟩ := GetSwizzledId_extends a1 UINT_MAX (sourcesState a1 s)
  obtain ⟨w2, g2⟩ := GetSwizzledId_extends a2 UINT_MAX
    (GetSwizzledId a1 UINT_MAX (sourcesState a1 s)).2
  obtain ⟨w3, g3⟩ := GetSwizzledId_extends a3 UINT_MAX
    (GetSwizzledId a2 UINT_MAX (GetSwizzledId a1 UINT_MAX (sourcesState a1 s)).2).2
  refine ⟨w1 ++ (w2 ++ w3), ?_⟩
  rw [← e4, g3, g2, g1, sourcesState_function]
  simp only [List.append_assoc]

/-- `Process_MAD_body` when the type of the first source is a pointer: the type is shifted
to the pointee, each source is loaded by `loadArgument`, in the order of the sources, and
the multiply takes the ids of the first two and the add the id of the third. -/
theorem Process_MAD_body_loads (dst a1 a2 a3 x1 x2 x3 : Nat) (s q : ShaderConverter)
    (hleaf : leafDataType (GetTypeByRegister a1 s).1 = spv.OpTypeBool ∨
      leafDataType (GetTypeByRegister a1 s).1 = spv.OpTypeInt ∨
      leafDataType (GetTypeByRegister a1 s).1 = spv.OpTypeFloat)
    (hp : (GetTypeByRegister a1 s).1.PrimaryType = spv.OpTypePointer)
    (hL : lookupSources
      (loadArgument (GetSpirVTypeId (shiftTypeDescription (GetTypeByRegister a1 s).1)
        (sourcesState a1 s)).1) a1 a2 a3
      (GetSpirVTypeId (shiftTypeDescription (GetTypeByRegister a1 s).1)
        (sourcesState a1 s)).2 = (x1, x2, x3, q)) :
    (Process_MAD_body dst a1 a2 a3 s).mFunctionDefinitionInstructions =
      q.mFunctionDefinitionInstructions ++
        ([Pack 5 (multiplyOpcode (leafDataType (GetTypeByRegister a1 s).1)),
            (GetSpirVTypeId (shiftTypeDescription (GetTypeByRegister a1 s).1)
              (sourcesState a1 s)).1,
            q.mNextId, x1, x2] ++
          [Pack 5 (addOpcode (leafDataType (GetTypeByRegister a1 s).1)),
            (GetSpirVTypeId (shiftTypeDescription (GetTypeByRegister a1 s).1)
              (sourcesState a1 s)).1,
            (q.mNextId + 1) % 4294967296, q.mNextId, x3]) ∧
    findIdByRegister dst (Process_MAD_body dst a1 a2 a3 s) =
      some ((q.mNextId + 1) % 4294967296) ∧
    (Process_MAD_body dst a1 a2 a3 s).mTypeIdPairs = q.mTypeIdPairs ∧
    ∃ before, q.mFunctionDefinitionInstructions =
      s.mFunctionDefinitionInstructions ++ before := by
  simp only [lookupSources, Prod.mk.injEq] at hL
  obtain ⟨e1, e2, e3, e4⟩ := hL
  have hnm : ¬ ((GetTypeByRegister a1 s).1.PrimaryType = spv.OpTypeMatrix ∨
      (GetTypeByRegister a1 s).1.PrimaryType = spv.OpTypeVector) := by
    rw [hp]
    decide
  have hbody : Process_MAD_body dst a1 a2 a3 s =
      emitMultiplyAdd (leafDataType (GetTypeByRegister a1 s).1)
        (GetSpirVTypeId (shiftTypeDescription (GetTypeByRegister a1 s).1)
          (sourcesState a1 s)).1 dst
        (GetNextVersionId dst q).1 x1 x2 x3 (GetNextVersionId dst q).2 := by
    rw [← e1, ← e2, ← e3, ← e4]
    unfold Process_MAD_body sourcesState
    dsimp only
    rw [if_neg hnm, if_pos hp]
  rw [hbody]
  obtain ⟨r1, r2, r3⟩ := emitMultiplyAdd_result _
    (GetSpirVTypeId (shiftTypeDescription (GetTypeByRegister a1 s).1)
      (sourcesState a1 s)).1 dst x1 x2 x3 q hleaf
  refine ⟨r1, r2, r3, ?_⟩
  obtain ⟨w1, g1⟩ := loadArgument_extends
    (GetSpirVTypeId (shiftTypeDescription (GetTypeByRegister a1 s).1)
      (sourcesState a1 s)).1 a1
    (GetSpirVTypeId (shiftTypeDescription (GetTypeByRegister a1 s).1) (sourcesState a1 s)).2
  obtain ⟨w2, g2⟩ := loadArgument_extends
    (GetSpirVTypeId (shiftTypeDescription (GetTypeByRegister a1 s).1)
      (sourcesState a1 s)).1 a2
    (loadArgument (GetSpirVTypeId (shiftTypeDescription (GetTypeByRegister a1 s).1)
      (sourcesState a1 s)).1 a1
      (GetSpirVTypeId (shiftTypeDescription (GetTypeByRegister a1 s).1)
        (sourcesState a1 s)).2).2
  obtain ⟨w3, g3⟩ := loadArgument_extends
    (GetSpirVTypeId (shiftTypeDescription (GetTypeByRegister a1 s).1)
      (sourcesState a1 s)).1 a3
    (loadArgument (GetSpirVTypeId (shiftTypeDescription (GetTypeByRegister a1 s).1)
      (sourcesState a1 s)).1 a2
      (loadArgument (GetSpirVTypeId (shiftTypeDescription (GetTypeByRegister a1 s).1)
        (sourcesState a1 s)).1 a1
        (GetSpirVTypeId (shiftTypeDescription (GetTypeByRegister a1 s).1)
          (sourcesState a1 s)).2).2).2
  refine ⟨w1 ++ (w2 ++ w3), ?_⟩
  have hF : (GetSpirVTypeId (shiftTypeDescription (GetTypeByRegister a1 s).1)
      (sourcesState a1 s)).2.mFunctionDefinitionInstructions =
      s.mFunctionDefinitionInstructions := by
    show (GetSpirVTypeIdFuel 4 _ _).2.mFunctionDefinitionInstructions = _
    rw [(GetSpirVTypeIdFuel_frame 4 _ _).2.2.1, sourcesState_function]
  rw [← e4, g3, g2, g1, hF]
  simp only [List.append_assoc]

/-- The load of a source that is in the register map, with a zero or identity swizzle: the
id the counter has is the result, and one `OpLoad` into it from the current id of the
register is appended. -/
theorem loadArgument_mapped (t token id : Nat) (q : ShaderConverter)
    (hs : token &&& D3DVS_SWIZZLE_MASK = 0 ∨ token &&& D3DVS_SWIZZLE_MASK = D3DVS_NOSWIZZLE)
    (hu : q.mNextId ≠ UINT_MAX) (hf : findIdByRegister token q = some id) :
    loadArgument t token q =
      (q.mNextId,
        (GetNextId q).2.pushFunctionDefinition [Pack 4 spv.OpLoad, t, q.mNextId, id]) := by
  rw [loadArgument_unswizzled t token q hs hu]
  have hx : findIdByRegister token
      ((GetNextId q).2.pushFunctionDefinition [Pack 4 spv.OpLoad, t, q.mNextId]) = some id :=
    (findIdByRegister_congr token q _ rfl).trans hf
  rw [GetIdByRegister_found token id _ hx, pushFunctionDefinition_pushFunctionDefinition]
  rfl

/-- A source that is in the register map, with a zero or identity swizzle, looked up by
`GetSwizzledId`: the current id of the register, and the state as it was. -/
theorem GetSwizzledId_mapped (token id : Nat) (q : ShaderConverter)
    (hs : token &&& D3DVS_SWIZZLE_MASK = 0 ∨ token &&& D3DVS_SWIZZLE_MASK = D3DVS_NOSWIZZLE)
    (hf : findIdByRegister token q = some id) :
    GetSwizzledId token UINT_MAX q = (id, q) := by
  rw [GetSwizzledId_unswizzled token UINT_MAX q hs, if_pos rfl]
  exact GetIdByRegister_found token id q hf

/-- Three sources in the register map, with zero or identity swizzles, loaded one after the
other: three consecutive ids, and three `OpLoad`s from the current ids of the registers. -/
theorem lookupSources_loads (t a1 a2 a3 id1 id2 id3 : Nat) (q : ShaderConverter)
    (hs1 : a1 &&& D3DVS_SWIZZLE_MASK = 0 ∨ a1 &&& D3DVS_SWIZZLE_MASK = D3DVS_NOSWIZZLE)
    (hs2 : a2 &&& D3DVS_SWIZZLE_MASK = 0 ∨ a2 &&& D3DVS_SWIZZLE_MASK = D3DVS_NOSWIZZLE)
    (hs3 : a3 &&& D3DVS_SWIZZLE_MASK = 0 ∨ a3 &&& D3DVS_SWIZZLE_MASK = D3DVS_NOSWIZZLE)
    (hf1 : findIdByRegister a1 q = some id1) (hf2 : findIdByRegister a2 q = some id2)
    (hf3 : findIdByRegister a3 q = some id3) (hroom : q.mNextId + 3 < 4294967295) :
    ∃ y : ShaderConverter,
      lookupSources (loadArgument t) a1 a2 a3 q =
        (q.mNextId, q.mNextId + 1, q.mNextId + 2, y) ∧
      y.mNextId = q.mNextId + 3 ∧
      y.mFunctionDefinitionInstructions = q.mFunctionDefinitionInstructions ++
        ([Pack 4 spv.OpLoad, t, q.mNextId, id1] ++
          ([Pack 4 spv.OpLoad, t, q.mNextId + 1, id2] ++
            [Pack 4 spv.OpLoad, t, q.mNextId + 2, id3])) ∧
      y.mTypeIdPairs = q.mTypeIdPairs := by
  have n1 : ((GetNextId q).2.pushFunctionDefinition
      [Pack 4 spv.OpLoad, t, q.mNextId, id1]).mNextId = q.mNextId + 1 := by
    show (q.mNextId + 1) % 4294967296 = _
    exact Nat.mod_eq_of_lt (by omega)
  have k1 := loadArgument_mapped t a1 id1 q hs1 (by unfold UINT_MAX; omega) hf1
  generalize hy1 : (GetNextId q).2.pushFunctionDefinition
    [Pack 4 spv.OpLoad, t, q.mNextId, id1] = y1 at n1 k1 ⊢
  have m1 : y1.mIdsByRegister = q.mIdsByRegister := by rw [← hy1]; rfl
  have f1 : y1.mFunctionDefinitionInstructions =
      q.mFunctionDefinitionInstructions ++ [Pack 4 spv.OpLoad, t, q.mNextId, id1] := by
    rw [← hy1]; rfl
  have p1 : y1.mTypeIdPairs = q.mTypeIdPairs := by rw [← hy1]; rfl
  have k2 := loadArgument_mapped t a2 id2 y1 hs2 (by unfold UINT_MAX; omega)
    ((findIdByRegister_congr a2 q y1 m1).trans hf2)
  have n2 : ((GetNextId y1).2.pushFunctionDefinition
      [Pack 4 spv.OpLoad, t, y1.mNextId, id2]).mNextId = q.mNextId + 2 := by
    show (y1.mNextId + 1) % 4294967296 = _
    rw [n1]
    exact Nat.mod_eq_of_lt (by omega)
  generalize hy2 : (GetNextId y1).2.pushFunctionDefinition
    [Pack 4 spv.OpLoad, t, y1.mNextId, id2] = y2 at n2 k2 ⊢
  have m2 : y2.mIdsByRegister = q.mIdsByRegister := by rw [← hy2, ← m1]; rfl
  have f2 : y2.mFunctionDefinitionInstructions =
      y1.mFunctionDefinitionInstructions ++ [Pack 4 spv.OpLoad, t, y1.mNextId, id2] := by
    rw [← hy2]; rfl
  have p2 : y2.mTypeIdPairs = q.mTypeIdPairs := by rw [← hy2, ← p1]; rfl
  have k3 := loadArgument_mapped t a3 id3 y2 hs3 (by unfold UINT_MAX; omega)
    ((findIdByRegister_congr a3 q y2 m2).trans hf3)
  refine ⟨(GetNextId y2).2.pushFunctionDefinition [Pack 4 spv.OpLoad, t, y2.mNextId, id3],
    ?_, ?_, ?_, ?_⟩
  · simp only [lookupSources, k1, k2, k3, n1, n2]
  · show (y2.mNextId + 1) % 4294967296 = _
    rw [n2]
    exact Nat.mod_eq_of_lt (by omega)
  · show y2.mFunctionDefinitionInstructions ++ _ = _
    rw [f2, f1, n1, n2]
    simp only [List.append_assoc]
  · show y2.mTypeIdPairs = _
    exact p2

/-- `Process_MAD_body` on three sources in the register map, with zero or identity
swizzles, the first with a type that is no pointer: nothing but the multiply and the add
is appended, the multiply takes the current ids of the first two sources and the add the
current id of the third. -/
theorem Process_MAD_body_mapped_values (dst a1 a2 a3 id1 id2 id3 : Nat)
    (td : TypeDescription) (s : ShaderConverter)
    (hf1 : findIdByRegister a1 s = some id1) (hf2 : findIdByRegister a2 s = some id2)
    (hf3 : findIdByRegister a3 s = some id3)
    (hs1 : a1 &&& D3DVS_SWIZZLE_MASK = 0 ∨ a1 &&& D3DVS_SWIZZLE_MASK = D3DVS_NOSWIZZLE)
    (hs2 : a2 &&& D3DVS_SWIZZLE_MASK = 0 ∨ a2 &&& D3DVS_SWIZZLE_MASK = D3DVS_NOSWIZZLE)
    (hs3 : a3 &&& D3DVS_SWIZZLE_MASK = 0 ∨ a3 &&& D3DVS_SWIZZLE_MASK = D3DVS_NOSWIZZLE)
    (ht : flat_map.find sameKey id1 s.mIdTypePairs = some td)
    (hv : td.PrimaryType ≠ spv.OpTypePointer)
    (hleaf : leafDataType td = spv.OpTypeBool ∨ leafDataType td = spv.OpTypeInt ∨
      leafDataType td = spv.OpTypeFloat) :
    ∃ t m d,
      (Process_MAD_body dst a1 a2 a3 s).mFunctionDefinitionInstructions =
        s.mFunctionDefinitionInstructions ++
          ([Pack 5 (multiplyOpcode (leafDataType td)), t, m, id1, id2] ++
            [Pack 5 (addOpcode (leafDataType td)), t, d, m, id3]) ∧
      flat_map.find TypeDescription.same td (Process_MAD_body dst a1 a2 a3 s).mTypeIdPairs =
        some t ∧
      d = (m + 1) % 4294967296 ∧ m ≠ d ∧
      findIdByRegister dst (Process_MAD_body dst a1 a2 a3 s) = some d := by
  have hty := GetTypeByRegister_found a1 id1 td s hf1 ht
  have hq0 : sourcesState a1 s = snagNextId td (GetSpirVTypeId td s).2 := by
    unfold sourcesState
    rw [hty]
  have hm : (sourcesState a1 s).mIdsByRegister = s.mIdsByRegister := by
    rw [hq0]
    exact (GetSpirVTypeIdFuel_frame 4 td s).1
  have hT : (sourcesState a1 s).mTypeIdPairs = (GetSpirVTypeId td s).2.mTypeIdPairs := by
    rw [hq0]
    rfl
  have g1 := GetSwizzledId_mapped a1 id1 (sourcesState a1 s) hs1
    ((findIdByRegister_congr a1 s _ hm).trans hf1)
  have g2 := GetSwizzledId_mapped a2 id2 (sourcesState a1 s) hs2
    ((findIdByRegister_congr a2 s _ hm).trans hf2)
  have g3 := GetSwizzledId_mapped a3 id3 (sourcesState a1 s) hs3
    ((findIdByRegister_congr a3 s _ hm).trans hf3)
  have hL : lookupSources (fun token x => GetSwizzledId token UINT_MAX x) a1 a2 a3
      (sourcesState a1 s) = (id1, id2, id3, sourcesState a1 s) := by
    simp only [lookupSources, g1, g2, g3]
  have e1 : (GetTypeByRegister a1 s).1 = td := congrArg Prod.fst hty
  have e2 : (GetTypeByRegister a1 s).2 = s := congrArg Prod.snd hty
  obtain ⟨c1, c2, c3, _⟩ := Process_MAD_body_values dst a1 a2 a3 id1 id2 id3 s
    (sourcesState a1 s) (by rw [e1]; exact hleaf) (by rw [e1]; exact hv) hL
  rw [e1, e2, sourcesState_function] at c1
  refine ⟨(GetSpirVTypeId td s).1, (sourcesState a1 s).mNextId, _, c1, ?_, rfl, by omega, c2⟩
  rw [c3, hT]
  exact GetSpirVTypeId_registered td s

/-- `Process_MAD_body` on three sources in the register map, with zero or identity
swizzles, the first with a pointer type: three `OpLoad`s of the current ids of the sources
into consecutive new ids, then the multiply of the first two loaded ids and the add of its
result and the third loaded id. -/
theorem Process_MAD_body_mapped_loads (dst a1 a2 a3 id1 id2 id3 : Nat)
    (td : TypeDescription) (s : ShaderConverter)
    (hf1 : findIdByRegister a1 s = some id1) (hf2 : findIdByRegister a2 s = some id2)
    (hf3 : findIdByRegister a3 s = some id3)
    (hs1 : a1 &&& D3DVS_SWIZZLE_MASK = 0 ∨ a1 &&& D3DVS_SWIZZLE_MASK = D3DVS_NOSWIZZLE)
    (hs2 : a2 &&& D3DVS_SWIZZLE_MASK = 0 ∨ a2 &&& D3DVS_SWIZZLE_MASK = D3DVS_NOSWIZZLE)
    (hs3 : a3 &&& D3DVS_SWIZZLE_MASK = 0 ∨ a3 &&& D3DVS_SWIZZLE_MASK = D3DVS_NOSWIZZLE)
    (ht : flat_map.find sameKey id1 s.mIdTypePairs = some td)
    (hv : td.PrimaryType = spv.OpTypePointer)
    (hleaf : leafDataType td = spv.OpTypeBool ∨ leafDataType td = spv.OpTypeInt ∨
      leafDataType td = spv.OpTypeFloat)
    (hroom : s.mNextId + 16 < 4294967296) :
    ∃ t l,
      (Process_MAD_body dst a1 a2 a3 s).mFunctionDefinitionInstructions =
        s.mFunctionDefinitionInstructions ++
          ([Pack 4 spv.OpLoad, t, l, id1] ++
            ([Pack 4 spv.OpLoad, t, l + 1, id2] ++
              ([Pack 4 spv.OpLoad, t, l + 2, id3] ++
                ([Pack 5 (multiplyOpcode (leafDataType td)), t, l + 3, l, l + 1] ++
                  [Pack 5 (addOpcode (leafDataType td)), t, l + 4, l + 3, l + 2])))) ∧
      flat_map.find TypeDescription.same (shiftTypeDescription td)
        (Process_MAD_body dst a1 a2 a3 s).mTypeIdPairs = some t ∧
      s.mNextId ≤ l ∧
      findIdByRegister dst (Process_MAD_body dst a1 a2 a3 s) = some (l + 4) := by
  have hty := GetTypeByRegister_found a1 id1 td s hf1 ht
  have e1 : (GetTypeByRegister a1 s).1 = td := congrArg Prod.fst hty
  have hq0 : sourcesState a1 s = snagNextId td (GetSpirVTypeId td s).2 := by
    unfold sourcesState
    rw [hty]
  have hm0 : (sourcesState a1 s).mIdsByRegister = s.mIdsByRegister := by
    rw [hq0]
    exact (GetSpirVTypeIdFuel_frame 4 td s).1
  obtain ⟨k1, hk1, hn1⟩ := GetSpirVTypeId_next td s (by omega)
  have hn0 : (sourcesState a1 s).mNextId = s.mNextId + k1 := by
    rw [hq0]
    show (GetSpirVTypeId td s).2.mNextId = _
    rw [hn1]
    exact Nat.mod_eq_of_lt (by omega)
  obtain ⟨k2, hk2, hn2⟩ := GetSpirVTypeId_next (shiftTypeDescription td) (sourcesState a1 s)
    (by omega)
  have hreg := GetSpirVTypeId_registered (shiftTypeDescription td) (sourcesState a1 s)
  have hm : (GetSpirVTypeId (shiftTypeDescription td) (sourcesState a1 s)).2.mIdsByRegister =
      s.mIdsByRegister := by
    rw [← hm0]
    exact (GetSpirVTypeIdFuel_frame 4 _ _).1
  have hF : (GetSpirVTypeId (shiftTypeDescription td)
      (sourcesState a1 s)).2.mFunctionDefinitionInstructions =
      s.mFunctionDefinitionInstructions := by
    show (GetSpirVTypeIdFuel 4 _ _).2.mFunctionDefinitionInstructions = _
    rw [(GetSpirVTypeIdFuel_frame 4 _ _).2.2.1, sourcesState_function]
  have hn : (GetSpirVTypeId (shiftTypeDescription td) (sourcesState a1 s)).2.mNextId =
      s.mNextId + k1 + k2 := by
    rw [hn2, hn0]
    exact Nat.mod_eq_of_lt (by omega)
  have c := fun x1 x2 x3 q => Process_MAD_body_loads dst a1 a2 a3 x1 x2 x3 s q
  rw [e1] at c
  generalize GetSpirVTypeId (shiftTypeDescription td) (sourcesState a1 s) = P at c hreg hm hF hn
  obtain ⟨y, hL, y1, y2, y3⟩ := lookupSources_loads P.1 a1 a2 a3 id1 id2 id3 P.2 hs1 hs2 hs3
    ((findIdByRegister_congr a1 s _ hm).trans hf1)
    ((findIdByRegister_congr a2 s _ hm).trans hf2)
    ((findIdByRegister_congr a3 s _ hm).trans hf3) (by omega)
  obtain ⟨c1, c2, c3, _⟩ := c _ _ _ y hleaf hv hL
  refine ⟨P.1, P.2.mNextId, ?_, ?_, by omega, ?_⟩
  · rw [c1, y1, y2, hF, Nat.mod_eq_of_lt (by omega)]
    simp only [List.append_assoc]
  · rw [c3, y3]
    exact hreg
  · rw [c2, y1, Nat.mod_eq_of_lt (by omega)]

/-- C30: `Process_MAD` reads four tokens (destination, then the sources a, b, c); when the
leaf type of the first source is Float (or Int or Bool) it appends, after the code that
fetches the sources, a multiply (`OpFMul`; `OpIMul` for Int and Bool) into a new id `m`, then
an add (`OpFAdd`; `OpIAdd` for Int and Bool) into a second new id `d = m + 1` different from
`m`, in that order, and afterwards the current id of the destination register is `d`.  The
operands are the values of the sources: when the type of a is no pointer, the multiply takes
the ids that `GetSwizzledId` returns for a and for b, looked up in that order, and the add
takes `m` and the id that `GetSwizzledId` returns for c; when the type of a is a pointer,
they are the ids that the loads of a, of b and of c return.  For sources in the register map
with zero or identity swizzles this is: with no pointer type, the multiply of the current
ids of a and b and the add of `m` and the current id of c, and nothing else appended; with a
pointer type, three `OpLoad`s of the current ids of a, b, c into `l`, `l + 1`, `l + 2`, the
multiply of `l` and `l + 1` into `l + 3` and the add of `l + 3` and `l + 2` into `l + 4`.
On `mad r0, c0, c1, c2` with a fresh converter the multiply defines 10 and the add 11; on
`mad r3, r0, r1, r2` with the temporaries at the ids 7, 8, 9 the multiply of 7 and 8 defines
12 and the add of 12 and 9 defines 13. -/
theorem Process_MAD_multiply_add (shader : List Nat) (dst a1 a2 a3 : Nat)
    (s r : ShaderConverter)
    (h0 : shader.getD s.mNextToken 0 = dst) (h1 : shader.getD (s.mNextToken + 1) 0 = a1)
    (h2 : shader.getD (s.mNextToken + 2) 0 = a2) (h3 : shader.getD (s.mNextToken + 3) 0 = a3)
    (hleaf : leafDataType (GetTypeByRegister a1 s).1 = spv.OpTypeBool ∨
      leafDataType (GetTypeByRegister a1 s).1 = spv.OpTypeInt ∨
      leafDataType (GetTypeByRegister a1 s).1 = spv.OpTypeFloat)
    (h : Process_MAD shader s = .ok r) :
    r.mNextToken = s.mNextToken + 4 ∧
    (∃ before t x1 x2 x3 m d,
      r.mFunctionDefinitionInstructions =
        s.mFunctionDefinitionInstructions ++ before ++
          ([Pack 5 (multiplyOpcode (leafDataType (GetTypeByRegister a1 s).1)), t, m, x1, x2] ++
            [Pack 5 (addOpcode (leafDataType (GetTypeByRegister a1 s).1)), t, d, m, x3]) ∧
      d = (m + 1) % 4294967296 ∧ m ≠ d ∧ GetIdByRegister dst r = (d, r)) ∧
    ((GetTypeByRegister a1 s).1.PrimaryType ≠ spv.OpTypePointer →
      ∀ x1 x2 x3 q,
        lookupSources (fun token x => GetSwizzledId token UINT_MAX x) a1 a2 a3
          (sourcesState a1 s) = (x1, x2, x3, q) →
        r.mFunctionDefinitionInstructions =
          q.mFunctionDefinitionInstructions ++
            ([Pack 5 (multiplyOpcode (leafDataType (GetTypeByRegister a1 s).1)),
                (GetSpirVTypeId (GetTypeByRegister a1 s).1 (GetTypeByRegister a1 s).2).1,
                q.mNextId, x1, x2] ++
              [Pack 5 (addOpcode (leafDataType (GetTypeByRegister a1 s).1)),
                (GetSpirVTypeId (GetTypeByRegister a1 s).1 (GetTypeByRegister a1 s).2).1,
                (q.mNextId + 1) % 4294967296, q.mNextId, x3]) ∧
        q.mNextId ≠ (q.mNextId + 1) % 4294967296 ∧
        GetIdByRegister dst r = ((q.mNextId + 1) % 4294967296, r) ∧
        ∃ before, q.mFunctionDefinitionInstructions =
          s.mFunctionDefinitionInstructions ++ before) ∧
    ((GetTypeByRegister a1 s).1.PrimaryType = spv.OpTypePointer →
      ∀ x1 x2 x3 q,
        lookupSources
          (loadArgument (GetSpirVTypeId (shiftTypeDescription (GetTypeByRegister a1 s).1)
            (sourcesState a1 s)).1) a1 a2 a3
          (GetSpirVTypeId (shiftTypeDescription (GetTypeByRegister a1 s).1)
            (sourcesState a1 s)).2 = (x1, x2, x3, q) →
        r.mFunctionDefinitionInstructions =
          q.mFunctionDefinitionInstructions ++
            ([Pack 5 (multiplyOpcode (leafDataType (GetTypeByRegister a1 s).1)),
                (GetSpirVTypeId (shiftTypeDescription (GetTypeByRegister a1 s).1)
                  (sourcesState a1 s)).1, q.mNextId, x1, x2] ++
              [Pack 5 (addOpcode (leafDataType (GetTypeByRegister a1 s).1)),
                (GetSpirVTypeId (shiftTypeDescription (GetTypeByRegister a1 s).1)
                  (sourcesState a1 s)).1, (q.mNextId + 1) % 4294967296, q.mNextId, x3]) ∧
        q.mNextId ≠ (q.mNextId + 1) % 4294967296 ∧
        GetIdByRegister dst r = ((q.mNextId + 1) % 4294967296, r) ∧
        ∃ before, q.mFunctionDefinitionInstructions =
          s.mFunctionDefinitionInstructions ++ before) ∧
    (∀ id1 id2 id3 td,
      findIdByRegister a1 s = some id1 → findIdByRegister a2 s = some id2 →
      findIdByRegister a3 s = some id3 →
      (a1 &&& D3DVS_SWIZZLE_MASK = 0 ∨ a1 &&& D3DVS_SWIZZLE_MASK = D3DVS_NOSWIZZLE) →
      (a2 &&& D3DVS_SWIZZLE_MASK = 0 ∨ a2 &&& D3DVS_SWIZZLE_MASK = D3DVS_NOSWIZZLE) →
      (a3 &&& D3DVS_SWIZZLE_MASK = 0 ∨ a3 &&& D3DVS_SWIZZLE_MASK = D3DVS_NOSWIZZLE) →
      flat_map.find sameKey id1 s.mIdTypePairs = some td →
      (td.PrimaryType ≠ spv.OpTypePointer →
        ∃ t m d,
          r.mFunctionDefinitionInstructions =
            s.mFunctionDefinitionInstructions ++
              ([Pack 5 (multiplyOpcode (leafDataType td)), t, m, id1, id2] ++
                [Pack 5 (addOpcode (leafDataType td)), t, d, m, id3]) ∧
          flat_map.find TypeDescription.same td r.mTypeIdPairs = some t ∧
          d = (m + 1) % 4294967296 ∧ m ≠ d ∧ GetIdByRegister dst r = (d, r)) ∧
      (td.PrimaryType = spv.OpTypePointer → s.mNextId + 16 < 4294967296 →
        ∃ t l,
          r.mFunctionDefinitionInstructions =
            s.mFunctionDefinitionInstructions ++
              ([Pack 4 spv.OpLoad, t, l, id1] ++
                ([Pack 4 spv.OpLoad, t, l + 1, id2] ++
                  ([Pack 4 spv.OpLoad, t, l + 2, id3] ++
                    ([Pack 5 (multiplyOpcode (leafDataType td)), t, l + 3, l, l + 1] ++
                      [Pack 5 (addOpcode (leafDataType td)), t, l + 4, l + 3, l + 2])))) ∧
          flat_map.find TypeDescription.same (shiftTypeDescription td) r.mTypeIdPairs =
            some t ∧
          s.mNextId ≤ l ∧ GetIdByRegister dst r = (l + 4, r))) ∧
    (multiplyOpcode spv.OpTypeFloat = spv.OpFMul ∧ multiplyOpcode spv.OpTypeInt = spv.OpIMul ∧
      multiplyOpcode spv.OpTypeBool = spv.OpIMul ∧ addOpcode spv.OpTypeFloat = spv.OpFAdd ∧
      addOpcode spv.OpTypeInt = spv.OpIAdd ∧ addOpcode spv.OpTypeBool = spv.OpIAdd) ∧
    (returned (Process_MAD exampleMadShader
        ((ShaderConverter.fresh 1 4 4).withReader 2 1))).mFunctionDefinitionInstructions =
      [Pack 4 spv.OpLoad, 3, 5, 1, Pack 4 spv.OpLoad, 3, 6, 7, Pack 4 spv.OpLoad, 3, 8, 9,
        Pack 5 spv.OpFMul, 3, 10, 5, 6, Pack 5 spv.OpFAdd, 3, 11, 10, 8] ∧
    GetIdByRegister 0x800F0000
        (returned (Process_MAD exampleMadShader
          ((ShaderConverter.fresh 1 4 4).withReader 2 1))) =
      (11, returned (Process_MAD exampleMadShader
          ((ShaderConverter.fresh 1 4 4).withReader 2 1))) ∧
    (returned (Process_MAD exampleMadTemporariesShader
        (exampleTemporariesState.withReader 2 1))).mFunctionDefinitionInstructions =
      [Pack 5 spv.OpFMul, 10, 12, 7, 8, Pack 5 spv.OpFAdd, 10, 13, 12, 9] ∧
    GetIdByRegister 0x800F0003
        (returned (Process_MAD exampleMadTemporariesShader
          (exampleTemporariesState.withReader 2 1))) =
      (13, returned (Process_MAD exampleMadTemporariesShader
          (exampleTemporariesState.withReader 2 1))) := by
  rw [Process_MAD_readThen] at h
  obtain ⟨hlen, r0, hb, rfl⟩ := readThen_ok _ _ _ _ _ h
  have t0 : tokenAt shader s.mNextToken 4 0 = dst := h0
  have t1 : tokenAt shader s.mNextToken 4 1 = a1 := h1
  have t2 : tokenAt shader s.mNextToken 4 2 = a2 := h2
  have t3 : tokenAt shader s.mNextToken 4 3 = a3 := h3
  rw [t0, t1, t2, t3] at hb
  have hb2 : Process_MAD_body dst a1 a2 a3 s = r0 := Except.ok.inj hb
  clear hb h
  refine ⟨rfl, ?_, ?_, ?_, ?_, by decide, by decide!, by decide!, by decide!, by decide!⟩
  · obtain ⟨before, t, x1, x2, x3, m, d, c1, c2, c3, c4⟩ :=
      Process_MAD_body_words dst a1 a2 a3 s hleaf
    rw [hb2] at c1 c4
    exact ⟨before, t, x1, x2, x3, m, d, c1, c2, c3, GetIdByRegister_found _ _ _ c4⟩
  · intro hp x1 x2 x3 q hL
    obtain ⟨c1, c2, _, c4⟩ := Process_MAD_body_values dst a1 a2 a3 x1 x2 x3 s q hleaf hp hL
    rw [hb2] at c1 c2
    exact ⟨c1, by omega, GetIdByRegister_found _ _ _ c2, c4⟩
  · intro hp x1 x2 x3 q hL
    obtain ⟨c1, c2, _, c4⟩ := Process_MAD_body_loads dst a1 a2 a3 x1 x2 x3 s q hleaf hp hL
    rw [hb2] at c1 c2
    exact ⟨c1, by omega, GetIdByRegister_found _ _ _ c2, c4⟩
  · intro id1 id2 id3 td hf1 hf2 hf3 hs1 hs2 hs3 ht
    have hl : leafDataType td = spv.OpTypeBool ∨ leafDataType td = spv.OpTypeInt ∨
        leafDataType td = spv.OpTypeFloat := by
      rw [GetTypeByRegister_found a1 id1 td s hf1 ht] at hleaf
      exact hleaf
    constructor
    · intro hv
      obtain ⟨t, m, d, c1, c2, c3, c4, c5⟩ :=
        Process_MAD_body_mapped_values dst a1 a2 a3 id1 id2 id3 td s hf1 hf2 hf3 hs1 hs2 hs3
          ht hv hl
      rw [hb2] at c1 c2 c5
      exact ⟨t, m, d, c1, c2, c3, c4, GetIdByRegister_found _ _ _ c5⟩
    · intro hv hroom
      obtain ⟨t, l, c1, c2, c3, c4⟩ :=
        Process_MAD_body_mapped_loads dst a1 a2 a3 id1 id2 id3 td s hf1 hf2 hf3 hs1 hs2 hs3
          ht hv hl hroom
      rw [hb2] at c1 c2 c4
      exact ⟨t, l, c1, c2, c3, GetIdByRegister_found _ _ _ c4⟩

/-- The hypotheses of C30 hold for `mad r0, c0, c1, c2` on a fresh converter placed after
the instruction token: four tokens are read, and the three constants, which have pointer
types, are loaded in the order a, b, c before the multiply and the add. -/
theorem Process_MAD_multiply_add_witness :
    (returned (Process_MAD exampleMadShader
      ((ShaderConverter.fresh 1 4 4).withReader 2 1))).mNextToken = 2 + 4 ∧
    (GetTypeByRegister 0xA0E40000
      ((ShaderConverter.fresh 1 4 4).withReader 2 1)).1.PrimaryType = spv.OpTypePointer :=
  ⟨(Process_MAD_multiply_add exampleMadShader 0x800F0000 0xA0E40000 0xA0E40001 0xA0E40002
    ((ShaderConverter.fresh 1 4 4).withReader 2 1)
    (returned (Process_MAD exampleMadShader ((ShaderConverter.fresh 1 4 4).withReader 2 1)))
    (by decide) (by decide) (by decide) (by decide) (by decide!) (by decide!)).1,
    by decide!⟩

end VK9
